import Mathlib

/-! ## DisplayScheduler (components/viz/service/display/display_scheduler.cc)

A shallow embedding of the frame scheduler of the compositing display
service.  The member variables of the C++ class become the fields of the
structure `DisplayScheduler`; every member function becomes a function on
`Sys`, which is the member state extended with the trace of the calls the
scheduler has made to its collaborators (the begin-frame source, the
scheduler client and the task runner).

Conventions of the embedding.

* `int` members (`pending_swaps_`, `max_pending_swaps_`) are `Int`; the
  result of `++` and `--` on them is reduced to 32 bits by `wrapInt`, the
  two's complement wrap-around of the compiled code.  The 64-bit
  identifiers of a BeginFrame are `Nat` (they are only compared).
* `base::TimeTicks` and `base::TimeDelta` are `Int` (microseconds); the
  default-constructed value of both is `0`.
* `base::CancelableClosure` members are modelled by what the scheduler can
  observe of them: whether a callback is currently held
  (`IsCancelled()` is the negation).  For `begin_frame_deadline_task_` the
  state also keeps the record of the calls `Cancel()` and `Reset()` made on it
  and of the posts of its callback (`deadline_task_calls`).
* `surface_states_` (a `base::flat_map`) is an association list; `find`
  returns the first entry with the key, `operator[]` appends an entry
  when the key is absent and `erase` removes the entry of the key.
* Answers given by the collaborators while one member function runs are the
  fields of `Env`; constants and library functions whose declarations are
  outside the translated file are the fields of `Deps`.
* A `DCHECK` whose condition is false is recorded in the trace and
  execution continues, as in a release build; `TRACE_EVENT`s are omitted.
* A member function that can end in undefined behaviour returns
  `Except Fault Sys`.  As an operation of a run such an end is recorded in the
  trace with the members left as they were: the process goes no further, and a
  run stands for the operations up to that entry.
* The file is translated with `USE_NEVA_APPRUNTIME` defined; with
  `use_viz_fmp_with_timeout_ = false` the functions shared by both builds
  behave as in the build without it.
-/

namespace viz

/-! ## Data model -/

/-- Modelled from the spec: the declaration of `SurfaceId` is not among the
sources.  A surface identity is a frame sink id with a local surface id. -/
structure SurfaceId where
  frame_sink_id : Nat
  local_surface_id : Nat
deriving DecidableEq, Repr

/-- Modelled from the spec: `SurfaceId::is_valid()` is declared outside the
sources; the spec calls it "root surface is set".  The default-constructed id
(both components zero) is the one that is not valid. -/
def SurfaceId.is_valid (id : SurfaceId) : Bool :=
  id.frame_sink_id != 0 && id.local_surface_id != 0

/-- Kind of a BeginFrame (`BeginFrameArgs::BeginFrameArgsType`). -/
inductive BeginFrameArgsType where
  | INVALID
  | NORMAL
  | MISSED
deriving DecidableEq, Repr

/-- The spec's Tick: `BeginFrameArgs`. -/
structure BeginFrameArgs where
  frame_time : Int
  deadline : Int
  interval : Int
  source_id : Nat
  sequence_number : Nat
  type : BeginFrameArgsType
  animate_only : Bool
deriving DecidableEq, Repr

/-- Modelled from the spec: `BeginFrameArgs::IsValid()` is declared outside the
sources; a record's last seen tick is "a Tick or empty", and the empty
(default-constructed) value is the one with a negative interval. -/
def BeginFrameArgs.IsValid (a : BeginFrameArgs) : Bool :=
  decide (0 ≤ a.interval)

/-- The spec's Acknowledgment: `BeginFrameAck`. -/
structure BeginFrameAck where
  source_id : Nat
  sequence_number : Nat
  has_damage : Bool
deriving DecidableEq, Repr

/-- Entry type of `surface_states_`: `SurfaceBeginFrameState`. -/
structure SurfaceBeginFrameState where
  last_args : BeginFrameArgs
  last_ack : BeginFrameAck
deriving DecidableEq, Repr

/-- Constants and library functions used by the scheduler whose declarations
are outside the translated file. -/
structure Deps where
  /-- The value of `BeginFrameArgs::kInvalidFrameNumber`. -/
  kInvalidFrameNumber : Nat
  /-- The function `BeginFrameArgs::DefaultEstimatedDisplayDrawTime(interval)`. -/
  DefaultEstimatedDisplayDrawTime : Int → Int
  /-- The value of `base::TimeTicks::Max()`. -/
  TimeTicksMax : Int
  /-- In-class initial value of `first_surface_activated_`. -/
  first_surface_activated_init : Bool
  /-- In-class initial value of `seen_first_surface_activation_`. -/
  seen_first_surface_activation_init : Bool
  /-- In-class initial value of `pending_first_surface_activation_`. -/
  pending_first_surface_activation_init : Bool

/-- Modelled from the spec: the default constructor of `BeginFrameArgs` is
declared outside the sources; it is the empty tick, which is not valid. -/
def BeginFrameArgs.empty (d : Deps) : BeginFrameArgs :=
  { frame_time := 0, deadline := 0, interval := -1, source_id := 0,
    sequence_number := d.kInvalidFrameNumber, type := BeginFrameArgsType.INVALID,
    animate_only := false }

/-- Modelled from the spec: the default constructor of `BeginFrameAck` is
declared outside the sources; it is the empty acknowledgment, with the invalid
sequence number and no damage. -/
def BeginFrameAck.empty (d : Deps) : BeginFrameAck :=
  { source_id := 0, sequence_number := d.kInvalidFrameNumber, has_damage := false }

/-- Modelled from the spec: the constructor `BeginFrameAck(args, has_damage)` is
declared outside the sources; the acknowledgment of a tick carries the tick's
source id and sequence number. -/
def BeginFrameAck.ofArgs (args : BeginFrameArgs) (has_damage : Bool) : BeginFrameAck :=
  { source_id := args.source_id, sequence_number := args.sequence_number,
    has_damage := has_damage }

/-- The default-constructed `SurfaceBeginFrameState`. -/
def SurfaceBeginFrameState.empty (d : Deps) : SurfaceBeginFrameState :=
  { last_args := BeginFrameArgs.empty d, last_ack := BeginFrameAck.empty d }

/-- The four deadline strategies (`BeginFrameDeadlineMode`). -/
inductive BeginFrameDeadlineMode where
  | kImmediate
  | kRegular
  | kLate
  | kNone
deriving DecidableEq, Repr

/-- The largest value of a C++ `int`. -/
def INT_MAX : Int := 2147483647

/-- The smallest value of a C++ `int`. -/
def INT_MIN : Int := -2147483648

/-- The `int` left by `++` or `--` whose exact result is `x`: the result
reduced to 32 bits in two's complement. -/
def wrapInt (x : Int) : Int :=
  (x + 2147483648) % 4294967296 - 2147483648

/-- The member variables of `DisplayScheduler`. -/
structure DisplayScheduler where
  /-- Whether `client_` is non-null. -/
  client_ : Bool
  inside_surface_damaged_ : Bool
  visible_ : Bool
  output_surface_lost_ : Bool
  root_frame_missing_ : Bool
  inside_begin_frame_deadline_interval_ : Bool
  needs_draw_ : Bool
  expecting_root_surface_damage_because_of_resize_ : Bool
  has_pending_surfaces_ : Bool
  /-- A `uint32_t`. -/
  next_swap_id_ : Nat
  pending_swaps_ : Int
  max_pending_swaps_ : Int
  use_viz_fmp_with_timeout_ : Bool
  /-- A `uint32_t`, in milliseconds. -/
  viz_fmp_timeout_ : Nat
  wait_for_all_surfaces_before_draw_ : Bool
  observing_begin_frame_source_ : Bool
  root_surface_id_ : SurfaceId
  current_begin_frame_args_ : BeginFrameArgs
  surface_states_ : List (SurfaceId × SurfaceBeginFrameState)
  /-- Whether `begin_frame_deadline_task_` holds a callback (is not cancelled). -/
  begin_frame_deadline_task_ : Bool
  begin_frame_deadline_task_time_ : Int
  /-- The arguments bound in `missed_begin_frame_task_` while it holds a callback. -/
  missed_begin_frame_task_ : Option BeginFrameArgs
  first_surface_activated_ : Bool
  seen_first_surface_activation_ : Bool
  pending_first_surface_activation_ : Bool
  pending_activations_ : List (SurfaceId × Nat)
  /-- Whether `notify_first_activation_eventually_task_` holds a callback. -/
  notify_first_activation_eventually_task_ : Bool
deriving DecidableEq, Repr

/-- The tasks the scheduler posts to its task runner. -/
inductive Task where
  /-- The closure `begin_frame_deadline_task_.callback()`. -/
  | BeginFrameDeadline
  /-- The closure `missed_begin_frame_task_.callback()`, bound to its arguments. -/
  | MissedBeginFrame (args : BeginFrameArgs)
  /-- The closure `notify_first_activation_eventually_task_.callback()`. -/
  | NotifyFirstActivationEventually
  /-- The weakly bound `NotifyFirstSurfaceActivation`. -/
  | NotifyFirstSurfaceActivation
deriving DecidableEq, Repr

/-- The `DCHECK`s of the translated file, in source order. -/
inductive DCheck where
  /-- In `DrawAndSwap`: `DCHECK_LT(pending_swaps_, max_pending_swaps_)`. -/
  | pending_swaps_lt_max
  /-- In `DrawAndSwap`: `DCHECK(!output_surface_lost_)`. -/
  | output_surface_not_lost
  /-- In `OnBeginFrameDerivedImpl`: `DCHECK_EQ(args.type, BeginFrameArgs::MISSED)`. -/
  | args_type_missed
  /-- In `OnBeginFrameDerivedImpl`: `DCHECK(missed_begin_frame_task_.IsCancelled())`. -/
  | missed_task_cancelled
  /-- In `ScheduleBeginFrameDeadline`: `DCHECK(begin_frame_deadline_task_.IsCancelled())`. -/
  | deadline_task_cancelled
  /-- In `OnBeginFrameDeadline`: `DCHECK(inside_begin_frame_deadline_interval_)`. -/
  | inside_deadline_interval
deriving DecidableEq, Repr

/-- The ways in which a member function ends in undefined behaviour. -/
inductive Fault where
  /-- A member function is called through `client_` while `client_` is null. -/
  | null_client
  /-- The iterator of the loop over `pending_activations_` is incremented after
  `erase` has invalidated it. -/
  | invalidated_iterator
deriving DecidableEq, Repr

/-- A call made by the scheduler to one of its collaborators, a failed
`DCHECK`, or the end of an operation in undefined behaviour. -/
inductive Effect where
  /-- A `DCHECK` whose condition was false. -/
  | DCheckFailed (check : DCheck)
  /-- The operation ended in undefined behaviour. -/
  | UndefinedBehaviour (fault : Fault)
  /-- The call `begin_frame_source_->AddObserver(this)`. -/
  | AddObserver
  /-- The call `begin_frame_source_->RemoveObserver(this)`. -/
  | RemoveObserver
  /-- The call `begin_frame_source_->SetIsGpuBusy(busy)`. -/
  | SetIsGpuBusy (busy : Bool)
  /-- The call `begin_frame_source_->DidFinishFrame(this)`. -/
  | SourceDidFinishFrame
  /-- The call `client_->DrawAndSwap()`, with the member state at the moment of
  the call. -/
  | ClientDrawAndSwap (members : DisplayScheduler)
  /-- The call `client_->SurfaceDamaged(surface_id, ack)`. -/
  | ClientSurfaceDamaged (surface_id : SurfaceId) (ack : BeginFrameAck)
  /-- The call `client_->SurfaceDestroyed(surface_id)`. -/
  | ClientSurfaceDestroyed (surface_id : SurfaceId)
  /-- The call `client_->DidFinishFrame(ack)`. -/
  | ClientDidFinishFrame (ack : BeginFrameAck)
  /-- The call `task_runner_->PostTask(FROM_HERE, task)`. -/
  | PostTask (task : Task)
  /-- The call `task_runner_->PostDelayedTask(FROM_HERE, task, delta)`. -/
  | PostDelayedTask (task : Task) (delta : Int)
deriving DecidableEq, Repr

/-- The calls of the scheduler on the closure `begin_frame_deadline_task_` and
the posts of its callback. -/
inductive ClosureOp where
  /-- The call `begin_frame_deadline_task_.Cancel()`. -/
  | Cancel
  /-- The call `begin_frame_deadline_task_.Reset(begin_frame_deadline_closure_)`. -/
  | Reset
  /-- The call `task_runner_->PostDelayedTask` with
  `begin_frame_deadline_task_.callback()`. -/
  | Post
deriving DecidableEq, Repr

/-- The scheduler together with the trace of its calls to collaborators and the
record of its calls on the deadline closure. -/
structure Sys extends DisplayScheduler where
  log : List Effect
  deadline_task_calls : List ClosureOp
deriving DecidableEq, Repr

/-- What the collaborators answer while one member function runs. -/
structure Env where
  /-- The value of `base::TimeTicks::Now()`. -/
  now : Int
  /-- The result of `client_->DrawAndSwap()`. -/
  DrawAndSwap : Bool
  /-- How many times the client calls `DidSwapBuffers()` on the scheduler
  before `client_->DrawAndSwap()` returns. -/
  swaps_in_draw : Nat
  /-- The result of `client_->SurfaceDamaged(surface_id, ack)`. -/
  SurfaceDamaged : SurfaceId → BeginFrameAck → Bool
  /-- The result of `client_->SurfaceHasUnackedFrame(surface_id)`. -/
  SurfaceHasUnackedFrame : SurfaceId → Bool
  /-- The result of `client_->RootFrameSinkContainsChild(frame_sink_id)`. -/
  RootFrameSinkContainsChild : Nat → Bool
  /-- The missed BeginFrame, if any, that the begin-frame source delivers
  to the scheduler from within `AddObserver`. -/
  missed_on_add : Option BeginFrameArgs
  /-- The BeginFrame, if any, that the begin-frame source delivers to the
  scheduler from within `SetIsGpuBusy(false)`. -/
  begin_frame_on_not_busy : Option BeginFrameArgs

/-! ## The surface map -/

/-- The lookup `surface_states_.find(surface_id)`. -/
def findState (m : List (SurfaceId × SurfaceBeginFrameState)) (id : SurfaceId) :
    Option SurfaceBeginFrameState :=
  match m with
  | [] => none
  | entry :: rest => if entry.1 = id then some entry.2 else findState rest id

/-- Assignment through the iterator returned by `find`: replaces the
state of the first entry with the key. -/
def setState (m : List (SurfaceId × SurfaceBeginFrameState)) (id : SurfaceId)
    (st : SurfaceBeginFrameState) : List (SurfaceId × SurfaceBeginFrameState) :=
  match m with
  | [] => []
  | entry :: rest =>
    if entry.1 = id then (entry.1, st) :: rest else entry :: setState rest id st

/-- The removal `surface_states_.erase(it)` for the iterator returned by `find`. -/
def eraseState (m : List (SurfaceId × SurfaceBeginFrameState)) (id : SurfaceId) :
    List (SurfaceId × SurfaceBeginFrameState) :=
  match m with
  | [] => []
  | entry :: rest => if entry.1 = id then rest else entry :: eraseState rest id

/-- The access `surface_states_[surface_id]`: the map with a default-constructed
entry added when the key is absent. -/
def ensureState (d : Deps) (m : List (SurfaceId × SurfaceBeginFrameState))
    (id : SurfaceId) : List (SurfaceId × SurfaceBeginFrameState) :=
  match findState m id with
  | some _ => m
  | none => m ++ [(id, SurfaceBeginFrameState.empty d)]

/-! ## Deadline policy -/

/-- The function `DisplayScheduler::ShouldDraw`. -/
def ShouldDraw (s : DisplayScheduler) : Bool :=
  let shouldDraw :=
    s.needs_draw_ && !s.output_surface_lost_ && s.visible_ && !s.root_frame_missing_
  if s.use_viz_fmp_with_timeout_ then shouldDraw && s.first_surface_activated_
  else shouldDraw

/-- The function `DisplayScheduler::DesiredBeginFrameDeadlineMode`. -/
def DesiredBeginFrameDeadlineMode (s : DisplayScheduler) : BeginFrameDeadlineMode :=
  if s.output_surface_lost_ then BeginFrameDeadlineMode.kImmediate
  else if s.pending_swaps_ ≥ s.max_pending_swaps_ then BeginFrameDeadlineMode.kLate
  else if s.root_frame_missing_ then BeginFrameDeadlineMode.kLate
  else
    let all_surfaces_ready :=
      !s.has_pending_surfaces_ && s.root_surface_id_.is_valid &&
        !s.expecting_root_surface_damage_because_of_resize_
    let allow_early_deadline_without_draw := s.wait_for_all_surfaces_before_draw_
    if all_surfaces_ready && (s.needs_draw_ || allow_early_deadline_without_draw) then
      BeginFrameDeadlineMode.kImmediate
    else if !s.needs_draw_ then BeginFrameDeadlineMode.kLate
    else if s.expecting_root_surface_damage_because_of_resize_ then
      BeginFrameDeadlineMode.kLate
    else BeginFrameDeadlineMode.kRegular

/-- The function `DisplayScheduler::AdjustedBeginFrameDeadlineMode`. -/
def AdjustedBeginFrameDeadlineMode (s : DisplayScheduler) : BeginFrameDeadlineMode :=
  let mode := DesiredBeginFrameDeadlineMode s
  if s.wait_for_all_surfaces_before_draw_ &&
      (mode == BeginFrameDeadlineMode.kRegular || mode == BeginFrameDeadlineMode.kLate) then
    BeginFrameDeadlineMode.kNone
  else mode

/-- The function `DisplayScheduler::DesiredBeginFrameDeadlineTime`. -/
def DesiredBeginFrameDeadlineTime (d : Deps) (s : DisplayScheduler) : Int :=
  match AdjustedBeginFrameDeadlineMode s with
  | BeginFrameDeadlineMode.kImmediate => 0
  | BeginFrameDeadlineMode.kRegular => s.current_begin_frame_args_.deadline
  | BeginFrameDeadlineMode.kLate =>
    s.current_begin_frame_args_.frame_time + s.current_begin_frame_args_.interval
  | BeginFrameDeadlineMode.kNone => d.TimeTicksMax

/-! ## Member functions -/

/-- Appends a call to the trace. -/
def Sys.emit (s : Sys) (ev : Effect) : Sys :=
  { s with log := s.log ++ [ev] }

/-- A `DCHECK` on the given condition. -/
def Sys.dcheck (s : Sys) (cond : Bool) (check : DCheck) : Sys :=
  if cond then s else s.emit (Effect.DCheckFailed check)

/-- The constant `kActivateEventuallyTimeoutMs`. -/
def kActivateEventuallyTimeoutMs : Int := 8000

/-- The constructor `DisplayScheduler::DisplayScheduler`. -/
def construct (d : Deps) (max_pending_swaps : Int) (use_viz_fmp_with_timeout : Bool)
    (viz_fmp_timeout : Nat) (wait_for_all_surfaces_before_draw : Bool) : Sys :=
  { client_ := false
    inside_surface_damaged_ := false
    visible_ := false
    output_surface_lost_ := false
    root_frame_missing_ := true
    inside_begin_frame_deadline_interval_ := false
    needs_draw_ := false
    expecting_root_surface_damage_because_of_resize_ := false
    has_pending_surfaces_ := false
    next_swap_id_ := 1
    pending_swaps_ := 0
    max_pending_swaps_ := max_pending_swaps
    use_viz_fmp_with_timeout_ := use_viz_fmp_with_timeout
    viz_fmp_timeout_ := viz_fmp_timeout
    wait_for_all_surfaces_before_draw_ := wait_for_all_surfaces_before_draw
    observing_begin_frame_source_ := false
    root_surface_id_ := { frame_sink_id := 0, local_surface_id := 0 }
    current_begin_frame_args_ := BeginFrameArgs.empty d
    surface_states_ := []
    begin_frame_deadline_task_ := false
    begin_frame_deadline_task_time_ := 0
    missed_begin_frame_task_ := none
    first_surface_activated_ := d.first_surface_activated_init
    seen_first_surface_activation_ := d.seen_first_surface_activation_init
    pending_first_surface_activation_ := d.pending_first_surface_activation_init
    pending_activations_ := []
    notify_first_activation_eventually_task_ := false
    log := []
    deadline_task_calls := [] }

/-- The function `DisplayScheduler::SetClient`. -/
def SetClient (s : Sys) (client : Bool) : Sys :=
  { s with client_ := client }

/-- The function `DisplayScheduler::StopObservingBeginFrames`. -/
def StopObservingBeginFrames (s : Sys) : Sys :=
  if s.observing_begin_frame_source_ then
    let s1 := s.emit Effect.RemoveObserver
    { s1 with observing_begin_frame_source_ := false, missed_begin_frame_task_ := none }
  else s

/-- The destructor `DisplayScheduler::~DisplayScheduler`; the member
destructors that follow its body cancel the closures still held.  No
BeginFrame is delivered to the scheduler that is being destroyed. -/
def destruct (s : Sys) : Sys :=
  let s1 := StopObservingBeginFrames (s.emit (Effect.SetIsGpuBusy false))
  { s1 with begin_frame_deadline_task_ := false, missed_begin_frame_task_ := none,
            notify_first_activation_eventually_task_ := false,
            deadline_task_calls := s1.deadline_task_calls ++ [ClosureOp.Cancel] }

/-- The function `DisplayScheduler::DidSwapBuffers`. -/
def DidSwapBuffers (s : Sys) : Sys :=
  let s1 : Sys := { s with pending_swaps_ := wrapInt (s.pending_swaps_ + 1) }
  let s2 := if s1.pending_swaps_ = s1.max_pending_swaps_ then
      s1.emit (Effect.SetIsGpuBusy true) else s1
  { s2 with next_swap_id_ := (s2.next_swap_id_ + 1) % 2 ^ 32 }

/-- The client's calls of `DidSwapBuffers()` made before `client_->DrawAndSwap()`
returns. -/
def clientSwaps (n : Nat) (s : Sys) : Sys :=
  match n with
  | 0 => s
  | k + 1 => clientSwaps k (DidSwapBuffers s)

/-- The function `DisplayScheduler::DrawAndSwap`. -/
def DrawAndSwap (e : Env) (s : Sys) : Sys × Bool :=
  let s0 := (s.dcheck (decide (s.pending_swaps_ < s.max_pending_swaps_))
    DCheck.pending_swaps_lt_max).dcheck (!s.output_surface_lost_) DCheck.output_surface_not_lost
  if s0.client_ then
    let s1 := clientSwaps e.swaps_in_draw
      (s0.emit (Effect.ClientDrawAndSwap s0.toDisplayScheduler))
    if !e.DrawAndSwap then (s1, false)
    else ({ s1 with needs_draw_ := false }, true)
  else (s0, false)

/-- The function `DisplayScheduler::AttemptDrawAndSwap`. -/
def AttemptDrawAndSwap (e : Env) (s : Sys) : Sys × Bool :=
  let s1 : Sys := { s with inside_begin_frame_deadline_interval_ := false,
                           begin_frame_deadline_task_ := false,
                           begin_frame_deadline_task_time_ := 0,
                           deadline_task_calls := s.deadline_task_calls ++ [ClosureOp.Cancel] }
  if ShouldDraw s1.toDisplayScheduler then
    if s1.pending_swaps_ < s1.max_pending_swaps_ then DrawAndSwap e s1
    else (s1, false)
  else
    (StopObservingBeginFrames
      { s1 with expecting_root_surface_damage_because_of_resize_ := false }, false)

/-- The function `DisplayScheduler::DidFinishFrame`. -/
def DidFinishFrame (s : Sys) (did_draw : Bool) : Sys :=
  let s1 := s.emit Effect.SourceDidFinishFrame
  let ack := BeginFrameAck.ofArgs s1.current_begin_frame_args_ did_draw
  if s1.client_ then s1.emit (Effect.ClientDidFinishFrame ack) else s1

/-- The function `DisplayScheduler::OnBeginFrameDeadline`. -/
def OnBeginFrameDeadline (e : Env) (s : Sys) : Sys :=
  let s0 := s.dcheck s.inside_begin_frame_deadline_interval_ DCheck.inside_deadline_interval
  let r := AttemptDrawAndSwap e s0
  DidFinishFrame r.1 r.2

/-- The function `DisplayScheduler::ForceImmediateSwapIfPossible`. -/
def ForceImmediateSwapIfPossible (e : Env) (s : Sys) : Sys :=
  let in_begin := s.inside_begin_frame_deadline_interval_
  let r := AttemptDrawAndSwap e s
  if in_begin then DidFinishFrame r.1 r.2 else r.1

/-- The loop body of `UpdateHasPendingSurfaces` over the entries of
`surface_states_` from the given position on: whether it reaches the
assignment `has_pending_surfaces_ = true`. -/
def scanPendingSurfaces (e : Env) (source_id sequence_number : Nat)
    (entries : List (SurfaceId × SurfaceBeginFrameState)) : Bool :=
  match entries with
  | [] => false
  | entry :: rest =>
    let state := entry.2
    if !state.last_args.IsValid || state.last_args.source_id != source_id ||
        state.last_args.sequence_number != sequence_number then
      scanPendingSurfaces e source_id sequence_number rest
    else if state.last_ack.source_id == source_id &&
        state.last_ack.sequence_number == sequence_number then
      scanPendingSurfaces e source_id sequence_number rest
    else if e.SurfaceHasUnackedFrame entry.1 then
      scanPendingSurfaces e source_id sequence_number rest
    else true

/-- The function `DisplayScheduler::UpdateHasPendingSurfaces`. -/
def UpdateHasPendingSurfaces (e : Env) (s : Sys) : Sys × Bool :=
  if !s.inside_begin_frame_deadline_interval_ || !s.client_ then (s, false)
  else
    let old_value := s.has_pending_surfaces_
    let source_id := s.current_begin_frame_args_.source_id
    let sequence_number := s.current_begin_frame_args_.sequence_number
    let pending := scanPendingSurfaces e source_id sequence_number s.surface_states_
    let s1 : Sys := { s with has_pending_surfaces_ := pending }
    (s1, s1.has_pending_surfaces_ != old_value)

/-- The function `DisplayScheduler::ScheduleBeginFrameDeadline`. -/
def ScheduleBeginFrameDeadline (d : Deps) (e : Env) (s : Sys) : Sys :=
  if !s.inside_begin_frame_deadline_interval_ then
    s.dcheck (!s.begin_frame_deadline_task_) DCheck.deadline_task_cancelled
  else
    let desired_deadline := DesiredBeginFrameDeadlineTime d s.toDisplayScheduler
    if s.begin_frame_deadline_task_ && desired_deadline == s.begin_frame_deadline_task_time_ then s
    else
      let s1 : Sys := { s with begin_frame_deadline_task_time_ := desired_deadline,
                               begin_frame_deadline_task_ := false,
                               deadline_task_calls :=
                                 s.deadline_task_calls ++ [ClosureOp.Cancel] }
      if s1.begin_frame_deadline_task_time_ == d.TimeTicksMax then s1
      else
        let delta := max 0 (desired_deadline - e.now)
        ({ s1 with begin_frame_deadline_task_ := true,
                   deadline_task_calls :=
                     s1.deadline_task_calls ++ [ClosureOp.Reset, ClosureOp.Post] } : Sys).emit
          (Effect.PostDelayedTask Task.BeginFrameDeadline delta)

/-- The function `DisplayScheduler::OnBeginFrameDerivedImpl`. -/
def OnBeginFrameDerivedImpl (d : Deps) (e : Env) (s : Sys) (args : BeginFrameArgs) :
    Sys × Bool :=
  if s.inside_surface_damaged_ then
    let s0 := (s.dcheck (decide (args.type = BeginFrameArgsType.MISSED))
      DCheck.args_type_missed).dcheck s.missed_begin_frame_task_.isNone
      DCheck.missed_task_cancelled
    (({ s0 with missed_begin_frame_task_ := some args } : Sys).emit
      (Effect.PostTask (Task.MissedBeginFrame args)), true)
  else
    let save_args := args
    let s1 : Sys := { s with missed_begin_frame_task_ := none }
    let s2 := if s1.inside_begin_frame_deadline_interval_ then OnBeginFrameDeadline e s1 else s1
    let shortened : BeginFrameArgs := { save_args with deadline :=
      save_args.deadline - d.DefaultEstimatedDisplayDrawTime save_args.interval }
    let s3 : Sys := { s2 with current_begin_frame_args_ := shortened,
                              inside_begin_frame_deadline_interval_ := true }
    let s4 := (UpdateHasPendingSurfaces e s3).1
    (ScheduleBeginFrameDeadline d e s4, true)

/-- The function `DisplayScheduler::StartObservingBeginFrames`; the begin-frame
source may deliver a missed BeginFrame to the scheduler before `AddObserver`
returns. -/
def StartObservingBeginFrames (d : Deps) (e : Env) (s : Sys) : Sys :=
  if !s.observing_begin_frame_source_ then
    let s1 := s.emit Effect.AddObserver
    let s2 := match e.missed_on_add with
      | none => s1
      | some args => (OnBeginFrameDerivedImpl d e s1 args).1
    { s2 with observing_begin_frame_source_ := true }
  else s

/-- The function `DisplayScheduler::SetNeedsOneBeginFrame`. -/
def SetNeedsOneBeginFrame (d : Deps) (e : Env) (s : Sys) : Sys :=
  StartObservingBeginFrames d e s

/-- The function `DisplayScheduler::MaybeStartObservingBeginFrames`. -/
def MaybeStartObservingBeginFrames (d : Deps) (e : Env) (s : Sys) : Sys :=
  if ShouldDraw s.toDisplayScheduler then StartObservingBeginFrames d e s else s

/-- The function `DisplayScheduler::SetVisible`. -/
def SetVisible (d : Deps) (e : Env) (s : Sys) (visible : Bool) : Sys :=
  if s.visible_ = visible then s
  else
    let s1 : Sys := { s with visible_ := visible }
    if s1.use_viz_fmp_with_timeout_ && (s1.visible_ && !s1.first_surface_activated_) then
      ({ s1 with notify_first_activation_eventually_task_ := true } : Sys).emit
        (Effect.PostDelayedTask Task.NotifyFirstActivationEventually
          (kActivateEventuallyTimeoutMs * 1000))
    else
      ScheduleBeginFrameDeadline d e (MaybeStartObservingBeginFrames d e s1)

/-- The function `DisplayScheduler::SetRootFrameMissing`. -/
def SetRootFrameMissing (d : Deps) (e : Env) (s : Sys) (missing : Bool) : Sys :=
  if s.root_frame_missing_ = missing then s
  else
    let s1 : Sys := { s with root_frame_missing_ := missing }
    ScheduleBeginFrameDeadline d e (MaybeStartObservingBeginFrames d e s1)

/-- The function `DisplayScheduler::DisplayResized`. -/
def DisplayResized (d : Deps) (e : Env) (s : Sys) : Sys :=
  let s1 : Sys := { s with expecting_root_surface_damage_because_of_resize_ := true,
                           needs_draw_ := true }
  ScheduleBeginFrameDeadline d e s1

/-- The function `DisplayScheduler::OutputSurfaceLost`. -/
def OutputSurfaceLost (d : Deps) (e : Env) (s : Sys) : Sys :=
  let s1 : Sys := { s with output_surface_lost_ := true }
  ScheduleBeginFrameDeadline d e s1

/-- The block `if (display_damaged) { ... }` of `ProcessSurfaceDamage`. -/
def markDisplayDamaged (d : Deps) (e : Env) (s : Sys) (surface_id : SurfaceId) : Sys :=
  let a : Sys := { s with needs_draw_ := true }
  let b : Sys := if surface_id = a.root_surface_id_ then
      { a with expecting_root_surface_damage_because_of_resize_ := false } else a
  MaybeStartObservingBeginFrames d e b

/-- The block `// Update surface state.` of `ProcessSurfaceDamage`: the state
and the final value of `valid_ack`. -/
def updateSurfaceState (d : Deps) (s : Sys) (surface_id : SurfaceId) (ack : BeginFrameAck) :
    Sys × Bool :=
  let valid_ack := ack.sequence_number != d.kInvalidFrameNumber
  if valid_ack then
    match findState s.surface_states_ surface_id with
    | some st =>
      if st.last_ack.source_id != ack.source_id ||
          decide (st.last_ack.sequence_number < ack.sequence_number) then
        ({ s with surface_states_ :=
            setState s.surface_states_ surface_id { st with last_ack := ack } }, valid_ack)
      else (s, false)
    | none => (s, false)
  else (s, valid_ack)

/-- The last two statements of `ProcessSurfaceDamage`: the pending surfaces are
recomputed after damage or a stored acknowledgment, and the deadline is
scheduled again after damage or a change of `has_pending_surfaces_`. -/
def rearmAfterDamage (d : Deps) (e : Env) (s : Sys) (valid_ack display_damaged : Bool) : Sys :=
  let u : Sys × Bool :=
    if display_damaged || valid_ack then UpdateHasPendingSurfaces e s else (s, false)
  if display_damaged || u.2 then ScheduleBeginFrameDeadline d e u.1 else u.1

/-- The function `DisplayScheduler::ProcessSurfaceDamage`. -/
def ProcessSurfaceDamage (d : Deps) (e : Env) (s : Sys) (surface_id : SurfaceId)
    (ack : BeginFrameAck) (display_damaged : Bool) : Sys :=
  let saved := s.inside_surface_damaged_
  let s0 : Sys := { s with inside_surface_damaged_ := true }
  let s1 := if display_damaged then markDisplayDamaged d e s0 surface_id else s0
  let r := updateSurfaceState d s1 surface_id ack
  let s4 := rearmAfterDamage d e r.1 r.2 display_damaged
  { s4 with inside_surface_damaged_ := saved }

/-- The assignment `pending_activations_[surface_id] = frame_sink_id`. -/
def setActivation (m : List (SurfaceId × Nat)) (id : SurfaceId) (v : Nat) :
    List (SurfaceId × Nat) :=
  match m with
  | [] => [(id, v)]
  | entry :: rest => if entry.1 = id then (id, v) :: rest else entry :: setActivation rest id v

/-- The range-based `for` loop of `SetNewRootSurface` over the entries of
`pending_activations_`, from the given position on.  The condition calls
`client_->RootFrameSinkContainsChild` first, without a test of `client_`.  When
the condition holds, the body erases the entry that the loop is at and sets the
three flags; the loop then increments its iterator, which the `erase` has
invalidated, so that this iteration ends in undefined behaviour whatever
entries follow.  When the condition fails nothing changes. -/
def activatePending (e : Env) (s : Sys) (entries : List (SurfaceId × Nat)) :
    Except Fault Sys :=
  match entries with
  | [] => Except.ok s
  | it :: rest =>
    if !s.client_ then Except.error Fault.null_client
    else if e.RootFrameSinkContainsChild it.2 && s.visible_ &&
        !s.first_surface_activated_ then
      Except.error Fault.invalidated_iterator
    else activatePending e s rest

/-- The function `DisplayScheduler::SetNewRootSurface`. -/
def SetNewRootSurface (d : Deps) (e : Env) (s : Sys) (root_surface_id : SurfaceId) :
    Except Fault Sys :=
  match activatePending e s s.pending_activations_ with
  | Except.error fault => Except.error fault
  | Except.ok s1 =>
    let s2 : Sys := { s1 with root_surface_id_ := root_surface_id }
    let ack : BeginFrameAck := { BeginFrameAck.empty d with has_damage := true }
    Except.ok (ProcessSurfaceDamage d e s2 root_surface_id ack true)

/-- The function `DisplayScheduler::OnSurfaceMarkedForDestruction`. -/
def OnSurfaceMarkedForDestruction (d : Deps) (e : Env) (s : Sys) (surface_id : SurfaceId) :
    Sys :=
  match findState s.surface_states_ surface_id with
  | none => s
  | some _ =>
    let s1 : Sys := { s with surface_states_ := eraseState s.surface_states_ surface_id }
    let u := UpdateHasPendingSurfaces e s1
    if u.2 then ScheduleBeginFrameDeadline d e u.1 else u.1

/-- The function `DisplayScheduler::OnSurfaceDamaged`. -/
def OnSurfaceDamaged (d : Deps) (e : Env) (s : Sys) (surface_id : SurfaceId)
    (ack : BeginFrameAck) : Sys × Bool :=
  let s1 := if s.client_ then s.emit (Effect.ClientSurfaceDamaged surface_id ack) else s
  let damaged := s.client_ && e.SurfaceDamaged surface_id ack
  (ProcessSurfaceDamage d e s1 surface_id ack damaged, damaged)

/-- The function `DisplayScheduler::OnSurfaceDestroyed`. -/
def OnSurfaceDestroyed (s : Sys) (surface_id : SurfaceId) : Sys :=
  if s.client_ then s.emit (Effect.ClientSurfaceDestroyed surface_id) else s

/-- The function `DisplayScheduler::OnSurfaceDamageExpected`. -/
def OnSurfaceDamageExpected (d : Deps) (e : Env) (s : Sys) (surface_id : SurfaceId)
    (args : BeginFrameArgs) : Sys :=
  let m := ensureState d s.surface_states_ surface_id
  let st := (findState m surface_id).getD (SurfaceBeginFrameState.empty d)
  let s1 : Sys := { s with surface_states_ := setState m surface_id { st with last_args := args } }
  let u := UpdateHasPendingSurfaces e s1
  if u.2 then ScheduleBeginFrameDeadline d e u.1 else u.1

/-- The function `DisplayScheduler::DidReceiveSwapBuffersAck`; the begin-frame
source may deliver a BeginFrame to the scheduler before `SetIsGpuBusy(false)`
returns, which is why the call comes after the decrement. -/
def DidReceiveSwapBuffersAck (d : Deps) (e : Env) (s : Sys) : Sys :=
  let s1 : Sys := { s with pending_swaps_ := wrapInt (s.pending_swaps_ - 1) }
  let s2 := s1.emit (Effect.SetIsGpuBusy false)
  let s3 := match e.begin_frame_on_not_busy with
    | none => s2
    | some args => (OnBeginFrameDerivedImpl d e s2 args).1
  ScheduleBeginFrameDeadline d e s3

/-- The function `DisplayScheduler::NotifyFirstSurfaceActivation`. -/
def NotifyFirstSurfaceActivation (d : Deps) (e : Env) (s : Sys) : Sys :=
  let s1 : Sys := { s with notify_first_activation_eventually_task_ := false,
                           seen_first_surface_activation_ := true,
                           first_surface_activated_ := true,
                           pending_first_surface_activation_ := false }
  if s1.visible_ then
    ScheduleBeginFrameDeadline d e (MaybeStartObservingBeginFrames d e s1)
  else s1

/-- The function `DisplayScheduler::NotifyFirstSetVisibleActivationTimeout`. -/
def NotifyFirstSetVisibleActivationTimeout (d : Deps) (e : Env) (s : Sys) : Sys :=
  NotifyFirstSurfaceActivation d e s

/-- The function `DisplayScheduler::RenderProcessGone`. -/
def RenderProcessGone (s : Sys) : Sys :=
  { s with first_surface_activated_ := false }

/-- The last block of `OnSurfaceActivatedEx`, after the flags of the
notification have been examined. -/
def finishSurfaceActivatedEx (d : Deps) (e : Env) (s : Sys) (surface_id : SurfaceId)
    (needs_first_surface_activation : Bool) (timeout_to_post : Nat) : Sys :=
  if !s.pending_first_surface_activation_ && needs_first_surface_activation then
    if !e.RootFrameSinkContainsChild surface_id.frame_sink_id then s
    else
      let s1 : Sys := { s with pending_first_surface_activation_ := true }
      if timeout_to_post > 0 then
        ({ s1 with seen_first_surface_activation_ := true } : Sys).emit
          (Effect.PostDelayedTask Task.NotifyFirstSurfaceActivation
            ((timeout_to_post : Int) * 1000))
      else NotifyFirstSurfaceActivation d e s1
  else s

/-- The blocks of `OnSurfaceActivatedEx` for `did_reset_container_state` and
`is_first_contentful_paint`, shared in shape by both branches on
`seen_first_surface_activation_`; `relaunch` is true in the branch where the
first activation has been seen, in which the timeout is shortened. -/
def resetAndPaintBlocks (d : Deps) (e : Env) (s : Sys) (surface_id : SurfaceId)
    (is_first_contentful_paint did_reset_container_state relaunch : Bool)
    (needs_first_surface_activation : Bool) (timeout_to_post : Nat) : Sys :=
  let contains := e.RootFrameSinkContainsChild surface_id.frame_sink_id
  if did_reset_container_state && !contains then s
  else
    let s1 : Sys := if did_reset_container_state then
        { s with first_surface_activated_ := false } else s
    if is_first_contentful_paint && !contains then s1
    else if is_first_contentful_paint then
      finishSurfaceActivatedEx d e { s1 with first_surface_activated_ := false } surface_id true
        (if relaunch then 4 * 16 else timeout_to_post)
    else
      finishSurfaceActivatedEx d e s1 surface_id needs_first_surface_activation timeout_to_post

/-- The function `DisplayScheduler::OnSurfaceActivatedEx`; `client_` is
dereferenced without a null check, the answers are those of `e`. -/
def OnSurfaceActivatedEx (d : Deps) (e : Env) (s : Sys) (surface_id : SurfaceId)
    (is_first_contentful_paint did_reset_container_state seen_first_contentful_paint : Bool) :
    Sys :=
  if s.use_viz_fmp_with_timeout_ then
    let timeout_to_post := s.viz_fmp_timeout_
    if !s.seen_first_surface_activation_ then
      if seen_first_contentful_paint then
        if !e.RootFrameSinkContainsChild surface_id.frame_sink_id then
          if s.root_frame_missing_ then
            { s with pending_activations_ :=
                setActivation s.pending_activations_ surface_id surface_id.frame_sink_id }
          else s
        else
          let s1 : Sys := { s with visible_ := true, first_surface_activated_ := false }
          resetAndPaintBlocks d e s1 surface_id is_first_contentful_paint
            did_reset_container_state false true (4 * 16)
      else
        resetAndPaintBlocks d e s surface_id is_first_contentful_paint
          did_reset_container_state false false timeout_to_post
    else
      resetAndPaintBlocks d e s surface_id is_first_contentful_paint
        did_reset_container_state true false timeout_to_post
  else s

/-! ## Operations and runs -/

/-- The public member functions, the observer callbacks and the posted tasks
through which the scheduler is driven.  The callbacks with an empty body
(`OnFirstSurfaceActivation`, `OnSurfaceActivated`) and
`OnBeginFrameSourcePausedChanged`, which changes nothing, are left out. -/
inductive Op where
  | SetClient (client : Bool)
  | SetVisible (visible : Bool)
  | SetRootFrameMissing (missing : Bool)
  | ForceImmediateSwapIfPossible
  | DisplayResized
  | SetNewRootSurface (root_surface_id : SurfaceId)
  | ProcessSurfaceDamage (surface_id : SurfaceId) (ack : BeginFrameAck) (display_damaged : Bool)
  | OutputSurfaceLost
  | OnBeginFrameDerivedImpl (args : BeginFrameArgs)
  | SetNeedsOneBeginFrame
  | OnSurfaceMarkedForDestruction (surface_id : SurfaceId)
  | OnSurfaceDamaged (surface_id : SurfaceId) (ack : BeginFrameAck)
  | OnSurfaceDestroyed (surface_id : SurfaceId)
  | OnSurfaceDamageExpected (surface_id : SurfaceId) (args : BeginFrameArgs)
  | DidSwapBuffers
  | DidReceiveSwapBuffersAck
  | OnSurfaceActivatedEx (surface_id : SurfaceId)
      (is_first_contentful_paint did_reset_container_state seen_first_contentful_paint : Bool)
  | NotifyFirstSurfaceActivation
  | RenderProcessGone
  /-- The task runner runs the posted `begin_frame_deadline_task_` callback. -/
  | RunBeginFrameDeadlineTask
  /-- The task runner runs the posted `missed_begin_frame_task_` callback. -/
  | RunMissedBeginFrameTask
  /-- The task runner runs the posted `notify_first_activation_eventually_task_`
  callback. -/
  | RunNotifyFirstActivationEventuallyTask

/-- The state that an operation leaves in a run: the state that the member
function returns or, when it ends in undefined behaviour, the state as it was
with the fault as the last entry of the trace. -/
def Sys.orFault (s : Sys) (result : Except Fault Sys) : Sys :=
  match result with
  | Except.ok s1 => s1
  | Except.error fault => s.emit (Effect.UndefinedBehaviour fault)

/-- One operation on the scheduler; a cancelled closure does nothing when
the task runner runs it. -/
def step (d : Deps) (s : Sys) (op : Op) (e : Env) : Sys :=
  match op with
  | Op.SetClient client => SetClient s client
  | Op.SetVisible visible => SetVisible d e s visible
  | Op.SetRootFrameMissing missing => SetRootFrameMissing d e s missing
  | Op.ForceImmediateSwapIfPossible => ForceImmediateSwapIfPossible e s
  | Op.DisplayResized => DisplayResized d e s
  | Op.SetNewRootSurface id => s.orFault (SetNewRootSurface d e s id)
  | Op.ProcessSurfaceDamage id ack display_damaged =>
    ProcessSurfaceDamage d e s id ack display_damaged
  | Op.OutputSurfaceLost => OutputSurfaceLost d e s
  | Op.OnBeginFrameDerivedImpl args => (OnBeginFrameDerivedImpl d e s args).1
  | Op.SetNeedsOneBeginFrame => SetNeedsOneBeginFrame d e s
  | Op.OnSurfaceMarkedForDestruction id => OnSurfaceMarkedForDestruction d e s id
  | Op.OnSurfaceDamaged id ack => (OnSurfaceDamaged d e s id ack).1
  | Op.OnSurfaceDestroyed id => OnSurfaceDestroyed s id
  | Op.OnSurfaceDamageExpected id args => OnSurfaceDamageExpected d e s id args
  | Op.DidSwapBuffers => DidSwapBuffers s
  | Op.DidReceiveSwapBuffersAck => DidReceiveSwapBuffersAck d e s
  | Op.OnSurfaceActivatedEx id fcp reset seen => OnSurfaceActivatedEx d e s id fcp reset seen
  | Op.NotifyFirstSurfaceActivation => NotifyFirstSurfaceActivation d e s
  | Op.RenderProcessGone => RenderProcessGone s
  | Op.RunBeginFrameDeadlineTask =>
    if s.begin_frame_deadline_task_ then OnBeginFrameDeadline e s else s
  | Op.RunMissedBeginFrameTask =>
    match s.missed_begin_frame_task_ with
    | some args => (OnBeginFrameDerivedImpl d e s args).1
    | none => s
  | Op.RunNotifyFirstActivationEventuallyTask =>
    if s.notify_first_activation_eventually_task_ then
      NotifyFirstSetVisibleActivationTimeout d e s
    else s

/-- The state after a sequence of operations, each with the answers of the
collaborators during it. -/
def run (d : Deps) (s : Sys) (ops : List (Op × Env)) : Sys :=
  match ops with
  | [] => s
  | oe :: rest => run d (step d s oe.1 oe.2) rest

/-! ## The deadline policy as the specification words it -/

/-- The spec's `all_surfaces_ready`: no pending surface, the root surface is
set, and no resize damage is expected. -/
def specAllSurfacesReady (s : DisplayScheduler) : Bool :=
  !s.has_pending_surfaces_ && s.root_surface_id_.is_valid &&
    !s.expecting_root_surface_damage_because_of_resize_

/-- The seven rules of the spec's Deadline Policy, highest priority first. -/
def specDeadlineRules : List ((DisplayScheduler → Bool) × BeginFrameDeadlineMode) :=
  [ (fun s => s.output_surface_lost_, BeginFrameDeadlineMode.kImmediate),
    (fun s => decide (s.pending_swaps_ ≥ s.max_pending_swaps_), BeginFrameDeadlineMode.kLate),
    (fun s => s.root_frame_missing_, BeginFrameDeadlineMode.kLate),
    (fun s => specAllSurfacesReady s && (s.needs_draw_ || s.wait_for_all_surfaces_before_draw_),
      BeginFrameDeadlineMode.kImmediate),
    (fun s => !s.needs_draw_, BeginFrameDeadlineMode.kLate),
    (fun s => s.expecting_root_surface_damage_because_of_resize_, BeginFrameDeadlineMode.kLate),
    (fun _ => true, BeginFrameDeadlineMode.kRegular) ]

/-- The mode of the first rule whose condition holds. -/
def firstRule (rules : List ((DisplayScheduler → Bool) × BeginFrameDeadlineMode))
    (s : DisplayScheduler) : Option BeginFrameDeadlineMode :=
  match rules with
  | [] => none
  | rule :: rest => if rule.1 s then some rule.2 else firstRule rest s

/-- The spec's Deadline Policy. -/
def specDeadlinePolicy (s : DisplayScheduler) : Option BeginFrameDeadlineMode :=
  firstRule specDeadlineRules s

/-! ## The swap budget -/

/-- The value of `pending_swaps_` after `n` calls of `DidSwapBuffers`. -/
def swapsAfter (n : Nat) (pending : Int) : Int :=
  match n with
  | 0 => pending
  | k + 1 => swapsAfter k (wrapInt (pending + 1))

/-- How `pending_swaps_` may change while one member function other than
`DidSwapBuffers` and `DidReceiveSwapBuffersAck` runs: not at all, or, from below
`max_pending_swaps_`, by the `n` calls of `DidSwapBuffers` that the client makes
during one `DrawAndSwap`. -/
def pendingAfter (n : Nat) (pending max_pending pending_after : Int) : Prop :=
  pending_after = pending ∨ (pending < max_pending ∧ pending_after = swapsAfter n pending)

/-- The spec's invariant on the swap count. -/
def swapBudgetHolds (s : Sys) : Prop :=
  0 ≤ s.pending_swaps_ ∧ s.pending_swaps_ ≤ s.max_pending_swaps_

instance (s : Sys) : Decidable (swapBudgetHolds s) := by
  unfold swapBudgetHolds
  infer_instance

/-- Whether the environment may make the call in the given state:
`DidSwapBuffers` only below the swap limit, `DidReceiveSwapBuffersAck` only
with a swap in flight. -/
def swapCallAllowed (s : Sys) (op : Op) : Bool :=
  match op with
  | Op.DidSwapBuffers => decide (s.pending_swaps_ < s.max_pending_swaps_)
  | Op.DidReceiveSwapBuffersAck => decide (0 < s.pending_swaps_)
  | _ => true

/-- Whether a sequence of operations from the given state keeps to the swap
protocol: every call is allowed where it is made, and the client calls
`DidSwapBuffers` at most once during a `DrawAndSwap`. -/
def obeysSwapProtocol (d : Deps) (s : Sys) (ops : List (Op × Env)) : Bool :=
  match ops with
  | [] => true
  | oe :: rest =>
    swapCallAllowed s oe.1 && decide (oe.2.swaps_in_draw ≤ 1) &&
      obeysSwapProtocol d (step d s oe.1 oe.2) rest

/-! ## Guards of a draw -/

/-- The conditions under which `AttemptDrawAndSwap` lets `DrawAndSwap` reach
`client_->DrawAndSwap()`, on the member state at the moment of the call. -/
def drawGuard (m : DisplayScheduler) : Bool :=
  ShouldDraw m && decide (m.pending_swaps_ < m.max_pending_swaps_) &&
    !m.inside_begin_frame_deadline_interval_ && !m.begin_frame_deadline_task_ && m.client_

/-- Whether an entry of the trace is in order: a call of `client_->DrawAndSwap()`
is made under `drawGuard`, and a failed `DCHECK` is not one of the two at the
start of `DrawAndSwap`. -/
def evGuarded (ev : Effect) : Bool :=
  match ev with
  | Effect.ClientDrawAndSwap m => drawGuard m
  | Effect.DCheckFailed check =>
    check != DCheck.pending_swaps_lt_max && check != DCheck.output_surface_not_lost
  | _ => true

/-- Whether an entry of the trace is a call of `client_->DrawAndSwap()`. -/
def Effect.isDraw (ev : Effect) : Bool :=
  match ev with
  | Effect.ClientDrawAndSwap _ => true
  | _ => false

/-- The number of calls of `client_->DrawAndSwap()` in a trace. -/
def drawCount (log : List Effect) : Nat :=
  log.countP Effect.isDraw

/-- Whether an entry of the trace reports the end of an interval: the call
`begin_frame_source_->DidFinishFrame(this)` or `client_->DidFinishFrame(ack)`. -/
def Effect.isFinish (ev : Effect) : Bool :=
  match ev with
  | Effect.SourceDidFinishFrame => true
  | Effect.ClientDidFinishFrame _ => true
  | _ => false

/-- The reports of the end of an interval in a trace, in order. -/
def finishEvents (log : List Effect) : List Effect :=
  log.filter Effect.isFinish

/-- The number of intervals whose end has been reported to the begin-frame
source. -/
def intervalsEnded (log : List Effect) : Nat :=
  (finishEvents log).count Effect.SourceDidFinishFrame

/-- The calls that `DidFinishFrame(did_draw)` makes in state `s`: the begin-frame
source is told that the frame is finished, then the client, if there is one, is
given the acknowledgment of the current tick. -/
def finishReports (s : Sys) (did_draw : Bool) : List Effect :=
  Effect.SourceDidFinishFrame ::
    if s.client_ then
      [Effect.ClientDidFinishFrame
        { source_id := s.current_begin_frame_args_.source_id
          sequence_number := s.current_begin_frame_args_.sequence_number
          has_damage := did_draw }]
    else []

/-- The member states in which `client_->DrawAndSwap()` was called, in the
order of the calls. -/
def drawSnapshots (log : List Effect) : List DisplayScheduler :=
  log.filterMap fun ev =>
    match ev with
    | Effect.ClientDrawAndSwap m => some m
    | _ => none

/-- The member state in which `AttemptDrawAndSwap`, entered in state `s`, calls
`DrawAndSwap`: the interval is closed and the deadline task cancelled. -/
def attemptSnapshot (s : Sys) : DisplayScheduler :=
  { s.toDisplayScheduler with
    inside_begin_frame_deadline_interval_ := false
    begin_frame_deadline_task_ := false
    begin_frame_deadline_task_time_ := 0 }

/-- The entries that a member function has added to the trace of `s`. -/
def newEvents (s s' : Sys) : List Effect :=
  s'.log.drop s.log.length

/-- The trace `log` is `base` followed by entries that are all in order. -/
def guardedFrom (base log : List Effect) : Prop :=
  ∃ added, log = base ++ added ∧ ∀ ev ∈ added, evGuarded ev = true

/-! ## Runs of ticks and interval completions -/

/-- Whether the operation delivers a tick or completes an interval: a
BeginFrame, the deadline task, or `ForceImmediateSwapIfPossible`. -/
def Op.isIntervalOp (op : Op) : Bool :=
  match op with
  | Op.OnBeginFrameDerivedImpl _ => true
  | Op.RunBeginFrameDeadlineTask => true
  | Op.ForceImmediateSwapIfPossible => true
  | _ => false

/-- Whether the operation delivers a tick. -/
def Op.isTick (op : Op) : Bool :=
  match op with
  | Op.OnBeginFrameDerivedImpl _ => true
  | _ => false

/-- The number of intervals that are open in a state: one inside a deadline
interval, none outside. -/
def openIntervals (s : Sys) : Nat :=
  if s.inside_begin_frame_deadline_interval_ then 1 else 0

/-! ## The draw condition as the specification words it -/

/-- The spec's `ShouldDraw()`: a draw is needed, the output target is not lost,
the scheduler is visible and root content is present. -/
def specShouldDraw (s : DisplayScheduler) : Bool :=
  s.needs_draw_ && !s.output_surface_lost_ && s.visible_ && !s.root_frame_missing_

/-! ## The completeness scan as the specification words it -/

/-- The spec's pending surface: its record has a valid last seen tick with the
ids of the current tick, its last acknowledgment does not have those ids, and the
client reports no unacknowledged frame for it. -/
def specSurfacePending (e : Env) (current : BeginFrameArgs)
    (entry : SurfaceId × SurfaceBeginFrameState) : Bool :=
  (entry.2.last_args.IsValid &&
      entry.2.last_args.source_id == current.source_id &&
      entry.2.last_args.sequence_number == current.sequence_number) &&
    !(entry.2.last_ack.source_id == current.source_id &&
      entry.2.last_ack.sequence_number == current.sequence_number) &&
    !e.SurfaceHasUnackedFrame entry.1

/-! ## The armed deadline -/

/-- What holds of the deadline task whenever a member function is about to
call `ScheduleBeginFrameDeadline`: it is armed only inside a deadline interval
and, when the scheduler waits for all surfaces, only for the time of an
Immediate deadline. -/
def timerWeak (s : Sys) : Prop :=
  s.begin_frame_deadline_task_ = true →
    s.inside_begin_frame_deadline_interval_ = true ∧
    (s.wait_for_all_surfaces_before_draw_ = true → s.begin_frame_deadline_task_time_ = 0)

/-- What holds of the deadline task between operations: it is armed only inside
a deadline interval and, when the scheduler waits for all surfaces, only for the
time of an Immediate deadline and only while the output surface is lost or no
surface is pending. -/
def timerInv (s : Sys) : Prop :=
  s.begin_frame_deadline_task_ = true →
    s.inside_begin_frame_deadline_interval_ = true ∧
    (s.wait_for_all_surfaces_before_draw_ = true →
      s.begin_frame_deadline_task_time_ = 0 ∧
      (s.output_surface_lost_ = true ∨ s.has_pending_surfaces_ = false))

/-! ## The calls of the deadline scheduling and the shape of the surface map -/

/-- The calls that `ScheduleBeginFrameDeadline` makes in state `s`: outside an
interval none (but for its `DCHECK`); inside, none if the deadline task is
already posted for the desired time or the desired time is the maximum, and
otherwise the deadline task is posted with the delay
`max(0, desired_deadline - now)`. -/
def scheduleCalls (d : Deps) (e : Env) (s : Sys) : List Effect :=
  if s.inside_begin_frame_deadline_interval_ = false then
    if s.begin_frame_deadline_task_ = true then
      [Effect.DCheckFailed DCheck.deadline_task_cancelled]
    else []
  else if s.begin_frame_deadline_task_ = true ∧
      DesiredBeginFrameDeadlineTime d s.toDisplayScheduler = s.begin_frame_deadline_task_time_ then
    []
  else if DesiredBeginFrameDeadlineTime d s.toDisplayScheduler = d.TimeTicksMax then []
  else
    [Effect.PostDelayedTask Task.BeginFrameDeadline
      (max 0 (DesiredBeginFrameDeadlineTime d s.toDisplayScheduler - e.now))]

/-- Whether the list that stands for `surface_states_` has at most one entry for
each surface, as the map it stands for has. -/
def uniqueKeys (m : List (SurfaceId × SurfaceBeginFrameState)) : Bool :=
  decide (m.map Prod.fst).Nodup

/-! ## The steps a member function is made of -/

/-- Whether an entry of the trace is none of those that the invariants of the
deadline task, of the swap count and of the draws are about: not a call of
`client_->DrawAndSwap()`, not a call of `SetIsGpuBusy`, not the posting of the
deadline task and, among the failed `DCHECK`s, only one of the two in the
reentrant branch of `OnBeginFrameDerivedImpl`. -/
def Effect.isPlain (ev : Effect) : Bool :=
  match ev with
  | Effect.ClientDrawAndSwap _ => false
  | Effect.SetIsGpuBusy _ => false
  | Effect.PostDelayedTask Task.BeginFrameDeadline _ => false
  | Effect.DCheckFailed DCheck.args_type_missed => true
  | Effect.DCheckFailed DCheck.missed_task_cancelled => true
  | Effect.DCheckFailed _ => false
  | _ => true

/-- A step that leaves the interval, the deadline task, the record of the calls
on its closure and the swap count as they are, clears neither `needs_draw_` nor
`output_surface_lost_`, and adds only plain entries to the trace. -/
def quietStep (s s' : Sys) : Prop :=
  s'.inside_begin_frame_deadline_interval_ = s.inside_begin_frame_deadline_interval_ ∧
  s'.begin_frame_deadline_task_ = s.begin_frame_deadline_task_ ∧
  s'.begin_frame_deadline_task_time_ = s.begin_frame_deadline_task_time_ ∧
  s'.pending_swaps_ = s.pending_swaps_ ∧
  s'.max_pending_swaps_ = s.max_pending_swaps_ ∧
  s'.deadline_task_calls = s.deadline_task_calls ∧
  (s.needs_draw_ = true → s'.needs_draw_ = true) ∧
  (s.output_surface_lost_ = true → s'.output_surface_lost_ = true) ∧
  ∃ added, s'.log = s.log ++ added ∧ ∀ ev ∈ added, ev.isPlain = true

/-- The steps of which every member function other than `DidSwapBuffers` and
`DidReceiveSwapBuffersAck` is made: quiet steps, `AttemptDrawAndSwap`,
`ScheduleBeginFrameDeadline`, the opening of the interval of an accepted tick,
and the `DCHECK` at the start of `OnBeginFrameDeadline` when the deadline task
runs. -/
inductive CoreStep (d : Deps) (e : Env) : Sys → Sys → Prop where
  | quiet (s s' : Sys) (h : quietStep s s') : CoreStep d e s s'
  | attempt (s : Sys) : CoreStep d e s (AttemptDrawAndSwap e s).1
  | schedule (s : Sys) : CoreStep d e s (ScheduleBeginFrameDeadline d e s)
  | open_interval (s : Sys) (args : BeginFrameArgs) :
    CoreStep d e s
      { s with current_begin_frame_args_ := args, inside_begin_frame_deadline_interval_ := true }
  | armed_check (s : Sys) (h : s.begin_frame_deadline_task_ = true) :
    CoreStep d e s
      (s.dcheck s.inside_begin_frame_deadline_interval_ DCheck.inside_deadline_interval)

/-- A sequence of core steps. -/
def Steps (d : Deps) (e : Env) (s s' : Sys) : Prop :=
  Relation.ReflTransGen (CoreStep d e) s s'

/-! ## The deadline task -/

/-- Whether no `DCHECK` on the deadline task has failed in a trace: neither the
one of `ScheduleBeginFrameDeadline` nor the one of `OnBeginFrameDeadline`. -/
def timerChecksOk (log : List Effect) : Bool :=
  log.all fun ev =>
    ev != Effect.DCheckFailed DCheck.deadline_task_cancelled &&
      ev != Effect.DCheckFailed DCheck.inside_deadline_interval

/-- What holds of the deadline task in every state reached from construction: it
is posted only inside a deadline interval and only for a time other than the
maximum, and no `DCHECK` on it has failed. -/
def armedOk (d : Deps) (s : Sys) : Prop :=
  (s.begin_frame_deadline_task_ = true →
    s.inside_begin_frame_deadline_interval_ = true ∧
    s.begin_frame_deadline_task_time_ ≠ d.TimeTicksMax) ∧
  timerChecksOk s.log = true

/-- Modelled from the spec: `base::CancelableOnceClosure` is declared outside
the sources; the spec calls the deadline timer a cancelable, single-slot
delayed callback.  The number of posted deadline tasks that are not cancelled,
after a call: `Cancel` and `Reset` invalidate every callback handed out before,
so that no task posted with one of them runs; posting the current callback adds
a task. -/
def liveAfter (live : Nat) (op : ClosureOp) : Nat :=
  match op with
  | ClosureOp.Cancel => 0
  | ClosureOp.Reset => 0
  | ClosureOp.Post => live + 1

/-- The number of posted deadline tasks that are not cancelled after a record of
calls, none being posted at construction.  A task that has run stays counted
until the next `Cancel`, so that the tasks neither cancelled nor fired are at
most this many. -/
def liveTasks (calls : List ClosureOp) : Nat :=
  calls.foldl liveAfter 0

/-- The number of live deadline tasks that the member `begin_frame_deadline_task_`
of the embedding stands for: one if the closure holds a callback, none if it
is cancelled. -/
def armedTasks (s : Sys) : Nat :=
  if s.begin_frame_deadline_task_ then 1 else 0

/-- The records of calls in which every `Reset` follows a `Cancel` at once and
every post follows a `Reset` at once: sequences of `Cancel` and of
`Cancel`, `Reset`, post. -/
inductive TimerRecord : List ClosureOp → Prop where
  | nil : TimerRecord []
  | cancel (calls : List ClosureOp) (h : TimerRecord calls) :
    TimerRecord (calls ++ [ClosureOp.Cancel])
  | post (calls : List ClosureOp) (h : TimerRecord calls) :
    TimerRecord (calls ++ [ClosureOp.Cancel, ClosureOp.Reset, ClosureOp.Post])

/-- Whether an entry of the trace is the posting of the deadline task. -/
def Effect.isDeadlinePost (ev : Effect) : Bool :=
  match ev with
  | Effect.PostDelayedTask Task.BeginFrameDeadline _ => true
  | _ => false

/-- The postings of the deadline task in a trace. -/
def deadlinePosts (log : List Effect) : List Effect :=
  log.filter Effect.isDeadlinePost

/-- What holds of the record of the calls on the closure of the deadline task in
every state reached from construction: it is made of `Cancel` and of `Cancel`,
`Reset`, post; the posted tasks it leaves live are those the closure stands
for; and its posts are the postings of the deadline task in the trace. -/
def timerRecordOk (s : Sys) : Prop :=
  TimerRecord s.deadline_task_calls ∧
  liveTasks s.deadline_task_calls = armedTasks s ∧
  (deadlinePosts s.log).length = s.deadline_task_calls.count ClosureOp.Post

/-! ## Back-pressure -/

/-- The values passed to `begin_frame_source_->SetIsGpuBusy`, in the order of the
calls. -/
def busySignals (log : List Effect) : List Bool :=
  log.filterMap fun ev =>
    match ev with
    | Effect.SetIsGpuBusy busy => some busy
    | _ => none

/-- The value last passed to `SetIsGpuBusy`; not busy if there was no call. -/
def lastBusy (log : List Effect) : Bool :=
  (busySignals log).getLast?.getD false

/-- The swap count is within its bounds and back-pressure was last asserted
exactly at the swap limit. -/
def busyInv (s : Sys) : Prop :=
  swapBudgetHolds s ∧ (lastBusy s.log = true ↔ s.pending_swaps_ = s.max_pending_swaps_)

/-- Whether the environment may make the call in the given state when
`DidSwapBuffers` is called only by the client during a draw:
`DidSwapBuffers` never on its own, `DidReceiveSwapBuffersAck` only with a swap in
flight. -/
def drawSwapCallAllowed (s : Sys) (op : Op) : Bool :=
  match op with
  | Op.DidSwapBuffers => false
  | Op.DidReceiveSwapBuffersAck => decide (0 < s.pending_swaps_)
  | _ => true

/-- Whether a sequence of operations from the given state keeps to the protocol
in which `DidSwapBuffers` is called at most once during each
`client_->DrawAndSwap()` and at no other time, and `DidReceiveSwapBuffersAck`
only with a swap in flight. -/
def obeysDrawSwapProtocol (d : Deps) (s : Sys) (ops : List (Op × Env)) : Bool :=
  match ops with
  | [] => true
  | oe :: rest =>
    drawSwapCallAllowed s oe.1 && decide (oe.2.swaps_in_draw ≤ 1) &&
      obeysDrawSwapProtocol d (step d s oe.1 oe.2) rest

/-! ## Damage and loss of the output surface -/

/-- What holds after steps from a state with `needs_draw_` set whose trace held
`base` calls of `client_->DrawAndSwap()`, where the client answers `answer`: no
call is lost from the trace, and `needs_draw_` is still set unless a call was
added and the answer is true. -/
def damageKept (answer : Bool) (base : Nat) (s : Sys) : Prop :=
  base ≤ drawCount s.log ∧
    (s.needs_draw_ = true ∨ (answer = true ∧ base < drawCount s.log))

/-- The output surface is lost and the trace holds `base` calls of
`client_->DrawAndSwap()`. -/
def lostKept (base : Nat) (s : Sys) : Prop :=
  s.output_surface_lost_ = true ∧ drawCount s.log = base

/-! ## Ticks and the subscription -/

/-- A missed BeginFrame is posted only while the scheduler observes the
begin-frame source. -/
def missedOk (s : Sys) : Prop :=
  s.missed_begin_frame_task_ = none ∨ s.observing_begin_frame_source_ = true

/-- Whether the begin-frame source delivers a tick during the operation: a
BeginFrame, or `DidReceiveSwapBuffersAck` with a BeginFrame delivered from
inside `SetIsGpuBusy(false)`. -/
def deliversTick (op : Op) (e : Env) : Bool :=
  match op with
  | Op.OnBeginFrameDerivedImpl _ => true
  | Op.DidReceiveSwapBuffersAck => e.begin_frame_on_not_busy.isSome
  | _ => false

/-- Whether in a sequence of operations from the given state every tick is
delivered while the scheduler observes the begin-frame source. -/
def ticksWhileObserving (d : Deps) (s : Sys) (ops : List (Op × Env)) : Bool :=
  match ops with
  | [] => true
  | oe :: rest =>
    (!deliversTick oe.1 oe.2 || s.observing_begin_frame_source_) &&
      ticksWhileObserving d (step d s oe.1 oe.2) rest

/-! ## Sample inputs -/

/-- Values of the outside constants, for evaluating the functions. -/
def sampleDeps : Deps :=
  { kInvalidFrameNumber := 0
    DefaultEstimatedDisplayDrawTime := fun interval => interval / 3
    TimeTicksMax := 2 ^ 63 - 1
    first_surface_activated_init := false
    seen_first_surface_activation_init := false
    pending_first_surface_activation_init := false }

/-- Collaborators whose draw succeeds and swaps once, at time `now`. -/
def sampleEnv (now : Int) : Env :=
  { now := now
    DrawAndSwap := true
    swaps_in_draw := 1
    SurfaceDamaged := fun _ _ => true
    SurfaceHasUnackedFrame := fun _ => false
    RootFrameSinkContainsChild := fun _ => true
    missed_on_add := none
    begin_frame_on_not_busy := none }

/-- Collaborators as in `sampleEnv`, with a begin-frame source that delivers the
tick `args` from inside `SetIsGpuBusy(false)`. -/
def callbackEnv (now : Int) (args : BeginFrameArgs) : Env :=
  { sampleEnv now with begin_frame_on_not_busy := some args }

/-- Collaborators as in `sampleEnv`, with a client whose root frame sink
contains no child. -/
def childlessEnv (now : Int) : Env :=
  { sampleEnv now with RootFrameSinkContainsChild := fun _ => false }

/-- A scheduler with one swap allowed in flight, as constructed. -/
def sampleScheduler : Sys :=
  construct sampleDeps 1 false 0 false

/-- A normal tick of the given sequence number, with a 16 ms interval. -/
def sampleTick (sequence_number : Nat) : BeginFrameArgs :=
  { frame_time := 16000 * sequence_number
    deadline := 16000 * sequence_number + 16000
    interval := 16000
    source_id := 1
    sequence_number := sequence_number
    type := BeginFrameArgsType.NORMAL
    animate_only := false }

/-- The sample scheduler after the output surface is lost and one swap is
in flight: lost and throttled at once. -/
def lostThrottledScheduler : Sys :=
  run sampleDeps sampleScheduler
    [(Op.OutputSurfaceLost, sampleEnv 0), (Op.DidSwapBuffers, sampleEnv 0)]

/-- The sample scheduler with one swap in flight: throttled, not lost. -/
def throttledScheduler : Sys :=
  run sampleDeps sampleScheduler [(Op.DidSwapBuffers, sampleEnv 0)]

/-- The sample scheduler constructed with `wait_for_all_surfaces_before_draw`. -/
def waitingScheduler : Sys :=
  construct sampleDeps 1 false 0 true

/-- A surface identity for the sample runs. -/
def sampleSurface : SurfaceId :=
  { frame_sink_id := 1, local_surface_id := 1 }

/-- The sample scheduler after its one surface has seen tick 5 and has
acknowledged it with damage. -/
def ackedScheduler : Sys :=
  run sampleDeps sampleScheduler
    [(Op.OnSurfaceDamageExpected sampleSurface (sampleTick 5), sampleEnv 0),
     (Op.ProcessSurfaceDamage sampleSurface (BeginFrameAck.ofArgs (sampleTick 5) true) true,
       sampleEnv 0)]

/-- A run in which the sample scheduler draws once and the swap is
acknowledged. -/
def drawAndAckOps : List (Op × Env) :=
  [(Op.SetClient true, sampleEnv 0),
   (Op.SetVisible true, sampleEnv 0),
   (Op.SetRootFrameMissing false, sampleEnv 0),
   (Op.SetNewRootSurface sampleSurface, sampleEnv 0),
   (Op.OnBeginFrameDerivedImpl (sampleTick 5), sampleEnv 80000),
   (Op.RunBeginFrameDeadlineTask, sampleEnv 80000),
   (Op.DidReceiveSwapBuffersAck, sampleEnv 90000)]

/-- The sample scheduler with a client, visible, with root content and a
damaged root surface, inside the interval of tick 5. -/
def readyScheduler : Sys :=
  run sampleDeps sampleScheduler (drawAndAckOps.take 5)

/-- The member state of `readyScheduler` once `AttemptDrawAndSwap` has closed the
interval and cancelled the deadline task. -/
def readySnapshot : DisplayScheduler :=
  { readyScheduler.toDisplayScheduler with
    inside_begin_frame_deadline_interval_ := false
    begin_frame_deadline_task_ := false
    begin_frame_deadline_task_time_ := 0 }

/-- The sample scheduler after a draw at the swap limit, damaged again and
inside the interval of tick 6: it should draw but is throttled. -/
def throttledReadyScheduler : Sys :=
  run sampleDeps sampleScheduler
    (drawAndAckOps.take 6 ++
      [(Op.ProcessSurfaceDamage sampleSurface (BeginFrameAck.ofArgs (sampleTick 5) true) true,
         sampleEnv 85000),
       (Op.OnBeginFrameDerivedImpl (sampleTick 6), sampleEnv 96000)])

/-- A scheduler with the readiness gate in use gets a client and is told of an
activated surface that the client's root frame sink does not contain: the
surface is kept in `pending_activations_`. -/
def pendingActivationOps : List (Op × Env) :=
  [(Op.SetClient true, sampleEnv 0),
   (Op.OnSurfaceActivatedEx sampleSurface true false true, childlessEnv 0)]

/-- The scheduler with a pending activation after `SetClient(nullptr)`. -/
def clientlessPendingScheduler : Sys :=
  run sampleDeps (construct sampleDeps 1 true 5000 false)
    (pendingActivationOps ++ [(Op.SetClient false, sampleEnv 0)])

/-- The scheduler with a pending activation after `SetVisible(true)`. -/
def visiblePendingScheduler : Sys :=
  run sampleDeps (construct sampleDeps 1 true 5000 false)
    (pendingActivationOps ++ [(Op.SetVisible true, sampleEnv 0)])

/-- Two ticks followed by the deadline of the second. -/
def twoTicksAndDeadline : List (Op × Env) :=
  [(Op.OnBeginFrameDerivedImpl (sampleTick 5), sampleEnv 80000),
   (Op.OnBeginFrameDerivedImpl (sampleTick 6), sampleEnv 96000),
   (Op.RunBeginFrameDeadlineTask, sampleEnv 112000)]

/-- The sample scheduler with a client set. -/
def clientScheduler : Sys :=
  SetClient sampleScheduler true

/-- The sample scheduler with a client, visible and with root content, before
any damage. -/
def visibleScheduler : Sys :=
  run sampleDeps sampleScheduler (drawAndAckOps.take 3)

/-- The sample scheduler inside the interval of tick 5 while its surface, which
has seen the tick, has not acknowledged it. -/
def pendingScheduler : Sys :=
  run sampleDeps sampleScheduler
    (drawAndAckOps.take 5 ++
      [(Op.OnSurfaceDamageExpected sampleSurface (sampleTick 5), sampleEnv 81000)])

/-- The sample scheduler with a client, visible, with root content and a
damaged root surface, outside any interval. -/
def damagedScheduler : Sys :=
  run sampleDeps sampleScheduler (drawAndAckOps.take 4)

/-- The scenario of one surface and one swap in flight: the surface sees tick 5,
acknowledges it with damage, the deadline draws, and tick 6 arrives while the
swap is in flight. -/
def oneSurfaceScenario : List (Op × Env) :=
  [(Op.SetClient true, sampleEnv 0),
   (Op.SetVisible true, sampleEnv 0),
   (Op.SetRootFrameMissing false, sampleEnv 0),
   (Op.SetNewRootSurface sampleSurface, sampleEnv 0),
   (Op.OnBeginFrameDerivedImpl (sampleTick 5), sampleEnv 80000),
   (Op.OnSurfaceDamageExpected sampleSurface (sampleTick 5), sampleEnv 81000),
   (Op.ProcessSurfaceDamage sampleSurface (BeginFrameAck.ofArgs (sampleTick 5) true) true,
     sampleEnv 82000),
   (Op.RunBeginFrameDeadlineTask, sampleEnv 82000),
   (Op.OnBeginFrameDerivedImpl (sampleTick 6), sampleEnv 96000)]

/-- A second surface identity for the sample runs. -/
def childSurface : SurfaceId :=
  { frame_sink_id := 2, local_surface_id := 1 }

/-- The sample scheduler that waits for all surfaces, with a client, visible,
with root content and a damaged root surface, inside the interval of tick 5,
while a child surface that has seen the tick has not acknowledged it. -/
def waitingPendingScheduler : Sys :=
  run sampleDeps waitingScheduler
    [(Op.SetClient true, sampleEnv 0),
     (Op.SetVisible true, sampleEnv 0),
     (Op.SetRootFrameMissing false, sampleEnv 0),
     (Op.SetNewRootSurface sampleSurface, sampleEnv 0),
     (Op.OnBeginFrameDerivedImpl (sampleTick 5), sampleEnv 80000),
     (Op.OnSurfaceDamageExpected childSurface (sampleTick 5), sampleEnv 81000)]

/-- The operations that bring a scheduler with a client to the interval of
tick 5, visible, with root content and a damaged root surface. -/
def waitingReadyOps : List (Op × Env) :=
  [(Op.SetClient true, sampleEnv 0),
   (Op.SetVisible true, sampleEnv 0),
   (Op.SetRootFrameMissing false, sampleEnv 0),
   (Op.SetNewRootSurface sampleSurface, sampleEnv 0),
   (Op.OnBeginFrameDerivedImpl (sampleTick 5), sampleEnv 80000)]

/-- The operations that bring the sample scheduler, observing the begin-frame
source at a client's request but with nothing to draw, into the interval of
tick 5 and then deliver tick 6. -/
def idleTicksOps : List (Op × Env) :=
  [(Op.SetClient true, sampleEnv 0),
   (Op.SetNeedsOneBeginFrame, sampleEnv 0),
   (Op.OnBeginFrameDerivedImpl (sampleTick 5), sampleEnv 80000),
   (Op.OnBeginFrameDerivedImpl (sampleTick 6), sampleEnv 96000)]

/-- The sample scheduler that waits for all surfaces, ready to draw inside the
interval of tick 5 with its deadline task posted, in which a surface has just
become pending. -/
def waitingArmedScheduler : Sys :=
  { run sampleDeps waitingScheduler waitingReadyOps with has_pending_surfaces_ := true }

/-! ## Theorems: the deadline policy -/

/-- C1: for every scheduler state, `DesiredBeginFrameDeadlineMode` is the mode
chosen by the seven-rule priority table of the spec. -/
theorem desired_mode_eq_spec_table (s : DisplayScheduler) :
    specDeadlinePolicy s = some (DesiredBeginFrameDeadlineMode s) := by
  simp only [specDeadlinePolicy, specDeadlineRules, firstRule, specAllSurfacesReady,
    DesiredBeginFrameDeadlineMode]
  split_ifs <;> simp_all

/-- C2: when the output surface is lost, both the desired and the adjusted
deadline mode are Immediate, whatever the other members are. -/
theorem output_lost_yields_immediate (s : DisplayScheduler)
    (h : s.output_surface_lost_ = true) :
    DesiredBeginFrameDeadlineMode s = BeginFrameDeadlineMode.kImmediate ∧
      AdjustedBeginFrameDeadlineMode s = BeginFrameDeadlineMode.kImmediate := by
  have h1 : DesiredBeginFrameDeadlineMode s = BeginFrameDeadlineMode.kImmediate := by
    simp [DesiredBeginFrameDeadlineMode, h]
  refine ⟨h1, ?_⟩
  simp [AdjustedBeginFrameDeadlineMode, h1]

/-- Witness of C2 on the sample scheduler that is lost and throttled. -/
theorem output_lost_yields_immediate_witness :
    lostThrottledScheduler.output_surface_lost_ = true ∧
      lostThrottledScheduler.pending_swaps_ ≥ lostThrottledScheduler.max_pending_swaps_ ∧
      DesiredBeginFrameDeadlineMode lostThrottledScheduler.toDisplayScheduler =
        BeginFrameDeadlineMode.kImmediate ∧
      AdjustedBeginFrameDeadlineMode lostThrottledScheduler.toDisplayScheduler =
        BeginFrameDeadlineMode.kImmediate :=
  ⟨by decide, by decide,
    output_lost_yields_immediate lostThrottledScheduler.toDisplayScheduler (by decide)⟩

/-- C3, as stated, fails: on the sample scheduler that is lost and throttled,
`pending_swaps_` equals `max_pending_swaps_` and the desired mode is Immediate,
not Late. -/
theorem throttled_not_late_when_lost :
    lostThrottledScheduler.pending_swaps_ = lostThrottledScheduler.max_pending_swaps_ ∧
      DesiredBeginFrameDeadlineMode lostThrottledScheduler.toDisplayScheduler =
        BeginFrameDeadlineMode.kImmediate ∧
      DesiredBeginFrameDeadlineMode lostThrottledScheduler.toDisplayScheduler ≠
        BeginFrameDeadlineMode.kLate := by
  decide

/-- C3, amended: when the output surface is not lost and `pending_swaps_` equals
`max_pending_swaps_`, the desired mode is Late, whatever the other members
are. -/
theorem throttled_yields_late (s : DisplayScheduler)
    (hlost : s.output_surface_lost_ = false)
    (h : s.pending_swaps_ = s.max_pending_swaps_) :
    DesiredBeginFrameDeadlineMode s = BeginFrameDeadlineMode.kLate := by
  simp [DesiredBeginFrameDeadlineMode, hlost, h]

/-- Witness of the amended C3 on the sample scheduler with one swap in flight. -/
theorem throttled_yields_late_witness :
    throttledScheduler.output_surface_lost_ = false ∧
      throttledScheduler.pending_swaps_ = throttledScheduler.max_pending_swaps_ ∧
      DesiredBeginFrameDeadlineMode throttledScheduler.toDisplayScheduler =
        BeginFrameDeadlineMode.kLate :=
  ⟨by decide, by decide,
    throttled_yields_late throttledScheduler.toDisplayScheduler (by decide) (by decide)⟩

/-- C4: with `wait_for_all_surfaces_before_draw_` set, the adjusted mode is never
Regular or Late and is None exactly when the desired mode is Regular or Late;
when the desired mode is Immediate, or the flag is not set, the adjusted mode is
the desired mode. -/
theorem adjusted_mode_characterisation (s : DisplayScheduler) :
    (s.wait_for_all_surfaces_before_draw_ = true →
      AdjustedBeginFrameDeadlineMode s ≠ BeginFrameDeadlineMode.kRegular ∧
      AdjustedBeginFrameDeadlineMode s ≠ BeginFrameDeadlineMode.kLate ∧
      (AdjustedBeginFrameDeadlineMode s = BeginFrameDeadlineMode.kNone ↔
        DesiredBeginFrameDeadlineMode s = BeginFrameDeadlineMode.kRegular ∨
        DesiredBeginFrameDeadlineMode s = BeginFrameDeadlineMode.kLate)) ∧
    (DesiredBeginFrameDeadlineMode s = BeginFrameDeadlineMode.kImmediate ∨
        s.wait_for_all_surfaces_before_draw_ = false →
      AdjustedBeginFrameDeadlineMode s = DesiredBeginFrameDeadlineMode s) := by
  have hnone : DesiredBeginFrameDeadlineMode s ≠ BeginFrameDeadlineMode.kNone := by
    simp only [DesiredBeginFrameDeadlineMode]
    split_ifs <;> simp
  refine ⟨fun hw => ?_, fun h => ?_⟩
  · cases hm : DesiredBeginFrameDeadlineMode s <;>
      simp_all [AdjustedBeginFrameDeadlineMode]
  · rcases h with h | h <;> simp [AdjustedBeginFrameDeadlineMode, h]

/-- Witness of C4 on the sample scheduler that waits for all surfaces: as
constructed its desired mode is Late and its adjusted mode is None. -/
theorem adjusted_mode_characterisation_witness :
    waitingScheduler.wait_for_all_surfaces_before_draw_ = true ∧
      DesiredBeginFrameDeadlineMode waitingScheduler.toDisplayScheduler =
        BeginFrameDeadlineMode.kLate ∧
      AdjustedBeginFrameDeadlineMode waitingScheduler.toDisplayScheduler =
        BeginFrameDeadlineMode.kNone :=
  ⟨by decide, by decide,
    ((adjusted_mode_characterisation waitingScheduler.toDisplayScheduler).1 (by decide)).2.2.mpr
      (Or.inr (by decide))⟩


/-! ## Lemmas: what each member function leaves unchanged -/

@[simp]
theorem emit_toDisplayScheduler (s : Sys) (ev : Effect) :
    (s.emit ev).toDisplayScheduler = s.toDisplayScheduler := rfl

@[simp]
theorem emit_log (s : Sys) (ev : Effect) : (s.emit ev).log = s.log ++ [ev] := rfl

@[simp]
theorem dcheck_toDisplayScheduler (s : Sys) (c : Bool) (k : DCheck) :
    (s.dcheck c k).toDisplayScheduler = s.toDisplayScheduler := by
  unfold Sys.dcheck
  split_ifs <;> rfl

@[simp]
theorem emit_deadline_task_calls (s : Sys) (ev : Effect) :
    (s.emit ev).deadline_task_calls = s.deadline_task_calls := rfl

@[simp]
theorem dcheck_deadline_task_calls (s : Sys) (c : Bool) (k : DCheck) :
    (s.dcheck c k).deadline_task_calls = s.deadline_task_calls := by
  unfold Sys.dcheck
  split_ifs <;> rfl

/-- The loop over the pending activations, when it runs to its end, has changed
nothing. -/
theorem activatePending_ok (e : Env) (entries : List (SurfaceId × Nat)) (s s1 : Sys)
    (h : activatePending e s entries = Except.ok s1) : s1 = s := by
  induction entries with
  | nil =>
    simp only [activatePending] at h
    exact (Except.ok.inj h).symm
  | cons it rest ih =>
    simp only [activatePending] at h
    split_ifs at h
    exact ih h

/-- `SetNewRootSurface` either returns the result of `ProcessSurfaceDamage` on
the state with the new root surface id, or its loop has undefined behaviour. -/
theorem SetNewRootSurface_cases (d : Deps) (e : Env) (s : Sys) (root_surface_id : SurfaceId) :
    SetNewRootSurface d e s root_surface_id =
        Except.ok (ProcessSurfaceDamage d e { s with root_surface_id_ := root_surface_id }
          root_surface_id { BeginFrameAck.empty d with has_damage := true } true) ∨
      ∃ fault, SetNewRootSurface d e s root_surface_id = Except.error fault := by
  simp only [SetNewRootSurface]
  cases h : activatePending e s s.pending_activations_ with
  | error fault => exact Or.inr ⟨fault, rfl⟩
  | ok s1 =>
    have h1 := activatePending_ok e _ s s1 h
    subst h1
    exact Or.inl rfl

theorem orFault_SetNewRootSurface (d : Deps) (e : Env) (s : Sys)
    (root_surface_id : SurfaceId) :
    s.orFault (SetNewRootSurface d e s root_surface_id) =
        ProcessSurfaceDamage d e { s with root_surface_id_ := root_surface_id }
          root_surface_id { BeginFrameAck.empty d with has_damage := true } true ∨
      ∃ fault, s.orFault (SetNewRootSurface d e s root_surface_id) =
        s.emit (Effect.UndefinedBehaviour fault) := by
  rcases SetNewRootSurface_cases d e s root_surface_id with h | ⟨fault, h⟩
  · exact Or.inl (by rw [h]; rfl)
  · exact Or.inr ⟨fault, by rw [h]; rfl⟩

/-! ### Member functions that leave `max_pending_swaps_` unchanged -/

@[simp]
theorem StopObservingBeginFrames_max_pending_swaps_ (s : Sys) :
    (StopObservingBeginFrames s).max_pending_swaps_ = s.max_pending_swaps_ := by
  simp only [StopObservingBeginFrames]
  split_ifs <;> simp [*]

@[simp]
theorem DidSwapBuffers_max_pending_swaps_ (s : Sys) :
    (DidSwapBuffers s).max_pending_swaps_ = s.max_pending_swaps_ := by
  simp only [DidSwapBuffers]
  split_ifs <;> simp [*]

@[simp]
theorem clientSwaps_max_pending_swaps_ (n : Nat) (s : Sys) :
    (clientSwaps n s).max_pending_swaps_ = s.max_pending_swaps_ := by
  induction n generalizing s with
  | zero => rfl
  | succ k ih => simp [clientSwaps, ih]

@[simp]
theorem DrawAndSwap_max_pending_swaps_ (e : Env) (s : Sys) :
    ((DrawAndSwap e s).1).max_pending_swaps_ = s.max_pending_swaps_ := by
  simp only [DrawAndSwap]
  split_ifs <;> simp [*]

@[simp]
theorem AttemptDrawAndSwap_max_pending_swaps_ (e : Env) (s : Sys) :
    ((AttemptDrawAndSwap e s).1).max_pending_swaps_ = s.max_pending_swaps_ := by
  simp only [AttemptDrawAndSwap]
  split_ifs <;> simp [*]

@[simp]
theorem DidFinishFrame_max_pending_swaps_ (s : Sys) (did_draw : Bool) :
    (DidFinishFrame s did_draw).max_pending_swaps_ = s.max_pending_swaps_ := by
  simp only [DidFinishFrame]
  split_ifs <;> simp [*]

@[simp]
theorem OnBeginFrameDeadline_max_pending_swaps_ (e : Env) (s : Sys) :
    (OnBeginFrameDeadline e s).max_pending_swaps_ = s.max_pending_swaps_ := by
  simp [OnBeginFrameDeadline]

@[simp]
theorem ForceImmediateSwapIfPossible_max_pending_swaps_ (e : Env) (s : Sys) :
    (ForceImmediateSwapIfPossible e s).max_pending_swaps_ = s.max_pending_swaps_ := by
  simp only [ForceImmediateSwapIfPossible]
  split_ifs <;> simp [*]

@[simp]
theorem UpdateHasPendingSurfaces_max_pending_swaps_ (e : Env) (s : Sys) :
    ((UpdateHasPendingSurfaces e s).1).max_pending_swaps_ = s.max_pending_swaps_ := by
  simp only [UpdateHasPendingSurfaces]
  split_ifs <;> simp [*]

@[simp]
theorem ScheduleBeginFrameDeadline_max_pending_swaps_ (d : Deps) (e : Env) (s : Sys) :
    (ScheduleBeginFrameDeadline d e s).max_pending_swaps_ = s.max_pending_swaps_ := by
  simp only [ScheduleBeginFrameDeadline]
  split_ifs <;> simp [*]

@[simp]
theorem OnBeginFrameDerivedImpl_max_pending_swaps_
    (d : Deps) (e : Env) (s : Sys) (args : BeginFrameArgs) :
    ((OnBeginFrameDerivedImpl d e s args).1).max_pending_swaps_ = s.max_pending_swaps_ := by
  simp only [OnBeginFrameDerivedImpl]
  split_ifs <;> simp [*]

@[simp]
theorem StartObservingBeginFrames_max_pending_swaps_ (d : Deps) (e : Env) (s : Sys) :
    (StartObservingBeginFrames d e s).max_pending_swaps_ = s.max_pending_swaps_ := by
  simp only [StartObservingBeginFrames]
  cases e.missed_on_add <;> split_ifs <;> simp

@[simp]
theorem SetNeedsOneBeginFrame_max_pending_swaps_ (d : Deps) (e : Env) (s : Sys) :
    (SetNeedsOneBeginFrame d e s).max_pending_swaps_ = s.max_pending_swaps_ := by
  simp [SetNeedsOneBeginFrame]

@[simp]
theorem MaybeStartObservingBeginFrames_max_pending_swaps_ (d : Deps) (e : Env) (s : Sys) :
    (MaybeStartObservingBeginFrames d e s).max_pending_swaps_ = s.max_pending_swaps_ := by
  simp only [MaybeStartObservingBeginFrames]
  split_ifs <;> simp [*]

@[simp]
theorem SetVisible_max_pending_swaps_ (d : Deps) (e : Env) (s : Sys) (visible : Bool) :
    (SetVisible d e s visible).max_pending_swaps_ = s.max_pending_swaps_ := by
  simp only [SetVisible]
  split_ifs <;> simp [*]

@[simp]
theorem SetRootFrameMissing_max_pending_swaps_ (d : Deps) (e : Env) (s : Sys) (missing : Bool) :
    (SetRootFrameMissing d e s missing).max_pending_swaps_ = s.max_pending_swaps_ := by
  simp only [SetRootFrameMissing]
  split_ifs <;> simp [*]

@[simp]
theorem DisplayResized_max_pending_swaps_ (d : Deps) (e : Env) (s : Sys) :
    (DisplayResized d e s).max_pending_swaps_ = s.max_pending_swaps_ := by
  simp [DisplayResized]

@[simp]
theorem OutputSurfaceLost_max_pending_swaps_ (d : Deps) (e : Env) (s : Sys) :
    (OutputSurfaceLost d e s).max_pending_swaps_ = s.max_pending_swaps_ := by
  simp [OutputSurfaceLost]

@[simp]
theorem markDisplayDamaged_max_pending_swaps_
    (d : Deps) (e : Env) (s : Sys) (surface_id : SurfaceId) :
    (markDisplayDamaged d e s surface_id).max_pending_swaps_ = s.max_pending_swaps_ := by
  simp only [markDisplayDamaged]
  split_ifs <;> simp [*]

@[simp]
theorem updateSurfaceState_max_pending_swaps_
    (d : Deps) (s : Sys) (surface_id : SurfaceId) (ack : BeginFrameAck) :
    ((updateSurfaceState d s surface_id ack).1).max_pending_swaps_ = s.max_pending_swaps_ := by
  simp only [updateSurfaceState]
  cases findState s.surface_states_ surface_id <;> simp only [] <;> split_ifs <;> simp

@[simp]
theorem rearmAfterDamage_max_pending_swaps_
    (d : Deps) (e : Env) (s : Sys) (valid_ack display_damaged : Bool) :
    (rearmAfterDamage d e s valid_ack display_damaged).max_pending_swaps_ =
      s.max_pending_swaps_ := by
  simp only [rearmAfterDamage]
  split_ifs <;> simp [*]

@[simp]
theorem ProcessSurfaceDamage_max_pending_swaps_
    (d : Deps) (e : Env) (s : Sys) (surface_id : SurfaceId) (ack : BeginFrameAck)
    (display_damaged : Bool) :
    (ProcessSurfaceDamage d e s surface_id ack display_damaged).max_pending_swaps_ =
      s.max_pending_swaps_ := by
  simp only [ProcessSurfaceDamage]
  split_ifs <;> simp [*]


@[simp]
theorem SetNewRootSurface_max_pending_swaps_
    (d : Deps) (e : Env) (s : Sys) (root_surface_id : SurfaceId) :
    (s.orFault (SetNewRootSurface d e s root_surface_id)).max_pending_swaps_ =
      s.max_pending_swaps_ := by
  rcases orFault_SetNewRootSurface d e s root_surface_id with h | ⟨fault, h⟩ <;>
    rw [h] <;> simp

@[simp]
theorem OnSurfaceMarkedForDestruction_max_pending_swaps_
    (d : Deps) (e : Env) (s : Sys) (surface_id : SurfaceId) :
    (OnSurfaceMarkedForDestruction d e s surface_id).max_pending_swaps_ = s.max_pending_swaps_ := by
  simp only [OnSurfaceMarkedForDestruction]
  cases findState s.surface_states_ surface_id with
  | none => rfl
  | some st =>
    simp only []
    split_ifs <;> simp

@[simp]
theorem OnSurfaceDamaged_max_pending_swaps_
    (d : Deps) (e : Env) (s : Sys) (surface_id : SurfaceId) (ack : BeginFrameAck) :
    ((OnSurfaceDamaged d e s surface_id ack).1).max_pending_swaps_ = s.max_pending_swaps_ := by
  simp only [OnSurfaceDamaged]
  split_ifs <;> simp [*]

@[simp]
theorem OnSurfaceDestroyed_max_pending_swaps_ (s : Sys) (surface_id : SurfaceId) :
    (OnSurfaceDestroyed s surface_id).max_pending_swaps_ = s.max_pending_swaps_ := by
  simp only [OnSurfaceDestroyed]
  split_ifs <;> simp [*]

@[simp]
theorem OnSurfaceDamageExpected_max_pending_swaps_
    (d : Deps) (e : Env) (s : Sys) (surface_id : SurfaceId) (args : BeginFrameArgs) :
    (OnSurfaceDamageExpected d e s surface_id args).max_pending_swaps_ = s.max_pending_swaps_ := by
  simp only [OnSurfaceDamageExpected]
  split_ifs <;> simp [*]

@[simp]
theorem DidReceiveSwapBuffersAck_max_pending_swaps_ (d : Deps) (e : Env) (s : Sys) :
    (DidReceiveSwapBuffersAck d e s).max_pending_swaps_ = s.max_pending_swaps_ := by
  simp only [DidReceiveSwapBuffersAck]
  cases e.begin_frame_on_not_busy <;> simp

@[simp]
theorem NotifyFirstSurfaceActivation_max_pending_swaps_ (d : Deps) (e : Env) (s : Sys) :
    (NotifyFirstSurfaceActivation d e s).max_pending_swaps_ = s.max_pending_swaps_ := by
  simp only [NotifyFirstSurfaceActivation]
  split_ifs <;> simp [*]

@[simp]
theorem NotifyFirstSetVisibleActivationTimeout_max_pending_swaps_ (d : Deps) (e : Env) (s : Sys) :
    (NotifyFirstSetVisibleActivationTimeout d e s).max_pending_swaps_ = s.max_pending_swaps_ := by
  simp [NotifyFirstSetVisibleActivationTimeout]

@[simp]
theorem RenderProcessGone_max_pending_swaps_ (s : Sys) :
    (RenderProcessGone s).max_pending_swaps_ = s.max_pending_swaps_ := by
  simp [RenderProcessGone]

@[simp]
theorem finishSurfaceActivatedEx_max_pending_swaps_
    (d : Deps) (e : Env) (s : Sys) (surface_id : SurfaceId)
    (needs_first_surface_activation : Bool) (timeout_to_post : Nat) :
    (finishSurfaceActivatedEx d e s surface_id needs_first_surface_activation
      timeout_to_post).max_pending_swaps_ =
      s.max_pending_swaps_ := by
  simp only [finishSurfaceActivatedEx]
  split_ifs <;> simp [*]

@[simp]
theorem resetAndPaintBlocks_max_pending_swaps_
    (d : Deps) (e : Env) (s : Sys) (surface_id : SurfaceId)
    (is_first_contentful_paint did_reset_container_state relaunch : Bool)
    (needs_first_surface_activation : Bool) (timeout_to_post : Nat) :
    (resetAndPaintBlocks d e s surface_id is_first_contentful_paint did_reset_container_state
      relaunch needs_first_surface_activation timeout_to_post).max_pending_swaps_ =
      s.max_pending_swaps_ := by
  simp only [resetAndPaintBlocks]
  split_ifs <;> simp [*]

@[simp]
theorem OnSurfaceActivatedEx_max_pending_swaps_
    (d : Deps) (e : Env) (s : Sys) (surface_id : SurfaceId)
    (is_first_contentful_paint did_reset_container_state seen_first_contentful_paint : Bool) :
    (OnSurfaceActivatedEx d e s surface_id is_first_contentful_paint did_reset_container_state
      seen_first_contentful_paint).max_pending_swaps_ =
      s.max_pending_swaps_ := by
  simp only [OnSurfaceActivatedEx]
  split_ifs <;> simp [*]

@[simp]
theorem SetClient_max_pending_swaps_ (s : Sys) (client : Bool) :
    (SetClient s client).max_pending_swaps_ = s.max_pending_swaps_ := by
  simp [SetClient]

/-! ### Member functions that leave `client_` unchanged -/

@[simp]
theorem StopObservingBeginFrames_client_ (s : Sys) :
    (StopObservingBeginFrames s).client_ = s.client_ := by
  simp only [StopObservingBeginFrames]
  split_ifs <;> simp [*]

@[simp]
theorem DidSwapBuffers_client_ (s : Sys) :
    (DidSwapBuffers s).client_ = s.client_ := by
  simp only [DidSwapBuffers]
  split_ifs <;> simp [*]

@[simp]
theorem clientSwaps_client_ (n : Nat) (s : Sys) :
    (clientSwaps n s).client_ = s.client_ := by
  induction n generalizing s with
  | zero => rfl
  | succ k ih => simp [clientSwaps, ih]

@[simp]
theorem DrawAndSwap_client_ (e : Env) (s : Sys) :
    ((DrawAndSwap e s).1).client_ = s.client_ := by
  simp only [DrawAndSwap]
  split_ifs <;> simp [*]

@[simp]
theorem AttemptDrawAndSwap_client_ (e : Env) (s : Sys) :
    ((AttemptDrawAndSwap e s).1).client_ = s.client_ := by
  simp only [AttemptDrawAndSwap]
  split_ifs <;> simp [*]

@[simp]
theorem DidFinishFrame_client_ (s : Sys) (did_draw : Bool) :
    (DidFinishFrame s did_draw).client_ = s.client_ := by
  simp only [DidFinishFrame]
  split_ifs <;> simp [*]

@[simp]
theorem OnBeginFrameDeadline_client_ (e : Env) (s : Sys) :
    (OnBeginFrameDeadline e s).client_ = s.client_ := by
  simp [OnBeginFrameDeadline]

@[simp]
theorem ForceImmediateSwapIfPossible_client_ (e : Env) (s : Sys) :
    (ForceImmediateSwapIfPossible e s).client_ = s.client_ := by
  simp only [ForceImmediateSwapIfPossible]
  split_ifs <;> simp [*]

@[simp]
theorem UpdateHasPendingSurfaces_client_ (e : Env) (s : Sys) :
    ((UpdateHasPendingSurfaces e s).1).client_ = s.client_ := by
  simp only [UpdateHasPendingSurfaces]
  split_ifs <;> simp [*]

@[simp]
theorem ScheduleBeginFrameDeadline_client_ (d : Deps) (e : Env) (s : Sys) :
    (ScheduleBeginFrameDeadline d e s).client_ = s.client_ := by
  simp only [ScheduleBeginFrameDeadline]
  split_ifs <;> simp [*]

@[simp]
theorem OnBeginFrameDerivedImpl_client_ (d : Deps) (e : Env) (s : Sys) (args : BeginFrameArgs) :
    ((OnBeginFrameDerivedImpl d e s args).1).client_ = s.client_ := by
  simp only [OnBeginFrameDerivedImpl]
  split_ifs <;> simp [*]

@[simp]
theorem StartObservingBeginFrames_client_ (d : Deps) (e : Env) (s : Sys) :
    (StartObservingBeginFrames d e s).client_ = s.client_ := by
  simp only [StartObservingBeginFrames]
  cases e.missed_on_add <;> split_ifs <;> simp

@[simp]
theorem SetNeedsOneBeginFrame_client_ (d : Deps) (e : Env) (s : Sys) :
    (SetNeedsOneBeginFrame d e s).client_ = s.client_ := by
  simp [SetNeedsOneBeginFrame]

@[simp]
theorem MaybeStartObservingBeginFrames_client_ (d : Deps) (e : Env) (s : Sys) :
    (MaybeStartObservingBeginFrames d e s).client_ = s.client_ := by
  simp only [MaybeStartObservingBeginFrames]
  split_ifs <;> simp [*]

@[simp]
theorem SetVisible_client_ (d : Deps) (e : Env) (s : Sys) (visible : Bool) :
    (SetVisible d e s visible).client_ = s.client_ := by
  simp only [SetVisible]
  split_ifs <;> simp [*]

@[simp]
theorem SetRootFrameMissing_client_ (d : Deps) (e : Env) (s : Sys) (missing : Bool) :
    (SetRootFrameMissing d e s missing).client_ = s.client_ := by
  simp only [SetRootFrameMissing]
  split_ifs <;> simp [*]

@[simp]
theorem DisplayResized_client_ (d : Deps) (e : Env) (s : Sys) :
    (DisplayResized d e s).client_ = s.client_ := by
  simp [DisplayResized]

@[simp]
theorem OutputSurfaceLost_client_ (d : Deps) (e : Env) (s : Sys) :
    (OutputSurfaceLost d e s).client_ = s.client_ := by
  simp [OutputSurfaceLost]

@[simp]
theorem markDisplayDamaged_client_ (d : Deps) (e : Env) (s : Sys) (surface_id : SurfaceId) :
    (markDisplayDamaged d e s surface_id).client_ = s.client_ := by
  simp only [markDisplayDamaged]
  split_ifs <;> simp [*]

@[simp]
theorem updateSurfaceState_client_
    (d : Deps) (s : Sys) (surface_id : SurfaceId) (ack : BeginFrameAck) :
    ((updateSurfaceState d s surface_id ack).1).client_ = s.client_ := by
  simp only [updateSurfaceState]
  cases findState s.surface_states_ surface_id <;> simp only [] <;> split_ifs <;> simp

@[simp]
theorem rearmAfterDamage_client_ (d : Deps) (e : Env) (s : Sys) (valid_ack display_damaged : Bool) :
    (rearmAfterDamage d e s valid_ack display_damaged).client_ = s.client_ := by
  simp only [rearmAfterDamage]
  split_ifs <;> simp [*]

@[simp]
theorem ProcessSurfaceDamage_client_
    (d : Deps) (e : Env) (s : Sys) (surface_id : SurfaceId) (ack : BeginFrameAck)
    (display_damaged : Bool) :
    (ProcessSurfaceDamage d e s surface_id ack display_damaged).client_ = s.client_ := by
  simp only [ProcessSurfaceDamage]
  split_ifs <;> simp [*]


@[simp]
theorem SetNewRootSurface_client_ (d : Deps) (e : Env) (s : Sys) (root_surface_id : SurfaceId) :
    (s.orFault (SetNewRootSurface d e s root_surface_id)).client_ = s.client_ := by
  rcases orFault_SetNewRootSurface d e s root_surface_id with h | ⟨fault, h⟩ <;>
    rw [h] <;> simp

@[simp]
theorem OnSurfaceMarkedForDestruction_client_
    (d : Deps) (e : Env) (s : Sys) (surface_id : SurfaceId) :
    (OnSurfaceMarkedForDestruction d e s surface_id).client_ = s.client_ := by
  simp only [OnSurfaceMarkedForDestruction]
  cases findState s.surface_states_ surface_id with
  | none => rfl
  | some st =>
    simp only []
    split_ifs <;> simp

@[simp]
theorem OnSurfaceDamaged_client_
    (d : Deps) (e : Env) (s : Sys) (surface_id : SurfaceId) (ack : BeginFrameAck) :
    ((OnSurfaceDamaged d e s surface_id ack).1).client_ = s.client_ := by
  simp only [OnSurfaceDamaged]
  split_ifs <;> simp [*]

@[simp]
theorem OnSurfaceDestroyed_client_ (s : Sys) (surface_id : SurfaceId) :
    (OnSurfaceDestroyed s surface_id).client_ = s.client_ := by
  simp only [OnSurfaceDestroyed]
  split_ifs <;> simp [*]

@[simp]
theorem OnSurfaceDamageExpected_client_
    (d : Deps) (e : Env) (s : Sys) (surface_id : SurfaceId) (args : BeginFrameArgs) :
    (OnSurfaceDamageExpected d e s surface_id args).client_ = s.client_ := by
  simp only [OnSurfaceDamageExpected]
  split_ifs <;> simp [*]

@[simp]
theorem DidReceiveSwapBuffersAck_client_ (d : Deps) (e : Env) (s : Sys) :
    (DidReceiveSwapBuffersAck d e s).client_ = s.client_ := by
  simp only [DidReceiveSwapBuffersAck]
  cases e.begin_frame_on_not_busy <;> simp

@[simp]
theorem NotifyFirstSurfaceActivation_client_ (d : Deps) (e : Env) (s : Sys) :
    (NotifyFirstSurfaceActivation d e s).client_ = s.client_ := by
  simp only [NotifyFirstSurfaceActivation]
  split_ifs <;> simp [*]

@[simp]
theorem NotifyFirstSetVisibleActivationTimeout_client_ (d : Deps) (e : Env) (s : Sys) :
    (NotifyFirstSetVisibleActivationTimeout d e s).client_ = s.client_ := by
  simp [NotifyFirstSetVisibleActivationTimeout]

@[simp]
theorem RenderProcessGone_client_ (s : Sys) :
    (RenderProcessGone s).client_ = s.client_ := by
  simp [RenderProcessGone]

@[simp]
theorem finishSurfaceActivatedEx_client_ (d : Deps) (e : Env) (s : Sys) (surface_id : SurfaceId)
    (needs_first_surface_activation : Bool) (timeout_to_post : Nat) :
    (finishSurfaceActivatedEx d e s surface_id needs_first_surface_activation
      timeout_to_post).client_ =
      s.client_ := by
  simp only [finishSurfaceActivatedEx]
  split_ifs <;> simp [*]

@[simp]
theorem resetAndPaintBlocks_client_ (d : Deps) (e : Env) (s : Sys) (surface_id : SurfaceId)
    (is_first_contentful_paint did_reset_container_state relaunch : Bool)
    (needs_first_surface_activation : Bool) (timeout_to_post : Nat) :
    (resetAndPaintBlocks d e s surface_id is_first_contentful_paint did_reset_container_state
      relaunch needs_first_surface_activation timeout_to_post).client_ =
      s.client_ := by
  simp only [resetAndPaintBlocks]
  split_ifs <;> simp [*]

@[simp]
theorem OnSurfaceActivatedEx_client_ (d : Deps) (e : Env) (s : Sys) (surface_id : SurfaceId)
    (is_first_contentful_paint did_reset_container_state seen_first_contentful_paint : Bool) :
    (OnSurfaceActivatedEx d e s surface_id is_first_contentful_paint did_reset_container_state
      seen_first_contentful_paint).client_ =
      s.client_ := by
  simp only [OnSurfaceActivatedEx]
  split_ifs <;> simp [*]

/-! ### Member functions that leave `inside_surface_damaged_` unchanged -/

@[simp]
theorem StopObservingBeginFrames_inside_surface_damaged_ (s : Sys) :
    (StopObservingBeginFrames s).inside_surface_damaged_ = s.inside_surface_damaged_ := by
  simp only [StopObservingBeginFrames]
  split_ifs <;> simp [*]

@[simp]
theorem DidSwapBuffers_inside_surface_damaged_ (s : Sys) :
    (DidSwapBuffers s).inside_surface_damaged_ = s.inside_surface_damaged_ := by
  simp only [DidSwapBuffers]
  split_ifs <;> simp [*]

@[simp]
theorem clientSwaps_inside_surface_damaged_ (n : Nat) (s : Sys) :
    (clientSwaps n s).inside_surface_damaged_ = s.inside_surface_damaged_ := by
  induction n generalizing s with
  | zero => rfl
  | succ k ih => simp [clientSwaps, ih]

@[simp]
theorem DrawAndSwap_inside_surface_damaged_ (e : Env) (s : Sys) :
    ((DrawAndSwap e s).1).inside_surface_damaged_ = s.inside_surface_damaged_ := by
  simp only [DrawAndSwap]
  split_ifs <;> simp [*]

@[simp]
theorem AttemptDrawAndSwap_inside_surface_damaged_ (e : Env) (s : Sys) :
    ((AttemptDrawAndSwap e s).1).inside_surface_damaged_ = s.inside_surface_damaged_ := by
  simp only [AttemptDrawAndSwap]
  split_ifs <;> simp [*]

@[simp]
theorem DidFinishFrame_inside_surface_damaged_ (s : Sys) (did_draw : Bool) :
    (DidFinishFrame s did_draw).inside_surface_damaged_ = s.inside_surface_damaged_ := by
  simp only [DidFinishFrame]
  split_ifs <;> simp [*]

@[simp]
theorem OnBeginFrameDeadline_inside_surface_damaged_ (e : Env) (s : Sys) :
    (OnBeginFrameDeadline e s).inside_surface_damaged_ = s.inside_surface_damaged_ := by
  simp [OnBeginFrameDeadline]

@[simp]
theorem ForceImmediateSwapIfPossible_inside_surface_damaged_ (e : Env) (s : Sys) :
    (ForceImmediateSwapIfPossible e s).inside_surface_damaged_ = s.inside_surface_damaged_ := by
  simp only [ForceImmediateSwapIfPossible]
  split_ifs <;> simp [*]

@[simp]
theorem UpdateHasPendingSurfaces_inside_surface_damaged_ (e : Env) (s : Sys) :
    ((UpdateHasPendingSurfaces e s).1).inside_surface_damaged_ = s.inside_surface_damaged_ := by
  simp only [UpdateHasPendingSurfaces]
  split_ifs <;> simp [*]

@[simp]
theorem ScheduleBeginFrameDeadline_inside_surface_damaged_ (d : Deps) (e : Env) (s : Sys) :
    (ScheduleBeginFrameDeadline d e s).inside_surface_damaged_ = s.inside_surface_damaged_ := by
  simp only [ScheduleBeginFrameDeadline]
  split_ifs <;> simp [*]

@[simp]
theorem OnBeginFrameDerivedImpl_inside_surface_damaged_
    (d : Deps) (e : Env) (s : Sys) (args : BeginFrameArgs) :
    ((OnBeginFrameDerivedImpl d e s args).1).inside_surface_damaged_ =
      s.inside_surface_damaged_ := by
  simp only [OnBeginFrameDerivedImpl]
  split_ifs <;> simp [*]

@[simp]
theorem StartObservingBeginFrames_inside_surface_damaged_ (d : Deps) (e : Env) (s : Sys) :
    (StartObservingBeginFrames d e s).inside_surface_damaged_ = s.inside_surface_damaged_ := by
  simp only [StartObservingBeginFrames]
  cases e.missed_on_add <;> split_ifs <;> simp

@[simp]
theorem SetNeedsOneBeginFrame_inside_surface_damaged_ (d : Deps) (e : Env) (s : Sys) :
    (SetNeedsOneBeginFrame d e s).inside_surface_damaged_ = s.inside_surface_damaged_ := by
  simp [SetNeedsOneBeginFrame]

@[simp]
theorem MaybeStartObservingBeginFrames_inside_surface_damaged_ (d : Deps) (e : Env) (s : Sys) :
    (MaybeStartObservingBeginFrames d e s).inside_surface_damaged_ = s.inside_surface_damaged_ := by
  simp only [MaybeStartObservingBeginFrames]
  split_ifs <;> simp [*]

@[simp]
theorem SetVisible_inside_surface_damaged_ (d : Deps) (e : Env) (s : Sys) (visible : Bool) :
    (SetVisible d e s visible).inside_surface_damaged_ = s.inside_surface_damaged_ := by
  simp only [SetVisible]
  split_ifs <;> simp [*]

@[simp]
theorem SetRootFrameMissing_inside_surface_damaged_
    (d : Deps) (e : Env) (s : Sys) (missing : Bool) :
    (SetRootFrameMissing d e s missing).inside_surface_damaged_ = s.inside_surface_damaged_ := by
  simp only [SetRootFrameMissing]
  split_ifs <;> simp [*]

@[simp]
theorem DisplayResized_inside_surface_damaged_ (d : Deps) (e : Env) (s : Sys) :
    (DisplayResized d e s).inside_surface_damaged_ = s.inside_surface_damaged_ := by
  simp [DisplayResized]

@[simp]
theorem OutputSurfaceLost_inside_surface_damaged_ (d : Deps) (e : Env) (s : Sys) :
    (OutputSurfaceLost d e s).inside_surface_damaged_ = s.inside_surface_damaged_ := by
  simp [OutputSurfaceLost]

@[simp]
theorem markDisplayDamaged_inside_surface_damaged_
    (d : Deps) (e : Env) (s : Sys) (surface_id : SurfaceId) :
    (markDisplayDamaged d e s surface_id).inside_surface_damaged_ = s.inside_surface_damaged_ := by
  simp only [markDisplayDamaged]
  split_ifs <;> simp [*]

@[simp]
theorem updateSurfaceState_inside_surface_damaged_
    (d : Deps) (s : Sys) (surface_id : SurfaceId) (ack : BeginFrameAck) :
    ((updateSurfaceState d s surface_id ack).1).inside_surface_damaged_ =
      s.inside_surface_damaged_ := by
  simp only [updateSurfaceState]
  cases findState s.surface_states_ surface_id <;> simp only [] <;> split_ifs <;> simp

@[simp]
theorem rearmAfterDamage_inside_surface_damaged_
    (d : Deps) (e : Env) (s : Sys) (valid_ack display_damaged : Bool) :
    (rearmAfterDamage d e s valid_ack display_damaged).inside_surface_damaged_ =
      s.inside_surface_damaged_ := by
  simp only [rearmAfterDamage]
  split_ifs <;> simp [*]

@[simp]
theorem ProcessSurfaceDamage_inside_surface_damaged_
    (d : Deps) (e : Env) (s : Sys) (surface_id : SurfaceId) (ack : BeginFrameAck)
    (display_damaged : Bool) :
    (ProcessSurfaceDamage d e s surface_id ack display_damaged).inside_surface_damaged_ =
      s.inside_surface_damaged_ := by
  simp [ProcessSurfaceDamage]


@[simp]
theorem SetNewRootSurface_inside_surface_damaged_
    (d : Deps) (e : Env) (s : Sys) (root_surface_id : SurfaceId) :
    (s.orFault (SetNewRootSurface d e s root_surface_id)).inside_surface_damaged_ =
      s.inside_surface_damaged_ := by
  rcases orFault_SetNewRootSurface d e s root_surface_id with h | ⟨fault, h⟩ <;>
    rw [h] <;> simp

@[simp]
theorem OnSurfaceMarkedForDestruction_inside_surface_damaged_
    (d : Deps) (e : Env) (s : Sys) (surface_id : SurfaceId) :
    (OnSurfaceMarkedForDestruction d e s surface_id).inside_surface_damaged_ =
      s.inside_surface_damaged_ := by
  simp only [OnSurfaceMarkedForDestruction]
  cases findState s.surface_states_ surface_id with
  | none => rfl
  | some st =>
    simp only []
    split_ifs <;> simp

@[simp]
theorem OnSurfaceDamaged_inside_surface_damaged_
    (d : Deps) (e : Env) (s : Sys) (surface_id : SurfaceId) (ack : BeginFrameAck) :
    ((OnSurfaceDamaged d e s surface_id ack).1).inside_surface_damaged_ =
      s.inside_surface_damaged_ := by
  simp only [OnSurfaceDamaged]
  split_ifs <;> simp [*]

@[simp]
theorem OnSurfaceDestroyed_inside_surface_damaged_ (s : Sys) (surface_id : SurfaceId) :
    (OnSurfaceDestroyed s surface_id).inside_surface_damaged_ = s.inside_surface_damaged_ := by
  simp only [OnSurfaceDestroyed]
  split_ifs <;> simp [*]

@[simp]
theorem OnSurfaceDamageExpected_inside_surface_damaged_
    (d : Deps) (e : Env) (s : Sys) (surface_id : SurfaceId) (args : BeginFrameArgs) :
    (OnSurfaceDamageExpected d e s surface_id args).inside_surface_damaged_ =
      s.inside_surface_damaged_ := by
  simp only [OnSurfaceDamageExpected]
  split_ifs <;> simp [*]

@[simp]
theorem DidReceiveSwapBuffersAck_inside_surface_damaged_ (d : Deps) (e : Env) (s : Sys) :
    (DidReceiveSwapBuffersAck d e s).inside_surface_damaged_ = s.inside_surface_damaged_ := by
  simp only [DidReceiveSwapBuffersAck]
  cases e.begin_frame_on_not_busy <;> simp

@[simp]
theorem NotifyFirstSurfaceActivation_inside_surface_damaged_ (d : Deps) (e : Env) (s : Sys) :
    (NotifyFirstSurfaceActivation d e s).inside_surface_damaged_ = s.inside_surface_damaged_ := by
  simp only [NotifyFirstSurfaceActivation]
  split_ifs <;> simp [*]

@[simp]
theorem NotifyFirstSetVisibleActivationTimeout_inside_surface_damaged_
    (d : Deps) (e : Env) (s : Sys) :
    (NotifyFirstSetVisibleActivationTimeout d e s).inside_surface_damaged_ =
      s.inside_surface_damaged_ := by
  simp [NotifyFirstSetVisibleActivationTimeout]

@[simp]
theorem RenderProcessGone_inside_surface_damaged_ (s : Sys) :
    (RenderProcessGone s).inside_surface_damaged_ = s.inside_surface_damaged_ := by
  simp [RenderProcessGone]

@[simp]
theorem finishSurfaceActivatedEx_inside_surface_damaged_
    (d : Deps) (e : Env) (s : Sys) (surface_id : SurfaceId)
    (needs_first_surface_activation : Bool) (timeout_to_post : Nat) :
    (finishSurfaceActivatedEx d e s surface_id needs_first_surface_activation
      timeout_to_post).inside_surface_damaged_ =
      s.inside_surface_damaged_ := by
  simp only [finishSurfaceActivatedEx]
  split_ifs <;> simp [*]

@[simp]
theorem resetAndPaintBlocks_inside_surface_damaged_
    (d : Deps) (e : Env) (s : Sys) (surface_id : SurfaceId)
    (is_first_contentful_paint did_reset_container_state relaunch : Bool)
    (needs_first_surface_activation : Bool) (timeout_to_post : Nat) :
    (resetAndPaintBlocks d e s surface_id is_first_contentful_paint did_reset_container_state
      relaunch needs_first_surface_activation timeout_to_post).inside_surface_damaged_ =
      s.inside_surface_damaged_ := by
  simp only [resetAndPaintBlocks]
  split_ifs <;> simp [*]

@[simp]
theorem OnSurfaceActivatedEx_inside_surface_damaged_
    (d : Deps) (e : Env) (s : Sys) (surface_id : SurfaceId)
    (is_first_contentful_paint did_reset_container_state seen_first_contentful_paint : Bool) :
    (OnSurfaceActivatedEx d e s surface_id is_first_contentful_paint did_reset_container_state
      seen_first_contentful_paint).inside_surface_damaged_ =
      s.inside_surface_damaged_ := by
  simp only [OnSurfaceActivatedEx]
  split_ifs <;> simp [*]

@[simp]
theorem SetClient_inside_surface_damaged_ (s : Sys) (client : Bool) :
    (SetClient s client).inside_surface_damaged_ = s.inside_surface_damaged_ := by
  simp [SetClient]

/-! ### Member functions that leave `output_surface_lost_` unchanged -/

@[simp]
theorem StopObservingBeginFrames_output_surface_lost_ (s : Sys) :
    (StopObservingBeginFrames s).output_surface_lost_ = s.output_surface_lost_ := by
  simp only [StopObservingBeginFrames]
  split_ifs <;> simp [*]

@[simp]
theorem DidSwapBuffers_output_surface_lost_ (s : Sys) :
    (DidSwapBuffers s).output_surface_lost_ = s.output_surface_lost_ := by
  simp only [DidSwapBuffers]
  split_ifs <;> simp [*]

@[simp]
theorem clientSwaps_output_surface_lost_ (n : Nat) (s : Sys) :
    (clientSwaps n s).output_surface_lost_ = s.output_surface_lost_ := by
  induction n generalizing s with
  | zero => rfl
  | succ k ih => simp [clientSwaps, ih]

@[simp]
theorem DrawAndSwap_output_surface_lost_ (e : Env) (s : Sys) :
    ((DrawAndSwap e s).1).output_surface_lost_ = s.output_surface_lost_ := by
  simp only [DrawAndSwap]
  split_ifs <;> simp [*]

@[simp]
theorem AttemptDrawAndSwap_output_surface_lost_ (e : Env) (s : Sys) :
    ((AttemptDrawAndSwap e s).1).output_surface_lost_ = s.output_surface_lost_ := by
  simp only [AttemptDrawAndSwap]
  split_ifs <;> simp [*]

@[simp]
theorem DidFinishFrame_output_surface_lost_ (s : Sys) (did_draw : Bool) :
    (DidFinishFrame s did_draw).output_surface_lost_ = s.output_surface_lost_ := by
  simp only [DidFinishFrame]
  split_ifs <;> simp [*]

@[simp]
theorem OnBeginFrameDeadline_output_surface_lost_ (e : Env) (s : Sys) :
    (OnBeginFrameDeadline e s).output_surface_lost_ = s.output_surface_lost_ := by
  simp [OnBeginFrameDeadline]

@[simp]
theorem ForceImmediateSwapIfPossible_output_surface_lost_ (e : Env) (s : Sys) :
    (ForceImmediateSwapIfPossible e s).output_surface_lost_ = s.output_surface_lost_ := by
  simp only [ForceImmediateSwapIfPossible]
  split_ifs <;> simp [*]

@[simp]
theorem UpdateHasPendingSurfaces_output_surface_lost_ (e : Env) (s : Sys) :
    ((UpdateHasPendingSurfaces e s).1).output_surface_lost_ = s.output_surface_lost_ := by
  simp only [UpdateHasPendingSurfaces]
  split_ifs <;> simp [*]

@[simp]
theorem ScheduleBeginFrameDeadline_output_surface_lost_ (d : Deps) (e : Env) (s : Sys) :
    (ScheduleBeginFrameDeadline d e s).output_surface_lost_ = s.output_surface_lost_ := by
  simp only [ScheduleBeginFrameDeadline]
  split_ifs <;> simp [*]

@[simp]
theorem OnBeginFrameDerivedImpl_output_surface_lost_
    (d : Deps) (e : Env) (s : Sys) (args : BeginFrameArgs) :
    ((OnBeginFrameDerivedImpl d e s args).1).output_surface_lost_ = s.output_surface_lost_ := by
  simp only [OnBeginFrameDerivedImpl]
  split_ifs <;> simp [*]

@[simp]
theorem StartObservingBeginFrames_output_surface_lost_ (d : Deps) (e : Env) (s : Sys) :
    (StartObservingBeginFrames d e s).output_surface_lost_ = s.output_surface_lost_ := by
  simp only [StartObservingBeginFrames]
  cases e.missed_on_add <;> split_ifs <;> simp

@[simp]
theorem SetNeedsOneBeginFrame_output_surface_lost_ (d : Deps) (e : Env) (s : Sys) :
    (SetNeedsOneBeginFrame d e s).output_surface_lost_ = s.output_surface_lost_ := by
  simp [SetNeedsOneBeginFrame]

@[simp]
theorem MaybeStartObservingBeginFrames_output_surface_lost_ (d : Deps) (e : Env) (s : Sys) :
    (MaybeStartObservingBeginFrames d e s).output_surface_lost_ = s.output_surface_lost_ := by
  simp only [MaybeStartObservingBeginFrames]
  split_ifs <;> simp [*]

@[simp]
theorem SetVisible_output_surface_lost_ (d : Deps) (e : Env) (s : Sys) (visible : Bool) :
    (SetVisible d e s visible).output_surface_lost_ = s.output_surface_lost_ := by
  simp only [SetVisible]
  split_ifs <;> simp [*]

@[simp]
theorem SetRootFrameMissing_output_surface_lost_ (d : Deps) (e : Env) (s : Sys) (missing : Bool) :
    (SetRootFrameMissing d e s missing).output_surface_lost_ = s.output_surface_lost_ := by
  simp only [SetRootFrameMissing]
  split_ifs <;> simp [*]

@[simp]
theorem DisplayResized_output_surface_lost_ (d : Deps) (e : Env) (s : Sys) :
    (DisplayResized d e s).output_surface_lost_ = s.output_surface_lost_ := by
  simp [DisplayResized]

@[simp]
theorem markDisplayDamaged_output_surface_lost_
    (d : Deps) (e : Env) (s : Sys) (surface_id : SurfaceId) :
    (markDisplayDamaged d e s surface_id).output_surface_lost_ = s.output_surface_lost_ := by
  simp only [markDisplayDamaged]
  split_ifs <;> simp [*]

@[simp]
theorem updateSurfaceState_output_surface_lost_
    (d : Deps) (s : Sys) (surface_id : SurfaceId) (ack : BeginFrameAck) :
    ((updateSurfaceState d s surface_id ack).1).output_surface_lost_ = s.output_surface_lost_ := by
  simp only [updateSurfaceState]
  cases findState s.surface_states_ surface_id <;> simp only [] <;> split_ifs <;> simp

@[simp]
theorem rearmAfterDamage_output_surface_lost_
    (d : Deps) (e : Env) (s : Sys) (valid_ack display_damaged : Bool) :
    (rearmAfterDamage d e s valid_ack display_damaged).output_surface_lost_ =
      s.output_surface_lost_ := by
  simp only [rearmAfterDamage]
  split_ifs <;> simp [*]

@[simp]
theorem ProcessSurfaceDamage_output_surface_lost_
    (d : Deps) (e : Env) (s : Sys) (surface_id : SurfaceId) (ack : BeginFrameAck)
    (display_damaged : Bool) :
    (ProcessSurfaceDamage d e s surface_id ack display_damaged).output_surface_lost_ =
      s.output_surface_lost_ := by
  simp only [ProcessSurfaceDamage]
  split_ifs <;> simp [*]


@[simp]
theorem SetNewRootSurface_output_surface_lost_
    (d : Deps) (e : Env) (s : Sys) (root_surface_id : SurfaceId) :
    (s.orFault (SetNewRootSurface d e s root_surface_id)).output_surface_lost_ =
      s.output_surface_lost_ := by
  rcases orFault_SetNewRootSurface d e s root_surface_id with h | ⟨fault, h⟩ <;>
    rw [h] <;> simp

@[simp]
theorem OnSurfaceMarkedForDestruction_output_surface_lost_
    (d : Deps) (e : Env) (s : Sys) (surface_id : SurfaceId) :
    (OnSurfaceMarkedForDestruction d e s surface_id).output_surface_lost_ =
      s.output_surface_lost_ := by
  simp only [OnSurfaceMarkedForDestruction]
  cases findState s.surface_states_ surface_id with
  | none => rfl
  | some st =>
    simp only []
    split_ifs <;> simp

@[simp]
theorem OnSurfaceDamaged_output_surface_lost_
    (d : Deps) (e : Env) (s : Sys) (surface_id : SurfaceId) (ack : BeginFrameAck) :
    ((OnSurfaceDamaged d e s surface_id ack).1).output_surface_lost_ = s.output_surface_lost_ := by
  simp only [OnSurfaceDamaged]
  split_ifs <;> simp [*]

@[simp]
theorem OnSurfaceDestroyed_output_surface_lost_ (s : Sys) (surface_id : SurfaceId) :
    (OnSurfaceDestroyed s surface_id).output_surface_lost_ = s.output_surface_lost_ := by
  simp only [OnSurfaceDestroyed]
  split_ifs <;> simp [*]

@[simp]
theorem OnSurfaceDamageExpected_output_surface_lost_
    (d : Deps) (e : Env) (s : Sys) (surface_id : SurfaceId) (args : BeginFrameArgs) :
    (OnSurfaceDamageExpected d e s surface_id args).output_surface_lost_ =
      s.output_surface_lost_ := by
  simp only [OnSurfaceDamageExpected]
  split_ifs <;> simp [*]

@[simp]
theorem DidReceiveSwapBuffersAck_output_surface_lost_ (d : Deps) (e : Env) (s : Sys) :
    (DidReceiveSwapBuffersAck d e s).output_surface_lost_ = s.output_surface_lost_ := by
  simp only [DidReceiveSwapBuffersAck]
  cases e.begin_frame_on_not_busy <;> simp

@[simp]
theorem NotifyFirstSurfaceActivation_output_surface_lost_ (d : Deps) (e : Env) (s : Sys) :
    (NotifyFirstSurfaceActivation d e s).output_surface_lost_ = s.output_surface_lost_ := by
  simp only [NotifyFirstSurfaceActivation]
  split_ifs <;> simp [*]

@[simp]
theorem NotifyFirstSetVisibleActivationTimeout_output_surface_lost_ (d : Deps) (e : Env) (s : Sys) :
    (NotifyFirstSetVisibleActivationTimeout d e s).output_surface_lost_ =
      s.output_surface_lost_ := by
  simp [NotifyFirstSetVisibleActivationTimeout]

@[simp]
theorem RenderProcessGone_output_surface_lost_ (s : Sys) :
    (RenderProcessGone s).output_surface_lost_ = s.output_surface_lost_ := by
  simp [RenderProcessGone]

@[simp]
theorem finishSurfaceActivatedEx_output_surface_lost_
    (d : Deps) (e : Env) (s : Sys) (surface_id : SurfaceId)
    (needs_first_surface_activation : Bool) (timeout_to_post : Nat) :
    (finishSurfaceActivatedEx d e s surface_id needs_first_surface_activation
      timeout_to_post).output_surface_lost_ =
      s.output_surface_lost_ := by
  simp only [finishSurfaceActivatedEx]
  split_ifs <;> simp [*]

@[simp]
theorem resetAndPaintBlocks_output_surface_lost_
    (d : Deps) (e : Env) (s : Sys) (surface_id : SurfaceId)
    (is_first_contentful_paint did_reset_container_state relaunch : Bool)
    (needs_first_surface_activation : Bool) (timeout_to_post : Nat) :
    (resetAndPaintBlocks d e s surface_id is_first_contentful_paint did_reset_container_state
      relaunch needs_first_surface_activation timeout_to_post).output_surface_lost_ =
      s.output_surface_lost_ := by
  simp only [resetAndPaintBlocks]
  split_ifs <;> simp [*]

@[simp]
theorem OnSurfaceActivatedEx_output_surface_lost_
    (d : Deps) (e : Env) (s : Sys) (surface_id : SurfaceId)
    (is_first_contentful_paint did_reset_container_state seen_first_contentful_paint : Bool) :
    (OnSurfaceActivatedEx d e s surface_id is_first_contentful_paint did_reset_container_state
      seen_first_contentful_paint).output_surface_lost_ =
      s.output_surface_lost_ := by
  simp only [OnSurfaceActivatedEx]
  split_ifs <;> simp [*]

@[simp]
theorem SetClient_output_surface_lost_ (s : Sys) (client : Bool) :
    (SetClient s client).output_surface_lost_ = s.output_surface_lost_ := by
  simp [SetClient]

/-! ### Member functions that leave `surface_states_` unchanged -/

@[simp]
theorem StopObservingBeginFrames_surface_states_ (s : Sys) :
    (StopObservingBeginFrames s).surface_states_ = s.surface_states_ := by
  simp only [StopObservingBeginFrames]
  split_ifs <;> simp [*]

@[simp]
theorem DidSwapBuffers_surface_states_ (s : Sys) :
    (DidSwapBuffers s).surface_states_ = s.surface_states_ := by
  simp only [DidSwapBuffers]
  split_ifs <;> simp [*]

@[simp]
theorem clientSwaps_surface_states_ (n : Nat) (s : Sys) :
    (clientSwaps n s).surface_states_ = s.surface_states_ := by
  induction n generalizing s with
  | zero => rfl
  | succ k ih => simp [clientSwaps, ih]

@[simp]
theorem DrawAndSwap_surface_states_ (e : Env) (s : Sys) :
    ((DrawAndSwap e s).1).surface_states_ = s.surface_states_ := by
  simp only [DrawAndSwap]
  split_ifs <;> simp [*]

@[simp]
theorem AttemptDrawAndSwap_surface_states_ (e : Env) (s : Sys) :
    ((AttemptDrawAndSwap e s).1).surface_states_ = s.surface_states_ := by
  simp only [AttemptDrawAndSwap]
  split_ifs <;> simp [*]

@[simp]
theorem DidFinishFrame_surface_states_ (s : Sys) (did_draw : Bool) :
    (DidFinishFrame s did_draw).surface_states_ = s.surface_states_ := by
  simp only [DidFinishFrame]
  split_ifs <;> simp [*]

@[simp]
theorem OnBeginFrameDeadline_surface_states_ (e : Env) (s : Sys) :
    (OnBeginFrameDeadline e s).surface_states_ = s.surface_states_ := by
  simp [OnBeginFrameDeadline]

@[simp]
theorem ForceImmediateSwapIfPossible_surface_states_ (e : Env) (s : Sys) :
    (ForceImmediateSwapIfPossible e s).surface_states_ = s.surface_states_ := by
  simp only [ForceImmediateSwapIfPossible]
  split_ifs <;> simp [*]

@[simp]
theorem UpdateHasPendingSurfaces_surface_states_ (e : Env) (s : Sys) :
    ((UpdateHasPendingSurfaces e s).1).surface_states_ = s.surface_states_ := by
  simp only [UpdateHasPendingSurfaces]
  split_ifs <;> simp [*]

@[simp]
theorem ScheduleBeginFrameDeadline_surface_states_ (d : Deps) (e : Env) (s : Sys) :
    (ScheduleBeginFrameDeadline d e s).surface_states_ = s.surface_states_ := by
  simp only [ScheduleBeginFrameDeadline]
  split_ifs <;> simp [*]

@[simp]
theorem OnBeginFrameDerivedImpl_surface_states_
    (d : Deps) (e : Env) (s : Sys) (args : BeginFrameArgs) :
    ((OnBeginFrameDerivedImpl d e s args).1).surface_states_ = s.surface_states_ := by
  simp only [OnBeginFrameDerivedImpl]
  split_ifs <;> simp [*]

@[simp]
theorem StartObservingBeginFrames_surface_states_ (d : Deps) (e : Env) (s : Sys) :
    (StartObservingBeginFrames d e s).surface_states_ = s.surface_states_ := by
  simp only [StartObservingBeginFrames]
  cases e.missed_on_add <;> split_ifs <;> simp

@[simp]
theorem SetNeedsOneBeginFrame_surface_states_ (d : Deps) (e : Env) (s : Sys) :
    (SetNeedsOneBeginFrame d e s).surface_states_ = s.surface_states_ := by
  simp [SetNeedsOneBeginFrame]

@[simp]
theorem MaybeStartObservingBeginFrames_surface_states_ (d : Deps) (e : Env) (s : Sys) :
    (MaybeStartObservingBeginFrames d e s).surface_states_ = s.surface_states_ := by
  simp only [MaybeStartObservingBeginFrames]
  split_ifs <;> simp [*]

@[simp]
theorem SetVisible_surface_states_ (d : Deps) (e : Env) (s : Sys) (visible : Bool) :
    (SetVisible d e s visible).surface_states_ = s.surface_states_ := by
  simp only [SetVisible]
  split_ifs <;> simp [*]

@[simp]
theorem SetRootFrameMissing_surface_states_ (d : Deps) (e : Env) (s : Sys) (missing : Bool) :
    (SetRootFrameMissing d e s missing).surface_states_ = s.surface_states_ := by
  simp only [SetRootFrameMissing]
  split_ifs <;> simp [*]

@[simp]
theorem DisplayResized_surface_states_ (d : Deps) (e : Env) (s : Sys) :
    (DisplayResized d e s).surface_states_ = s.surface_states_ := by
  simp [DisplayResized]

@[simp]
theorem OutputSurfaceLost_surface_states_ (d : Deps) (e : Env) (s : Sys) :
    (OutputSurfaceLost d e s).surface_states_ = s.surface_states_ := by
  simp [OutputSurfaceLost]

@[simp]
theorem markDisplayDamaged_surface_states_ (d : Deps) (e : Env) (s : Sys) (surface_id : SurfaceId) :
    (markDisplayDamaged d e s surface_id).surface_states_ = s.surface_states_ := by
  simp only [markDisplayDamaged]
  split_ifs <;> simp [*]

@[simp]
theorem rearmAfterDamage_surface_states_
    (d : Deps) (e : Env) (s : Sys) (valid_ack display_damaged : Bool) :
    (rearmAfterDamage d e s valid_ack display_damaged).surface_states_ = s.surface_states_ := by
  simp only [rearmAfterDamage]
  split_ifs <;> simp [*]


@[simp]
theorem OnSurfaceDestroyed_surface_states_ (s : Sys) (surface_id : SurfaceId) :
    (OnSurfaceDestroyed s surface_id).surface_states_ = s.surface_states_ := by
  simp only [OnSurfaceDestroyed]
  split_ifs <;> simp [*]

@[simp]
theorem DidReceiveSwapBuffersAck_surface_states_ (d : Deps) (e : Env) (s : Sys) :
    (DidReceiveSwapBuffersAck d e s).surface_states_ = s.surface_states_ := by
  simp only [DidReceiveSwapBuffersAck]
  cases e.begin_frame_on_not_busy <;> simp

@[simp]
theorem NotifyFirstSurfaceActivation_surface_states_ (d : Deps) (e : Env) (s : Sys) :
    (NotifyFirstSurfaceActivation d e s).surface_states_ = s.surface_states_ := by
  simp only [NotifyFirstSurfaceActivation]
  split_ifs <;> simp [*]

@[simp]
theorem NotifyFirstSetVisibleActivationTimeout_surface_states_ (d : Deps) (e : Env) (s : Sys) :
    (NotifyFirstSetVisibleActivationTimeout d e s).surface_states_ = s.surface_states_ := by
  simp [NotifyFirstSetVisibleActivationTimeout]

@[simp]
theorem RenderProcessGone_surface_states_ (s : Sys) :
    (RenderProcessGone s).surface_states_ = s.surface_states_ := by
  simp [RenderProcessGone]

@[simp]
theorem finishSurfaceActivatedEx_surface_states_
    (d : Deps) (e : Env) (s : Sys) (surface_id : SurfaceId)
    (needs_first_surface_activation : Bool) (timeout_to_post : Nat) :
    (finishSurfaceActivatedEx d e s surface_id needs_first_surface_activation
      timeout_to_post).surface_states_ =
      s.surface_states_ := by
  simp only [finishSurfaceActivatedEx]
  split_ifs <;> simp [*]

@[simp]
theorem resetAndPaintBlocks_surface_states_ (d : Deps) (e : Env) (s : Sys) (surface_id : SurfaceId)
    (is_first_contentful_paint did_reset_container_state relaunch : Bool)
    (needs_first_surface_activation : Bool) (timeout_to_post : Nat) :
    (resetAndPaintBlocks d e s surface_id is_first_contentful_paint did_reset_container_state
      relaunch needs_first_surface_activation timeout_to_post).surface_states_ =
      s.surface_states_ := by
  simp only [resetAndPaintBlocks]
  split_ifs <;> simp [*]

@[simp]
theorem OnSurfaceActivatedEx_surface_states_ (d : Deps) (e : Env) (s : Sys) (surface_id : SurfaceId)
    (is_first_contentful_paint did_reset_container_state seen_first_contentful_paint : Bool) :
    (OnSurfaceActivatedEx d e s surface_id is_first_contentful_paint did_reset_container_state
      seen_first_contentful_paint).surface_states_ =
      s.surface_states_ := by
  simp only [OnSurfaceActivatedEx]
  split_ifs <;> simp [*]

@[simp]
theorem SetClient_surface_states_ (s : Sys) (client : Bool) :
    (SetClient s client).surface_states_ = s.surface_states_ := by
  simp [SetClient]

/-! ### Member functions that leave `current_begin_frame_args_` unchanged -/

@[simp]
theorem StopObservingBeginFrames_current_begin_frame_args_ (s : Sys) :
    (StopObservingBeginFrames s).current_begin_frame_args_ = s.current_begin_frame_args_ := by
  simp only [StopObservingBeginFrames]
  split_ifs <;> simp [*]

@[simp]
theorem DidSwapBuffers_current_begin_frame_args_ (s : Sys) :
    (DidSwapBuffers s).current_begin_frame_args_ = s.current_begin_frame_args_ := by
  simp only [DidSwapBuffers]
  split_ifs <;> simp [*]

@[simp]
theorem clientSwaps_current_begin_frame_args_ (n : Nat) (s : Sys) :
    (clientSwaps n s).current_begin_frame_args_ = s.current_begin_frame_args_ := by
  induction n generalizing s with
  | zero => rfl
  | succ k ih => simp [clientSwaps, ih]

@[simp]
theorem DrawAndSwap_current_begin_frame_args_ (e : Env) (s : Sys) :
    ((DrawAndSwap e s).1).current_begin_frame_args_ = s.current_begin_frame_args_ := by
  simp only [DrawAndSwap]
  split_ifs <;> simp [*]

@[simp]
theorem AttemptDrawAndSwap_current_begin_frame_args_ (e : Env) (s : Sys) :
    ((AttemptDrawAndSwap e s).1).current_begin_frame_args_ = s.current_begin_frame_args_ := by
  simp only [AttemptDrawAndSwap]
  split_ifs <;> simp [*]

@[simp]
theorem DidFinishFrame_current_begin_frame_args_ (s : Sys) (did_draw : Bool) :
    (DidFinishFrame s did_draw).current_begin_frame_args_ = s.current_begin_frame_args_ := by
  simp only [DidFinishFrame]
  split_ifs <;> simp [*]

@[simp]
theorem OnBeginFrameDeadline_current_begin_frame_args_ (e : Env) (s : Sys) :
    (OnBeginFrameDeadline e s).current_begin_frame_args_ = s.current_begin_frame_args_ := by
  simp [OnBeginFrameDeadline]

@[simp]
theorem ForceImmediateSwapIfPossible_current_begin_frame_args_ (e : Env) (s : Sys) :
    (ForceImmediateSwapIfPossible e s).current_begin_frame_args_ = s.current_begin_frame_args_ := by
  simp only [ForceImmediateSwapIfPossible]
  split_ifs <;> simp [*]

@[simp]
theorem UpdateHasPendingSurfaces_current_begin_frame_args_ (e : Env) (s : Sys) :
    ((UpdateHasPendingSurfaces e s).1).current_begin_frame_args_ = s.current_begin_frame_args_ := by
  simp only [UpdateHasPendingSurfaces]
  split_ifs <;> simp [*]

@[simp]
theorem ScheduleBeginFrameDeadline_current_begin_frame_args_ (d : Deps) (e : Env) (s : Sys) :
    (ScheduleBeginFrameDeadline d e s).current_begin_frame_args_ = s.current_begin_frame_args_ := by
  simp only [ScheduleBeginFrameDeadline]
  split_ifs <;> simp [*]

@[simp]
theorem DisplayResized_current_begin_frame_args_ (d : Deps) (e : Env) (s : Sys) :
    (DisplayResized d e s).current_begin_frame_args_ = s.current_begin_frame_args_ := by
  simp [DisplayResized]

@[simp]
theorem OutputSurfaceLost_current_begin_frame_args_ (d : Deps) (e : Env) (s : Sys) :
    (OutputSurfaceLost d e s).current_begin_frame_args_ = s.current_begin_frame_args_ := by
  simp [OutputSurfaceLost]

@[simp]
theorem updateSurfaceState_current_begin_frame_args_
    (d : Deps) (s : Sys) (surface_id : SurfaceId) (ack : BeginFrameAck) :
    ((updateSurfaceState d s surface_id ack).1).current_begin_frame_args_ =
      s.current_begin_frame_args_ := by
  simp only [updateSurfaceState]
  cases findState s.surface_states_ surface_id <;> simp only [] <;> split_ifs <;> simp


@[simp]
theorem OnSurfaceMarkedForDestruction_current_begin_frame_args_
    (d : Deps) (e : Env) (s : Sys) (surface_id : SurfaceId) :
    (OnSurfaceMarkedForDestruction d e s surface_id).current_begin_frame_args_ =
      s.current_begin_frame_args_ := by
  simp only [OnSurfaceMarkedForDestruction]
  cases findState s.surface_states_ surface_id with
  | none => rfl
  | some st =>
    simp only []
    split_ifs <;> simp

@[simp]
theorem OnSurfaceDestroyed_current_begin_frame_args_ (s : Sys) (surface_id : SurfaceId) :
    (OnSurfaceDestroyed s surface_id).current_begin_frame_args_ = s.current_begin_frame_args_ := by
  simp only [OnSurfaceDestroyed]
  split_ifs <;> simp [*]

@[simp]
theorem OnSurfaceDamageExpected_current_begin_frame_args_
    (d : Deps) (e : Env) (s : Sys) (surface_id : SurfaceId) (args : BeginFrameArgs) :
    (OnSurfaceDamageExpected d e s surface_id args).current_begin_frame_args_ =
      s.current_begin_frame_args_ := by
  simp only [OnSurfaceDamageExpected]
  split_ifs <;> simp [*]


@[simp]
theorem RenderProcessGone_current_begin_frame_args_ (s : Sys) :
    (RenderProcessGone s).current_begin_frame_args_ = s.current_begin_frame_args_ := by
  simp [RenderProcessGone]

@[simp]
theorem SetClient_current_begin_frame_args_ (s : Sys) (client : Bool) :
    (SetClient s client).current_begin_frame_args_ = s.current_begin_frame_args_ := by
  simp [SetClient]

/-! ### Member functions that leave `pending_swaps_` unchanged -/

@[simp]
theorem StopObservingBeginFrames_pending_swaps_ (s : Sys) :
    (StopObservingBeginFrames s).pending_swaps_ = s.pending_swaps_ := by
  simp only [StopObservingBeginFrames]
  split_ifs <;> simp [*]

@[simp]
theorem DidFinishFrame_pending_swaps_ (s : Sys) (did_draw : Bool) :
    (DidFinishFrame s did_draw).pending_swaps_ = s.pending_swaps_ := by
  simp only [DidFinishFrame]
  split_ifs <;> simp [*]

@[simp]
theorem UpdateHasPendingSurfaces_pending_swaps_ (e : Env) (s : Sys) :
    ((UpdateHasPendingSurfaces e s).1).pending_swaps_ = s.pending_swaps_ := by
  simp only [UpdateHasPendingSurfaces]
  split_ifs <;> simp [*]

@[simp]
theorem ScheduleBeginFrameDeadline_pending_swaps_ (d : Deps) (e : Env) (s : Sys) :
    (ScheduleBeginFrameDeadline d e s).pending_swaps_ = s.pending_swaps_ := by
  simp only [ScheduleBeginFrameDeadline]
  split_ifs <;> simp [*]

@[simp]
theorem DisplayResized_pending_swaps_ (d : Deps) (e : Env) (s : Sys) :
    (DisplayResized d e s).pending_swaps_ = s.pending_swaps_ := by
  simp [DisplayResized]

@[simp]
theorem OutputSurfaceLost_pending_swaps_ (d : Deps) (e : Env) (s : Sys) :
    (OutputSurfaceLost d e s).pending_swaps_ = s.pending_swaps_ := by
  simp [OutputSurfaceLost]

@[simp]
theorem updateSurfaceState_pending_swaps_
    (d : Deps) (s : Sys) (surface_id : SurfaceId) (ack : BeginFrameAck) :
    ((updateSurfaceState d s surface_id ack).1).pending_swaps_ = s.pending_swaps_ := by
  simp only [updateSurfaceState]
  cases findState s.surface_states_ surface_id <;> simp only [] <;> split_ifs <;> simp

@[simp]
theorem rearmAfterDamage_pending_swaps_
    (d : Deps) (e : Env) (s : Sys) (valid_ack display_damaged : Bool) :
    (rearmAfterDamage d e s valid_ack display_damaged).pending_swaps_ = s.pending_swaps_ := by
  simp only [rearmAfterDamage]
  split_ifs <;> simp [*]


@[simp]
theorem OnSurfaceMarkedForDestruction_pending_swaps_
    (d : Deps) (e : Env) (s : Sys) (surface_id : SurfaceId) :
    (OnSurfaceMarkedForDestruction d e s surface_id).pending_swaps_ = s.pending_swaps_ := by
  simp only [OnSurfaceMarkedForDestruction]
  cases findState s.surface_states_ surface_id with
  | none => rfl
  | some st =>
    simp only []
    split_ifs <;> simp

@[simp]
theorem OnSurfaceDestroyed_pending_swaps_ (s : Sys) (surface_id : SurfaceId) :
    (OnSurfaceDestroyed s surface_id).pending_swaps_ = s.pending_swaps_ := by
  simp only [OnSurfaceDestroyed]
  split_ifs <;> simp [*]

@[simp]
theorem OnSurfaceDamageExpected_pending_swaps_
    (d : Deps) (e : Env) (s : Sys) (surface_id : SurfaceId) (args : BeginFrameArgs) :
    (OnSurfaceDamageExpected d e s surface_id args).pending_swaps_ = s.pending_swaps_ := by
  simp only [OnSurfaceDamageExpected]
  split_ifs <;> simp [*]

@[simp]
theorem RenderProcessGone_pending_swaps_ (s : Sys) :
    (RenderProcessGone s).pending_swaps_ = s.pending_swaps_ := by
  simp [RenderProcessGone]

@[simp]
theorem SetClient_pending_swaps_ (s : Sys) (client : Bool) :
    (SetClient s client).pending_swaps_ = s.pending_swaps_ := by
  simp [SetClient]

/-! ### Member functions that leave `needs_draw_` unchanged -/

@[simp]
theorem StopObservingBeginFrames_needs_draw_ (s : Sys) :
    (StopObservingBeginFrames s).needs_draw_ = s.needs_draw_ := by
  simp only [StopObservingBeginFrames]
  split_ifs <;> simp [*]

@[simp]
theorem DidFinishFrame_needs_draw_ (s : Sys) (did_draw : Bool) :
    (DidFinishFrame s did_draw).needs_draw_ = s.needs_draw_ := by
  simp only [DidFinishFrame]
  split_ifs <;> simp [*]

@[simp]
theorem UpdateHasPendingSurfaces_needs_draw_ (e : Env) (s : Sys) :
    ((UpdateHasPendingSurfaces e s).1).needs_draw_ = s.needs_draw_ := by
  simp only [UpdateHasPendingSurfaces]
  split_ifs <;> simp [*]

@[simp]
theorem ScheduleBeginFrameDeadline_needs_draw_ (d : Deps) (e : Env) (s : Sys) :
    (ScheduleBeginFrameDeadline d e s).needs_draw_ = s.needs_draw_ := by
  simp only [ScheduleBeginFrameDeadline]
  split_ifs <;> simp [*]

@[simp]
theorem OutputSurfaceLost_needs_draw_ (d : Deps) (e : Env) (s : Sys) :
    (OutputSurfaceLost d e s).needs_draw_ = s.needs_draw_ := by
  simp [OutputSurfaceLost]

@[simp]
theorem updateSurfaceState_needs_draw_
    (d : Deps) (s : Sys) (surface_id : SurfaceId) (ack : BeginFrameAck) :
    ((updateSurfaceState d s surface_id ack).1).needs_draw_ = s.needs_draw_ := by
  simp only [updateSurfaceState]
  cases findState s.surface_states_ surface_id <;> simp only [] <;> split_ifs <;> simp

@[simp]
theorem rearmAfterDamage_needs_draw_
    (d : Deps) (e : Env) (s : Sys) (valid_ack display_damaged : Bool) :
    (rearmAfterDamage d e s valid_ack display_damaged).needs_draw_ = s.needs_draw_ := by
  simp only [rearmAfterDamage]
  split_ifs <;> simp [*]


@[simp]
theorem OnSurfaceDestroyed_needs_draw_ (s : Sys) (surface_id : SurfaceId) :
    (OnSurfaceDestroyed s surface_id).needs_draw_ = s.needs_draw_ := by
  simp only [OnSurfaceDestroyed]
  split_ifs <;> simp [*]


@[simp]
theorem RenderProcessGone_needs_draw_ (s : Sys) :
    (RenderProcessGone s).needs_draw_ = s.needs_draw_ := by
  simp [RenderProcessGone]

@[simp]
theorem SetClient_needs_draw_ (s : Sys) (client : Bool) :
    (SetClient s client).needs_draw_ = s.needs_draw_ := by
  simp [SetClient]

/-! ### Member functions that leave `inside_begin_frame_deadline_interval_` unchanged -/

@[simp]
theorem StopObservingBeginFrames_inside_begin_frame_deadline_interval_ (s : Sys) :
    (StopObservingBeginFrames s).inside_begin_frame_deadline_interval_ =
      s.inside_begin_frame_deadline_interval_ := by
  simp only [StopObservingBeginFrames]
  split_ifs <;> simp [*]

@[simp]
theorem DidSwapBuffers_inside_begin_frame_deadline_interval_ (s : Sys) :
    (DidSwapBuffers s).inside_begin_frame_deadline_interval_ =
      s.inside_begin_frame_deadline_interval_ := by
  simp only [DidSwapBuffers]
  split_ifs <;> simp [*]

@[simp]
theorem clientSwaps_inside_begin_frame_deadline_interval_ (n : Nat) (s : Sys) :
    (clientSwaps n s).inside_begin_frame_deadline_interval_ =
      s.inside_begin_frame_deadline_interval_ := by
  induction n generalizing s with
  | zero => rfl
  | succ k ih => simp [clientSwaps, ih]

@[simp]
theorem DrawAndSwap_inside_begin_frame_deadline_interval_ (e : Env) (s : Sys) :
    ((DrawAndSwap e s).1).inside_begin_frame_deadline_interval_ =
      s.inside_begin_frame_deadline_interval_ := by
  simp only [DrawAndSwap]
  split_ifs <;> simp [*]

@[simp]
theorem DidFinishFrame_inside_begin_frame_deadline_interval_ (s : Sys) (did_draw : Bool) :
    (DidFinishFrame s did_draw).inside_begin_frame_deadline_interval_ =
      s.inside_begin_frame_deadline_interval_ := by
  simp only [DidFinishFrame]
  split_ifs <;> simp [*]

@[simp]
theorem UpdateHasPendingSurfaces_inside_begin_frame_deadline_interval_ (e : Env) (s : Sys) :
    ((UpdateHasPendingSurfaces e s).1).inside_begin_frame_deadline_interval_ =
      s.inside_begin_frame_deadline_interval_ := by
  simp only [UpdateHasPendingSurfaces]
  split_ifs <;> simp [*]

@[simp]
theorem ScheduleBeginFrameDeadline_inside_begin_frame_deadline_interval_
    (d : Deps) (e : Env) (s : Sys) :
    (ScheduleBeginFrameDeadline d e s).inside_begin_frame_deadline_interval_ =
      s.inside_begin_frame_deadline_interval_ := by
  simp only [ScheduleBeginFrameDeadline]
  split_ifs <;> simp [*]

@[simp]
theorem DisplayResized_inside_begin_frame_deadline_interval_ (d : Deps) (e : Env) (s : Sys) :
    (DisplayResized d e s).inside_begin_frame_deadline_interval_ =
      s.inside_begin_frame_deadline_interval_ := by
  simp [DisplayResized]

@[simp]
theorem OutputSurfaceLost_inside_begin_frame_deadline_interval_ (d : Deps) (e : Env) (s : Sys) :
    (OutputSurfaceLost d e s).inside_begin_frame_deadline_interval_ =
      s.inside_begin_frame_deadline_interval_ := by
  simp [OutputSurfaceLost]

@[simp]
theorem updateSurfaceState_inside_begin_frame_deadline_interval_
    (d : Deps) (s : Sys) (surface_id : SurfaceId) (ack : BeginFrameAck) :
    ((updateSurfaceState d s surface_id ack).1).inside_begin_frame_deadline_interval_ =
      s.inside_begin_frame_deadline_interval_ := by
  simp only [updateSurfaceState]
  cases findState s.surface_states_ surface_id <;> simp only [] <;> split_ifs <;> simp

@[simp]
theorem rearmAfterDamage_inside_begin_frame_deadline_interval_
    (d : Deps) (e : Env) (s : Sys) (valid_ack display_damaged : Bool) :
    (rearmAfterDamage d e s valid_ack display_damaged).inside_begin_frame_deadline_interval_ =
      s.inside_begin_frame_deadline_interval_ := by
  simp only [rearmAfterDamage]
  split_ifs <;> simp [*]


@[simp]
theorem OnSurfaceMarkedForDestruction_inside_begin_frame_deadline_interval_
    (d : Deps) (e : Env) (s : Sys) (surface_id : SurfaceId) :
    (OnSurfaceMarkedForDestruction d e s surface_id).inside_begin_frame_deadline_interval_ =
      s.inside_begin_frame_deadline_interval_ := by
  simp only [OnSurfaceMarkedForDestruction]
  cases findState s.surface_states_ surface_id with
  | none => rfl
  | some st =>
    simp only []
    split_ifs <;> simp

@[simp]
theorem OnSurfaceDestroyed_inside_begin_frame_deadline_interval_
    (s : Sys) (surface_id : SurfaceId) :
    (OnSurfaceDestroyed s surface_id).inside_begin_frame_deadline_interval_ =
      s.inside_begin_frame_deadline_interval_ := by
  simp only [OnSurfaceDestroyed]
  split_ifs <;> simp [*]

@[simp]
theorem OnSurfaceDamageExpected_inside_begin_frame_deadline_interval_
    (d : Deps) (e : Env) (s : Sys) (surface_id : SurfaceId) (args : BeginFrameArgs) :
    (OnSurfaceDamageExpected d e s surface_id args).inside_begin_frame_deadline_interval_ =
      s.inside_begin_frame_deadline_interval_ := by
  simp only [OnSurfaceDamageExpected]
  split_ifs <;> simp [*]


@[simp]
theorem RenderProcessGone_inside_begin_frame_deadline_interval_ (s : Sys) :
    (RenderProcessGone s).inside_begin_frame_deadline_interval_ =
      s.inside_begin_frame_deadline_interval_ := by
  simp [RenderProcessGone]

@[simp]
theorem SetClient_inside_begin_frame_deadline_interval_ (s : Sys) (client : Bool) :
    (SetClient s client).inside_begin_frame_deadline_interval_ =
      s.inside_begin_frame_deadline_interval_ := by
  simp [SetClient]

/-! ### Member functions that leave `begin_frame_deadline_task_` unchanged -/

@[simp]
theorem StopObservingBeginFrames_begin_frame_deadline_task_ (s : Sys) :
    (StopObservingBeginFrames s).begin_frame_deadline_task_ = s.begin_frame_deadline_task_ := by
  simp only [StopObservingBeginFrames]
  split_ifs <;> simp [*]

@[simp]
theorem DidSwapBuffers_begin_frame_deadline_task_ (s : Sys) :
    (DidSwapBuffers s).begin_frame_deadline_task_ = s.begin_frame_deadline_task_ := by
  simp only [DidSwapBuffers]
  split_ifs <;> simp [*]

@[simp]
theorem clientSwaps_begin_frame_deadline_task_ (n : Nat) (s : Sys) :
    (clientSwaps n s).begin_frame_deadline_task_ = s.begin_frame_deadline_task_ := by
  induction n generalizing s with
  | zero => rfl
  | succ k ih => simp [clientSwaps, ih]

@[simp]
theorem DrawAndSwap_begin_frame_deadline_task_ (e : Env) (s : Sys) :
    ((DrawAndSwap e s).1).begin_frame_deadline_task_ = s.begin_frame_deadline_task_ := by
  simp only [DrawAndSwap]
  split_ifs <;> simp [*]

@[simp]
theorem DidFinishFrame_begin_frame_deadline_task_ (s : Sys) (did_draw : Bool) :
    (DidFinishFrame s did_draw).begin_frame_deadline_task_ = s.begin_frame_deadline_task_ := by
  simp only [DidFinishFrame]
  split_ifs <;> simp [*]

@[simp]
theorem UpdateHasPendingSurfaces_begin_frame_deadline_task_ (e : Env) (s : Sys) :
    ((UpdateHasPendingSurfaces e s).1).begin_frame_deadline_task_ =
      s.begin_frame_deadline_task_ := by
  simp only [UpdateHasPendingSurfaces]
  split_ifs <;> simp [*]

@[simp]
theorem updateSurfaceState_begin_frame_deadline_task_
    (d : Deps) (s : Sys) (surface_id : SurfaceId) (ack : BeginFrameAck) :
    ((updateSurfaceState d s surface_id ack).1).begin_frame_deadline_task_ =
      s.begin_frame_deadline_task_ := by
  simp only [updateSurfaceState]
  cases findState s.surface_states_ surface_id <;> simp only [] <;> split_ifs <;> simp


@[simp]
theorem OnSurfaceDestroyed_begin_frame_deadline_task_ (s : Sys) (surface_id : SurfaceId) :
    (OnSurfaceDestroyed s surface_id).begin_frame_deadline_task_ =
      s.begin_frame_deadline_task_ := by
  simp only [OnSurfaceDestroyed]
  split_ifs <;> simp [*]

@[simp]
theorem RenderProcessGone_begin_frame_deadline_task_ (s : Sys) :
    (RenderProcessGone s).begin_frame_deadline_task_ = s.begin_frame_deadline_task_ := by
  simp [RenderProcessGone]

@[simp]
theorem SetClient_begin_frame_deadline_task_ (s : Sys) (client : Bool) :
    (SetClient s client).begin_frame_deadline_task_ = s.begin_frame_deadline_task_ := by
  simp [SetClient]

/-! ### Member functions that leave `log` unchanged -/


@[simp]
theorem RenderProcessGone_log (s : Sys) :
    (RenderProcessGone s).log = s.log := by
  simp [RenderProcessGone]

@[simp]
theorem SetClient_log (s : Sys) (client : Bool) :
    (SetClient s client).log = s.log := by
  simp [SetClient]

/-! ## Theorems: the surface map -/

theorem findState_setState (m : List (SurfaceId × SurfaceBeginFrameState))
    (id id' : SurfaceId) (st : SurfaceBeginFrameState) :
    findState (setState m id st) id' =
      if id' = id then (findState m id).map (fun _ => st) else findState m id' := by
  induction m with
  | nil => simp [findState, setState]
  | cons entry rest ih =>
    by_cases h1 : entry.1 = id <;> by_cases h2 : id' = id
    · subst h2
      simp [findState, setState, h1]
    · have h3 : ¬ id = id' := fun h => h2 h.symm
      simp [findState, setState, h1, h2, h3]
    · subst h2
      simp [findState, setState, h1, ih]
    · simp [findState, setState, h1, h2, ih]

/-- The surface map after the block that updates the surface state: only
the acknowledgment of the damaged surface may be replaced, and only past the
regression guard. -/
theorem updateSurfaceState_surface_states_ (d : Deps) (s : Sys) (surface_id : SurfaceId)
    (ack : BeginFrameAck) :
    (updateSurfaceState d s surface_id ack).1.surface_states_ =
      match findState s.surface_states_ surface_id with
      | some st =>
        if ack.sequence_number ≠ d.kInvalidFrameNumber ∧
            (st.last_ack.source_id ≠ ack.source_id ∨
              st.last_ack.sequence_number < ack.sequence_number) then
          setState s.surface_states_ surface_id { st with last_ack := ack }
        else s.surface_states_
      | none => s.surface_states_ := by
  simp only [updateSurfaceState]
  cases hf : findState s.surface_states_ surface_id with
  | none =>
    simp only []
    split_ifs <;> rfl
  | some st =>
    by_cases hv : ack.sequence_number = d.kInvalidFrameNumber <;>
      by_cases hsrc : st.last_ack.source_id = ack.source_id <;>
      by_cases hlt : st.last_ack.sequence_number < ack.sequence_number <;>
      simp [hv, hsrc, hlt]

/-- The surface map after `ProcessSurfaceDamage`. -/
theorem ProcessSurfaceDamage_surface_states_ (d : Deps) (e : Env) (s : Sys)
    (surface_id : SurfaceId) (ack : BeginFrameAck) (display_damaged : Bool) :
    (ProcessSurfaceDamage d e s surface_id ack display_damaged).surface_states_ =
      match findState s.surface_states_ surface_id with
      | some st =>
        if ack.sequence_number ≠ d.kInvalidFrameNumber ∧
            (st.last_ack.source_id ≠ ack.source_id ∨
              st.last_ack.sequence_number < ack.sequence_number) then
          setState s.surface_states_ surface_id { st with last_ack := ack }
        else s.surface_states_
      | none => s.surface_states_ := by
  have hs : (if display_damaged = true then
        markDisplayDamaged d e { s with inside_surface_damaged_ := true } surface_id
        else ({ s with inside_surface_damaged_ := true } : Sys)).surface_states_ =
      s.surface_states_ := by
    split_ifs <;> simp
  simp only [ProcessSurfaceDamage, rearmAfterDamage_surface_states_,
    updateSurfaceState_surface_states_, hs]

/-- C5: an acknowledgment that `ProcessSurfaceDamage` receives for a surface
whose stored `last_ack` has the same `source_id` and a `sequence_number` at
least as large leaves the surface map, hence every `last_ack`, as it was; and
whenever the `last_ack` found for some surface differs after the call, that
surface is the damaged one, its stored acknowledgment had another `source_id` or
a strictly smaller `sequence_number`, and the new `last_ack` is the incoming
acknowledgment. -/
theorem regressing_ack_never_stored (d : Deps) (e : Env) (s : Sys)
    (surface_id : SurfaceId) (ack : BeginFrameAck) (display_damaged : Bool) :
    (∀ st, findState s.surface_states_ surface_id = some st →
      ack.source_id = st.last_ack.source_id →
      ack.sequence_number ≤ st.last_ack.sequence_number →
      (ProcessSurfaceDamage d e s surface_id ack display_damaged).surface_states_ =
        s.surface_states_) ∧
    (∀ id,
      (findState (ProcessSurfaceDamage d e s surface_id ack display_damaged).surface_states_
          id).map (fun st => st.last_ack) ≠
        (findState s.surface_states_ id).map (fun st => st.last_ack) →
      id = surface_id ∧
      (∃ st, findState s.surface_states_ surface_id = some st ∧
        (st.last_ack.source_id ≠ ack.source_id ∨
          st.last_ack.sequence_number < ack.sequence_number)) ∧
      (findState (ProcessSurfaceDamage d e s surface_id ack display_damaged).surface_states_
          id).map (fun st => st.last_ack) = some ack) := by
  rw [ProcessSurfaceDamage_surface_states_]
  constructor
  · intro st hf hsrc hseq
    have hlt : ¬ st.last_ack.sequence_number < ack.sequence_number := by omega
    simp [hf, hsrc, hlt]
  · intro id hne
    cases hf : findState s.surface_states_ surface_id with
    | none => simp [hf] at hne
    | some st =>
      simp only [hf] at hne ⊢
      split_ifs at hne ⊢ with hc
      · rw [findState_setState] at hne ⊢
        by_cases hid : id = surface_id
        · subst hid
          simp [hf, hc.2]
        · simp [hid] at hne
      · exact absurd rfl hne

/-- Witness of C5: a surface that acknowledged tick 5 receives the acknowledgment
of tick 4 from the same source, and its record still holds tick 5. -/
theorem regressing_ack_never_stored_witness :
    findState ackedScheduler.surface_states_ sampleSurface =
        some { last_args := sampleTick 5, last_ack := BeginFrameAck.ofArgs (sampleTick 5) true } ∧
      (ProcessSurfaceDamage sampleDeps (sampleEnv 0) ackedScheduler sampleSurface
          (BeginFrameAck.ofArgs (sampleTick 4) true) true).surface_states_ =
        ackedScheduler.surface_states_ :=
  ⟨by decide,
    (regressing_ack_never_stored sampleDeps (sampleEnv 0) ackedScheduler sampleSurface
      (BeginFrameAck.ofArgs (sampleTick 4) true) true).1
      { last_args := sampleTick 5, last_ack := BeginFrameAck.ofArgs (sampleTick 5) true }
      (by decide) (by decide) (by decide)⟩
/-! ## Theorems: the swap budget -/

/-- A value in the range of `int` is left as it is by the reduction to 32 bits. -/
theorem wrapInt_of_int (x : Int) (h1 : INT_MIN ≤ x) (h2 : x ≤ INT_MAX) : wrapInt x = x := by
  unfold INT_MIN at h1
  unfold INT_MAX at h2
  unfold wrapInt
  omega

@[simp]
theorem DidSwapBuffers_pending_swaps_ (s : Sys) :
    (DidSwapBuffers s).pending_swaps_ = wrapInt (s.pending_swaps_ + 1) := by
  simp only [DidSwapBuffers]
  split_ifs <;> simp

@[simp]
theorem clientSwaps_pending_swaps_ (n : Nat) (s : Sys) :
    (clientSwaps n s).pending_swaps_ = swapsAfter n s.pending_swaps_ := by
  induction n generalizing s with
  | zero => simp [clientSwaps, swapsAfter]
  | succ k ih => simp only [clientSwaps, ih, swapsAfter, DidSwapBuffers_pending_swaps_]

theorem pendingAfter_refl (n : Nat) (p m : Int) : pendingAfter n p m p :=
  Or.inl rfl

theorem AttemptDrawAndSwap_pendingAfter (e : Env) (s : Sys) (p m : Int)
    (hp : s.pending_swaps_ = p) (hm : s.max_pending_swaps_ = m) :
    pendingAfter e.swaps_in_draw p m (AttemptDrawAndSwap e s).1.pending_swaps_ := by
  subst hp hm
  simp only [AttemptDrawAndSwap, DrawAndSwap, pendingAfter]
  split_ifs <;> simp [*]

theorem OnBeginFrameDeadline_pendingAfter (e : Env) (s : Sys) (p m : Int)
    (hp : s.pending_swaps_ = p) (hm : s.max_pending_swaps_ = m) :
    pendingAfter e.swaps_in_draw p m (OnBeginFrameDeadline e s).pending_swaps_ := by
  simp only [OnBeginFrameDeadline, DidFinishFrame_pending_swaps_]
  exact AttemptDrawAndSwap_pendingAfter e _ _ _ (by simp [hp]) (by simp [hm])

theorem ForceImmediateSwapIfPossible_pendingAfter (e : Env) (s : Sys) (p m : Int)
    (hp : s.pending_swaps_ = p) (hm : s.max_pending_swaps_ = m) :
    pendingAfter e.swaps_in_draw p m (ForceImmediateSwapIfPossible e s).pending_swaps_ := by
  simp only [ForceImmediateSwapIfPossible]
  split_ifs
  · simp only [DidFinishFrame_pending_swaps_]
    exact AttemptDrawAndSwap_pendingAfter e _ _ _ hp hm
  · exact AttemptDrawAndSwap_pendingAfter e _ _ _ hp hm

theorem OnBeginFrameDerivedImpl_pendingAfter (d : Deps) (e : Env) (s : Sys)
    (args : BeginFrameArgs) (p m : Int)
    (hp : s.pending_swaps_ = p) (hm : s.max_pending_swaps_ = m) :
    pendingAfter e.swaps_in_draw p m (OnBeginFrameDerivedImpl d e s args).1.pending_swaps_ := by
  simp only [OnBeginFrameDerivedImpl]
  split_ifs
  · simp [hp, pendingAfter_refl]
  · simp only [ScheduleBeginFrameDeadline_pending_swaps_, UpdateHasPendingSurfaces_pending_swaps_]
    exact OnBeginFrameDeadline_pendingAfter e _ _ _ hp hm
  · simp [hp, pendingAfter_refl]

theorem StartObservingBeginFrames_pendingAfter (d : Deps) (e : Env) (s : Sys) (p m : Int)
    (hp : s.pending_swaps_ = p) (hm : s.max_pending_swaps_ = m) :
    pendingAfter e.swaps_in_draw p m (StartObservingBeginFrames d e s).pending_swaps_ := by
  simp only [StartObservingBeginFrames]
  split_ifs
  · cases e.missed_on_add with
    | none => simp [hp, pendingAfter_refl]
    | some args =>
      exact OnBeginFrameDerivedImpl_pendingAfter d e _ args _ _ (by simp [hp]) (by simp [hm])
  · simp [hp, pendingAfter_refl]

theorem MaybeStartObservingBeginFrames_pendingAfter (d : Deps) (e : Env) (s : Sys) (p m : Int)
    (hp : s.pending_swaps_ = p) (hm : s.max_pending_swaps_ = m) :
    pendingAfter e.swaps_in_draw p m (MaybeStartObservingBeginFrames d e s).pending_swaps_ := by
  simp only [MaybeStartObservingBeginFrames]
  split_ifs
  · exact StartObservingBeginFrames_pendingAfter d e s p m hp hm
  · simp [hp, pendingAfter_refl]

theorem SetVisible_pendingAfter (d : Deps) (e : Env) (s : Sys) (visible : Bool) (p m : Int)
    (hp : s.pending_swaps_ = p) (hm : s.max_pending_swaps_ = m) :
    pendingAfter e.swaps_in_draw p m (SetVisible d e s visible).pending_swaps_ := by
  simp only [SetVisible]
  split_ifs
  · simp [hp, pendingAfter_refl]
  · simp [hp, pendingAfter_refl]
  · simp only [ScheduleBeginFrameDeadline_pending_swaps_]
    exact MaybeStartObservingBeginFrames_pendingAfter d e _ p m hp hm

theorem SetRootFrameMissing_pendingAfter (d : Deps) (e : Env) (s : Sys) (missing : Bool)
    (p m : Int) (hp : s.pending_swaps_ = p) (hm : s.max_pending_swaps_ = m) :
    pendingAfter e.swaps_in_draw p m (SetRootFrameMissing d e s missing).pending_swaps_ := by
  simp only [SetRootFrameMissing]
  split_ifs
  · simp [hp, pendingAfter_refl]
  · simp only [ScheduleBeginFrameDeadline_pending_swaps_]
    exact MaybeStartObservingBeginFrames_pendingAfter d e _ p m hp hm

theorem markDisplayDamaged_pendingAfter (d : Deps) (e : Env) (s : Sys) (surface_id : SurfaceId)
    (p m : Int) (hp : s.pending_swaps_ = p) (hm : s.max_pending_swaps_ = m) :
    pendingAfter e.swaps_in_draw p m (markDisplayDamaged d e s surface_id).pending_swaps_ := by
  simp only [markDisplayDamaged]
  split_ifs <;> exact MaybeStartObservingBeginFrames_pendingAfter d e _ p m hp hm

theorem ProcessSurfaceDamage_pendingAfter (d : Deps) (e : Env) (s : Sys) (surface_id : SurfaceId)
    (ack : BeginFrameAck) (display_damaged : Bool) (p m : Int)
    (hp : s.pending_swaps_ = p) (hm : s.max_pending_swaps_ = m) :
    pendingAfter e.swaps_in_draw p m
      (ProcessSurfaceDamage d e s surface_id ack display_damaged).pending_swaps_ := by
  simp only [ProcessSurfaceDamage, rearmAfterDamage_pending_swaps_,
    updateSurfaceState_pending_swaps_]
  split_ifs
  · exact markDisplayDamaged_pendingAfter d e _ surface_id p m hp hm
  · simp [hp, pendingAfter_refl]

theorem SetNewRootSurface_pendingAfter (d : Deps) (e : Env) (s : Sys)
    (root_surface_id : SurfaceId) (p m : Int)
    (hp : s.pending_swaps_ = p) (hm : s.max_pending_swaps_ = m) :
    pendingAfter e.swaps_in_draw p m
      (s.orFault (SetNewRootSurface d e s root_surface_id)).pending_swaps_ := by
  rcases orFault_SetNewRootSurface d e s root_surface_id with h | ⟨fault, h⟩ <;> rw [h]
  · exact ProcessSurfaceDamage_pendingAfter d e _ _ _ _ p m (by simp [hp]) (by simp [hm])
  · simp [hp, pendingAfter_refl]

theorem OnSurfaceDamaged_pendingAfter (d : Deps) (e : Env) (s : Sys) (surface_id : SurfaceId)
    (ack : BeginFrameAck) (p m : Int)
    (hp : s.pending_swaps_ = p) (hm : s.max_pending_swaps_ = m) :
    pendingAfter e.swaps_in_draw p m (OnSurfaceDamaged d e s surface_id ack).1.pending_swaps_ := by
  simp only [OnSurfaceDamaged]
  split_ifs <;>
    exact ProcessSurfaceDamage_pendingAfter d e _ _ _ _ p m (by simp [hp]) (by simp [hm])

theorem NotifyFirstSurfaceActivation_pendingAfter (d : Deps) (e : Env) (s : Sys) (p m : Int)
    (hp : s.pending_swaps_ = p) (hm : s.max_pending_swaps_ = m) :
    pendingAfter e.swaps_in_draw p m (NotifyFirstSurfaceActivation d e s).pending_swaps_ := by
  simp only [NotifyFirstSurfaceActivation]
  split_ifs
  · simp only [ScheduleBeginFrameDeadline_pending_swaps_]
    exact MaybeStartObservingBeginFrames_pendingAfter d e _ p m hp hm
  · simp [hp, pendingAfter_refl]

theorem finishSurfaceActivatedEx_pendingAfter (d : Deps) (e : Env) (s : Sys)
    (surface_id : SurfaceId) (needs : Bool) (timeout : Nat) (p m : Int)
    (hp : s.pending_swaps_ = p) (hm : s.max_pending_swaps_ = m) :
    pendingAfter e.swaps_in_draw p m
      (finishSurfaceActivatedEx d e s surface_id needs timeout).pending_swaps_ := by
  simp only [finishSurfaceActivatedEx]
  split_ifs
  · simp [hp, pendingAfter_refl]
  · simp [hp, pendingAfter_refl]
  · exact NotifyFirstSurfaceActivation_pendingAfter d e _ p m hp hm
  · simp [hp, pendingAfter_refl]

theorem resetAndPaintBlocks_pendingAfter (d : Deps) (e : Env) (s : Sys)
    (surface_id : SurfaceId) (fcp reset relaunch needs : Bool) (timeout : Nat) (p m : Int)
    (hp : s.pending_swaps_ = p) (hm : s.max_pending_swaps_ = m) :
    pendingAfter e.swaps_in_draw p m
      (resetAndPaintBlocks d e s surface_id fcp reset relaunch needs timeout).pending_swaps_ := by
  simp only [resetAndPaintBlocks]
  split_ifs <;>
    first
    | exact finishSurfaceActivatedEx_pendingAfter d e _ _ _ _ p m hp hm
    | simp [hp, pendingAfter_refl]

theorem OnSurfaceActivatedEx_pendingAfter (d : Deps) (e : Env) (s : Sys)
    (surface_id : SurfaceId) (fcp reset seen : Bool) (p m : Int)
    (hp : s.pending_swaps_ = p) (hm : s.max_pending_swaps_ = m) :
    pendingAfter e.swaps_in_draw p m
      (OnSurfaceActivatedEx d e s surface_id fcp reset seen).pending_swaps_ := by
  simp only [OnSurfaceActivatedEx]
  split_ifs <;>
    first
    | exact resetAndPaintBlocks_pendingAfter d e _ _ _ _ _ _ _ p m hp hm
    | simp [hp, pendingAfter_refl]

/-- Every operation other than `DidSwapBuffers` and `DidReceiveSwapBuffersAck`
changes `pending_swaps_` only through the client's calls during a draw, which
starts below the limit. -/
theorem step_pendingAfter (d : Deps) (s : Sys) (op : Op) (e : Env)
    (h1 : op ≠ Op.DidSwapBuffers) (h2 : op ≠ Op.DidReceiveSwapBuffersAck) :
    pendingAfter e.swaps_in_draw s.pending_swaps_ s.max_pending_swaps_
      (step d s op e).pending_swaps_ := by
  cases op <;> simp only [step]
  case SetClient c => simp [pendingAfter_refl]
  case SetVisible v => exact SetVisible_pendingAfter d e s v _ _ rfl rfl
  case SetRootFrameMissing v => exact SetRootFrameMissing_pendingAfter d e s v _ _ rfl rfl
  case ForceImmediateSwapIfPossible =>
    exact ForceImmediateSwapIfPossible_pendingAfter e s _ _ rfl rfl
  case DisplayResized => simp [pendingAfter_refl]
  case SetNewRootSurface id => exact SetNewRootSurface_pendingAfter d e s id _ _ rfl rfl
  case ProcessSurfaceDamage id ack dd =>
    exact ProcessSurfaceDamage_pendingAfter d e s id ack dd _ _ rfl rfl
  case OutputSurfaceLost => simp [pendingAfter_refl]
  case OnBeginFrameDerivedImpl args =>
    exact OnBeginFrameDerivedImpl_pendingAfter d e s args _ _ rfl rfl
  case SetNeedsOneBeginFrame => exact StartObservingBeginFrames_pendingAfter d e s _ _ rfl rfl
  case OnSurfaceMarkedForDestruction id => simp [pendingAfter_refl]
  case OnSurfaceDamaged id ack => exact OnSurfaceDamaged_pendingAfter d e s id ack _ _ rfl rfl
  case OnSurfaceDestroyed id => simp [pendingAfter_refl]
  case OnSurfaceDamageExpected id args => simp [pendingAfter_refl]
  case DidSwapBuffers => exact absurd rfl h1
  case DidReceiveSwapBuffersAck => exact absurd rfl h2
  case OnSurfaceActivatedEx id fcp reset seen =>
    exact OnSurfaceActivatedEx_pendingAfter d e s id fcp reset seen _ _ rfl rfl
  case NotifyFirstSurfaceActivation =>
    exact NotifyFirstSurfaceActivation_pendingAfter d e s _ _ rfl rfl
  case RenderProcessGone => simp [pendingAfter_refl]
  case RunBeginFrameDeadlineTask =>
    split_ifs
    · exact OnBeginFrameDeadline_pendingAfter e s _ _ rfl rfl
    · exact pendingAfter_refl _ _ _
  case RunMissedBeginFrameTask =>
    cases s.missed_begin_frame_task_ with
    | none => exact pendingAfter_refl _ _ _
    | some args => exact OnBeginFrameDerivedImpl_pendingAfter d e s args _ _ rfl rfl
  case RunNotifyFirstActivationEventuallyTask =>
    split_ifs
    · exact NotifyFirstSurfaceActivation_pendingAfter d e s _ _ rfl rfl
    · exact pendingAfter_refl _ _ _

@[simp]
theorem step_max_pending_swaps_ (d : Deps) (s : Sys) (op : Op) (e : Env) :
    (step d s op e).max_pending_swaps_ = s.max_pending_swaps_ := by
  cases op <;> simp only [step] <;> try simp
  · split_ifs <;> simp
  · cases s.missed_begin_frame_task_ <;> simp
  · split_ifs <;> simp

/-- The swap count after `DidReceiveSwapBuffersAck`: the decremented count, or,
when the tick delivered from its `SetIsGpuBusy(false)` led to a draw, the
decremented count and the swaps the client made during that draw. -/
theorem DidReceiveSwapBuffersAck_pendingAfter (d : Deps) (e : Env) (s : Sys) :
    pendingAfter e.swaps_in_draw (wrapInt (s.pending_swaps_ - 1)) s.max_pending_swaps_
      (DidReceiveSwapBuffersAck d e s).pending_swaps_ := by
  simp only [DidReceiveSwapBuffersAck, ScheduleBeginFrameDeadline_pending_swaps_]
  cases e.begin_frame_on_not_busy with
  | none => exact pendingAfter_refl _ _ _
  | some args => exact OnBeginFrameDerivedImpl_pendingAfter d e _ args _ _ rfl rfl

/-- With no tick delivered from `SetIsGpuBusy(false)`, the swap count after
`DidReceiveSwapBuffersAck` is the decremented count. -/
theorem DidReceiveSwapBuffersAck_pending_swaps_ (d : Deps) (e : Env) (s : Sys)
    (hcb : e.begin_frame_on_not_busy = none) :
    (DidReceiveSwapBuffersAck d e s).pending_swaps_ = wrapInt (s.pending_swaps_ - 1) := by
  simp [DidReceiveSwapBuffersAck, hcb]

/-- The swap count after at most one call of `DidSwapBuffers` below a limit
that is an `int`. -/
theorem swapsAfter_le (n : Nat) (p m : Int) (hn : n ≤ 1) (h0 : 0 ≤ p) (hlt : p < m)
    (hint : m ≤ INT_MAX) : 0 ≤ swapsAfter n p ∧ swapsAfter n p ≤ m := by
  have h1 : wrapInt (p + 1) = p + 1 :=
    wrapInt_of_int _ (by unfold INT_MIN; omega) (by omega)
  match n, hn with
  | 0, _ => simp only [swapsAfter]; omega
  | 1, _ => simp only [swapsAfter, h1]; omega

/-- One operation made in keeping with the swap protocol preserves the swap
budget. -/
theorem step_swapBudgetHolds (d : Deps) (s : Sys) (op : Op) (e : Env)
    (hint : s.max_pending_swaps_ ≤ INT_MAX)
    (h : swapBudgetHolds s) (hop : swapCallAllowed s op = true) (hn : e.swaps_in_draw ≤ 1) :
    swapBudgetHolds (step d s op e) := by
  unfold swapBudgetHolds at h ⊢
  rw [step_max_pending_swaps_]
  by_cases h1 : op = Op.DidSwapBuffers
  · subst h1
    simp only [swapCallAllowed, decide_eq_true_eq] at hop
    simp only [step, DidSwapBuffers_pending_swaps_]
    rw [wrapInt_of_int _ (by unfold INT_MIN; omega) (by omega)]
    omega
  · by_cases h2 : op = Op.DidReceiveSwapBuffersAck
    · subst h2
      simp only [swapCallAllowed, decide_eq_true_eq] at hop
      simp only [step]
      have hw : wrapInt (s.pending_swaps_ - 1) = s.pending_swaps_ - 1 :=
        wrapInt_of_int _ (by unfold INT_MIN; omega) (by omega)
      rcases DidReceiveSwapBuffersAck_pendingAfter d e s with hp | ⟨hlt, hp⟩
      · rw [hp, hw]
        omega
      · rw [hp]
        rw [hw] at hlt ⊢
        exact swapsAfter_le _ _ _ hn (by omega) hlt hint
    · rcases step_pendingAfter d s op e h1 h2 with hp | ⟨hlt, hp⟩
      · rw [hp]
        exact h
      · rw [hp]
        exact swapsAfter_le _ _ _ hn h.1 hlt hint

/-- A run made in keeping with the swap protocol preserves the swap budget. -/
theorem run_swapBudgetHolds (d : Deps) (ops : List (Op × Env)) :
    ∀ s : Sys, s.max_pending_swaps_ ≤ INT_MAX → swapBudgetHolds s →
      obeysSwapProtocol d s ops = true → swapBudgetHolds (run d s ops) := by
  induction ops with
  | nil => intro s _ h _; exact h
  | cons oe rest ih =>
    intro s hint h hops
    simp only [obeysSwapProtocol, Bool.and_eq_true, decide_eq_true_eq] at hops
    exact ih _ (by rw [step_max_pending_swaps_]; exact hint)
      (step_swapBudgetHolds d s oe.1 oe.2 hint h hops.1.1 hops.1.2) hops.2

/-- C6, as stated, fails: from the scheduler constructed with
`max_pending_swaps = 1`, two calls of `DidSwapBuffers` give `pending_swaps_ = 2`,
above the limit, and one call of `DidReceiveSwapBuffersAck` gives
`pending_swaps_ = -1`, below zero. -/
theorem swap_budget_broken_by_unpaired_calls :
    sampleScheduler.max_pending_swaps_ = 1 ∧
      (run sampleDeps sampleScheduler
        [(Op.DidSwapBuffers, sampleEnv 0), (Op.DidSwapBuffers, sampleEnv 0)]).pending_swaps_ = 2 ∧
      (run sampleDeps sampleScheduler
        [(Op.DidReceiveSwapBuffersAck, sampleEnv 0)]).pending_swaps_ = -1 := by
  decide

/-- C6, amended: from construction with `max_pending_swaps ≥ 1` (the argument
is an `int`, so it is at most `INT_MAX`), after any sequence of operations in
which `DidSwapBuffers` is called only while
`pending_swaps_ < max_pending_swaps_` (and at most once by the client during a
`DrawAndSwap`) and `DidReceiveSwapBuffersAck` only while `pending_swaps_ > 0`,
`0 ≤ pending_swaps_ ≤ max_pending_swaps_` holds. -/
theorem swap_budget_under_protocol (d : Deps) (max_pending_swaps : Int)
    (use_viz_fmp_with_timeout : Bool) (viz_fmp_timeout : Nat)
    (wait_for_all_surfaces_before_draw : Bool) (ops : List (Op × Env))
    (hmax : 1 ≤ max_pending_swaps) (hint : max_pending_swaps ≤ INT_MAX)
    (hops : obeysSwapProtocol d (construct d max_pending_swaps use_viz_fmp_with_timeout
      viz_fmp_timeout wait_for_all_surfaces_before_draw) ops = true) :
    swapBudgetHolds (run d (construct d max_pending_swaps use_viz_fmp_with_timeout
      viz_fmp_timeout wait_for_all_surfaces_before_draw) ops) := by
  apply run_swapBudgetHolds d ops _ _ _ hops
  · simpa only [construct] using hint
  · simp only [swapBudgetHolds, construct]
    omega

/-- Witness of the amended C6: the sample scheduler is made visible with root
content and a client, is damaged, draws on the deadline of tick 5 (the client
swaps once) and then receives the swap acknowledgment. -/
theorem swap_budget_under_protocol_witness :
    obeysSwapProtocol sampleDeps (construct sampleDeps 1 false 0 false) drawAndAckOps = true ∧
      (run sampleDeps (construct sampleDeps 1 false 0 false) (drawAndAckOps.take 6)).pending_swaps_
        = 1 ∧
      swapBudgetHolds (run sampleDeps (construct sampleDeps 1 false 0 false) drawAndAckOps) :=
  ⟨by decide, by decide,
    swap_budget_under_protocol sampleDeps 1 false 0 false drawAndAckOps (by decide) (by decide)
      (by decide)⟩

/-! ## Theorems: when the scheduler draws -/

theorem guardedFrom_refl (log : List Effect) : guardedFrom log log :=
  ⟨[], by simp, by simp⟩

theorem guardedFrom_append (base log : List Effect) (ev : Effect)
    (h : guardedFrom base log) (hev : evGuarded ev = true) :
    guardedFrom base (log ++ [ev]) := by
  obtain ⟨added, hlog, hall⟩ := h
  refine ⟨added ++ [ev], by simp [hlog], ?_⟩
  intro x hx
  rcases List.mem_append.mp hx with hx | hx
  · exact hall x hx
  · simp only [List.mem_singleton] at hx
    exact hx ▸ hev

theorem newEvents_of_append (s s' : Sys) (added : List Effect)
    (h : s'.log = s.log ++ added) : newEvents s s' = added := by
  simp [newEvents, h]

theorem emit_guarded (base : List Effect) (s : Sys) (ev : Effect)
    (h : guardedFrom base s.log) (hev : evGuarded ev = true) : guardedFrom base (s.emit ev).log :=
  guardedFrom_append base s.log ev h hev

theorem dcheck_guarded (base : List Effect) (s : Sys) (c : Bool) (check : DCheck)
    (h : guardedFrom base s.log) (hc : c = true ∨ evGuarded (Effect.DCheckFailed check) = true) :
    guardedFrom base (s.dcheck c check).log := by
  simp only [Sys.dcheck]
  split_ifs with hcond
  · exact h
  · rcases hc with hc | hc
    · exact absurd hc hcond
    · exact emit_guarded base s _ h hc

theorem StopObservingBeginFrames_guarded (base : List Effect) (s : Sys) (h : guardedFrom base s.log) :
    guardedFrom base (StopObservingBeginFrames s).log := by
  simp only [StopObservingBeginFrames]
  split_ifs
  · exact emit_guarded base s _ h rfl
  · exact h

theorem DidSwapBuffers_guarded (base : List Effect) (s : Sys) (h : guardedFrom base s.log) :
    guardedFrom base (DidSwapBuffers s).log := by
  simp only [DidSwapBuffers]
  split_ifs
  · exact emit_guarded base _ _ h rfl
  · exact h

theorem clientSwaps_guarded (base : List Effect) (n : Nat) (s : Sys) (h : guardedFrom base s.log) :
    guardedFrom base (clientSwaps n s).log := by
  induction n generalizing s with
  | zero => exact h
  | succ j ih => exact ih _ (DidSwapBuffers_guarded base s h)

theorem DrawAndSwap_guarded (base : List Effect) (e : Env) (s : Sys) (h : guardedFrom base s.log)
    (hdraw : ShouldDraw s.toDisplayScheduler = true)
    (hlt : s.pending_swaps_ < s.max_pending_swaps_)
    (hinside : s.inside_begin_frame_deadline_interval_ = false)
    (htask : s.begin_frame_deadline_task_ = false) :
    guardedFrom base (DrawAndSwap e s).1.log := by
  have hlost : (!s.output_surface_lost_) = true := by
    cases hl : s.output_surface_lost_
    · rfl
    · simp [ShouldDraw, hl] at hdraw
  have h0 : guardedFrom base ((s.dcheck (decide (s.pending_swaps_ < s.max_pending_swaps_))
      DCheck.pending_swaps_lt_max).dcheck (!s.output_surface_lost_)
      DCheck.output_surface_not_lost).log :=
    dcheck_guarded base _ _ _ (dcheck_guarded base s _ _ h (Or.inl (by simp [hlt]))) (Or.inl hlost)
  simp only [DrawAndSwap]
  split_ifs with hc hd
  · refine clientSwaps_guarded base _ _ (emit_guarded base _ _ h0 ?_)
    simp only [dcheck_toDisplayScheduler] at hc ⊢
    simp [evGuarded, drawGuard, hdraw, hlt, hinside, htask, hc]
  · refine clientSwaps_guarded base _ _ (emit_guarded base _ _ h0 ?_)
    simp only [dcheck_toDisplayScheduler] at hc ⊢
    simp [evGuarded, drawGuard, hdraw, hlt, hinside, htask, hc]
  · exact h0

theorem AttemptDrawAndSwap_guarded (base : List Effect) (e : Env) (s : Sys) (h : guardedFrom base s.log) :
    guardedFrom base (AttemptDrawAndSwap e s).1.log := by
  simp only [AttemptDrawAndSwap]
  split_ifs with hdraw hlt
  · exact DrawAndSwap_guarded base e _ h hdraw hlt rfl rfl
  · exact h
  · exact StopObservingBeginFrames_guarded base _ h

theorem DidFinishFrame_guarded (base : List Effect) (s : Sys) (did_draw : Bool)
    (h : guardedFrom base s.log) : guardedFrom base (DidFinishFrame s did_draw).log := by
  simp only [DidFinishFrame]
  split_ifs
  · exact emit_guarded base _ _ (emit_guarded base _ _ h rfl) rfl
  · exact emit_guarded base _ _ h rfl

theorem OnBeginFrameDeadline_guarded (base : List Effect) (e : Env) (s : Sys)
    (h : guardedFrom base s.log) : guardedFrom base (OnBeginFrameDeadline e s).log := by
  simp only [OnBeginFrameDeadline]
  exact DidFinishFrame_guarded base _ _
    (AttemptDrawAndSwap_guarded base e _ (dcheck_guarded base s _ _ h (Or.inr rfl)))

theorem ForceImmediateSwapIfPossible_guarded (base : List Effect) (e : Env) (s : Sys)
    (h : guardedFrom base s.log) : guardedFrom base (ForceImmediateSwapIfPossible e s).log := by
  simp only [ForceImmediateSwapIfPossible]
  split_ifs
  · exact DidFinishFrame_guarded base _ _ (AttemptDrawAndSwap_guarded base e s h)
  · exact AttemptDrawAndSwap_guarded base e s h

@[simp]
theorem UpdateHasPendingSurfaces_log (e : Env) (s : Sys) :
    (UpdateHasPendingSurfaces e s).1.log = s.log := by
  simp only [UpdateHasPendingSurfaces]
  split_ifs <;> rfl

theorem ScheduleBeginFrameDeadline_guarded (base : List Effect) (d : Deps) (e : Env) (s : Sys)
    (h : guardedFrom base s.log) : guardedFrom base (ScheduleBeginFrameDeadline d e s).log := by
  simp only [ScheduleBeginFrameDeadline]
  split_ifs
  · exact dcheck_guarded base s _ _ h (Or.inr rfl)
  · exact h
  · exact h
  · exact emit_guarded base _ _ h rfl

theorem OnBeginFrameDerivedImpl_guarded (base : List Effect) (d : Deps) (e : Env) (s : Sys)
    (args : BeginFrameArgs) (h : guardedFrom base s.log) :
    guardedFrom base (OnBeginFrameDerivedImpl d e s args).1.log := by
  simp only [OnBeginFrameDerivedImpl]
  split_ifs
  · exact emit_guarded base _ _
      (dcheck_guarded base _ _ _ (dcheck_guarded base s _ _ h (Or.inr rfl)) (Or.inr rfl)) rfl
  · refine ScheduleBeginFrameDeadline_guarded base d e _ ?_
    rw [UpdateHasPendingSurfaces_log]
    exact OnBeginFrameDeadline_guarded base e _ h
  · refine ScheduleBeginFrameDeadline_guarded base d e _ ?_
    rw [UpdateHasPendingSurfaces_log]
    exact h

theorem StartObservingBeginFrames_guarded (base : List Effect) (d : Deps) (e : Env) (s : Sys)
    (h : guardedFrom base s.log) : guardedFrom base (StartObservingBeginFrames d e s).log := by
  simp only [StartObservingBeginFrames]
  split_ifs
  · cases e.missed_on_add with
    | none => exact emit_guarded base s _ h rfl
    | some args => exact OnBeginFrameDerivedImpl_guarded base d e _ args (emit_guarded base s _ h rfl)
  · exact h

theorem MaybeStartObservingBeginFrames_guarded (base : List Effect) (d : Deps) (e : Env) (s : Sys)
    (h : guardedFrom base s.log) : guardedFrom base (MaybeStartObservingBeginFrames d e s).log := by
  simp only [MaybeStartObservingBeginFrames]
  split_ifs
  · exact StartObservingBeginFrames_guarded base d e s h
  · exact h

theorem SetVisible_guarded (base : List Effect) (d : Deps) (e : Env) (s : Sys) (visible : Bool)
    (h : guardedFrom base s.log) : guardedFrom base (SetVisible d e s visible).log := by
  simp only [SetVisible]
  split_ifs
  · exact h
  · exact emit_guarded base _ _ h rfl
  · exact ScheduleBeginFrameDeadline_guarded base d e _
      (MaybeStartObservingBeginFrames_guarded base d e _ h)

theorem SetRootFrameMissing_guarded (base : List Effect) (d : Deps) (e : Env) (s : Sys) (missing : Bool)
    (h : guardedFrom base s.log) : guardedFrom base (SetRootFrameMissing d e s missing).log := by
  simp only [SetRootFrameMissing]
  split_ifs
  · exact h
  · exact ScheduleBeginFrameDeadline_guarded base d e _
      (MaybeStartObservingBeginFrames_guarded base d e _ h)

theorem markDisplayDamaged_guarded (base : List Effect) (d : Deps) (e : Env) (s : Sys)
    (surface_id : SurfaceId) (h : guardedFrom base s.log) :
    guardedFrom base (markDisplayDamaged d e s surface_id).log := by
  simp only [markDisplayDamaged]
  split_ifs <;> exact MaybeStartObservingBeginFrames_guarded base d e _ h

@[simp]
theorem updateSurfaceState_log (d : Deps) (s : Sys) (surface_id : SurfaceId)
    (ack : BeginFrameAck) : (updateSurfaceState d s surface_id ack).1.log = s.log := by
  simp only [updateSurfaceState]
  cases findState s.surface_states_ surface_id <;> simp only [] <;> split_ifs <;> rfl

theorem rearmAfterDamage_guarded (base : List Effect) (d : Deps) (e : Env) (s : Sys)
    (valid_ack display_damaged : Bool) (h : guardedFrom base s.log) :
    guardedFrom base (rearmAfterDamage d e s valid_ack display_damaged).log := by
  simp only [rearmAfterDamage]
  split_ifs
  · exact ScheduleBeginFrameDeadline_guarded base d e _
        (by rw [UpdateHasPendingSurfaces_log]; exact h)
  · rw [UpdateHasPendingSurfaces_log]
    exact h
  · exact ScheduleBeginFrameDeadline_guarded base d e _ h
  · exact h

theorem ProcessSurfaceDamage_guarded (base : List Effect) (d : Deps) (e : Env) (s : Sys)
    (surface_id : SurfaceId) (ack : BeginFrameAck) (display_damaged : Bool)
    (h : guardedFrom base s.log) :
    guardedFrom base (ProcessSurfaceDamage d e s surface_id ack display_damaged).log := by
  simp only [ProcessSurfaceDamage]
  refine rearmAfterDamage_guarded base d e _ _ _ ?_
  rw [updateSurfaceState_log]
  split_ifs
  · exact markDisplayDamaged_guarded base d e _ surface_id h
  · exact h

theorem SetNewRootSurface_guarded (base : List Effect) (d : Deps) (e : Env) (s : Sys)
    (root_surface_id : SurfaceId) (h : guardedFrom base s.log) :
    guardedFrom base (s.orFault (SetNewRootSurface d e s root_surface_id)).log := by
  rcases orFault_SetNewRootSurface d e s root_surface_id with h1 | ⟨fault, h1⟩ <;> rw [h1]
  · exact ProcessSurfaceDamage_guarded base d e _ _ _ _ h
  · exact emit_guarded base _ _ h rfl

theorem OnSurfaceMarkedForDestruction_guarded (base : List Effect) (d : Deps) (e : Env) (s : Sys)
    (surface_id : SurfaceId) (h : guardedFrom base s.log) :
    guardedFrom base (OnSurfaceMarkedForDestruction d e s surface_id).log := by
  simp only [OnSurfaceMarkedForDestruction]
  cases findState s.surface_states_ surface_id with
  | none => exact h
  | some st =>
    simp only []
    split_ifs
    · exact ScheduleBeginFrameDeadline_guarded base d e _
        (by rw [UpdateHasPendingSurfaces_log]; exact h)
    · rw [UpdateHasPendingSurfaces_log]
      exact h

theorem OnSurfaceDamaged_guarded (base : List Effect) (d : Deps) (e : Env) (s : Sys)
    (surface_id : SurfaceId) (ack : BeginFrameAck) (h : guardedFrom base s.log) :
    guardedFrom base (OnSurfaceDamaged d e s surface_id ack).1.log := by
  simp only [OnSurfaceDamaged]
  split_ifs
  · exact ProcessSurfaceDamage_guarded base d e _ _ _ _ (emit_guarded base s _ h rfl)
  · exact ProcessSurfaceDamage_guarded base d e _ _ _ _ h

theorem OnSurfaceDestroyed_guarded (base : List Effect) (s : Sys) (surface_id : SurfaceId)
    (h : guardedFrom base s.log) : guardedFrom base (OnSurfaceDestroyed s surface_id).log := by
  simp only [OnSurfaceDestroyed]
  split_ifs
  · exact emit_guarded base s _ h rfl
  · exact h

theorem OnSurfaceDamageExpected_guarded (base : List Effect) (d : Deps) (e : Env) (s : Sys)
    (surface_id : SurfaceId) (args : BeginFrameArgs) (h : guardedFrom base s.log) :
    guardedFrom base (OnSurfaceDamageExpected d e s surface_id args).log := by
  simp only [OnSurfaceDamageExpected]
  split_ifs
  · exact ScheduleBeginFrameDeadline_guarded base d e _
        (by rw [UpdateHasPendingSurfaces_log]; exact h)
  · rw [UpdateHasPendingSurfaces_log]
    exact h

theorem DidReceiveSwapBuffersAck_guarded (base : List Effect) (d : Deps) (e : Env) (s : Sys)
    (h : guardedFrom base s.log) : guardedFrom base (DidReceiveSwapBuffersAck d e s).log := by
  simp only [DidReceiveSwapBuffersAck]
  refine ScheduleBeginFrameDeadline_guarded base d e _ ?_
  cases e.begin_frame_on_not_busy with
  | none => exact emit_guarded base _ _ h rfl
  | some args => exact OnBeginFrameDerivedImpl_guarded base d e _ args (emit_guarded base _ _ h rfl)

theorem NotifyFirstSurfaceActivation_guarded (base : List Effect) (d : Deps) (e : Env) (s : Sys)
    (h : guardedFrom base s.log) : guardedFrom base (NotifyFirstSurfaceActivation d e s).log := by
  simp only [NotifyFirstSurfaceActivation]
  split_ifs
  · exact ScheduleBeginFrameDeadline_guarded base d e _
      (MaybeStartObservingBeginFrames_guarded base d e _ h)
  · exact h

theorem finishSurfaceActivatedEx_guarded (base : List Effect) (d : Deps) (e : Env) (s : Sys)
    (surface_id : SurfaceId) (needs : Bool) (timeout : Nat) (h : guardedFrom base s.log) :
    guardedFrom base (finishSurfaceActivatedEx d e s surface_id needs timeout).log := by
  simp only [finishSurfaceActivatedEx]
  split_ifs
  · exact h
  · exact emit_guarded base _ _ h rfl
  · exact NotifyFirstSurfaceActivation_guarded base d e _ h
  · exact h

theorem resetAndPaintBlocks_guarded (base : List Effect) (d : Deps) (e : Env) (s : Sys)
    (surface_id : SurfaceId) (fcp reset relaunch needs : Bool) (timeout : Nat)
    (h : guardedFrom base s.log) :
    guardedFrom base
      (resetAndPaintBlocks d e s surface_id fcp reset relaunch needs timeout).log := by
  simp only [resetAndPaintBlocks]
  split_ifs <;>
    first
    | exact h
    | exact finishSurfaceActivatedEx_guarded base d e _ _ _ _ h

theorem OnSurfaceActivatedEx_guarded (base : List Effect) (d : Deps) (e : Env) (s : Sys)
    (surface_id : SurfaceId) (fcp reset seen : Bool) (h : guardedFrom base s.log) :
    guardedFrom base (OnSurfaceActivatedEx d e s surface_id fcp reset seen).log := by
  simp only [OnSurfaceActivatedEx]
  split_ifs <;>
    first
    | exact h
    | exact resetAndPaintBlocks_guarded base d e _ _ _ _ _ _ _ h

/-- Every operation keeps the trace in order from any entry on. -/
theorem step_guarded (base : List Effect) (d : Deps) (s : Sys) (op : Op) (e : Env)
    (h : guardedFrom base s.log) : guardedFrom base (step d s op e).log := by
  cases op <;> simp only [step]
  case SetClient c => exact h
  case SetVisible v => exact SetVisible_guarded base d e s v h
  case SetRootFrameMissing v => exact SetRootFrameMissing_guarded base d e s v h
  case ForceImmediateSwapIfPossible => exact ForceImmediateSwapIfPossible_guarded base e s h
  case DisplayResized => exact ScheduleBeginFrameDeadline_guarded base d e _ h
  case SetNewRootSurface id => exact SetNewRootSurface_guarded base d e s id h
  case ProcessSurfaceDamage id ack dd => exact ProcessSurfaceDamage_guarded base d e s id ack dd h
  case OutputSurfaceLost => exact ScheduleBeginFrameDeadline_guarded base d e _ h
  case OnBeginFrameDerivedImpl args => exact OnBeginFrameDerivedImpl_guarded base d e s args h
  case SetNeedsOneBeginFrame => exact StartObservingBeginFrames_guarded base d e s h
  case OnSurfaceMarkedForDestruction id => exact OnSurfaceMarkedForDestruction_guarded base d e s id h
  case OnSurfaceDamaged id ack => exact OnSurfaceDamaged_guarded base d e s id ack h
  case OnSurfaceDestroyed id => exact OnSurfaceDestroyed_guarded base s id h
  case OnSurfaceDamageExpected id args => exact OnSurfaceDamageExpected_guarded base d e s id args h
  case DidSwapBuffers => exact DidSwapBuffers_guarded base s h
  case DidReceiveSwapBuffersAck => exact DidReceiveSwapBuffersAck_guarded base d e s h
  case OnSurfaceActivatedEx id fcp reset seen =>
    exact OnSurfaceActivatedEx_guarded base d e s id fcp reset seen h
  case NotifyFirstSurfaceActivation => exact NotifyFirstSurfaceActivation_guarded base d e s h
  case RenderProcessGone => exact h
  case RunBeginFrameDeadlineTask =>
    split_ifs
    · exact OnBeginFrameDeadline_guarded base e s h
    · exact h
  case RunMissedBeginFrameTask =>
    cases s.missed_begin_frame_task_ with
    | none => exact h
    | some args => exact OnBeginFrameDerivedImpl_guarded base d e s args h
  case RunNotifyFirstActivationEventuallyTask =>
    split_ifs
    · exact NotifyFirstSurfaceActivation_guarded base d e s h
    · exact h

/-- An operation only appends to the trace, and the entries it appends are in
order. -/
theorem step_newEvents_guarded (d : Deps) (s : Sys) (op : Op) (e : Env) :
    (step d s op e).log = s.log ++ newEvents s (step d s op e) ∧
      ∀ ev ∈ newEvents s (step d s op e), evGuarded ev = true := by
  obtain ⟨added, hlog, hall⟩ := step_guarded s.log d s op e (guardedFrom_refl s.log)
  rw [newEvents_of_append s _ added hlog]
  exact ⟨hlog, hall⟩

/-! ### Draws counted in the trace -/

@[simp]
theorem drawCount_nil : drawCount [] = 0 := rfl

@[simp]
theorem drawCount_cons (ev : Effect) (log : List Effect) :
    drawCount (ev :: log) = drawCount log + if ev.isDraw then 1 else 0 := by
  simp [drawCount, List.countP_cons]

@[simp]
theorem drawCount_append (log added : List Effect) :
    drawCount (log ++ added) = drawCount log + drawCount added := by
  simp [drawCount, List.countP_append]

@[simp]
theorem dcheck_drawCount (s : Sys) (c : Bool) (check : DCheck) :
    drawCount (s.dcheck c check).log = drawCount s.log := by
  simp only [Sys.dcheck]
  split_ifs <;> simp [Effect.isDraw]

@[simp]
theorem StopObservingBeginFrames_drawCount (s : Sys) :
    drawCount (StopObservingBeginFrames s).log = drawCount s.log := by
  simp only [StopObservingBeginFrames]
  split_ifs <;> simp [Effect.isDraw]

@[simp]
theorem DidFinishFrame_drawCount (s : Sys) (did_draw : Bool) :
    drawCount (DidFinishFrame s did_draw).log = drawCount s.log := by
  simp only [DidFinishFrame]
  split_ifs <;> simp [Effect.isDraw, Sys.emit]

@[simp]
theorem ScheduleBeginFrameDeadline_drawCount (d : Deps) (e : Env) (s : Sys) :
    drawCount (ScheduleBeginFrameDeadline d e s).log = drawCount s.log := by
  simp only [ScheduleBeginFrameDeadline]
  split_ifs <;> simp [Effect.isDraw]

/-- At the swap limit `AttemptDrawAndSwap` returns false, keeps `needs_draw_` and
does not call the client's draw. -/
theorem AttemptDrawAndSwap_throttled (e : Env) (s : Sys)
    (h : s.max_pending_swaps_ ≤ s.pending_swaps_) :
    (AttemptDrawAndSwap e s).2 = false ∧
      (AttemptDrawAndSwap e s).1.needs_draw_ = s.needs_draw_ ∧
      drawCount (AttemptDrawAndSwap e s).1.log = drawCount s.log := by
  have hlt : ¬ s.pending_swaps_ < s.max_pending_swaps_ := by omega
  simp only [AttemptDrawAndSwap, hlt, if_false]
  split_ifs <;> simp

theorem OnBeginFrameDeadline_throttled (e : Env) (s : Sys)
    (h : s.max_pending_swaps_ ≤ s.pending_swaps_) :
    (OnBeginFrameDeadline e s).needs_draw_ = s.needs_draw_ ∧
      drawCount (OnBeginFrameDeadline e s).log = drawCount s.log := by
  have ha := AttemptDrawAndSwap_throttled e
    (s.dcheck s.inside_begin_frame_deadline_interval_ DCheck.inside_deadline_interval)
    (by simpa using h)
  simp only [OnBeginFrameDeadline, DidFinishFrame_needs_draw_, DidFinishFrame_drawCount]
  simpa using ha.2

theorem ForceImmediateSwapIfPossible_throttled (e : Env) (s : Sys)
    (h : s.max_pending_swaps_ ≤ s.pending_swaps_) :
    (ForceImmediateSwapIfPossible e s).needs_draw_ = s.needs_draw_ ∧
      drawCount (ForceImmediateSwapIfPossible e s).log = drawCount s.log := by
  have ha := AttemptDrawAndSwap_throttled e s h
  simp only [ForceImmediateSwapIfPossible]
  split_ifs
  · simp only [DidFinishFrame_needs_draw_, DidFinishFrame_drawCount]
    exact ha.2
  · exact ha.2

theorem OnBeginFrameDerivedImpl_throttled (d : Deps) (e : Env) (s : Sys) (args : BeginFrameArgs)
    (h : s.max_pending_swaps_ ≤ s.pending_swaps_) :
    (OnBeginFrameDerivedImpl d e s args).1.needs_draw_ = s.needs_draw_ ∧
      drawCount (OnBeginFrameDerivedImpl d e s args).1.log = drawCount s.log := by
  simp only [OnBeginFrameDerivedImpl]
  split_ifs
  · simp [Effect.isDraw]
  · have hd := OnBeginFrameDeadline_throttled e ({ s with missed_begin_frame_task_ := none }) h
    simpa using hd
  · simp

/-- A function that only appends entries in order and keeps the number of draws
has not called the client's draw. -/
theorem no_draw_of_drawCount (s s' : Sys) (hg : guardedFrom s.log s'.log)
    (hc : drawCount s'.log = drawCount s.log) :
    ∀ m, Effect.ClientDrawAndSwap m ∉ newEvents s s' := by
  obtain ⟨added, hlog, _⟩ := hg
  rw [newEvents_of_append s s' added hlog]
  intro m hm
  have h1 : drawCount s'.log = drawCount s.log + drawCount added := by
    simp [hlog]
  have h2 : 0 < drawCount added :=
    List.countP_pos_iff.mpr ⟨_, hm, rfl⟩
  omega


theorem AttemptDrawAndSwap_idle (e : Env) (s : Sys)
    (h : ¬ (ShouldDraw s.toDisplayScheduler = true ∧ s.pending_swaps_ < s.max_pending_swaps_)) :
    drawCount (AttemptDrawAndSwap e s).1.log = drawCount s.log := by
  have hs : ShouldDraw { s.toDisplayScheduler with
      inside_begin_frame_deadline_interval_ := false,
      begin_frame_deadline_task_ := false,
      begin_frame_deadline_task_time_ := 0 } = ShouldDraw s.toDisplayScheduler := by
    simp [ShouldDraw]
  simp only [AttemptDrawAndSwap, hs]
  split_ifs with h1 h2
  · exact absurd ⟨h1, h2⟩ h
  · rfl
  · simp

/-- C7: the client's draw is called only under `ShouldDraw()`.  A call made by
`AttemptDrawAndSwap` from state `s` requires `ShouldDraw()` in `s` (and a free
swap); and for every state and every operation, each call of
`client_->DrawAndSwap()` that the operation adds to the trace was made in a
member state in which `needs_draw_`, not `output_surface_lost_`, `visible_`, not
`root_frame_missing_` and, when `use_viz_fmp_with_timeout_` is set,
`first_surface_activated_` held, and in which the interval had just been closed
and the deadline task cancelled, as `AttemptDrawAndSwap` does before it draws. -/
theorem draws_only_when_should_draw (d : Deps) (e : Env) (s : Sys) :
    (∀ m, Effect.ClientDrawAndSwap m ∈ newEvents s (AttemptDrawAndSwap e s).1 →
      ShouldDraw s.toDisplayScheduler = true ∧ s.pending_swaps_ < s.max_pending_swaps_) ∧
    (∀ op m, Effect.ClientDrawAndSwap m ∈ newEvents s (step d s op e) →
      ShouldDraw m = true ∧
      m.needs_draw_ = true ∧ m.output_surface_lost_ = false ∧ m.visible_ = true ∧
      m.root_frame_missing_ = false ∧
      (m.use_viz_fmp_with_timeout_ = true → m.first_surface_activated_ = true) ∧
      m.inside_begin_frame_deadline_interval_ = false ∧
      m.begin_frame_deadline_task_ = false) := by
  constructor
  · intro m hm
    by_contra hcon
    exact no_draw_of_drawCount s _ (AttemptDrawAndSwap_guarded s.log e s (guardedFrom_refl _))
      (AttemptDrawAndSwap_idle e s hcon) m hm
  · intro op m hm
    have hg := (step_newEvents_guarded d s op e).2 _ hm
    simp only [evGuarded, drawGuard, Bool.and_eq_true, Bool.not_eq_true', decide_eq_true_eq]
      at hg
    obtain ⟨⟨⟨⟨hdraw, _⟩, hin⟩, htask⟩, _⟩ := hg
    refine ⟨hdraw, ?_⟩
    simp only [ShouldDraw] at hdraw
    split_ifs at hdraw with hviz
    · simp only [Bool.and_eq_true, Bool.not_eq_true'] at hdraw
      obtain ⟨⟨⟨⟨h1, h2⟩, h3⟩, h4⟩, h5⟩ := hdraw
      exact ⟨h1, h2, h3, h4, fun _ => h5, hin, htask⟩
    · simp only [Bool.and_eq_true, Bool.not_eq_true'] at hdraw
      obtain ⟨⟨⟨h1, h2⟩, h3⟩, h4⟩ := hdraw
      exact ⟨h1, h2, h3, h4, fun h => absurd h hviz, hin, htask⟩

/-- Witness of C7: on the deadline of tick 5 the sample scheduler calls the
client's draw, in a member state that satisfies `ShouldDraw()`. -/
theorem draws_only_when_should_draw_witness :
    Effect.ClientDrawAndSwap readySnapshot ∈
        newEvents readyScheduler
          (step sampleDeps readyScheduler Op.RunBeginFrameDeadlineTask (sampleEnv 80000)) ∧
      ShouldDraw readySnapshot = true :=
  ⟨by decide,
    ((draws_only_when_should_draw sampleDeps (sampleEnv 80000) readyScheduler).2
      Op.RunBeginFrameDeadlineTask readySnapshot (by decide)).1⟩

/-- C8: the scheduler never draws past the swap limit.  In every state with
`pending_swaps_ ≥ max_pending_swaps_`, `AttemptDrawAndSwap` returns false, keeps
`needs_draw_` and adds no call of `client_->DrawAndSwap()` to the trace, and so
do its callers `OnBeginFrameDeadline`, `OnBeginFrameDerivedImpl` (a new tick
forcing the deadline) and `ForceImmediateSwapIfPossible`; and for every state
and operation, neither of the two `DCHECK`s at the start of `DrawAndSwap` fails,
and every call of `client_->DrawAndSwap()` is made with
`pending_swaps_ < max_pending_swaps_` and the output surface not lost. -/
theorem no_draw_past_swap_limit (d : Deps) (e : Env) (s : Sys) :
    (s.max_pending_swaps_ ≤ s.pending_swaps_ →
      ((AttemptDrawAndSwap e s).2 = false ∧
        (AttemptDrawAndSwap e s).1.needs_draw_ = s.needs_draw_ ∧
        ∀ m, Effect.ClientDrawAndSwap m ∉ newEvents s (AttemptDrawAndSwap e s).1) ∧
      ((OnBeginFrameDeadline e s).needs_draw_ = s.needs_draw_ ∧
        ∀ m, Effect.ClientDrawAndSwap m ∉ newEvents s (OnBeginFrameDeadline e s)) ∧
      (∀ args, (OnBeginFrameDerivedImpl d e s args).1.needs_draw_ = s.needs_draw_ ∧
        ∀ m, Effect.ClientDrawAndSwap m ∉ newEvents s (OnBeginFrameDerivedImpl d e s args).1) ∧
      ((ForceImmediateSwapIfPossible e s).needs_draw_ = s.needs_draw_ ∧
        ∀ m, Effect.ClientDrawAndSwap m ∉ newEvents s (ForceImmediateSwapIfPossible e s))) ∧
    (∀ op, ∀ ev ∈ newEvents s (step d s op e),
      ev ≠ Effect.DCheckFailed DCheck.pending_swaps_lt_max ∧
      ev ≠ Effect.DCheckFailed DCheck.output_surface_not_lost ∧
      ∀ m, ev = Effect.ClientDrawAndSwap m →
        m.pending_swaps_ < m.max_pending_swaps_ ∧ m.output_surface_lost_ = false) := by
  constructor
  · intro h
    have ha := AttemptDrawAndSwap_throttled e s h
    have hb := OnBeginFrameDeadline_throttled e s h
    have hf := ForceImmediateSwapIfPossible_throttled e s h
    refine ⟨⟨ha.1, ha.2.1, ?_⟩, ⟨hb.1, ?_⟩, fun args => ?_, ⟨hf.1, ?_⟩⟩
    · exact no_draw_of_drawCount s _
        (AttemptDrawAndSwap_guarded s.log e s (guardedFrom_refl _)) ha.2.2
    · exact no_draw_of_drawCount s _
        (OnBeginFrameDeadline_guarded s.log e s (guardedFrom_refl _)) hb.2
    · have hc := OnBeginFrameDerivedImpl_throttled d e s args h
      exact ⟨hc.1, no_draw_of_drawCount s _
        (OnBeginFrameDerivedImpl_guarded s.log d e s args (guardedFrom_refl _)) hc.2⟩
    · exact no_draw_of_drawCount s _
        (ForceImmediateSwapIfPossible_guarded s.log e s (guardedFrom_refl _)) hf.2
  · intro op ev hev
    have hg := (step_newEvents_guarded d s op e).2 ev hev
    refine ⟨?_, ?_, ?_⟩
    · intro heq
      subst heq
      simp [evGuarded] at hg
    · intro heq
      subst heq
      simp [evGuarded] at hg
    · intro m heq
      subst heq
      simp only [evGuarded, drawGuard, Bool.and_eq_true, Bool.not_eq_true',
        decide_eq_true_eq] at hg
      obtain ⟨⟨⟨⟨hdraw, hlt⟩, _⟩, _⟩, _⟩ := hg
      refine ⟨hlt, ?_⟩
      cases hl : m.output_surface_lost_
      · rfl
      · simp [ShouldDraw, hl] at hdraw

/-- Witness of C8: the sample scheduler that has drawn once and is damaged again
should draw but is at its swap limit; its `AttemptDrawAndSwap` returns
false. -/
theorem no_draw_past_swap_limit_witness :
    throttledReadyScheduler.max_pending_swaps_ ≤ throttledReadyScheduler.pending_swaps_ ∧
      ShouldDraw throttledReadyScheduler.toDisplayScheduler = true ∧
      (AttemptDrawAndSwap (sampleEnv 0) throttledReadyScheduler).2 = false :=
  ⟨by decide, by decide,
    ((no_draw_past_swap_limit sampleDeps (sampleEnv 0) throttledReadyScheduler).1
      (by decide)).1.1⟩

/-! ## Theorems: tick intervals -/

@[simp]
theorem finishEvents_nil : finishEvents [] = [] := rfl

@[simp]
theorem finishEvents_append (log added : List Effect) :
    finishEvents (log ++ added) = finishEvents log ++ finishEvents added := by
  simp [finishEvents]

@[simp]
theorem finishEvents_cons (ev : Effect) (log : List Effect) :
    finishEvents (ev :: log) = if ev.isFinish then ev :: finishEvents log else finishEvents log := by
  simp only [finishEvents, List.filter_cons]

@[simp]
theorem dcheck_finishEvents (s : Sys) (c : Bool) (check : DCheck) :
    finishEvents (s.dcheck c check).log = finishEvents s.log := by
  simp only [Sys.dcheck]
  split_ifs <;> simp [Effect.isFinish]

@[simp]
theorem StopObservingBeginFrames_finishEvents (s : Sys) :
    finishEvents (StopObservingBeginFrames s).log = finishEvents s.log := by
  simp only [StopObservingBeginFrames]
  split_ifs <;> simp [Effect.isFinish]

@[simp]
theorem DidSwapBuffers_finishEvents (s : Sys) :
    finishEvents (DidSwapBuffers s).log = finishEvents s.log := by
  simp only [DidSwapBuffers]
  split_ifs <;> simp [Effect.isFinish]

@[simp]
theorem clientSwaps_finishEvents (n : Nat) (s : Sys) :
    finishEvents (clientSwaps n s).log = finishEvents s.log := by
  induction n generalizing s with
  | zero => rfl
  | succ k ih => simp [clientSwaps, ih]

@[simp]
theorem DrawAndSwap_finishEvents (e : Env) (s : Sys) :
    finishEvents (DrawAndSwap e s).1.log = finishEvents s.log := by
  simp only [DrawAndSwap]
  split_ifs <;> simp [Effect.isFinish]

@[simp]
theorem AttemptDrawAndSwap_finishEvents (e : Env) (s : Sys) :
    finishEvents (AttemptDrawAndSwap e s).1.log = finishEvents s.log := by
  simp only [AttemptDrawAndSwap]
  split_ifs <;> simp

@[simp]
theorem ScheduleBeginFrameDeadline_finishEvents (d : Deps) (e : Env) (s : Sys) :
    finishEvents (ScheduleBeginFrameDeadline d e s).log = finishEvents s.log := by
  simp only [ScheduleBeginFrameDeadline]
  split_ifs <;> simp [Effect.isFinish]

/-- The reports that `DidFinishFrame` adds: to the begin-frame source, then to
the client if there is one, with the acknowledgment of the current tick. -/
theorem DidFinishFrame_finishEvents (s : Sys) (did_draw : Bool) :
    finishEvents (DidFinishFrame s did_draw).log =
      finishEvents s.log ++ (Effect.SourceDidFinishFrame ::
        if s.client_ then
          [Effect.ClientDidFinishFrame (BeginFrameAck.ofArgs s.current_begin_frame_args_ did_draw)]
        else []) := by
  cases hc : s.client_ <;> simp [DidFinishFrame, Sys.emit, hc, Effect.isFinish]

/-- The value returned by `AttemptDrawAndSwap`: whether the client's draw was
called and succeeded. -/
theorem AttemptDrawAndSwap_snd (e : Env) (s : Sys) :
    (AttemptDrawAndSwap e s).2 =
      (ShouldDraw s.toDisplayScheduler && decide (s.pending_swaps_ < s.max_pending_swaps_) &&
        s.client_ && e.DrawAndSwap) := by
  have hs : ShouldDraw { s.toDisplayScheduler with
      inside_begin_frame_deadline_interval_ := false,
      begin_frame_deadline_task_ := false,
      begin_frame_deadline_task_time_ := 0 } = ShouldDraw s.toDisplayScheduler := by
    simp [ShouldDraw]
  simp only [AttemptDrawAndSwap, DrawAndSwap, hs]
  split_ifs <;> simp_all

theorem OnBeginFrameDeadline_finishEvents (e : Env) (s : Sys) :
    finishEvents (OnBeginFrameDeadline e s).log =
      finishEvents s.log ++ (Effect.SourceDidFinishFrame ::
        if s.client_ then
          [Effect.ClientDidFinishFrame (BeginFrameAck.ofArgs s.current_begin_frame_args_
            (AttemptDrawAndSwap e s).2)]
        else []) := by
  simp only [OnBeginFrameDeadline, DidFinishFrame_finishEvents, AttemptDrawAndSwap_snd]
  simp

@[simp]
theorem AttemptDrawAndSwap_inside (e : Env) (s : Sys) :
    (AttemptDrawAndSwap e s).1.inside_begin_frame_deadline_interval_ = false := by
  simp only [AttemptDrawAndSwap]
  split_ifs <;> simp

@[simp]
theorem AttemptDrawAndSwap_deadline_task (e : Env) (s : Sys) :
    (AttemptDrawAndSwap e s).1.begin_frame_deadline_task_ = false := by
  simp only [AttemptDrawAndSwap]
  split_ifs <;> simp

@[simp]
theorem OnBeginFrameDeadline_inside (e : Env) (s : Sys) :
    (OnBeginFrameDeadline e s).inside_begin_frame_deadline_interval_ = false := by
  simp [OnBeginFrameDeadline]

@[simp]
theorem OnBeginFrameDeadline_deadline_task (e : Env) (s : Sys) :
    (OnBeginFrameDeadline e s).begin_frame_deadline_task_ = false := by
  simp [OnBeginFrameDeadline]

@[simp]
theorem ForceImmediateSwapIfPossible_inside (e : Env) (s : Sys) :
    (ForceImmediateSwapIfPossible e s).inside_begin_frame_deadline_interval_ = false := by
  simp only [ForceImmediateSwapIfPossible]
  split_ifs <;> simp

@[simp]
theorem ForceImmediateSwapIfPossible_deadline_task (e : Env) (s : Sys) :
    (ForceImmediateSwapIfPossible e s).begin_frame_deadline_task_ = false := by
  simp only [ForceImmediateSwapIfPossible]
  split_ifs <;> simp

/-- A tick that is accepted opens the interval. -/
theorem OnBeginFrameDerivedImpl_inside (d : Deps) (e : Env) (s : Sys) (args : BeginFrameArgs)
    (h : s.inside_surface_damaged_ = false) :
    (OnBeginFrameDerivedImpl d e s args).1.inside_begin_frame_deadline_interval_ = true := by
  simp [OnBeginFrameDerivedImpl, h]

/-- The tick stored by an accepted tick: the tick itself, its deadline shortened
by the estimated draw time. -/
theorem OnBeginFrameDerivedImpl_current (d : Deps) (e : Env) (s : Sys) (args : BeginFrameArgs)
    (h : s.inside_surface_damaged_ = false) :
    (OnBeginFrameDerivedImpl d e s args).1.current_begin_frame_args_ =
      { args with deadline := args.deadline - d.DefaultEstimatedDisplayDrawTime args.interval } := by
  simp [OnBeginFrameDerivedImpl, h]

/-- The reports of an accepted tick: none when no interval was open, and those of
the deadline of the open interval otherwise. -/
theorem OnBeginFrameDerivedImpl_finishEvents (d : Deps) (e : Env) (s : Sys)
    (args : BeginFrameArgs) (h : s.inside_surface_damaged_ = false) :
    finishEvents (OnBeginFrameDerivedImpl d e s args).1.log =
      finishEvents s.log ++
        if s.inside_begin_frame_deadline_interval_ then
          Effect.SourceDidFinishFrame ::
            if s.client_ then
              [Effect.ClientDidFinishFrame (BeginFrameAck.ofArgs s.current_begin_frame_args_
                (AttemptDrawAndSwap e s).2)]
            else []
        else [] := by
  cases hin : s.inside_begin_frame_deadline_interval_
  · simp [OnBeginFrameDerivedImpl, h, hin]
  · simp [OnBeginFrameDerivedImpl, h, hin, OnBeginFrameDeadline_finishEvents,
      AttemptDrawAndSwap_snd, ShouldDraw]


@[simp]
theorem intervalsEnded_append (log added : List Effect) :
    intervalsEnded (log ++ added) = intervalsEnded log + intervalsEnded added := by
  simp [intervalsEnded]

/-- What an operation on the interval does to the number of open intervals and
to the number of ended ones, from a state outside `ProcessSurfaceDamage` whose
deadline task is armed only inside an interval: a tick ends the interval that
was open and leaves one open, a completion ends the interval that was open and
leaves none open. -/
theorem step_interval (d : Deps) (s : Sys) (op : Op) (e : Env)
    (hop : op.isIntervalOp = true)
    (hisd : s.inside_surface_damaged_ = false)
    (htask : s.begin_frame_deadline_task_ = true →
      s.inside_begin_frame_deadline_interval_ = true) :
    (step d s op e).inside_surface_damaged_ = false ∧
      ((step d s op e).begin_frame_deadline_task_ = true →
        (step d s op e).inside_begin_frame_deadline_interval_ = true) ∧
      intervalsEnded (step d s op e).log + openIntervals (step d s op e) =
        intervalsEnded s.log + openIntervals s + (if op.isTick then 1 else 0) := by
  cases op <;> simp only [Op.isIntervalOp] at hop <;> try exact absurd hop (by decide)
  case OnBeginFrameDerivedImpl args =>
    have hin := OnBeginFrameDerivedImpl_inside d e s args hisd
    have hf := OnBeginFrameDerivedImpl_finishEvents d e s args hisd
    refine ⟨by simp [step, hisd], fun _ => hin, ?_⟩
    simp only [step, intervalsEnded, openIntervals, hf, hin, Op.isTick]
    cases s.inside_begin_frame_deadline_interval_ <;> cases s.client_ <;> simp
  case RunBeginFrameDeadlineTask =>
    simp only [step, Op.isTick]
    cases ht : s.begin_frame_deadline_task_
    · exact ⟨hisd, by simp [ht], by simp⟩
    · have hin := htask ht
      simp only [if_true]
      refine ⟨by simp [hisd], by simp, ?_⟩
      simp only [intervalsEnded, openIntervals, OnBeginFrameDeadline_finishEvents,
        OnBeginFrameDeadline_inside, hin]
      cases s.client_ <;> simp
  case ForceImmediateSwapIfPossible =>
    simp only [step, Op.isTick]
    refine ⟨by simp [hisd], by simp, ?_⟩
    simp only [intervalsEnded, openIntervals, ForceImmediateSwapIfPossible_inside]
    simp only [ForceImmediateSwapIfPossible]
    cases hin : s.inside_begin_frame_deadline_interval_
    · simp
    · simp only [if_true, DidFinishFrame_finishEvents, AttemptDrawAndSwap_finishEvents,
        AttemptDrawAndSwap_client_]
      cases s.client_ <;> simp

/-- A run of ticks and interval completions keeps the number of open intervals
plus the number of ended intervals equal to the number of ticks accepted. -/
theorem run_interval (d : Deps) (ops : List (Op × Env)) :
    ∀ s : Sys, (∀ oe ∈ ops, oe.1.isIntervalOp = true) →
      s.inside_surface_damaged_ = false →
      (s.begin_frame_deadline_task_ = true → s.inside_begin_frame_deadline_interval_ = true) →
      intervalsEnded (run d s ops).log + openIntervals (run d s ops) =
        intervalsEnded s.log + openIntervals s + ops.countP (fun oe => oe.1.isTick) := by
  induction ops with
  | nil => intro s _ _ _; simp [run]
  | cons oe rest ih =>
    intro s hops hisd htask
    obtain ⟨h1, h2, h3⟩ := step_interval d s oe.1 oe.2 (hops oe (by simp)) hisd htask
    have hrest := ih (step d s oe.1 oe.2) (fun x hx => hops x (by simp [hx])) h1 h2
    simp only [run, hrest, h3, List.countP_cons]
    omega

/-- C9: a tick delivered outside `ProcessSurfaceDamage` leaves the scheduler inside
a deadline interval; `AttemptDrawAndSwap`, run by the deadline or by a forced
completion, leaves it outside; and along every sequence of ticks, deadlines and
forced completions (from a state outside `ProcessSurfaceDamage` whose deadline
task is armed only inside an interval) the intervals ended so far plus the
intervals open equal the ticks accepted, so that no interval is opened while
another is open: the open one is ended first. -/
theorem tick_interval_open_closed (d : Deps) (e : Env) (s : Sys) :
    (∀ args, s.inside_surface_damaged_ = false →
      (OnBeginFrameDerivedImpl d e s args).1.inside_begin_frame_deadline_interval_ = true) ∧
    ((AttemptDrawAndSwap e s).1.inside_begin_frame_deadline_interval_ = false ∧
      (OnBeginFrameDeadline e s).inside_begin_frame_deadline_interval_ = false ∧
      (ForceImmediateSwapIfPossible e s).inside_begin_frame_deadline_interval_ = false) ∧
    (∀ ops : List (Op × Env), (∀ oe ∈ ops, oe.1.isIntervalOp = true) →
      s.inside_surface_damaged_ = false →
      (s.begin_frame_deadline_task_ = true → s.inside_begin_frame_deadline_interval_ = true) →
      intervalsEnded (run d s ops).log + openIntervals (run d s ops) =
        intervalsEnded s.log + openIntervals s + ops.countP (fun oe => oe.1.isTick)) :=
  ⟨fun args h => OnBeginFrameDerivedImpl_inside d e s args h,
    ⟨AttemptDrawAndSwap_inside e s, OnBeginFrameDeadline_inside e s,
      ForceImmediateSwapIfPossible_inside e s⟩,
    fun ops hops hisd htask => run_interval d ops s hops hisd htask⟩

/-- Witness of C9: the sample scheduler receives tick 5, tick 6 and the deadline
of tick 6; two intervals have ended and none is open. -/
theorem tick_interval_open_closed_witness :
    intervalsEnded (run sampleDeps sampleScheduler twoTicksAndDeadline).log = 2 ∧
      openIntervals (run sampleDeps sampleScheduler twoTicksAndDeadline) = 0 ∧
      intervalsEnded (run sampleDeps sampleScheduler twoTicksAndDeadline).log +
          openIntervals (run sampleDeps sampleScheduler twoTicksAndDeadline) =
        intervalsEnded sampleScheduler.log + openIntervals sampleScheduler +
          twoTicksAndDeadline.countP (fun oe => oe.1.isTick) :=
  ⟨by decide, by decide,
    (tick_interval_open_closed sampleDeps (sampleEnv 0) sampleScheduler).2.2
      twoTicksAndDeadline (by decide) (by decide) (by decide)⟩

/-- C10: let tick `t1` be accepted, and let tick `t2` be accepted in a state
`s` in which the interval of `t1` is still open (the stored tick is the one
stored for `t1`) and a client is set.  Then the stored tick carries the ids of
`t1`; the call for `t2` reports the end of an interval exactly once, first to the
begin-frame source and then to the client, with an acknowledgment that carries
the `source_id` and `sequence_number` of `t1` and the result of the draw attempt;
and afterwards the stored tick is `t2` (its deadline shortened) and the interval
is open. -/
theorem new_tick_completes_open_interval (d : Deps) (e1 e2 : Env) (s0 s : Sys)
    (t1 t2 : BeginFrameArgs)
    (h0 : s0.inside_surface_damaged_ = false)
    (hcur : s.current_begin_frame_args_ =
      (OnBeginFrameDerivedImpl d e1 s0 t1).1.current_begin_frame_args_)
    (hisd : s.inside_surface_damaged_ = false)
    (hin : s.inside_begin_frame_deadline_interval_ = true)
    (hc : s.client_ = true) :
    (s.current_begin_frame_args_.source_id = t1.source_id ∧
      s.current_begin_frame_args_.sequence_number = t1.sequence_number) ∧
    finishEvents (OnBeginFrameDerivedImpl d e2 s t2).1.log =
      finishEvents s.log ++
        [Effect.SourceDidFinishFrame,
         Effect.ClientDidFinishFrame
          { source_id := t1.source_id, sequence_number := t1.sequence_number,
            has_damage := (AttemptDrawAndSwap e2 s).2 }] ∧
    (OnBeginFrameDerivedImpl d e2 s t2).1.current_begin_frame_args_ =
      { t2 with deadline := t2.deadline - d.DefaultEstimatedDisplayDrawTime t2.interval } ∧
    (OnBeginFrameDerivedImpl d e2 s t2).1.inside_begin_frame_deadline_interval_ = true ∧
    (OnBeginFrameDerivedImpl d e2 s t2).2 = true := by
  have hids : s.current_begin_frame_args_.source_id = t1.source_id ∧
      s.current_begin_frame_args_.sequence_number = t1.sequence_number := by
    rw [hcur, OnBeginFrameDerivedImpl_current d e1 s0 t1 h0]
    exact ⟨rfl, rfl⟩
  refine ⟨hids, ?_, OnBeginFrameDerivedImpl_current d e2 s t2 hisd,
    OnBeginFrameDerivedImpl_inside d e2 s t2 hisd, ?_⟩
  · rw [OnBeginFrameDerivedImpl_finishEvents d e2 s t2 hisd]
    simp [hin, hc, BeginFrameAck.ofArgs, hids.1, hids.2]
  · simp [OnBeginFrameDerivedImpl, hisd]

/-- Witness of C10: the sample scheduler with a client accepts tick 5 and then
tick 6; the client is told that the interval of tick 5 has finished. -/
theorem new_tick_completes_open_interval_witness :
    finishEvents (OnBeginFrameDerivedImpl sampleDeps (sampleEnv 96000)
        (OnBeginFrameDerivedImpl sampleDeps (sampleEnv 80000) clientScheduler (sampleTick 5)).1
        (sampleTick 6)).1.log =
      [Effect.SourceDidFinishFrame,
       Effect.ClientDidFinishFrame { source_id := 1, sequence_number := 5, has_damage := false }] :=
  (new_tick_completes_open_interval sampleDeps (sampleEnv 80000) (sampleEnv 96000)
    clientScheduler
    (OnBeginFrameDerivedImpl sampleDeps (sampleEnv 80000) clientScheduler (sampleTick 5)).1
    (sampleTick 5) (sampleTick 6) (by decide) rfl (by decide) (by decide) (by decide)).2.1

/-! ### Member functions that leave `wait_for_all_surfaces_before_draw_` unchanged -/

@[simp]
theorem StopObservingBeginFrames_wait_for_all_surfaces_before_draw_ (s : Sys) :
    (StopObservingBeginFrames s).wait_for_all_surfaces_before_draw_ =
      s.wait_for_all_surfaces_before_draw_ := by
  simp only [StopObservingBeginFrames]
  split_ifs <;> simp [*]

@[simp]
theorem DidSwapBuffers_wait_for_all_surfaces_before_draw_ (s : Sys) :
    (DidSwapBuffers s).wait_for_all_surfaces_before_draw_ =
      s.wait_for_all_surfaces_before_draw_ := by
  simp only [DidSwapBuffers]
  split_ifs <;> simp [*]

@[simp]
theorem clientSwaps_wait_for_all_surfaces_before_draw_ (n : Nat) (s : Sys) :
    (clientSwaps n s).wait_for_all_surfaces_before_draw_ =
      s.wait_for_all_surfaces_before_draw_ := by
  induction n generalizing s with
  | zero => rfl
  | succ k ih => simp [clientSwaps, ih]

@[simp]
theorem DrawAndSwap_wait_for_all_surfaces_before_draw_ (e : Env) (s : Sys) :
    ((DrawAndSwap e s).1).wait_for_all_surfaces_before_draw_ =
      s.wait_for_all_surfaces_before_draw_ := by
  simp only [DrawAndSwap]
  split_ifs <;> simp [*]

@[simp]
theorem AttemptDrawAndSwap_wait_for_all_surfaces_before_draw_ (e : Env) (s : Sys) :
    ((AttemptDrawAndSwap e s).1).wait_for_all_surfaces_before_draw_ =
      s.wait_for_all_surfaces_before_draw_ := by
  simp only [AttemptDrawAndSwap]
  split_ifs <;> simp [*]

@[simp]
theorem DidFinishFrame_wait_for_all_surfaces_before_draw_ (s : Sys) (did_draw : Bool) :
    (DidFinishFrame s did_draw).wait_for_all_surfaces_before_draw_ =
      s.wait_for_all_surfaces_before_draw_ := by
  simp only [DidFinishFrame]
  split_ifs <;> simp [*]

@[simp]
theorem OnBeginFrameDeadline_wait_for_all_surfaces_before_draw_ (e : Env) (s : Sys) :
    (OnBeginFrameDeadline e s).wait_for_all_surfaces_before_draw_ =
      s.wait_for_all_surfaces_before_draw_ := by
  simp [OnBeginFrameDeadline]

@[simp]
theorem ForceImmediateSwapIfPossible_wait_for_all_surfaces_before_draw_ (e : Env) (s : Sys) :
    (ForceImmediateSwapIfPossible e s).wait_for_all_surfaces_before_draw_ =
      s.wait_for_all_surfaces_before_draw_ := by
  simp only [ForceImmediateSwapIfPossible]
  split_ifs <;> simp [*]

@[simp]
theorem UpdateHasPendingSurfaces_wait_for_all_surfaces_before_draw_ (e : Env) (s : Sys) :
    ((UpdateHasPendingSurfaces e s).1).wait_for_all_surfaces_before_draw_ =
      s.wait_for_all_surfaces_before_draw_ := by
  simp only [UpdateHasPendingSurfaces]
  split_ifs <;> simp [*]

@[simp]
theorem ScheduleBeginFrameDeadline_wait_for_all_surfaces_before_draw_
    (d : Deps) (e : Env) (s : Sys) :
    (ScheduleBeginFrameDeadline d e s).wait_for_all_surfaces_before_draw_ =
      s.wait_for_all_surfaces_before_draw_ := by
  simp only [ScheduleBeginFrameDeadline]
  split_ifs <;> simp [*]

@[simp]
theorem OnBeginFrameDerivedImpl_wait_for_all_surfaces_before_draw_
    (d : Deps) (e : Env) (s : Sys) (args : BeginFrameArgs) :
    ((OnBeginFrameDerivedImpl d e s args).1).wait_for_all_surfaces_before_draw_ =
      s.wait_for_all_surfaces_before_draw_ := by
  simp only [OnBeginFrameDerivedImpl]
  split_ifs <;> simp [*]

@[simp]
theorem StartObservingBeginFrames_wait_for_all_surfaces_before_draw_
    (d : Deps) (e : Env) (s : Sys) :
    (StartObservingBeginFrames d e s).wait_for_all_surfaces_before_draw_ =
      s.wait_for_all_surfaces_before_draw_ := by
  simp only [StartObservingBeginFrames]
  cases e.missed_on_add <;> split_ifs <;> simp

@[simp]
theorem SetNeedsOneBeginFrame_wait_for_all_surfaces_before_draw_ (d : Deps) (e : Env) (s : Sys) :
    (SetNeedsOneBeginFrame d e s).wait_for_all_surfaces_before_draw_ =
      s.wait_for_all_surfaces_before_draw_ := by
  simp [SetNeedsOneBeginFrame]

@[simp]
theorem MaybeStartObservingBeginFrames_wait_for_all_surfaces_before_draw_
    (d : Deps) (e : Env) (s : Sys) :
    (MaybeStartObservingBeginFrames d e s).wait_for_all_surfaces_before_draw_ =
      s.wait_for_all_surfaces_before_draw_ := by
  simp only [MaybeStartObservingBeginFrames]
  split_ifs <;> simp [*]

@[simp]
theorem SetVisible_wait_for_all_surfaces_before_draw_
    (d : Deps) (e : Env) (s : Sys) (visible : Bool) :
    (SetVisible d e s visible).wait_for_all_surfaces_before_draw_ =
      s.wait_for_all_surfaces_before_draw_ := by
  simp only [SetVisible]
  split_ifs <;> simp [*]

@[simp]
theorem SetRootFrameMissing_wait_for_all_surfaces_before_draw_
    (d : Deps) (e : Env) (s : Sys) (missing : Bool) :
    (SetRootFrameMissing d e s missing).wait_for_all_surfaces_before_draw_ =
      s.wait_for_all_surfaces_before_draw_ := by
  simp only [SetRootFrameMissing]
  split_ifs <;> simp [*]

@[simp]
theorem DisplayResized_wait_for_all_surfaces_before_draw_ (d : Deps) (e : Env) (s : Sys) :
    (DisplayResized d e s).wait_for_all_surfaces_before_draw_ =
      s.wait_for_all_surfaces_before_draw_ := by
  simp [DisplayResized]

@[simp]
theorem OutputSurfaceLost_wait_for_all_surfaces_before_draw_ (d : Deps) (e : Env) (s : Sys) :
    (OutputSurfaceLost d e s).wait_for_all_surfaces_before_draw_ =
      s.wait_for_all_surfaces_before_draw_ := by
  simp [OutputSurfaceLost]

@[simp]
theorem markDisplayDamaged_wait_for_all_surfaces_before_draw_
    (d : Deps) (e : Env) (s : Sys) (surface_id : SurfaceId) :
    (markDisplayDamaged d e s surface_id).wait_for_all_surfaces_before_draw_ =
      s.wait_for_all_surfaces_before_draw_ := by
  simp only [markDisplayDamaged]
  split_ifs <;> simp [*]

@[simp]
theorem updateSurfaceState_wait_for_all_surfaces_before_draw_
    (d : Deps) (s : Sys) (surface_id : SurfaceId) (ack : BeginFrameAck) :
    ((updateSurfaceState d s surface_id ack).1).wait_for_all_surfaces_before_draw_ =
      s.wait_for_all_surfaces_before_draw_ := by
  simp only [updateSurfaceState]
  cases findState s.surface_states_ surface_id <;> simp only [] <;> split_ifs <;> simp

@[simp]
theorem rearmAfterDamage_wait_for_all_surfaces_before_draw_
    (d : Deps) (e : Env) (s : Sys) (valid_ack display_damaged : Bool) :
    (rearmAfterDamage d e s valid_ack display_damaged).wait_for_all_surfaces_before_draw_ =
      s.wait_for_all_surfaces_before_draw_ := by
  simp only [rearmAfterDamage]
  split_ifs <;> simp [*]

@[simp]
theorem ProcessSurfaceDamage_wait_for_all_surfaces_before_draw_
    (d : Deps) (e : Env) (s : Sys) (surface_id : SurfaceId) (ack : BeginFrameAck)
    (display_damaged : Bool) :
    (ProcessSurfaceDamage d e s surface_id ack display_damaged).wait_for_all_surfaces_before_draw_ =
      s.wait_for_all_surfaces_before_draw_ := by
  simp only [ProcessSurfaceDamage]
  split_ifs <;> simp [*]


@[simp]
theorem SetNewRootSurface_wait_for_all_surfaces_before_draw_
    (d : Deps) (e : Env) (s : Sys) (root_surface_id : SurfaceId) :
    (s.orFault (SetNewRootSurface d e s root_surface_id)).wait_for_all_surfaces_before_draw_ =
      s.wait_for_all_surfaces_before_draw_ := by
  rcases orFault_SetNewRootSurface d e s root_surface_id with h | ⟨fault, h⟩ <;>
    rw [h] <;> simp

@[simp]
theorem OnSurfaceMarkedForDestruction_wait_for_all_surfaces_before_draw_
    (d : Deps) (e : Env) (s : Sys) (surface_id : SurfaceId) :
    (OnSurfaceMarkedForDestruction d e s surface_id).wait_for_all_surfaces_before_draw_ =
      s.wait_for_all_surfaces_before_draw_ := by
  simp only [OnSurfaceMarkedForDestruction]
  cases findState s.surface_states_ surface_id with
  | none => rfl
  | some st =>
    simp only []
    split_ifs <;> simp

@[simp]
theorem OnSurfaceDamaged_wait_for_all_surfaces_before_draw_
    (d : Deps) (e : Env) (s : Sys) (surface_id : SurfaceId) (ack : BeginFrameAck) :
    ((OnSurfaceDamaged d e s surface_id ack).1).wait_for_all_surfaces_before_draw_ =
      s.wait_for_all_surfaces_before_draw_ := by
  simp only [OnSurfaceDamaged]
  split_ifs <;> simp [*]

@[simp]
theorem OnSurfaceDestroyed_wait_for_all_surfaces_before_draw_ (s : Sys) (surface_id : SurfaceId) :
    (OnSurfaceDestroyed s surface_id).wait_for_all_surfaces_before_draw_ =
      s.wait_for_all_surfaces_before_draw_ := by
  simp only [OnSurfaceDestroyed]
  split_ifs <;> simp [*]

@[simp]
theorem OnSurfaceDamageExpected_wait_for_all_surfaces_before_draw_
    (d : Deps) (e : Env) (s : Sys) (surface_id : SurfaceId) (args : BeginFrameArgs) :
    (OnSurfaceDamageExpected d e s surface_id args).wait_for_all_surfaces_before_draw_ =
      s.wait_for_all_surfaces_before_draw_ := by
  simp only [OnSurfaceDamageExpected]
  split_ifs <;> simp [*]

@[simp]
theorem DidReceiveSwapBuffersAck_wait_for_all_surfaces_before_draw_ (d : Deps) (e : Env) (s : Sys) :
    (DidReceiveSwapBuffersAck d e s).wait_for_all_surfaces_before_draw_ =
      s.wait_for_all_surfaces_before_draw_ := by
  simp only [DidReceiveSwapBuffersAck]
  cases e.begin_frame_on_not_busy <;> simp

@[simp]
theorem NotifyFirstSurfaceActivation_wait_for_all_surfaces_before_draw_
    (d : Deps) (e : Env) (s : Sys) :
    (NotifyFirstSurfaceActivation d e s).wait_for_all_surfaces_before_draw_ =
      s.wait_for_all_surfaces_before_draw_ := by
  simp only [NotifyFirstSurfaceActivation]
  split_ifs <;> simp [*]

@[simp]
theorem NotifyFirstSetVisibleActivationTimeout_wait_for_all_surfaces_before_draw_
    (d : Deps) (e : Env) (s : Sys) :
    (NotifyFirstSetVisibleActivationTimeout d e s).wait_for_all_surfaces_before_draw_ =
      s.wait_for_all_surfaces_before_draw_ := by
  simp [NotifyFirstSetVisibleActivationTimeout]

@[simp]
theorem RenderProcessGone_wait_for_all_surfaces_before_draw_ (s : Sys) :
    (RenderProcessGone s).wait_for_all_surfaces_before_draw_ =
      s.wait_for_all_surfaces_before_draw_ := by
  simp [RenderProcessGone]

@[simp]
theorem finishSurfaceActivatedEx_wait_for_all_surfaces_before_draw_
    (d : Deps) (e : Env) (s : Sys) (surface_id : SurfaceId)
    (needs_first_surface_activation : Bool) (timeout_to_post : Nat) :
    (finishSurfaceActivatedEx d e s surface_id needs_first_surface_activation
      timeout_to_post).wait_for_all_surfaces_before_draw_ =
      s.wait_for_all_surfaces_before_draw_ := by
  simp only [finishSurfaceActivatedEx]
  split_ifs <;> simp [*]

@[simp]
theorem resetAndPaintBlocks_wait_for_all_surfaces_before_draw_
    (d : Deps) (e : Env) (s : Sys) (surface_id : SurfaceId)
    (is_first_contentful_paint did_reset_container_state relaunch : Bool)
    (needs_first_surface_activation : Bool) (timeout_to_post : Nat) :
    (resetAndPaintBlocks d e s surface_id is_first_contentful_paint did_reset_container_state
      relaunch needs_first_surface_activation timeout_to_post).wait_for_all_surfaces_before_draw_ =
      s.wait_for_all_surfaces_before_draw_ := by
  simp only [resetAndPaintBlocks]
  split_ifs <;> simp [*]

@[simp]
theorem OnSurfaceActivatedEx_wait_for_all_surfaces_before_draw_
    (d : Deps) (e : Env) (s : Sys) (surface_id : SurfaceId)
    (is_first_contentful_paint did_reset_container_state seen_first_contentful_paint : Bool) :
    (OnSurfaceActivatedEx d e s surface_id is_first_contentful_paint did_reset_container_state
      seen_first_contentful_paint).wait_for_all_surfaces_before_draw_ =
      s.wait_for_all_surfaces_before_draw_ := by
  simp only [OnSurfaceActivatedEx]
  split_ifs <;> simp [*]

@[simp]
theorem SetClient_wait_for_all_surfaces_before_draw_ (s : Sys) (client : Bool) :
    (SetClient s client).wait_for_all_surfaces_before_draw_ =
      s.wait_for_all_surfaces_before_draw_ := by
  simp [SetClient]

/-! ### Member functions that leave `use_viz_fmp_with_timeout_` unchanged -/

@[simp]
theorem StopObservingBeginFrames_use_viz_fmp_with_timeout_ (s : Sys) :
    (StopObservingBeginFrames s).use_viz_fmp_with_timeout_ = s.use_viz_fmp_with_timeout_ := by
  simp only [StopObservingBeginFrames]
  split_ifs <;> simp [*]

@[simp]
theorem DidSwapBuffers_use_viz_fmp_with_timeout_ (s : Sys) :
    (DidSwapBuffers s).use_viz_fmp_with_timeout_ = s.use_viz_fmp_with_timeout_ := by
  simp only [DidSwapBuffers]
  split_ifs <;> simp [*]

@[simp]
theorem clientSwaps_use_viz_fmp_with_timeout_ (n : Nat) (s : Sys) :
    (clientSwaps n s).use_viz_fmp_with_timeout_ = s.use_viz_fmp_with_timeout_ := by
  induction n generalizing s with
  | zero => rfl
  | succ k ih => simp [clientSwaps, ih]

@[simp]
theorem DrawAndSwap_use_viz_fmp_with_timeout_ (e : Env) (s : Sys) :
    ((DrawAndSwap e s).1).use_viz_fmp_with_timeout_ = s.use_viz_fmp_with_timeout_ := by
  simp only [DrawAndSwap]
  split_ifs <;> simp [*]

@[simp]
theorem AttemptDrawAndSwap_use_viz_fmp_with_timeout_ (e : Env) (s : Sys) :
    ((AttemptDrawAndSwap e s).1).use_viz_fmp_with_timeout_ = s.use_viz_fmp_with_timeout_ := by
  simp only [AttemptDrawAndSwap]
  split_ifs <;> simp [*]

@[simp]
theorem DidFinishFrame_use_viz_fmp_with_timeout_ (s : Sys) (did_draw : Bool) :
    (DidFinishFrame s did_draw).use_viz_fmp_with_timeout_ = s.use_viz_fmp_with_timeout_ := by
  simp only [DidFinishFrame]
  split_ifs <;> simp [*]

@[simp]
theorem OnBeginFrameDeadline_use_viz_fmp_with_timeout_ (e : Env) (s : Sys) :
    (OnBeginFrameDeadline e s).use_viz_fmp_with_timeout_ = s.use_viz_fmp_with_timeout_ := by
  simp [OnBeginFrameDeadline]

@[simp]
theorem ForceImmediateSwapIfPossible_use_viz_fmp_with_timeout_ (e : Env) (s : Sys) :
    (ForceImmediateSwapIfPossible e s).use_viz_fmp_with_timeout_ = s.use_viz_fmp_with_timeout_ := by
  simp only [ForceImmediateSwapIfPossible]
  split_ifs <;> simp [*]

@[simp]
theorem UpdateHasPendingSurfaces_use_viz_fmp_with_timeout_ (e : Env) (s : Sys) :
    ((UpdateHasPendingSurfaces e s).1).use_viz_fmp_with_timeout_ = s.use_viz_fmp_with_timeout_ := by
  simp only [UpdateHasPendingSurfaces]
  split_ifs <;> simp [*]

@[simp]
theorem ScheduleBeginFrameDeadline_use_viz_fmp_with_timeout_ (d : Deps) (e : Env) (s : Sys) :
    (ScheduleBeginFrameDeadline d e s).use_viz_fmp_with_timeout_ = s.use_viz_fmp_with_timeout_ := by
  simp only [ScheduleBeginFrameDeadline]
  split_ifs <;> simp [*]

@[simp]
theorem OnBeginFrameDerivedImpl_use_viz_fmp_with_timeout_
    (d : Deps) (e : Env) (s : Sys) (args : BeginFrameArgs) :
    ((OnBeginFrameDerivedImpl d e s args).1).use_viz_fmp_with_timeout_ =
      s.use_viz_fmp_with_timeout_ := by
  simp only [OnBeginFrameDerivedImpl]
  split_ifs <;> simp [*]

@[simp]
theorem StartObservingBeginFrames_use_viz_fmp_with_timeout_ (d : Deps) (e : Env) (s : Sys) :
    (StartObservingBeginFrames d e s).use_viz_fmp_with_timeout_ = s.use_viz_fmp_with_timeout_ := by
  simp only [StartObservingBeginFrames]
  cases e.missed_on_add <;> split_ifs <;> simp

@[simp]
theorem SetNeedsOneBeginFrame_use_viz_fmp_with_timeout_ (d : Deps) (e : Env) (s : Sys) :
    (SetNeedsOneBeginFrame d e s).use_viz_fmp_with_timeout_ = s.use_viz_fmp_with_timeout_ := by
  simp [SetNeedsOneBeginFrame]

@[simp]
theorem MaybeStartObservingBeginFrames_use_viz_fmp_with_timeout_ (d : Deps) (e : Env) (s : Sys) :
    (MaybeStartObservingBeginFrames d e s).use_viz_fmp_with_timeout_ =
      s.use_viz_fmp_with_timeout_ := by
  simp only [MaybeStartObservingBeginFrames]
  split_ifs <;> simp [*]

@[simp]
theorem SetVisible_use_viz_fmp_with_timeout_ (d : Deps) (e : Env) (s : Sys) (visible : Bool) :
    (SetVisible d e s visible).use_viz_fmp_with_timeout_ = s.use_viz_fmp_with_timeout_ := by
  simp only [SetVisible]
  split_ifs <;> simp [*]

@[simp]
theorem SetRootFrameMissing_use_viz_fmp_with_timeout_
    (d : Deps) (e : Env) (s : Sys) (missing : Bool) :
    (SetRootFrameMissing d e s missing).use_viz_fmp_with_timeout_ =
      s.use_viz_fmp_with_timeout_ := by
  simp only [SetRootFrameMissing]
  split_ifs <;> simp [*]

@[simp]
theorem DisplayResized_use_viz_fmp_with_timeout_ (d : Deps) (e : Env) (s : Sys) :
    (DisplayResized d e s).use_viz_fmp_with_timeout_ = s.use_viz_fmp_with_timeout_ := by
  simp [DisplayResized]

@[simp]
theorem OutputSurfaceLost_use_viz_fmp_with_timeout_ (d : Deps) (e : Env) (s : Sys) :
    (OutputSurfaceLost d e s).use_viz_fmp_with_timeout_ = s.use_viz_fmp_with_timeout_ := by
  simp [OutputSurfaceLost]

@[simp]
theorem markDisplayDamaged_use_viz_fmp_with_timeout_
    (d : Deps) (e : Env) (s : Sys) (surface_id : SurfaceId) :
    (markDisplayDamaged d e s surface_id).use_viz_fmp_with_timeout_ =
      s.use_viz_fmp_with_timeout_ := by
  simp only [markDisplayDamaged]
  split_ifs <;> simp [*]

@[simp]
theorem updateSurfaceState_use_viz_fmp_with_timeout_
    (d : Deps) (s : Sys) (surface_id : SurfaceId) (ack : BeginFrameAck) :
    ((updateSurfaceState d s surface_id ack).1).use_viz_fmp_with_timeout_ =
      s.use_viz_fmp_with_timeout_ := by
  simp only [updateSurfaceState]
  cases findState s.surface_states_ surface_id <;> simp only [] <;> split_ifs <;> simp

@[simp]
theorem rearmAfterDamage_use_viz_fmp_with_timeout_
    (d : Deps) (e : Env) (s : Sys) (valid_ack display_damaged : Bool) :
    (rearmAfterDamage d e s valid_ack display_damaged).use_viz_fmp_with_timeout_ =
      s.use_viz_fmp_with_timeout_ := by
  simp only [rearmAfterDamage]
  split_ifs <;> simp [*]

@[simp]
theorem ProcessSurfaceDamage_use_viz_fmp_with_timeout_
    (d : Deps) (e : Env) (s : Sys) (surface_id : SurfaceId) (ack : BeginFrameAck)
    (display_damaged : Bool) :
    (ProcessSurfaceDamage d e s surface_id ack display_damaged).use_viz_fmp_with_timeout_ =
      s.use_viz_fmp_with_timeout_ := by
  simp only [ProcessSurfaceDamage]
  split_ifs <;> simp [*]


@[simp]
theorem SetNewRootSurface_use_viz_fmp_with_timeout_
    (d : Deps) (e : Env) (s : Sys) (root_surface_id : SurfaceId) :
    (s.orFault (SetNewRootSurface d e s root_surface_id)).use_viz_fmp_with_timeout_ =
      s.use_viz_fmp_with_timeout_ := by
  rcases orFault_SetNewRootSurface d e s root_surface_id with h | ⟨fault, h⟩ <;>
    rw [h] <;> simp

@[simp]
theorem OnSurfaceMarkedForDestruction_use_viz_fmp_with_timeout_
    (d : Deps) (e : Env) (s : Sys) (surface_id : SurfaceId) :
    (OnSurfaceMarkedForDestruction d e s surface_id).use_viz_fmp_with_timeout_ =
      s.use_viz_fmp_with_timeout_ := by
  simp only [OnSurfaceMarkedForDestruction]
  cases findState s.surface_states_ surface_id with
  | none => rfl
  | some st =>
    simp only []
    split_ifs <;> simp

@[simp]
theorem OnSurfaceDamaged_use_viz_fmp_with_timeout_
    (d : Deps) (e : Env) (s : Sys) (surface_id : SurfaceId) (ack : BeginFrameAck) :
    ((OnSurfaceDamaged d e s surface_id ack).1).use_viz_fmp_with_timeout_ =
      s.use_viz_fmp_with_timeout_ := by
  simp only [OnSurfaceDamaged]
  split_ifs <;> simp [*]

@[simp]
theorem OnSurfaceDestroyed_use_viz_fmp_with_timeout_ (s : Sys) (surface_id : SurfaceId) :
    (OnSurfaceDestroyed s surface_id).use_viz_fmp_with_timeout_ = s.use_viz_fmp_with_timeout_ := by
  simp only [OnSurfaceDestroyed]
  split_ifs <;> simp [*]

@[simp]
theorem OnSurfaceDamageExpected_use_viz_fmp_with_timeout_
    (d : Deps) (e : Env) (s : Sys) (surface_id : SurfaceId) (args : BeginFrameArgs) :
    (OnSurfaceDamageExpected d e s surface_id args).use_viz_fmp_with_timeout_ =
      s.use_viz_fmp_with_timeout_ := by
  simp only [OnSurfaceDamageExpected]
  split_ifs <;> simp [*]

@[simp]
theorem DidReceiveSwapBuffersAck_use_viz_fmp_with_timeout_ (d : Deps) (e : Env) (s : Sys) :
    (DidReceiveSwapBuffersAck d e s).use_viz_fmp_with_timeout_ = s.use_viz_fmp_with_timeout_ := by
  simp only [DidReceiveSwapBuffersAck]
  cases e.begin_frame_on_not_busy <;> simp

@[simp]
theorem NotifyFirstSurfaceActivation_use_viz_fmp_with_timeout_ (d : Deps) (e : Env) (s : Sys) :
    (NotifyFirstSurfaceActivation d e s).use_viz_fmp_with_timeout_ =
      s.use_viz_fmp_with_timeout_ := by
  simp only [NotifyFirstSurfaceActivation]
  split_ifs <;> simp [*]

@[simp]
theorem NotifyFirstSetVisibleActivationTimeout_use_viz_fmp_with_timeout_
    (d : Deps) (e : Env) (s : Sys) :
    (NotifyFirstSetVisibleActivationTimeout d e s).use_viz_fmp_with_timeout_ =
      s.use_viz_fmp_with_timeout_ := by
  simp [NotifyFirstSetVisibleActivationTimeout]

@[simp]
theorem RenderProcessGone_use_viz_fmp_with_timeout_ (s : Sys) :
    (RenderProcessGone s).use_viz_fmp_with_timeout_ = s.use_viz_fmp_with_timeout_ := by
  simp [RenderProcessGone]

@[simp]
theorem finishSurfaceActivatedEx_use_viz_fmp_with_timeout_
    (d : Deps) (e : Env) (s : Sys) (surface_id : SurfaceId)
    (needs_first_surface_activation : Bool) (timeout_to_post : Nat) :
    (finishSurfaceActivatedEx d e s surface_id needs_first_surface_activation
      timeout_to_post).use_viz_fmp_with_timeout_ =
      s.use_viz_fmp_with_timeout_ := by
  simp only [finishSurfaceActivatedEx]
  split_ifs <;> simp [*]

@[simp]
theorem resetAndPaintBlocks_use_viz_fmp_with_timeout_
    (d : Deps) (e : Env) (s : Sys) (surface_id : SurfaceId)
    (is_first_contentful_paint did_reset_container_state relaunch : Bool)
    (needs_first_surface_activation : Bool) (timeout_to_post : Nat) :
    (resetAndPaintBlocks d e s surface_id is_first_contentful_paint did_reset_container_state
      relaunch needs_first_surface_activation timeout_to_post).use_viz_fmp_with_timeout_ =
      s.use_viz_fmp_with_timeout_ := by
  simp only [resetAndPaintBlocks]
  split_ifs <;> simp [*]

@[simp]
theorem OnSurfaceActivatedEx_use_viz_fmp_with_timeout_
    (d : Deps) (e : Env) (s : Sys) (surface_id : SurfaceId)
    (is_first_contentful_paint did_reset_container_state seen_first_contentful_paint : Bool) :
    (OnSurfaceActivatedEx d e s surface_id is_first_contentful_paint did_reset_container_state
      seen_first_contentful_paint).use_viz_fmp_with_timeout_ =
      s.use_viz_fmp_with_timeout_ := by
  simp only [OnSurfaceActivatedEx]
  split_ifs <;> simp [*]

@[simp]
theorem SetClient_use_viz_fmp_with_timeout_ (s : Sys) (client : Bool) :
    (SetClient s client).use_viz_fmp_with_timeout_ = s.use_viz_fmp_with_timeout_ := by
  simp [SetClient]

/-! ### Member functions that leave `root_frame_missing_` unchanged -/

@[simp]
theorem StopObservingBeginFrames_root_frame_missing_ (s : Sys) :
    (StopObservingBeginFrames s).root_frame_missing_ = s.root_frame_missing_ := by
  simp only [StopObservingBeginFrames]
  split_ifs <;> simp [*]

@[simp]
theorem DidSwapBuffers_root_frame_missing_ (s : Sys) :
    (DidSwapBuffers s).root_frame_missing_ = s.root_frame_missing_ := by
  simp only [DidSwapBuffers]
  split_ifs <;> simp [*]

@[simp]
theorem clientSwaps_root_frame_missing_ (n : Nat) (s : Sys) :
    (clientSwaps n s).root_frame_missing_ = s.root_frame_missing_ := by
  induction n generalizing s with
  | zero => rfl
  | succ k ih => simp [clientSwaps, ih]

@[simp]
theorem DrawAndSwap_root_frame_missing_ (e : Env) (s : Sys) :
    ((DrawAndSwap e s).1).root_frame_missing_ = s.root_frame_missing_ := by
  simp only [DrawAndSwap]
  split_ifs <;> simp [*]

@[simp]
theorem AttemptDrawAndSwap_root_frame_missing_ (e : Env) (s : Sys) :
    ((AttemptDrawAndSwap e s).1).root_frame_missing_ = s.root_frame_missing_ := by
  simp only [AttemptDrawAndSwap]
  split_ifs <;> simp [*]

@[simp]
theorem DidFinishFrame_root_frame_missing_ (s : Sys) (did_draw : Bool) :
    (DidFinishFrame s did_draw).root_frame_missing_ = s.root_frame_missing_ := by
  simp only [DidFinishFrame]
  split_ifs <;> simp [*]

@[simp]
theorem OnBeginFrameDeadline_root_frame_missing_ (e : Env) (s : Sys) :
    (OnBeginFrameDeadline e s).root_frame_missing_ = s.root_frame_missing_ := by
  simp [OnBeginFrameDeadline]

@[simp]
theorem ForceImmediateSwapIfPossible_root_frame_missing_ (e : Env) (s : Sys) :
    (ForceImmediateSwapIfPossible e s).root_frame_missing_ = s.root_frame_missing_ := by
  simp only [ForceImmediateSwapIfPossible]
  split_ifs <;> simp [*]

@[simp]
theorem UpdateHasPendingSurfaces_root_frame_missing_ (e : Env) (s : Sys) :
    ((UpdateHasPendingSurfaces e s).1).root_frame_missing_ = s.root_frame_missing_ := by
  simp only [UpdateHasPendingSurfaces]
  split_ifs <;> simp [*]

@[simp]
theorem ScheduleBeginFrameDeadline_root_frame_missing_ (d : Deps) (e : Env) (s : Sys) :
    (ScheduleBeginFrameDeadline d e s).root_frame_missing_ = s.root_frame_missing_ := by
  simp only [ScheduleBeginFrameDeadline]
  split_ifs <;> simp [*]

@[simp]
theorem OnBeginFrameDerivedImpl_root_frame_missing_
    (d : Deps) (e : Env) (s : Sys) (args : BeginFrameArgs) :
    ((OnBeginFrameDerivedImpl d e s args).1).root_frame_missing_ = s.root_frame_missing_ := by
  simp only [OnBeginFrameDerivedImpl]
  split_ifs <;> simp [*]

@[simp]
theorem StartObservingBeginFrames_root_frame_missing_ (d : Deps) (e : Env) (s : Sys) :
    (StartObservingBeginFrames d e s).root_frame_missing_ = s.root_frame_missing_ := by
  simp only [StartObservingBeginFrames]
  cases e.missed_on_add <;> split_ifs <;> simp

@[simp]
theorem SetNeedsOneBeginFrame_root_frame_missing_ (d : Deps) (e : Env) (s : Sys) :
    (SetNeedsOneBeginFrame d e s).root_frame_missing_ = s.root_frame_missing_ := by
  simp [SetNeedsOneBeginFrame]

@[simp]
theorem MaybeStartObservingBeginFrames_root_frame_missing_ (d : Deps) (e : Env) (s : Sys) :
    (MaybeStartObservingBeginFrames d e s).root_frame_missing_ = s.root_frame_missing_ := by
  simp only [MaybeStartObservingBeginFrames]
  split_ifs <;> simp [*]

@[simp]
theorem SetVisible_root_frame_missing_ (d : Deps) (e : Env) (s : Sys) (visible : Bool) :
    (SetVisible d e s visible).root_frame_missing_ = s.root_frame_missing_ := by
  simp only [SetVisible]
  split_ifs <;> simp [*]

@[simp]
theorem DisplayResized_root_frame_missing_ (d : Deps) (e : Env) (s : Sys) :
    (DisplayResized d e s).root_frame_missing_ = s.root_frame_missing_ := by
  simp [DisplayResized]

@[simp]
theorem OutputSurfaceLost_root_frame_missing_ (d : Deps) (e : Env) (s : Sys) :
    (OutputSurfaceLost d e s).root_frame_missing_ = s.root_frame_missing_ := by
  simp [OutputSurfaceLost]

@[simp]
theorem markDisplayDamaged_root_frame_missing_
    (d : Deps) (e : Env) (s : Sys) (surface_id : SurfaceId) :
    (markDisplayDamaged d e s surface_id).root_frame_missing_ = s.root_frame_missing_ := by
  simp only [markDisplayDamaged]
  split_ifs <;> simp [*]

@[simp]
theorem updateSurfaceState_root_frame_missing_
    (d : Deps) (s : Sys) (surface_id : SurfaceId) (ack : BeginFrameAck) :
    ((updateSurfaceState d s surface_id ack).1).root_frame_missing_ = s.root_frame_missing_ := by
  simp only [updateSurfaceState]
  cases findState s.surface_states_ surface_id <;> simp only [] <;> split_ifs <;> simp

@[simp]
theorem rearmAfterDamage_root_frame_missing_
    (d : Deps) (e : Env) (s : Sys) (valid_ack display_damaged : Bool) :
    (rearmAfterDamage d e s valid_ack display_damaged).root_frame_missing_ =
      s.root_frame_missing_ := by
  simp only [rearmAfterDamage]
  split_ifs <;> simp [*]

@[simp]
theorem ProcessSurfaceDamage_root_frame_missing_
    (d : Deps) (e : Env) (s : Sys) (surface_id : SurfaceId) (ack : BeginFrameAck)
    (display_damaged : Bool) :
    (ProcessSurfaceDamage d e s surface_id ack display_damaged).root_frame_missing_ =
      s.root_frame_missing_ := by
  simp only [ProcessSurfaceDamage]
  split_ifs <;> simp [*]


@[simp]
theorem SetNewRootSurface_root_frame_missing_
    (d : Deps) (e : Env) (s : Sys) (root_surface_id : SurfaceId) :
    (s.orFault (SetNewRootSurface d e s root_surface_id)).root_frame_missing_ =
      s.root_frame_missing_ := by
  rcases orFault_SetNewRootSurface d e s root_surface_id with h | ⟨fault, h⟩ <;>
    rw [h] <;> simp

@[simp]
theorem OnSurfaceMarkedForDestruction_root_frame_missing_
    (d : Deps) (e : Env) (s : Sys) (surface_id : SurfaceId) :
    (OnSurfaceMarkedForDestruction d e s surface_id).root_frame_missing_ =
      s.root_frame_missing_ := by
  simp only [OnSurfaceMarkedForDestruction]
  cases findState s.surface_states_ surface_id with
  | none => rfl
  | some st =>
    simp only []
    split_ifs <;> simp

@[simp]
theorem OnSurfaceDamaged_root_frame_missing_
    (d : Deps) (e : Env) (s : Sys) (surface_id : SurfaceId) (ack : BeginFrameAck) :
    ((OnSurfaceDamaged d e s surface_id ack).1).root_frame_missing_ = s.root_frame_missing_ := by
  simp only [OnSurfaceDamaged]
  split_ifs <;> simp [*]

@[simp]
theorem OnSurfaceDestroyed_root_frame_missing_ (s : Sys) (surface_id : SurfaceId) :
    (OnSurfaceDestroyed s surface_id).root_frame_missing_ = s.root_frame_missing_ := by
  simp only [OnSurfaceDestroyed]
  split_ifs <;> simp [*]

@[simp]
theorem OnSurfaceDamageExpected_root_frame_missing_
    (d : Deps) (e : Env) (s : Sys) (surface_id : SurfaceId) (args : BeginFrameArgs) :
    (OnSurfaceDamageExpected d e s surface_id args).root_frame_missing_ =
      s.root_frame_missing_ := by
  simp only [OnSurfaceDamageExpected]
  split_ifs <;> simp [*]

@[simp]
theorem DidReceiveSwapBuffersAck_root_frame_missing_ (d : Deps) (e : Env) (s : Sys) :
    (DidReceiveSwapBuffersAck d e s).root_frame_missing_ = s.root_frame_missing_ := by
  simp only [DidReceiveSwapBuffersAck]
  cases e.begin_frame_on_not_busy <;> simp

@[simp]
theorem NotifyFirstSurfaceActivation_root_frame_missing_ (d : Deps) (e : Env) (s : Sys) :
    (NotifyFirstSurfaceActivation d e s).root_frame_missing_ = s.root_frame_missing_ := by
  simp only [NotifyFirstSurfaceActivation]
  split_ifs <;> simp [*]

@[simp]
theorem NotifyFirstSetVisibleActivationTimeout_root_frame_missing_ (d : Deps) (e : Env) (s : Sys) :
    (NotifyFirstSetVisibleActivationTimeout d e s).root_frame_missing_ = s.root_frame_missing_ := by
  simp [NotifyFirstSetVisibleActivationTimeout]

@[simp]
theorem RenderProcessGone_root_frame_missing_ (s : Sys) :
    (RenderProcessGone s).root_frame_missing_ = s.root_frame_missing_ := by
  simp [RenderProcessGone]

@[simp]
theorem finishSurfaceActivatedEx_root_frame_missing_
    (d : Deps) (e : Env) (s : Sys) (surface_id : SurfaceId)
    (needs_first_surface_activation : Bool) (timeout_to_post : Nat) :
    (finishSurfaceActivatedEx d e s surface_id needs_first_surface_activation
      timeout_to_post).root_frame_missing_ =
      s.root_frame_missing_ := by
  simp only [finishSurfaceActivatedEx]
  split_ifs <;> simp [*]

@[simp]
theorem resetAndPaintBlocks_root_frame_missing_
    (d : Deps) (e : Env) (s : Sys) (surface_id : SurfaceId)
    (is_first_contentful_paint did_reset_container_state relaunch : Bool)
    (needs_first_surface_activation : Bool) (timeout_to_post : Nat) :
    (resetAndPaintBlocks d e s surface_id is_first_contentful_paint did_reset_container_state
      relaunch needs_first_surface_activation timeout_to_post).root_frame_missing_ =
      s.root_frame_missing_ := by
  simp only [resetAndPaintBlocks]
  split_ifs <;> simp [*]

@[simp]
theorem OnSurfaceActivatedEx_root_frame_missing_
    (d : Deps) (e : Env) (s : Sys) (surface_id : SurfaceId)
    (is_first_contentful_paint did_reset_container_state seen_first_contentful_paint : Bool) :
    (OnSurfaceActivatedEx d e s surface_id is_first_contentful_paint did_reset_container_state
      seen_first_contentful_paint).root_frame_missing_ =
      s.root_frame_missing_ := by
  simp only [OnSurfaceActivatedEx]
  split_ifs <;> simp [*]

@[simp]
theorem SetClient_root_frame_missing_ (s : Sys) (client : Bool) :
    (SetClient s client).root_frame_missing_ = s.root_frame_missing_ := by
  simp [SetClient]

/-! ### Member functions that leave `root_surface_id_` unchanged -/

@[simp]
theorem StopObservingBeginFrames_root_surface_id_ (s : Sys) :
    (StopObservingBeginFrames s).root_surface_id_ = s.root_surface_id_ := by
  simp only [StopObservingBeginFrames]
  split_ifs <;> simp [*]

@[simp]
theorem DidSwapBuffers_root_surface_id_ (s : Sys) :
    (DidSwapBuffers s).root_surface_id_ = s.root_surface_id_ := by
  simp only [DidSwapBuffers]
  split_ifs <;> simp [*]

@[simp]
theorem clientSwaps_root_surface_id_ (n : Nat) (s : Sys) :
    (clientSwaps n s).root_surface_id_ = s.root_surface_id_ := by
  induction n generalizing s with
  | zero => rfl
  | succ k ih => simp [clientSwaps, ih]

@[simp]
theorem DrawAndSwap_root_surface_id_ (e : Env) (s : Sys) :
    ((DrawAndSwap e s).1).root_surface_id_ = s.root_surface_id_ := by
  simp only [DrawAndSwap]
  split_ifs <;> simp [*]

@[simp]
theorem AttemptDrawAndSwap_root_surface_id_ (e : Env) (s : Sys) :
    ((AttemptDrawAndSwap e s).1).root_surface_id_ = s.root_surface_id_ := by
  simp only [AttemptDrawAndSwap]
  split_ifs <;> simp [*]

@[simp]
theorem DidFinishFrame_root_surface_id_ (s : Sys) (did_draw : Bool) :
    (DidFinishFrame s did_draw).root_surface_id_ = s.root_surface_id_ := by
  simp only [DidFinishFrame]
  split_ifs <;> simp [*]

@[simp]
theorem OnBeginFrameDeadline_root_surface_id_ (e : Env) (s : Sys) :
    (OnBeginFrameDeadline e s).root_surface_id_ = s.root_surface_id_ := by
  simp [OnBeginFrameDeadline]

@[simp]
theorem ForceImmediateSwapIfPossible_root_surface_id_ (e : Env) (s : Sys) :
    (ForceImmediateSwapIfPossible e s).root_surface_id_ = s.root_surface_id_ := by
  simp only [ForceImmediateSwapIfPossible]
  split_ifs <;> simp [*]

@[simp]
theorem UpdateHasPendingSurfaces_root_surface_id_ (e : Env) (s : Sys) :
    ((UpdateHasPendingSurfaces e s).1).root_surface_id_ = s.root_surface_id_ := by
  simp only [UpdateHasPendingSurfaces]
  split_ifs <;> simp [*]

@[simp]
theorem ScheduleBeginFrameDeadline_root_surface_id_ (d : Deps) (e : Env) (s : Sys) :
    (ScheduleBeginFrameDeadline d e s).root_surface_id_ = s.root_surface_id_ := by
  simp only [ScheduleBeginFrameDeadline]
  split_ifs <;> simp [*]

@[simp]
theorem OnBeginFrameDerivedImpl_root_surface_id_
    (d : Deps) (e : Env) (s : Sys) (args : BeginFrameArgs) :
    ((OnBeginFrameDerivedImpl d e s args).1).root_surface_id_ = s.root_surface_id_ := by
  simp only [OnBeginFrameDerivedImpl]
  split_ifs <;> simp [*]

@[simp]
theorem StartObservingBeginFrames_root_surface_id_ (d : Deps) (e : Env) (s : Sys) :
    (StartObservingBeginFrames d e s).root_surface_id_ = s.root_surface_id_ := by
  simp only [StartObservingBeginFrames]
  cases e.missed_on_add <;> split_ifs <;> simp

@[simp]
theorem SetNeedsOneBeginFrame_root_surface_id_ (d : Deps) (e : Env) (s : Sys) :
    (SetNeedsOneBeginFrame d e s).root_surface_id_ = s.root_surface_id_ := by
  simp [SetNeedsOneBeginFrame]

@[simp]
theorem MaybeStartObservingBeginFrames_root_surface_id_ (d : Deps) (e : Env) (s : Sys) :
    (MaybeStartObservingBeginFrames d e s).root_surface_id_ = s.root_surface_id_ := by
  simp only [MaybeStartObservingBeginFrames]
  split_ifs <;> simp [*]

@[simp]
theorem SetVisible_root_surface_id_ (d : Deps) (e : Env) (s : Sys) (visible : Bool) :
    (SetVisible d e s visible).root_surface_id_ = s.root_surface_id_ := by
  simp only [SetVisible]
  split_ifs <;> simp [*]

@[simp]
theorem SetRootFrameMissing_root_surface_id_ (d : Deps) (e : Env) (s : Sys) (missing : Bool) :
    (SetRootFrameMissing d e s missing).root_surface_id_ = s.root_surface_id_ := by
  simp only [SetRootFrameMissing]
  split_ifs <;> simp [*]

@[simp]
theorem DisplayResized_root_surface_id_ (d : Deps) (e : Env) (s : Sys) :
    (DisplayResized d e s).root_surface_id_ = s.root_surface_id_ := by
  simp [DisplayResized]

@[simp]
theorem OutputSurfaceLost_root_surface_id_ (d : Deps) (e : Env) (s : Sys) :
    (OutputSurfaceLost d e s).root_surface_id_ = s.root_surface_id_ := by
  simp [OutputSurfaceLost]

@[simp]
theorem markDisplayDamaged_root_surface_id_
    (d : Deps) (e : Env) (s : Sys) (surface_id : SurfaceId) :
    (markDisplayDamaged d e s surface_id).root_surface_id_ = s.root_surface_id_ := by
  simp only [markDisplayDamaged]
  split_ifs <;> simp [*]

@[simp]
theorem updateSurfaceState_root_surface_id_
    (d : Deps) (s : Sys) (surface_id : SurfaceId) (ack : BeginFrameAck) :
    ((updateSurfaceState d s surface_id ack).1).root_surface_id_ = s.root_surface_id_ := by
  simp only [updateSurfaceState]
  cases findState s.surface_states_ surface_id <;> simp only [] <;> split_ifs <;> simp

@[simp]
theorem rearmAfterDamage_root_surface_id_
    (d : Deps) (e : Env) (s : Sys) (valid_ack display_damaged : Bool) :
    (rearmAfterDamage d e s valid_ack display_damaged).root_surface_id_ = s.root_surface_id_ := by
  simp only [rearmAfterDamage]
  split_ifs <;> simp [*]

@[simp]
theorem ProcessSurfaceDamage_root_surface_id_
    (d : Deps) (e : Env) (s : Sys) (surface_id : SurfaceId) (ack : BeginFrameAck)
    (display_damaged : Bool) :
    (ProcessSurfaceDamage d e s surface_id ack display_damaged).root_surface_id_ =
      s.root_surface_id_ := by
  simp only [ProcessSurfaceDamage]
  split_ifs <;> simp [*]


@[simp]
theorem OnSurfaceMarkedForDestruction_root_surface_id_
    (d : Deps) (e : Env) (s : Sys) (surface_id : SurfaceId) :
    (OnSurfaceMarkedForDestruction d e s surface_id).root_surface_id_ = s.root_surface_id_ := by
  simp only [OnSurfaceMarkedForDestruction]
  cases findState s.surface_states_ surface_id with
  | none => rfl
  | some st =>
    simp only []
    split_ifs <;> simp

@[simp]
theorem OnSurfaceDamaged_root_surface_id_
    (d : Deps) (e : Env) (s : Sys) (surface_id : SurfaceId) (ack : BeginFrameAck) :
    ((OnSurfaceDamaged d e s surface_id ack).1).root_surface_id_ = s.root_surface_id_ := by
  simp only [OnSurfaceDamaged]
  split_ifs <;> simp [*]

@[simp]
theorem OnSurfaceDestroyed_root_surface_id_ (s : Sys) (surface_id : SurfaceId) :
    (OnSurfaceDestroyed s surface_id).root_surface_id_ = s.root_surface_id_ := by
  simp only [OnSurfaceDestroyed]
  split_ifs <;> simp [*]

@[simp]
theorem OnSurfaceDamageExpected_root_surface_id_
    (d : Deps) (e : Env) (s : Sys) (surface_id : SurfaceId) (args : BeginFrameArgs) :
    (OnSurfaceDamageExpected d e s surface_id args).root_surface_id_ = s.root_surface_id_ := by
  simp only [OnSurfaceDamageExpected]
  split_ifs <;> simp [*]

@[simp]
theorem DidReceiveSwapBuffersAck_root_surface_id_ (d : Deps) (e : Env) (s : Sys) :
    (DidReceiveSwapBuffersAck d e s).root_surface_id_ = s.root_surface_id_ := by
  simp only [DidReceiveSwapBuffersAck]
  cases e.begin_frame_on_not_busy <;> simp

@[simp]
theorem NotifyFirstSurfaceActivation_root_surface_id_ (d : Deps) (e : Env) (s : Sys) :
    (NotifyFirstSurfaceActivation d e s).root_surface_id_ = s.root_surface_id_ := by
  simp only [NotifyFirstSurfaceActivation]
  split_ifs <;> simp [*]

@[simp]
theorem NotifyFirstSetVisibleActivationTimeout_root_surface_id_ (d : Deps) (e : Env) (s : Sys) :
    (NotifyFirstSetVisibleActivationTimeout d e s).root_surface_id_ = s.root_surface_id_ := by
  simp [NotifyFirstSetVisibleActivationTimeout]

@[simp]
theorem RenderProcessGone_root_surface_id_ (s : Sys) :
    (RenderProcessGone s).root_surface_id_ = s.root_surface_id_ := by
  simp [RenderProcessGone]

@[simp]
theorem finishSurfaceActivatedEx_root_surface_id_
    (d : Deps) (e : Env) (s : Sys) (surface_id : SurfaceId)
    (needs_first_surface_activation : Bool) (timeout_to_post : Nat) :
    (finishSurfaceActivatedEx d e s surface_id needs_first_surface_activation
      timeout_to_post).root_surface_id_ =
      s.root_surface_id_ := by
  simp only [finishSurfaceActivatedEx]
  split_ifs <;> simp [*]

@[simp]
theorem resetAndPaintBlocks_root_surface_id_ (d : Deps) (e : Env) (s : Sys) (surface_id : SurfaceId)
    (is_first_contentful_paint did_reset_container_state relaunch : Bool)
    (needs_first_surface_activation : Bool) (timeout_to_post : Nat) :
    (resetAndPaintBlocks d e s surface_id is_first_contentful_paint did_reset_container_state
      relaunch needs_first_surface_activation timeout_to_post).root_surface_id_ =
      s.root_surface_id_ := by
  simp only [resetAndPaintBlocks]
  split_ifs <;> simp [*]

@[simp]
theorem OnSurfaceActivatedEx_root_surface_id_
    (d : Deps) (e : Env) (s : Sys) (surface_id : SurfaceId)
    (is_first_contentful_paint did_reset_container_state seen_first_contentful_paint : Bool) :
    (OnSurfaceActivatedEx d e s surface_id is_first_contentful_paint did_reset_container_state
      seen_first_contentful_paint).root_surface_id_ =
      s.root_surface_id_ := by
  simp only [OnSurfaceActivatedEx]
  split_ifs <;> simp [*]

@[simp]
theorem SetClient_root_surface_id_ (s : Sys) (client : Bool) :
    (SetClient s client).root_surface_id_ = s.root_surface_id_ := by
  simp [SetClient]

/-! ### Member functions that leave `visible_` unchanged -/

@[simp]
theorem StopObservingBeginFrames_visible_ (s : Sys) :
    (StopObservingBeginFrames s).visible_ = s.visible_ := by
  simp only [StopObservingBeginFrames]
  split_ifs <;> simp [*]

@[simp]
theorem DidSwapBuffers_visible_ (s : Sys) :
    (DidSwapBuffers s).visible_ = s.visible_ := by
  simp only [DidSwapBuffers]
  split_ifs <;> simp [*]

@[simp]
theorem clientSwaps_visible_ (n : Nat) (s : Sys) :
    (clientSwaps n s).visible_ = s.visible_ := by
  induction n generalizing s with
  | zero => rfl
  | succ k ih => simp [clientSwaps, ih]

@[simp]
theorem DrawAndSwap_visible_ (e : Env) (s : Sys) :
    ((DrawAndSwap e s).1).visible_ = s.visible_ := by
  simp only [DrawAndSwap]
  split_ifs <;> simp [*]

@[simp]
theorem AttemptDrawAndSwap_visible_ (e : Env) (s : Sys) :
    ((AttemptDrawAndSwap e s).1).visible_ = s.visible_ := by
  simp only [AttemptDrawAndSwap]
  split_ifs <;> simp [*]

@[simp]
theorem DidFinishFrame_visible_ (s : Sys) (did_draw : Bool) :
    (DidFinishFrame s did_draw).visible_ = s.visible_ := by
  simp only [DidFinishFrame]
  split_ifs <;> simp [*]

@[simp]
theorem OnBeginFrameDeadline_visible_ (e : Env) (s : Sys) :
    (OnBeginFrameDeadline e s).visible_ = s.visible_ := by
  simp [OnBeginFrameDeadline]

@[simp]
theorem ForceImmediateSwapIfPossible_visible_ (e : Env) (s : Sys) :
    (ForceImmediateSwapIfPossible e s).visible_ = s.visible_ := by
  simp only [ForceImmediateSwapIfPossible]
  split_ifs <;> simp [*]

@[simp]
theorem UpdateHasPendingSurfaces_visible_ (e : Env) (s : Sys) :
    ((UpdateHasPendingSurfaces e s).1).visible_ = s.visible_ := by
  simp only [UpdateHasPendingSurfaces]
  split_ifs <;> simp [*]

@[simp]
theorem ScheduleBeginFrameDeadline_visible_ (d : Deps) (e : Env) (s : Sys) :
    (ScheduleBeginFrameDeadline d e s).visible_ = s.visible_ := by
  simp only [ScheduleBeginFrameDeadline]
  split_ifs <;> simp [*]

@[simp]
theorem OnBeginFrameDerivedImpl_visible_ (d : Deps) (e : Env) (s : Sys) (args : BeginFrameArgs) :
    ((OnBeginFrameDerivedImpl d e s args).1).visible_ = s.visible_ := by
  simp only [OnBeginFrameDerivedImpl]
  split_ifs <;> simp [*]

@[simp]
theorem StartObservingBeginFrames_visible_ (d : Deps) (e : Env) (s : Sys) :
    (StartObservingBeginFrames d e s).visible_ = s.visible_ := by
  simp only [StartObservingBeginFrames]
  cases e.missed_on_add <;> split_ifs <;> simp

@[simp]
theorem SetNeedsOneBeginFrame_visible_ (d : Deps) (e : Env) (s : Sys) :
    (SetNeedsOneBeginFrame d e s).visible_ = s.visible_ := by
  simp [SetNeedsOneBeginFrame]

@[simp]
theorem MaybeStartObservingBeginFrames_visible_ (d : Deps) (e : Env) (s : Sys) :
    (MaybeStartObservingBeginFrames d e s).visible_ = s.visible_ := by
  simp only [MaybeStartObservingBeginFrames]
  split_ifs <;> simp [*]

@[simp]
theorem SetRootFrameMissing_visible_ (d : Deps) (e : Env) (s : Sys) (missing : Bool) :
    (SetRootFrameMissing d e s missing).visible_ = s.visible_ := by
  simp only [SetRootFrameMissing]
  split_ifs <;> simp [*]

@[simp]
theorem DisplayResized_visible_ (d : Deps) (e : Env) (s : Sys) :
    (DisplayResized d e s).visible_ = s.visible_ := by
  simp [DisplayResized]

@[simp]
theorem OutputSurfaceLost_visible_ (d : Deps) (e : Env) (s : Sys) :
    (OutputSurfaceLost d e s).visible_ = s.visible_ := by
  simp [OutputSurfaceLost]

@[simp]
theorem markDisplayDamaged_visible_ (d : Deps) (e : Env) (s : Sys) (surface_id : SurfaceId) :
    (markDisplayDamaged d e s surface_id).visible_ = s.visible_ := by
  simp only [markDisplayDamaged]
  split_ifs <;> simp [*]

@[simp]
theorem updateSurfaceState_visible_
    (d : Deps) (s : Sys) (surface_id : SurfaceId) (ack : BeginFrameAck) :
    ((updateSurfaceState d s surface_id ack).1).visible_ = s.visible_ := by
  simp only [updateSurfaceState]
  cases findState s.surface_states_ surface_id <;> simp only [] <;> split_ifs <;> simp

@[simp]
theorem rearmAfterDamage_visible_
    (d : Deps) (e : Env) (s : Sys) (valid_ack display_damaged : Bool) :
    (rearmAfterDamage d e s valid_ack display_damaged).visible_ = s.visible_ := by
  simp only [rearmAfterDamage]
  split_ifs <;> simp [*]

@[simp]
theorem ProcessSurfaceDamage_visible_
    (d : Deps) (e : Env) (s : Sys) (surface_id : SurfaceId) (ack : BeginFrameAck)
    (display_damaged : Bool) :
    (ProcessSurfaceDamage d e s surface_id ack display_damaged).visible_ = s.visible_ := by
  simp only [ProcessSurfaceDamage]
  split_ifs <;> simp [*]


@[simp]
theorem SetNewRootSurface_visible_ (d : Deps) (e : Env) (s : Sys) (root_surface_id : SurfaceId) :
    (s.orFault (SetNewRootSurface d e s root_surface_id)).visible_ = s.visible_ := by
  rcases orFault_SetNewRootSurface d e s root_surface_id with h | ⟨fault, h⟩ <;>
    rw [h] <;> simp

@[simp]
theorem OnSurfaceMarkedForDestruction_visible_
    (d : Deps) (e : Env) (s : Sys) (surface_id : SurfaceId) :
    (OnSurfaceMarkedForDestruction d e s surface_id).visible_ = s.visible_ := by
  simp only [OnSurfaceMarkedForDestruction]
  cases findState s.surface_states_ surface_id with
  | none => rfl
  | some st =>
    simp only []
    split_ifs <;> simp

@[simp]
theorem OnSurfaceDamaged_visible_
    (d : Deps) (e : Env) (s : Sys) (surface_id : SurfaceId) (ack : BeginFrameAck) :
    ((OnSurfaceDamaged d e s surface_id ack).1).visible_ = s.visible_ := by
  simp only [OnSurfaceDamaged]
  split_ifs <;> simp [*]

@[simp]
theorem OnSurfaceDestroyed_visible_ (s : Sys) (surface_id : SurfaceId) :
    (OnSurfaceDestroyed s surface_id).visible_ = s.visible_ := by
  simp only [OnSurfaceDestroyed]
  split_ifs <;> simp [*]

@[simp]
theorem OnSurfaceDamageExpected_visible_
    (d : Deps) (e : Env) (s : Sys) (surface_id : SurfaceId) (args : BeginFrameArgs) :
    (OnSurfaceDamageExpected d e s surface_id args).visible_ = s.visible_ := by
  simp only [OnSurfaceDamageExpected]
  split_ifs <;> simp [*]

@[simp]
theorem DidReceiveSwapBuffersAck_visible_ (d : Deps) (e : Env) (s : Sys) :
    (DidReceiveSwapBuffersAck d e s).visible_ = s.visible_ := by
  simp only [DidReceiveSwapBuffersAck]
  cases e.begin_frame_on_not_busy <;> simp

@[simp]
theorem NotifyFirstSurfaceActivation_visible_ (d : Deps) (e : Env) (s : Sys) :
    (NotifyFirstSurfaceActivation d e s).visible_ = s.visible_ := by
  simp only [NotifyFirstSurfaceActivation]
  split_ifs <;> simp [*]

@[simp]
theorem NotifyFirstSetVisibleActivationTimeout_visible_ (d : Deps) (e : Env) (s : Sys) :
    (NotifyFirstSetVisibleActivationTimeout d e s).visible_ = s.visible_ := by
  simp [NotifyFirstSetVisibleActivationTimeout]

@[simp]
theorem RenderProcessGone_visible_ (s : Sys) :
    (RenderProcessGone s).visible_ = s.visible_ := by
  simp [RenderProcessGone]

@[simp]
theorem finishSurfaceActivatedEx_visible_ (d : Deps) (e : Env) (s : Sys) (surface_id : SurfaceId)
    (needs_first_surface_activation : Bool) (timeout_to_post : Nat) :
    (finishSurfaceActivatedEx d e s surface_id needs_first_surface_activation
      timeout_to_post).visible_ =
      s.visible_ := by
  simp only [finishSurfaceActivatedEx]
  split_ifs <;> simp [*]

@[simp]
theorem resetAndPaintBlocks_visible_ (d : Deps) (e : Env) (s : Sys) (surface_id : SurfaceId)
    (is_first_contentful_paint did_reset_container_state relaunch : Bool)
    (needs_first_surface_activation : Bool) (timeout_to_post : Nat) :
    (resetAndPaintBlocks d e s surface_id is_first_contentful_paint did_reset_container_state
      relaunch needs_first_surface_activation timeout_to_post).visible_ =
      s.visible_ := by
  simp only [resetAndPaintBlocks]
  split_ifs <;> simp [*]

@[simp]
theorem SetClient_visible_ (s : Sys) (client : Bool) :
    (SetClient s client).visible_ = s.visible_ := by
  simp [SetClient]

/-! ### Member functions that leave `first_surface_activated_` unchanged -/

@[simp]
theorem StopObservingBeginFrames_first_surface_activated_ (s : Sys) :
    (StopObservingBeginFrames s).first_surface_activated_ = s.first_surface_activated_ := by
  simp only [StopObservingBeginFrames]
  split_ifs <;> simp [*]

@[simp]
theorem DidSwapBuffers_first_surface_activated_ (s : Sys) :
    (DidSwapBuffers s).first_surface_activated_ = s.first_surface_activated_ := by
  simp only [DidSwapBuffers]
  split_ifs <;> simp [*]

@[simp]
theorem clientSwaps_first_surface_activated_ (n : Nat) (s : Sys) :
    (clientSwaps n s).first_surface_activated_ = s.first_surface_activated_ := by
  induction n generalizing s with
  | zero => rfl
  | succ k ih => simp [clientSwaps, ih]

@[simp]
theorem DrawAndSwap_first_surface_activated_ (e : Env) (s : Sys) :
    ((DrawAndSwap e s).1).first_surface_activated_ = s.first_surface_activated_ := by
  simp only [DrawAndSwap]
  split_ifs <;> simp [*]

@[simp]
theorem AttemptDrawAndSwap_first_surface_activated_ (e : Env) (s : Sys) :
    ((AttemptDrawAndSwap e s).1).first_surface_activated_ = s.first_surface_activated_ := by
  simp only [AttemptDrawAndSwap]
  split_ifs <;> simp [*]

@[simp]
theorem DidFinishFrame_first_surface_activated_ (s : Sys) (did_draw : Bool) :
    (DidFinishFrame s did_draw).first_surface_activated_ = s.first_surface_activated_ := by
  simp only [DidFinishFrame]
  split_ifs <;> simp [*]

@[simp]
theorem OnBeginFrameDeadline_first_surface_activated_ (e : Env) (s : Sys) :
    (OnBeginFrameDeadline e s).first_surface_activated_ = s.first_surface_activated_ := by
  simp [OnBeginFrameDeadline]

@[simp]
theorem ForceImmediateSwapIfPossible_first_surface_activated_ (e : Env) (s : Sys) :
    (ForceImmediateSwapIfPossible e s).first_surface_activated_ = s.first_surface_activated_ := by
  simp only [ForceImmediateSwapIfPossible]
  split_ifs <;> simp [*]

@[simp]
theorem UpdateHasPendingSurfaces_first_surface_activated_ (e : Env) (s : Sys) :
    ((UpdateHasPendingSurfaces e s).1).first_surface_activated_ = s.first_surface_activated_ := by
  simp only [UpdateHasPendingSurfaces]
  split_ifs <;> simp [*]

@[simp]
theorem ScheduleBeginFrameDeadline_first_surface_activated_ (d : Deps) (e : Env) (s : Sys) :
    (ScheduleBeginFrameDeadline d e s).first_surface_activated_ = s.first_surface_activated_ := by
  simp only [ScheduleBeginFrameDeadline]
  split_ifs <;> simp [*]

@[simp]
theorem OnBeginFrameDerivedImpl_first_surface_activated_
    (d : Deps) (e : Env) (s : Sys) (args : BeginFrameArgs) :
    ((OnBeginFrameDerivedImpl d e s args).1).first_surface_activated_ =
      s.first_surface_activated_ := by
  simp only [OnBeginFrameDerivedImpl]
  split_ifs <;> simp [*]

@[simp]
theorem StartObservingBeginFrames_first_surface_activated_ (d : Deps) (e : Env) (s : Sys) :
    (StartObservingBeginFrames d e s).first_surface_activated_ = s.first_surface_activated_ := by
  simp only [StartObservingBeginFrames]
  cases e.missed_on_add <;> split_ifs <;> simp

@[simp]
theorem SetNeedsOneBeginFrame_first_surface_activated_ (d : Deps) (e : Env) (s : Sys) :
    (SetNeedsOneBeginFrame d e s).first_surface_activated_ = s.first_surface_activated_ := by
  simp [SetNeedsOneBeginFrame]

@[simp]
theorem MaybeStartObservingBeginFrames_first_surface_activated_ (d : Deps) (e : Env) (s : Sys) :
    (MaybeStartObservingBeginFrames d e s).first_surface_activated_ =
      s.first_surface_activated_ := by
  simp only [MaybeStartObservingBeginFrames]
  split_ifs <;> simp [*]

@[simp]
theorem SetVisible_first_surface_activated_ (d : Deps) (e : Env) (s : Sys) (visible : Bool) :
    (SetVisible d e s visible).first_surface_activated_ = s.first_surface_activated_ := by
  simp only [SetVisible]
  split_ifs <;> simp [*]

@[simp]
theorem SetRootFrameMissing_first_surface_activated_
    (d : Deps) (e : Env) (s : Sys) (missing : Bool) :
    (SetRootFrameMissing d e s missing).first_surface_activated_ = s.first_surface_activated_ := by
  simp only [SetRootFrameMissing]
  split_ifs <;> simp [*]

@[simp]
theorem DisplayResized_first_surface_activated_ (d : Deps) (e : Env) (s : Sys) :
    (DisplayResized d e s).first_surface_activated_ = s.first_surface_activated_ := by
  simp [DisplayResized]

@[simp]
theorem OutputSurfaceLost_first_surface_activated_ (d : Deps) (e : Env) (s : Sys) :
    (OutputSurfaceLost d e s).first_surface_activated_ = s.first_surface_activated_ := by
  simp [OutputSurfaceLost]

@[simp]
theorem markDisplayDamaged_first_surface_activated_
    (d : Deps) (e : Env) (s : Sys) (surface_id : SurfaceId) :
    (markDisplayDamaged d e s surface_id).first_surface_activated_ =
      s.first_surface_activated_ := by
  simp only [markDisplayDamaged]
  split_ifs <;> simp [*]

@[simp]
theorem updateSurfaceState_first_surface_activated_
    (d : Deps) (s : Sys) (surface_id : SurfaceId) (ack : BeginFrameAck) :
    ((updateSurfaceState d s surface_id ack).1).first_surface_activated_ =
      s.first_surface_activated_ := by
  simp only [updateSurfaceState]
  cases findState s.surface_states_ surface_id <;> simp only [] <;> split_ifs <;> simp

@[simp]
theorem rearmAfterDamage_first_surface_activated_
    (d : Deps) (e : Env) (s : Sys) (valid_ack display_damaged : Bool) :
    (rearmAfterDamage d e s valid_ack display_damaged).first_surface_activated_ =
      s.first_surface_activated_ := by
  simp only [rearmAfterDamage]
  split_ifs <;> simp [*]

@[simp]
theorem ProcessSurfaceDamage_first_surface_activated_
    (d : Deps) (e : Env) (s : Sys) (surface_id : SurfaceId) (ack : BeginFrameAck)
    (display_damaged : Bool) :
    (ProcessSurfaceDamage d e s surface_id ack display_damaged).first_surface_activated_ =
      s.first_surface_activated_ := by
  simp only [ProcessSurfaceDamage]
  split_ifs <;> simp [*]

@[simp]
theorem OnSurfaceMarkedForDestruction_first_surface_activated_
    (d : Deps) (e : Env) (s : Sys) (surface_id : SurfaceId) :
    (OnSurfaceMarkedForDestruction d e s surface_id).first_surface_activated_ =
      s.first_surface_activated_ := by
  simp only [OnSurfaceMarkedForDestruction]
  cases findState s.surface_states_ surface_id with
  | none => rfl
  | some st =>
    simp only []
    split_ifs <;> simp

@[simp]
theorem OnSurfaceDamaged_first_surface_activated_
    (d : Deps) (e : Env) (s : Sys) (surface_id : SurfaceId) (ack : BeginFrameAck) :
    ((OnSurfaceDamaged d e s surface_id ack).1).first_surface_activated_ =
      s.first_surface_activated_ := by
  simp only [OnSurfaceDamaged]
  split_ifs <;> simp [*]

@[simp]
theorem OnSurfaceDestroyed_first_surface_activated_ (s : Sys) (surface_id : SurfaceId) :
    (OnSurfaceDestroyed s surface_id).first_surface_activated_ = s.first_surface_activated_ := by
  simp only [OnSurfaceDestroyed]
  split_ifs <;> simp [*]

@[simp]
theorem OnSurfaceDamageExpected_first_surface_activated_
    (d : Deps) (e : Env) (s : Sys) (surface_id : SurfaceId) (args : BeginFrameArgs) :
    (OnSurfaceDamageExpected d e s surface_id args).first_surface_activated_ =
      s.first_surface_activated_ := by
  simp only [OnSurfaceDamageExpected]
  split_ifs <;> simp [*]

@[simp]
theorem DidReceiveSwapBuffersAck_first_surface_activated_ (d : Deps) (e : Env) (s : Sys) :
    (DidReceiveSwapBuffersAck d e s).first_surface_activated_ = s.first_surface_activated_ := by
  simp only [DidReceiveSwapBuffersAck]
  cases e.begin_frame_on_not_busy <;> simp

@[simp]
theorem SetClient_first_surface_activated_ (s : Sys) (client : Bool) :
    (SetClient s client).first_surface_activated_ = s.first_surface_activated_ := by
  simp [SetClient]

/-! ### Member functions that leave `has_pending_surfaces_` unchanged -/

@[simp]
theorem StopObservingBeginFrames_has_pending_surfaces_ (s : Sys) :
    (StopObservingBeginFrames s).has_pending_surfaces_ = s.has_pending_surfaces_ := by
  simp only [StopObservingBeginFrames]
  split_ifs <;> simp [*]

@[simp]
theorem DidSwapBuffers_has_pending_surfaces_ (s : Sys) :
    (DidSwapBuffers s).has_pending_surfaces_ = s.has_pending_surfaces_ := by
  simp only [DidSwapBuffers]
  split_ifs <;> simp [*]

@[simp]
theorem clientSwaps_has_pending_surfaces_ (n : Nat) (s : Sys) :
    (clientSwaps n s).has_pending_surfaces_ = s.has_pending_surfaces_ := by
  induction n generalizing s with
  | zero => rfl
  | succ k ih => simp [clientSwaps, ih]

@[simp]
theorem DrawAndSwap_has_pending_surfaces_ (e : Env) (s : Sys) :
    ((DrawAndSwap e s).1).has_pending_surfaces_ = s.has_pending_surfaces_ := by
  simp only [DrawAndSwap]
  split_ifs <;> simp [*]

@[simp]
theorem AttemptDrawAndSwap_has_pending_surfaces_ (e : Env) (s : Sys) :
    ((AttemptDrawAndSwap e s).1).has_pending_surfaces_ = s.has_pending_surfaces_ := by
  simp only [AttemptDrawAndSwap]
  split_ifs <;> simp [*]

@[simp]
theorem DidFinishFrame_has_pending_surfaces_ (s : Sys) (did_draw : Bool) :
    (DidFinishFrame s did_draw).has_pending_surfaces_ = s.has_pending_surfaces_ := by
  simp only [DidFinishFrame]
  split_ifs <;> simp [*]

@[simp]
theorem OnBeginFrameDeadline_has_pending_surfaces_ (e : Env) (s : Sys) :
    (OnBeginFrameDeadline e s).has_pending_surfaces_ = s.has_pending_surfaces_ := by
  simp [OnBeginFrameDeadline]

@[simp]
theorem ForceImmediateSwapIfPossible_has_pending_surfaces_ (e : Env) (s : Sys) :
    (ForceImmediateSwapIfPossible e s).has_pending_surfaces_ = s.has_pending_surfaces_ := by
  simp only [ForceImmediateSwapIfPossible]
  split_ifs <;> simp [*]

@[simp]
theorem ScheduleBeginFrameDeadline_has_pending_surfaces_ (d : Deps) (e : Env) (s : Sys) :
    (ScheduleBeginFrameDeadline d e s).has_pending_surfaces_ = s.has_pending_surfaces_ := by
  simp only [ScheduleBeginFrameDeadline]
  split_ifs <;> simp [*]

@[simp]
theorem DisplayResized_has_pending_surfaces_ (d : Deps) (e : Env) (s : Sys) :
    (DisplayResized d e s).has_pending_surfaces_ = s.has_pending_surfaces_ := by
  simp [DisplayResized]

@[simp]
theorem OutputSurfaceLost_has_pending_surfaces_ (d : Deps) (e : Env) (s : Sys) :
    (OutputSurfaceLost d e s).has_pending_surfaces_ = s.has_pending_surfaces_ := by
  simp [OutputSurfaceLost]

@[simp]
theorem updateSurfaceState_has_pending_surfaces_
    (d : Deps) (s : Sys) (surface_id : SurfaceId) (ack : BeginFrameAck) :
    ((updateSurfaceState d s surface_id ack).1).has_pending_surfaces_ =
      s.has_pending_surfaces_ := by
  simp only [updateSurfaceState]
  cases findState s.surface_states_ surface_id <;> simp only [] <;> split_ifs <;> simp


@[simp]
theorem OnSurfaceDestroyed_has_pending_surfaces_ (s : Sys) (surface_id : SurfaceId) :
    (OnSurfaceDestroyed s surface_id).has_pending_surfaces_ = s.has_pending_surfaces_ := by
  simp only [OnSurfaceDestroyed]
  split_ifs <;> simp [*]


@[simp]
theorem RenderProcessGone_has_pending_surfaces_ (s : Sys) :
    (RenderProcessGone s).has_pending_surfaces_ = s.has_pending_surfaces_ := by
  simp [RenderProcessGone]

@[simp]
theorem SetClient_has_pending_surfaces_ (s : Sys) (client : Bool) :
    (SetClient s client).has_pending_surfaces_ = s.has_pending_surfaces_ := by
  simp [SetClient]

/-! ### Member functions that leave `expecting_root_surface_damage_because_of_resize_` unchanged -/

@[simp]
theorem StopObservingBeginFrames_expecting_root_surface_damage_because_of_resize_ (s : Sys) :
    (StopObservingBeginFrames s).expecting_root_surface_damage_because_of_resize_ =
      s.expecting_root_surface_damage_because_of_resize_ := by
  simp only [StopObservingBeginFrames]
  split_ifs <;> simp [*]

@[simp]
theorem DidSwapBuffers_expecting_root_surface_damage_because_of_resize_ (s : Sys) :
    (DidSwapBuffers s).expecting_root_surface_damage_because_of_resize_ =
      s.expecting_root_surface_damage_because_of_resize_ := by
  simp only [DidSwapBuffers]
  split_ifs <;> simp [*]

@[simp]
theorem clientSwaps_expecting_root_surface_damage_because_of_resize_ (n : Nat) (s : Sys) :
    (clientSwaps n s).expecting_root_surface_damage_because_of_resize_ =
      s.expecting_root_surface_damage_because_of_resize_ := by
  induction n generalizing s with
  | zero => rfl
  | succ k ih => simp [clientSwaps, ih]

@[simp]
theorem DrawAndSwap_expecting_root_surface_damage_because_of_resize_ (e : Env) (s : Sys) :
    ((DrawAndSwap e s).1).expecting_root_surface_damage_because_of_resize_ =
      s.expecting_root_surface_damage_because_of_resize_ := by
  simp only [DrawAndSwap]
  split_ifs <;> simp [*]

@[simp]
theorem DidFinishFrame_expecting_root_surface_damage_because_of_resize_
    (s : Sys) (did_draw : Bool) :
    (DidFinishFrame s did_draw).expecting_root_surface_damage_because_of_resize_ =
      s.expecting_root_surface_damage_because_of_resize_ := by
  simp only [DidFinishFrame]
  split_ifs <;> simp [*]

@[simp]
theorem UpdateHasPendingSurfaces_expecting_root_surface_damage_because_of_resize_
    (e : Env) (s : Sys) :
    ((UpdateHasPendingSurfaces e s).1).expecting_root_surface_damage_because_of_resize_ =
      s.expecting_root_surface_damage_because_of_resize_ := by
  simp only [UpdateHasPendingSurfaces]
  split_ifs <;> simp [*]

@[simp]
theorem ScheduleBeginFrameDeadline_expecting_root_surface_damage_because_of_resize_
    (d : Deps) (e : Env) (s : Sys) :
    (ScheduleBeginFrameDeadline d e s).expecting_root_surface_damage_because_of_resize_ =
      s.expecting_root_surface_damage_because_of_resize_ := by
  simp only [ScheduleBeginFrameDeadline]
  split_ifs <;> simp [*]

@[simp]
theorem OutputSurfaceLost_expecting_root_surface_damage_because_of_resize_
    (d : Deps) (e : Env) (s : Sys) :
    (OutputSurfaceLost d e s).expecting_root_surface_damage_because_of_resize_ =
      s.expecting_root_surface_damage_because_of_resize_ := by
  simp [OutputSurfaceLost]

@[simp]
theorem updateSurfaceState_expecting_root_surface_damage_because_of_resize_
    (d : Deps) (s : Sys) (surface_id : SurfaceId) (ack : BeginFrameAck) :
    ((updateSurfaceState d s surface_id ack).1).expecting_root_surface_damage_because_of_resize_ =
      s.expecting_root_surface_damage_because_of_resize_ := by
  simp only [updateSurfaceState]
  cases findState s.surface_states_ surface_id <;> simp only [] <;> split_ifs <;> simp

@[simp]
theorem rearmAfterDamage_expecting_root_surface_damage_because_of_resize_
    (d : Deps) (e : Env) (s : Sys) (valid_ack display_damaged : Bool) :
    (rearmAfterDamage d e s valid_ack display_damaged).expecting_root_surface_damage_because_of_resize_ =
      s.expecting_root_surface_damage_because_of_resize_ := by
  simp only [rearmAfterDamage]
  split_ifs <;> simp [*]


@[simp]
theorem OnSurfaceMarkedForDestruction_expecting_root_surface_damage_because_of_resize_
    (d : Deps) (e : Env) (s : Sys) (surface_id : SurfaceId) :
    (OnSurfaceMarkedForDestruction d e s surface_id).expecting_root_surface_damage_because_of_resize_ =
      s.expecting_root_surface_damage_because_of_resize_ := by
  simp only [OnSurfaceMarkedForDestruction]
  cases findState s.surface_states_ surface_id with
  | none => rfl
  | some st =>
    simp only []
    split_ifs <;> simp

@[simp]
theorem OnSurfaceDestroyed_expecting_root_surface_damage_because_of_resize_
    (s : Sys) (surface_id : SurfaceId) :
    (OnSurfaceDestroyed s surface_id).expecting_root_surface_damage_because_of_resize_ =
      s.expecting_root_surface_damage_because_of_resize_ := by
  simp only [OnSurfaceDestroyed]
  split_ifs <;> simp [*]

@[simp]
theorem OnSurfaceDamageExpected_expecting_root_surface_damage_because_of_resize_
    (d : Deps) (e : Env) (s : Sys) (surface_id : SurfaceId) (args : BeginFrameArgs) :
    (OnSurfaceDamageExpected d e s surface_id args).expecting_root_surface_damage_because_of_resize_ =
      s.expecting_root_surface_damage_because_of_resize_ := by
  simp only [OnSurfaceDamageExpected]
  split_ifs <;> simp [*]


@[simp]
theorem RenderProcessGone_expecting_root_surface_damage_because_of_resize_ (s : Sys) :
    (RenderProcessGone s).expecting_root_surface_damage_because_of_resize_ =
      s.expecting_root_surface_damage_because_of_resize_ := by
  simp [RenderProcessGone]

@[simp]
theorem SetClient_expecting_root_surface_damage_because_of_resize_ (s : Sys) (client : Bool) :
    (SetClient s client).expecting_root_surface_damage_because_of_resize_ =
      s.expecting_root_surface_damage_because_of_resize_ := by
  simp [SetClient]

/-! ### Member functions that leave `begin_frame_deadline_task_time_` unchanged -/

@[simp]
theorem StopObservingBeginFrames_begin_frame_deadline_task_time_ (s : Sys) :
    (StopObservingBeginFrames s).begin_frame_deadline_task_time_ =
      s.begin_frame_deadline_task_time_ := by
  simp only [StopObservingBeginFrames]
  split_ifs <;> simp [*]

@[simp]
theorem DidSwapBuffers_begin_frame_deadline_task_time_ (s : Sys) :
    (DidSwapBuffers s).begin_frame_deadline_task_time_ = s.begin_frame_deadline_task_time_ := by
  simp only [DidSwapBuffers]
  split_ifs <;> simp [*]

@[simp]
theorem clientSwaps_begin_frame_deadline_task_time_ (n : Nat) (s : Sys) :
    (clientSwaps n s).begin_frame_deadline_task_time_ = s.begin_frame_deadline_task_time_ := by
  induction n generalizing s with
  | zero => rfl
  | succ k ih => simp [clientSwaps, ih]

@[simp]
theorem DrawAndSwap_begin_frame_deadline_task_time_ (e : Env) (s : Sys) :
    ((DrawAndSwap e s).1).begin_frame_deadline_task_time_ = s.begin_frame_deadline_task_time_ := by
  simp only [DrawAndSwap]
  split_ifs <;> simp [*]

@[simp]
theorem DidFinishFrame_begin_frame_deadline_task_time_ (s : Sys) (did_draw : Bool) :
    (DidFinishFrame s did_draw).begin_frame_deadline_task_time_ =
      s.begin_frame_deadline_task_time_ := by
  simp only [DidFinishFrame]
  split_ifs <;> simp [*]

@[simp]
theorem UpdateHasPendingSurfaces_begin_frame_deadline_task_time_ (e : Env) (s : Sys) :
    ((UpdateHasPendingSurfaces e s).1).begin_frame_deadline_task_time_ =
      s.begin_frame_deadline_task_time_ := by
  simp only [UpdateHasPendingSurfaces]
  split_ifs <;> simp [*]

@[simp]
theorem updateSurfaceState_begin_frame_deadline_task_time_
    (d : Deps) (s : Sys) (surface_id : SurfaceId) (ack : BeginFrameAck) :
    ((updateSurfaceState d s surface_id ack).1).begin_frame_deadline_task_time_ =
      s.begin_frame_deadline_task_time_ := by
  simp only [updateSurfaceState]
  cases findState s.surface_states_ surface_id <;> simp only [] <;> split_ifs <;> simp


@[simp]
theorem OnSurfaceDestroyed_begin_frame_deadline_task_time_ (s : Sys) (surface_id : SurfaceId) :
    (OnSurfaceDestroyed s surface_id).begin_frame_deadline_task_time_ =
      s.begin_frame_deadline_task_time_ := by
  simp only [OnSurfaceDestroyed]
  split_ifs <;> simp [*]

@[simp]
theorem RenderProcessGone_begin_frame_deadline_task_time_ (s : Sys) :
    (RenderProcessGone s).begin_frame_deadline_task_time_ = s.begin_frame_deadline_task_time_ := by
  simp [RenderProcessGone]

@[simp]
theorem SetClient_begin_frame_deadline_task_time_ (s : Sys) (client : Bool) :
    (SetClient s client).begin_frame_deadline_task_time_ = s.begin_frame_deadline_task_time_ := by
  simp [SetClient]

/-! ### Member functions that leave `observing_begin_frame_source_` unchanged -/

@[simp]
theorem DidSwapBuffers_observing_begin_frame_source_ (s : Sys) :
    (DidSwapBuffers s).observing_begin_frame_source_ = s.observing_begin_frame_source_ := by
  simp only [DidSwapBuffers]
  split_ifs <;> simp [*]

@[simp]
theorem clientSwaps_observing_begin_frame_source_ (n : Nat) (s : Sys) :
    (clientSwaps n s).observing_begin_frame_source_ = s.observing_begin_frame_source_ := by
  induction n generalizing s with
  | zero => rfl
  | succ k ih => simp [clientSwaps, ih]

@[simp]
theorem DrawAndSwap_observing_begin_frame_source_ (e : Env) (s : Sys) :
    ((DrawAndSwap e s).1).observing_begin_frame_source_ = s.observing_begin_frame_source_ := by
  simp only [DrawAndSwap]
  split_ifs <;> simp [*]

@[simp]
theorem DidFinishFrame_observing_begin_frame_source_ (s : Sys) (did_draw : Bool) :
    (DidFinishFrame s did_draw).observing_begin_frame_source_ =
      s.observing_begin_frame_source_ := by
  simp only [DidFinishFrame]
  split_ifs <;> simp [*]

@[simp]
theorem UpdateHasPendingSurfaces_observing_begin_frame_source_ (e : Env) (s : Sys) :
    ((UpdateHasPendingSurfaces e s).1).observing_begin_frame_source_ =
      s.observing_begin_frame_source_ := by
  simp only [UpdateHasPendingSurfaces]
  split_ifs <;> simp [*]

@[simp]
theorem ScheduleBeginFrameDeadline_observing_begin_frame_source_ (d : Deps) (e : Env) (s : Sys) :
    (ScheduleBeginFrameDeadline d e s).observing_begin_frame_source_ =
      s.observing_begin_frame_source_ := by
  simp only [ScheduleBeginFrameDeadline]
  split_ifs <;> simp [*]

@[simp]
theorem DisplayResized_observing_begin_frame_source_ (d : Deps) (e : Env) (s : Sys) :
    (DisplayResized d e s).observing_begin_frame_source_ = s.observing_begin_frame_source_ := by
  simp [DisplayResized]

@[simp]
theorem OutputSurfaceLost_observing_begin_frame_source_ (d : Deps) (e : Env) (s : Sys) :
    (OutputSurfaceLost d e s).observing_begin_frame_source_ = s.observing_begin_frame_source_ := by
  simp [OutputSurfaceLost]

@[simp]
theorem updateSurfaceState_observing_begin_frame_source_
    (d : Deps) (s : Sys) (surface_id : SurfaceId) (ack : BeginFrameAck) :
    ((updateSurfaceState d s surface_id ack).1).observing_begin_frame_source_ =
      s.observing_begin_frame_source_ := by
  simp only [updateSurfaceState]
  cases findState s.surface_states_ surface_id <;> simp only [] <;> split_ifs <;> simp

@[simp]
theorem rearmAfterDamage_observing_begin_frame_source_
    (d : Deps) (e : Env) (s : Sys) (valid_ack display_damaged : Bool) :
    (rearmAfterDamage d e s valid_ack display_damaged).observing_begin_frame_source_ =
      s.observing_begin_frame_source_ := by
  simp only [rearmAfterDamage]
  split_ifs <;> simp [*]


@[simp]
theorem OnSurfaceMarkedForDestruction_observing_begin_frame_source_
    (d : Deps) (e : Env) (s : Sys) (surface_id : SurfaceId) :
    (OnSurfaceMarkedForDestruction d e s surface_id).observing_begin_frame_source_ =
      s.observing_begin_frame_source_ := by
  simp only [OnSurfaceMarkedForDestruction]
  cases findState s.surface_states_ surface_id with
  | none => rfl
  | some st =>
    simp only []
    split_ifs <;> simp

@[simp]
theorem OnSurfaceDestroyed_observing_begin_frame_source_ (s : Sys) (surface_id : SurfaceId) :
    (OnSurfaceDestroyed s surface_id).observing_begin_frame_source_ =
      s.observing_begin_frame_source_ := by
  simp only [OnSurfaceDestroyed]
  split_ifs <;> simp [*]

@[simp]
theorem OnSurfaceDamageExpected_observing_begin_frame_source_
    (d : Deps) (e : Env) (s : Sys) (surface_id : SurfaceId) (args : BeginFrameArgs) :
    (OnSurfaceDamageExpected d e s surface_id args).observing_begin_frame_source_ =
      s.observing_begin_frame_source_ := by
  simp only [OnSurfaceDamageExpected]
  split_ifs <;> simp [*]


@[simp]
theorem RenderProcessGone_observing_begin_frame_source_ (s : Sys) :
    (RenderProcessGone s).observing_begin_frame_source_ = s.observing_begin_frame_source_ := by
  simp [RenderProcessGone]

@[simp]
theorem SetClient_observing_begin_frame_source_ (s : Sys) (client : Bool) :
    (SetClient s client).observing_begin_frame_source_ = s.observing_begin_frame_source_ := by
  simp [SetClient]


/-! ## Theorems: the draw condition, swaps and teardown -/

/-- C19: without the readiness gate `ShouldDraw()` is the spec's conjunction
(`needs_draw_`, not `output_surface_lost_`, `visible_`, not `root_frame_missing_`);
with the gate (`use_viz_fmp_with_timeout_`) it is that conjunction and
`first_surface_activated_`; so whenever `ShouldDraw()` holds the conjunction
holds: the gate can make `ShouldDraw()` false, never true. -/
theorem should_draw_characterisation (s : DisplayScheduler) :
    (s.use_viz_fmp_with_timeout_ = false → ShouldDraw s = specShouldDraw s) ∧
    (s.use_viz_fmp_with_timeout_ = true →
      ShouldDraw s = (specShouldDraw s && s.first_surface_activated_)) ∧
    (ShouldDraw s = true → specShouldDraw s = true) := by
  refine ⟨fun h => by simp [ShouldDraw, specShouldDraw, h],
    fun h => by simp [ShouldDraw, specShouldDraw, h], fun h => ?_⟩
  simp only [ShouldDraw, specShouldDraw] at h ⊢
  split_ifs at h
  · rw [Bool.and_eq_true] at h
    exact h.1
  · exact h

/-- Witness of C19: the sample scheduler that is ready to draw has no gate and
satisfies both `ShouldDraw()` and the spec's conjunction. -/
theorem should_draw_characterisation_witness :
    readyScheduler.use_viz_fmp_with_timeout_ = false ∧
      ShouldDraw readyScheduler.toDisplayScheduler = true ∧
      specShouldDraw readyScheduler.toDisplayScheduler = true :=
  ⟨by decide, by decide,
    (should_draw_characterisation readyScheduler.toDisplayScheduler).2.2 (by decide)⟩

/-- The swap count after `n` calls of `DidSwapBuffers` in a row, as long as it
stays an `int`. -/
theorem run_DidSwapBuffers_pending_swaps_ (d : Deps) (e : Env) (n : Nat) :
    ∀ s : Sys, INT_MIN ≤ s.pending_swaps_ → s.pending_swaps_ + n ≤ INT_MAX →
      (run d s (List.replicate n (Op.DidSwapBuffers, e))).pending_swaps_ =
        s.pending_swaps_ + n := by
  induction n with
  | zero => intro s _ _; simp [run]
  | succ k ih =>
    intro s h1 h2
    have hw : wrapInt (s.pending_swaps_ + 1) = s.pending_swaps_ + 1 :=
      wrapInt_of_int _ (by unfold INT_MIN at h1 ⊢; omega) (by push_cast at h2; omega)
    simp only [List.replicate_succ, run, step]
    rw [ih (DidSwapBuffers s) (by rw [DidSwapBuffers_pending_swaps_, hw]; omega)
      (by rw [DidSwapBuffers_pending_swaps_, hw]; push_cast at h2; omega),
      DidSwapBuffers_pending_swaps_, hw]
    push_cast
    omega

/-- C20, as stated, fails: `pending_swaps_` is an `int`.  After 2147483647 calls
of `DidSwapBuffers` without an acknowledgment the count is `INT_MAX`, and one
more call leaves -2147483648 and not the count plus one. -/
theorem did_swap_buffers_wraps_at_int_max :
    (run sampleDeps sampleScheduler
      (List.replicate 2147483647 (Op.DidSwapBuffers, sampleEnv 0))).pending_swaps_ =
        2147483647 ∧
    (DidSwapBuffers (run sampleDeps sampleScheduler
      (List.replicate 2147483647 (Op.DidSwapBuffers, sampleEnv 0)))).pending_swaps_ =
        -2147483648 ∧
    (DidSwapBuffers (run sampleDeps sampleScheduler
      (List.replicate 2147483647 (Op.DidSwapBuffers, sampleEnv 0)))).pending_swaps_ ≠
      (run sampleDeps sampleScheduler
        (List.replicate 2147483647 (Op.DidSwapBuffers, sampleEnv 0))).pending_swaps_ + 1 := by
  have h := run_DidSwapBuffers_pending_swaps_ sampleDeps (sampleEnv 0) 2147483647
    sampleScheduler (by decide) (by decide)
  have h0 : sampleScheduler.pending_swaps_ = 0 := rfl
  rw [h0] at h
  have hp : (run sampleDeps sampleScheduler
      (List.replicate 2147483647 (Op.DidSwapBuffers, sampleEnv 0))).pending_swaps_ =
        2147483647 := by
    rw [h]
    norm_num
  rw [DidSwapBuffers_pending_swaps_, hp]
  refine ⟨rfl, ?_, ?_⟩ <;> simp only [wrapInt] <;> norm_num

/-- C20, amended: while `pending_swaps_` is an `int` below `INT_MAX`,
`DidSwapBuffers` adds one to it; it calls `SetIsGpuBusy(true)` on the begin-frame
source exactly when the new count equals `max_pending_swaps_`, and makes no
other call; apart from `pending_swaps_` and the counter `next_swap_id_`, which
only names the swap in trace events, no member changes: not `needs_draw_`, not
the interval, not the surface map, not the deadline task. -/
theorem did_swap_buffers_effect (s : Sys)
    (hmin : INT_MIN ≤ s.pending_swaps_) (hmax : s.pending_swaps_ < INT_MAX) :
    (DidSwapBuffers s).pending_swaps_ = s.pending_swaps_ + 1 ∧
    (DidSwapBuffers s).log =
      s.log ++ (if s.pending_swaps_ + 1 = s.max_pending_swaps_ then
        [Effect.SetIsGpuBusy true] else []) ∧
    (Effect.SetIsGpuBusy true ∈ newEvents s (DidSwapBuffers s) ↔
      (DidSwapBuffers s).pending_swaps_ = s.max_pending_swaps_) ∧
    (DidSwapBuffers s).toDisplayScheduler =
      { s.toDisplayScheduler with
        pending_swaps_ := s.pending_swaps_ + 1
        next_swap_id_ := (s.next_swap_id_ + 1) % 2 ^ 32 } ∧
    ((DidSwapBuffers s).needs_draw_ = s.needs_draw_ ∧
      (DidSwapBuffers s).inside_begin_frame_deadline_interval_ =
        s.inside_begin_frame_deadline_interval_ ∧
      (DidSwapBuffers s).current_begin_frame_args_ = s.current_begin_frame_args_ ∧
      (DidSwapBuffers s).surface_states_ = s.surface_states_ ∧
      (DidSwapBuffers s).has_pending_surfaces_ = s.has_pending_surfaces_ ∧
      (DidSwapBuffers s).begin_frame_deadline_task_ = s.begin_frame_deadline_task_ ∧
      (DidSwapBuffers s).begin_frame_deadline_task_time_ = s.begin_frame_deadline_task_time_ ∧
      (DidSwapBuffers s).observing_begin_frame_source_ = s.observing_begin_frame_source_) := by
  have hw : wrapInt (s.pending_swaps_ + 1) = s.pending_swaps_ + 1 :=
    wrapInt_of_int _ (by unfold INT_MIN at hmin ⊢; omega) (by omega)
  have hlog : (DidSwapBuffers s).log =
      s.log ++ (if s.pending_swaps_ + 1 = s.max_pending_swaps_ then
        [Effect.SetIsGpuBusy true] else []) := by
    simp only [DidSwapBuffers, hw]
    split_ifs <;> simp
  have hmem : Effect.SetIsGpuBusy true ∈ newEvents s (DidSwapBuffers s) ↔
      (DidSwapBuffers s).pending_swaps_ = s.max_pending_swaps_ := by
    rw [newEvents_of_append s _ _ hlog, DidSwapBuffers_pending_swaps_, hw]
    split_ifs with h <;> simp [h]
  have hst : (DidSwapBuffers s).toDisplayScheduler =
      { s.toDisplayScheduler with
        pending_swaps_ := s.pending_swaps_ + 1
        next_swap_id_ := (s.next_swap_id_ + 1) % 2 ^ 32 } := by
    simp only [DidSwapBuffers, hw]
    split_ifs <;> rfl
  refine ⟨by rw [DidSwapBuffers_pending_swaps_, hw], hlog, hmem, hst, ?_⟩
  simp only [DidSwapBuffers]
  split_ifs <;> simp

/-- Witness of the amended C20: the sample scheduler that is ready to draw has
no swap in flight and one allowed; `DidSwapBuffers` brings the count to the
limit and signals back-pressure. -/
theorem did_swap_buffers_effect_witness :
    readyScheduler.pending_swaps_ = 0 ∧ readyScheduler.max_pending_swaps_ = 1 ∧
      (DidSwapBuffers readyScheduler).pending_swaps_ = readyScheduler.pending_swaps_ + 1 ∧
      (Effect.SetIsGpuBusy true ∈ newEvents readyScheduler (DidSwapBuffers readyScheduler) ↔
        (DidSwapBuffers readyScheduler).pending_swaps_ = readyScheduler.max_pending_swaps_) :=
  ⟨by decide, by decide,
    (did_swap_buffers_effect readyScheduler (by decide) (by decide)).1,
    (did_swap_buffers_effect readyScheduler (by decide) (by decide)).2.2.1⟩

/-- C14: for every state, whatever `pending_swaps_` is, the destructor calls
`SetIsGpuBusy(false)` on the begin-frame source and then, if the scheduler was
observing it, `RemoveObserver`; it makes no other call, and afterwards the
scheduler is not observing. -/
theorem teardown_clears_backpressure (s : Sys) :
    (destruct s).log =
      s.log ++ Effect.SetIsGpuBusy false ::
        (if s.observing_begin_frame_source_ then [Effect.RemoveObserver] else []) ∧
    (destruct s).observing_begin_frame_source_ = false := by
  simp only [destruct, StopObservingBeginFrames]
  cases h : s.observing_begin_frame_source_ <;> simp [h, Sys.emit]

/-- C18: `ProcessSurfaceDamage` without display damage and with an acknowledgment
that is not accepted (its sequence number is invalid, or the surface has no
record, or the stored acknowledgment has the same `source_id` and a
`sequence_number` at least as large) returns the state it was given: every member
and the trace of calls are unchanged, so nothing is drawn, scheduled, subscribed
or unsubscribed. -/
theorem stale_ack_is_discarded (d : Deps) (e : Env) (s : Sys) (surface_id : SurfaceId)
    (ack : BeginFrameAck)
    (h : ack.sequence_number = d.kInvalidFrameNumber ∨
      findState s.surface_states_ surface_id = none ∨
      ∃ st, findState s.surface_states_ surface_id = some st ∧
        st.last_ack.source_id = ack.source_id ∧
        ack.sequence_number ≤ st.last_ack.sequence_number) :
    ProcessSurfaceDamage d e s surface_id ack false = s := by
  have hu : updateSurfaceState d { s with inside_surface_damaged_ := true } surface_id ack =
      ({ s with inside_surface_damaged_ := true }, false) := by
    simp only [updateSurfaceState]
    rcases h with h | h | ⟨st, hf, hsrc, hseq⟩
    · simp [h]
    · simp only [h]
      split_ifs <;> simp_all
    · have hlt : ¬ st.last_ack.sequence_number < ack.sequence_number := by omega
      simp [hf, hsrc, hlt]
  simp [ProcessSurfaceDamage, rearmAfterDamage, hu]

/-- Witness of C18: the surface of the sample scheduler has acknowledged tick 5;
the acknowledgment of tick 4 from the same source, without display damage,
changes nothing. -/
theorem stale_ack_is_discarded_witness :
    findState ackedScheduler.surface_states_ sampleSurface =
        some { last_args := sampleTick 5, last_ack := BeginFrameAck.ofArgs (sampleTick 5) true } ∧
      ProcessSurfaceDamage sampleDeps (sampleEnv 0) ackedScheduler sampleSurface
          (BeginFrameAck.ofArgs (sampleTick 4) true) false = ackedScheduler :=
  ⟨by decide,
    stale_ack_is_discarded sampleDeps (sampleEnv 0) ackedScheduler sampleSurface
      (BeginFrameAck.ofArgs (sampleTick 4) true)
      (Or.inr (Or.inr ⟨⟨sampleTick 5, BeginFrameAck.ofArgs (sampleTick 5) true⟩,
        by decide, by decide, by decide⟩))⟩


/-! ## Theorems: damage and resize -/

/-- The deadline policy reads no member that `ScheduleBeginFrameDeadline`
writes. -/
theorem ScheduleBeginFrameDeadline_desired_mode (d : Deps) (e : Env) (s : Sys) :
    DesiredBeginFrameDeadlineMode (ScheduleBeginFrameDeadline d e s).toDisplayScheduler =
      DesiredBeginFrameDeadlineMode s.toDisplayScheduler := by
  simp only [DesiredBeginFrameDeadlineMode, ScheduleBeginFrameDeadline_output_surface_lost_,
    ScheduleBeginFrameDeadline_pending_swaps_, ScheduleBeginFrameDeadline_max_pending_swaps_,
    ScheduleBeginFrameDeadline_root_frame_missing_, ScheduleBeginFrameDeadline_has_pending_surfaces_,
    ScheduleBeginFrameDeadline_root_surface_id_,
    ScheduleBeginFrameDeadline_expecting_root_surface_damage_because_of_resize_,
    ScheduleBeginFrameDeadline_wait_for_all_surfaces_before_draw_,
    ScheduleBeginFrameDeadline_needs_draw_]

/-- C12: `DisplayResized` sets `expecting_root_surface_damage_because_of_resize_`
and `needs_draw_`; and in every state in which a draw was already needed, the
output surface is not lost, a swap is free, the root frame is present, no
surface is pending and the root surface is set, the desired deadline mode after
`DisplayResized` is Late and not Immediate, although it was Immediate before if
no resize damage was expected. -/
theorem resize_forces_late_deadline (d : Deps) (e : Env) (s : Sys) :
    (DisplayResized d e s).expecting_root_surface_damage_because_of_resize_ = true ∧
    (DisplayResized d e s).needs_draw_ = true ∧
    (s.needs_draw_ = true → s.output_surface_lost_ = false →
      s.pending_swaps_ < s.max_pending_swaps_ → s.root_frame_missing_ = false →
      s.has_pending_surfaces_ = false → s.root_surface_id_.is_valid = true →
      DesiredBeginFrameDeadlineMode (DisplayResized d e s).toDisplayScheduler =
        BeginFrameDeadlineMode.kLate ∧
      DesiredBeginFrameDeadlineMode (DisplayResized d e s).toDisplayScheduler ≠
        BeginFrameDeadlineMode.kImmediate ∧
      (s.expecting_root_surface_damage_because_of_resize_ = false →
        DesiredBeginFrameDeadlineMode s.toDisplayScheduler =
          BeginFrameDeadlineMode.kImmediate)) := by
  refine ⟨by simp [DisplayResized], by simp [DisplayResized], ?_⟩
  intro hneeds hlost hlt hmissing hpending hroot
  have hnot : ¬ s.pending_swaps_ ≥ s.max_pending_swaps_ := by omega
  have hlate : DesiredBeginFrameDeadlineMode (DisplayResized d e s).toDisplayScheduler =
      BeginFrameDeadlineMode.kLate := by
    simp only [DisplayResized, ScheduleBeginFrameDeadline_desired_mode]
    simp [DesiredBeginFrameDeadlineMode, hlost, hnot, hmissing]
  refine ⟨hlate, by rw [hlate]; decide, fun hexp => ?_⟩
  simp [DesiredBeginFrameDeadlineMode, hlost, hnot, hmissing, hpending, hroot, hexp, hneeds]

/-- Witness of C12: the sample scheduler that is ready to draw has an Immediate
deadline; after `DisplayResized` its deadline is Late. -/
theorem resize_forces_late_deadline_witness :
    DesiredBeginFrameDeadlineMode readyScheduler.toDisplayScheduler =
        BeginFrameDeadlineMode.kImmediate ∧
      DesiredBeginFrameDeadlineMode
          (DisplayResized sampleDeps (sampleEnv 81000) readyScheduler).toDisplayScheduler =
        BeginFrameDeadlineMode.kLate :=
  ⟨by decide,
    ((resize_forces_late_deadline sampleDeps (sampleEnv 81000) readyScheduler).2.2
      (by decide) (by decide) (by decide) (by decide) (by decide) (by decide)).1⟩

/-- A BeginFrame that arrives inside `ProcessSurfaceDamage` is only posted: of
the members, only `missed_begin_frame_task_` changes. -/
theorem OnBeginFrameDerivedImpl_reentrant (d : Deps) (e : Env) (s : Sys) (args : BeginFrameArgs)
    (h : s.inside_surface_damaged_ = true) :
    (OnBeginFrameDerivedImpl d e s args).1.toDisplayScheduler =
      { s.toDisplayScheduler with missed_begin_frame_task_ := some args } := by
  simp [OnBeginFrameDerivedImpl, h]

@[simp]
theorem StartObservingBeginFrames_observing (d : Deps) (e : Env) (s : Sys) :
    (StartObservingBeginFrames d e s).observing_begin_frame_source_ = true := by
  simp only [StartObservingBeginFrames]
  split_ifs with h
  · rfl
  · simpa using h

theorem StartObservingBeginFrames_needs_draw_reentrant (d : Deps) (e : Env) (s : Sys)
    (h : s.inside_surface_damaged_ = true) :
    (StartObservingBeginFrames d e s).needs_draw_ = s.needs_draw_ := by
  simp only [StartObservingBeginFrames]
  split_ifs
  · cases e.missed_on_add with
    | none => rfl
    | some args =>
      have hr := congrArg DisplayScheduler.needs_draw_
        (OnBeginFrameDerivedImpl_reentrant d e (s.emit Effect.AddObserver) args h)
      simpa using hr
  · rfl

/-- C11: `ProcessSurfaceDamage` with display damage leaves `needs_draw_` set, for
every state, surface and acknowledgment; and if `ShouldDraw()` holds once
`needs_draw_` is set, the scheduler is observing the begin-frame source
afterwards. -/
theorem damage_needs_draw_and_observes (d : Deps) (e : Env) (s : Sys)
    (surface_id : SurfaceId) (ack : BeginFrameAck) :
    (ProcessSurfaceDamage d e s surface_id ack true).needs_draw_ = true ∧
    (ShouldDraw { s.toDisplayScheduler with needs_draw_ := true } = true →
      (ProcessSurfaceDamage d e s surface_id ack true).observing_begin_frame_source_ = true) := by
  constructor
  · simp only [ProcessSurfaceDamage, if_true, rearmAfterDamage_needs_draw_,
      updateSurfaceState_needs_draw_, markDisplayDamaged, MaybeStartObservingBeginFrames]
    split_ifs <;>
      first
      | rfl
      | (rw [StartObservingBeginFrames_needs_draw_reentrant _ _ _ rfl])
  · intro hdraw
    simp only [ProcessSurfaceDamage, if_true, rearmAfterDamage_observing_begin_frame_source_,
      updateSurfaceState_observing_begin_frame_source_, markDisplayDamaged,
      MaybeStartObservingBeginFrames]
    simp only [ShouldDraw] at hdraw ⊢
    split_ifs at hdraw ⊢ <;> simp_all

/-- Witness of C11: the sample scheduler with a client, visible and with root
content, is damaged for the first time; afterwards it needs a draw and observes
the begin-frame source. -/
theorem damage_needs_draw_and_observes_witness :
    visibleScheduler.needs_draw_ = false ∧
      visibleScheduler.observing_begin_frame_source_ = false ∧
      (ProcessSurfaceDamage sampleDeps (sampleEnv 0) visibleScheduler sampleSurface
        (BeginFrameAck.ofArgs (sampleTick 5) true) true).observing_begin_frame_source_ = true :=
  ⟨by decide, by decide,
    (damage_needs_draw_and_observes sampleDeps (sampleEnv 0) visibleScheduler sampleSurface
      (BeginFrameAck.ofArgs (sampleTick 5) true)).2 (by decide)⟩


/-! ## Theorems: the completeness scan -/

/-- The loop of `UpdateHasPendingSurfaces` finds a pending surface exactly when
some entry is pending in the spec's sense. -/
theorem scanPendingSurfaces_eq_any (e : Env) (current : BeginFrameArgs)
    (entries : List (SurfaceId × SurfaceBeginFrameState)) :
    scanPendingSurfaces e current.source_id current.sequence_number entries =
      entries.any (specSurfacePending e current) := by
  induction entries with
  | nil => rfl
  | cons entry rest ih =>
    simp only [scanPendingSurfaces, List.any_cons, ih, specSurfacePending]
    cases entry.2.last_args.IsValid <;>
      cases h1 : entry.2.last_args.source_id == current.source_id <;>
      cases h2 : entry.2.last_args.sequence_number == current.sequence_number <;>
      cases h3 : entry.2.last_ack.source_id == current.source_id <;>
      cases h4 : entry.2.last_ack.sequence_number == current.sequence_number <;>
      cases h5 : e.SurfaceHasUnackedFrame entry.1 <;>
      simp_all

theorem specSurfacePending_iff (e : Env) (current : BeginFrameArgs)
    (entry : SurfaceId × SurfaceBeginFrameState) :
    specSurfacePending e current entry = true ↔
      entry.2.last_args.IsValid = true ∧
      (entry.2.last_args.source_id = current.source_id ∧
        entry.2.last_args.sequence_number = current.sequence_number) ∧
      ¬ (entry.2.last_ack.source_id = current.source_id ∧
        entry.2.last_ack.sequence_number = current.sequence_number) ∧
      e.SurfaceHasUnackedFrame entry.1 = false := by
  simp only [specSurfacePending, Bool.and_eq_true, Bool.not_eq_true', beq_iff_eq,
    Bool.and_eq_false_iff, beq_eq_false_iff_ne, ne_eq, not_and_or]
  tauto

/-- The scan does not depend on the order of the entries. -/
theorem scanPendingSurfaces_perm (e : Env) (current : BeginFrameArgs)
    (entries entries' : List (SurfaceId × SurfaceBeginFrameState))
    (h : entries'.Perm entries) :
    scanPendingSurfaces e current.source_id current.sequence_number entries' =
      scanPendingSurfaces e current.source_id current.sequence_number entries := by
  rw [scanPendingSurfaces_eq_any, scanPendingSurfaces_eq_any]
  rw [Bool.eq_iff_iff]
  simp only [List.any_eq_true]
  constructor
  · rintro ⟨x, hx, hp⟩
    exact ⟨x, h.mem_iff.mp hx, hp⟩
  · rintro ⟨x, hx, hp⟩
    exact ⟨x, h.mem_iff.mpr hx, hp⟩

/-- C15: inside a deadline interval and with a client, `UpdateHasPendingSurfaces`
changes only `has_pending_surfaces_`, which it sets exactly when some entry of
the surface map has a valid last seen tick with the ids of the current tick, a
last acknowledgment without those ids, and no unacknowledged frame according to
the client; it returns true exactly when the flag changed.  The flag and the
returned value are the same for every order of the entries of the surface map.
Outside an interval it returns false and changes nothing. -/
theorem pending_surfaces_scan (e : Env) (s : Sys) :
    (s.inside_begin_frame_deadline_interval_ = true → s.client_ = true →
      ((UpdateHasPendingSurfaces e s).1.has_pending_surfaces_ = true ↔
        ∃ entry ∈ s.surface_states_,
          entry.2.last_args.IsValid = true ∧
          (entry.2.last_args.source_id = s.current_begin_frame_args_.source_id ∧
            entry.2.last_args.sequence_number = s.current_begin_frame_args_.sequence_number) ∧
          ¬ (entry.2.last_ack.source_id = s.current_begin_frame_args_.source_id ∧
            entry.2.last_ack.sequence_number = s.current_begin_frame_args_.sequence_number) ∧
          e.SurfaceHasUnackedFrame entry.1 = false) ∧
      ((UpdateHasPendingSurfaces e s).2 = true ↔
        (UpdateHasPendingSurfaces e s).1.has_pending_surfaces_ ≠ s.has_pending_surfaces_) ∧
      (UpdateHasPendingSurfaces e s).1 =
        { s with has_pending_surfaces_ :=
            (UpdateHasPendingSurfaces e s).1.has_pending_surfaces_ }) ∧
    (∀ s' : Sys, s'.surface_states_.Perm s.surface_states_ →
      s'.inside_begin_frame_deadline_interval_ = s.inside_begin_frame_deadline_interval_ →
      s'.client_ = s.client_ →
      s'.current_begin_frame_args_ = s.current_begin_frame_args_ →
      s'.has_pending_surfaces_ = s.has_pending_surfaces_ →
      (UpdateHasPendingSurfaces e s').1.has_pending_surfaces_ =
          (UpdateHasPendingSurfaces e s).1.has_pending_surfaces_ ∧
        (UpdateHasPendingSurfaces e s').2 = (UpdateHasPendingSurfaces e s).2) ∧
    (s.inside_begin_frame_deadline_interval_ = false →
      UpdateHasPendingSurfaces e s = (s, false)) := by
  refine ⟨fun hin hc => ?_, fun s' hperm hin hc hcur hpend => ?_, fun hin => ?_⟩
  · have hflag : (UpdateHasPendingSurfaces e s).1.has_pending_surfaces_ =
        s.surface_states_.any (specSurfacePending e s.current_begin_frame_args_) := by
      simp [UpdateHasPendingSurfaces, hin, hc, scanPendingSurfaces_eq_any]
    refine ⟨?_, ?_, ?_⟩
    · rw [hflag, List.any_eq_true]
      constructor
      · rintro ⟨entry, hmem, hp⟩
        exact ⟨entry, hmem, (specSurfacePending_iff e _ entry).mp hp⟩
      · rintro ⟨entry, hmem, hp⟩
        exact ⟨entry, hmem, (specSurfacePending_iff e _ entry).mpr hp⟩
    · simp [UpdateHasPendingSurfaces, hin, hc]
    · simp [UpdateHasPendingSurfaces, hin, hc]
  · simp only [UpdateHasPendingSurfaces, hin, hc, hcur, hpend]
    split_ifs
    · exact ⟨hpend, rfl⟩
    · simp only [scanPendingSurfaces_perm e s.current_begin_frame_args_ _ _ hperm]
      exact ⟨trivial, trivial⟩
  · simp [UpdateHasPendingSurfaces, hin]


/-- Witness of C15: inside the interval of tick 5 the surface of the sample
scheduler has seen the tick and not acknowledged it; the scan sets the flag. -/
theorem pending_surfaces_scan_witness :
    pendingScheduler.inside_begin_frame_deadline_interval_ = true ∧
      pendingScheduler.client_ = true ∧
      (UpdateHasPendingSurfaces (sampleEnv 81000) pendingScheduler).1.has_pending_surfaces_ =
        true :=
  ⟨by decide, by decide,
    ((pending_surfaces_scan (sampleEnv 81000) pendingScheduler).1 (by decide) (by decide)).1.mpr
      ⟨(sampleSurface, ⟨sampleTick 5, BeginFrameAck.empty sampleDeps⟩),
        by decide, by decide, by decide, by decide, by decide⟩⟩

/-! ## Theorems: reports at the end of an interval -/

@[simp]
theorem DidSwapBuffers_drawCount (s : Sys) :
    drawCount (DidSwapBuffers s).log = drawCount s.log := by
  simp only [DidSwapBuffers]
  split_ifs <;> simp [Effect.isDraw]

@[simp]
theorem clientSwaps_drawCount (n : Nat) (s : Sys) :
    drawCount (clientSwaps n s).log = drawCount s.log := by
  induction n generalizing s with
  | zero => rfl
  | succ k ih => simp [clientSwaps, ih]

/-- The number of draws that `AttemptDrawAndSwap` adds: one if `ShouldDraw()`
holds, a swap is free and there is a client, none otherwise. -/
theorem AttemptDrawAndSwap_drawCount (e : Env) (s : Sys) :
    drawCount (AttemptDrawAndSwap e s).1.log =
      drawCount s.log +
        if ShouldDraw s.toDisplayScheduler = true ∧ s.pending_swaps_ < s.max_pending_swaps_ ∧
          s.client_ = true then 1 else 0 := by
  have hs : ShouldDraw { s.toDisplayScheduler with
      inside_begin_frame_deadline_interval_ := false,
      begin_frame_deadline_task_ := false,
      begin_frame_deadline_task_time_ := 0 } = ShouldDraw s.toDisplayScheduler := by
    simp [ShouldDraw]
  simp only [AttemptDrawAndSwap, DrawAndSwap, hs]
  split_ifs <;> simp_all [Effect.isDraw]

/-- The trace of `DidFinishFrame`. -/
theorem DidFinishFrame_log (s : Sys) (did_draw : Bool) :
    (DidFinishFrame s did_draw).log = s.log ++ finishReports s did_draw := by
  cases hc : s.client_ <;> simp [DidFinishFrame, finishReports, Sys.emit, hc, BeginFrameAck.ofArgs]

theorem finishEvents_eq_nil_of_append (log added : List Effect)
    (h : finishEvents (log ++ added) = finishEvents log) : finishEvents added = [] := by
  rw [finishEvents_append] at h
  exact List.append_right_eq_self.mp h

/-- The trace of `OnBeginFrameDeadline`: what `AttemptDrawAndSwap` adds, which
holds no report, then the reports of `DidFinishFrame`. -/
theorem OnBeginFrameDeadline_log (e : Env) (s : Sys) :
    ∃ pre, (OnBeginFrameDeadline e s).log =
        s.log ++ pre ++ finishReports s (AttemptDrawAndSwap e s).2 ∧
      finishEvents pre = [] := by
  obtain ⟨pre, hpre, _⟩ := AttemptDrawAndSwap_guarded s.log e
    (s.dcheck s.inside_begin_frame_deadline_interval_ DCheck.inside_deadline_interval)
    (dcheck_guarded s.log s _ _ (guardedFrom_refl _) (Or.inr rfl))
  refine ⟨pre, ?_, ?_⟩
  · simp only [OnBeginFrameDeadline, DidFinishFrame_log, hpre]
    simp [finishReports, AttemptDrawAndSwap_snd]
  · apply finishEvents_eq_nil_of_append s.log
    rw [← hpre]
    simp

/-- The trace of `ForceImmediateSwapIfPossible` inside an interval. -/
theorem ForceImmediateSwapIfPossible_log (e : Env) (s : Sys)
    (h : s.inside_begin_frame_deadline_interval_ = true) :
    ∃ pre, (ForceImmediateSwapIfPossible e s).log =
        s.log ++ pre ++ finishReports s (AttemptDrawAndSwap e s).2 ∧
      finishEvents pre = [] := by
  obtain ⟨pre, hpre, _⟩ := AttemptDrawAndSwap_guarded s.log e s (guardedFrom_refl _)
  refine ⟨pre, ?_, ?_⟩
  · simp only [ForceImmediateSwapIfPossible, h, if_true, DidFinishFrame_log, hpre]
    simp [finishReports]
  · apply finishEvents_eq_nil_of_append s.log
    rw [← hpre]
    simp

/-- C17, as stated, fails: outside an interval `ForceImmediateSwapIfPossible`
runs `AttemptDrawAndSwap`, which here even draws, and reports nothing to the
begin-frame source or to the client. -/
theorem forced_swap_outside_interval_reports_nothing :
    damagedScheduler.inside_begin_frame_deadline_interval_ = false ∧
      damagedScheduler.client_ = true ∧
      drawCount (newEvents damagedScheduler
        (ForceImmediateSwapIfPossible (sampleEnv 0) damagedScheduler)) = 1 ∧
      finishEvents (newEvents damagedScheduler
        (ForceImmediateSwapIfPossible (sampleEnv 0) damagedScheduler)) = [] := by
  decide

/-- C17, amended: an interval completion that runs while an interval is open ends
with the reports of `DidFinishFrame`.  `OnBeginFrameDeadline` (the armed
deadline) and `ForceImmediateSwapIfPossible` inside an interval append to the
trace what `AttemptDrawAndSwap` adds, without any report, and then, last, the call
`DidFinishFrame` on the begin-frame source and, if a client is set, the client's
`DidFinishFrame` with the `source_id` and `sequence_number` of the current tick and
`has_damage` equal to the result of `AttemptDrawAndSwap`; a tick accepted inside an
interval adds the same reports; the result of `AttemptDrawAndSwap` is true exactly
when it called the client's draw and the draw succeeded; and outside an interval
`ForceImmediateSwapIfPossible` adds no report. -/
theorem interval_completion_reports (d : Deps) (e : Env) (s : Sys) :
    (∃ pre, (OnBeginFrameDeadline e s).log =
        s.log ++ pre ++ finishReports s (AttemptDrawAndSwap e s).2 ∧
      finishEvents pre = []) ∧
    (s.inside_begin_frame_deadline_interval_ = true →
      ∃ pre, (ForceImmediateSwapIfPossible e s).log =
          s.log ++ pre ++ finishReports s (AttemptDrawAndSwap e s).2 ∧
        finishEvents pre = []) ∧
    (∀ args, s.inside_begin_frame_deadline_interval_ = true →
      s.inside_surface_damaged_ = false →
      finishEvents (OnBeginFrameDerivedImpl d e s args).1.log =
        finishEvents s.log ++ finishReports s (AttemptDrawAndSwap e s).2) ∧
    ((AttemptDrawAndSwap e s).2 = true ↔
      drawCount (AttemptDrawAndSwap e s).1.log = drawCount s.log + 1 ∧ e.DrawAndSwap = true) ∧
    (s.inside_begin_frame_deadline_interval_ = false →
      finishEvents (ForceImmediateSwapIfPossible e s).log = finishEvents s.log) := by
  refine ⟨OnBeginFrameDeadline_log e s, ForceImmediateSwapIfPossible_log e s,
    fun args hin hisd => ?_, ?_, fun hin => ?_⟩
  · rw [OnBeginFrameDerivedImpl_finishEvents d e s args hisd]
    cases hc : s.client_ <;> simp [hin, hc, finishReports, BeginFrameAck.ofArgs]
  · rw [AttemptDrawAndSwap_snd, AttemptDrawAndSwap_drawCount]
    split_ifs with h
    · simp [h.1, h.2.1, h.2.2]
    · simp only [not_and_or] at h
      rcases h with h | h | h <;> simp [h]
  · simp [ForceImmediateSwapIfPossible, hin]

/-- Witness of the amended C17: the sample scheduler that is ready to draw is
inside the interval of tick 5; a forced swap draws and then reports the end of
the interval to the begin-frame source and to the client. -/
theorem interval_completion_reports_witness :
    readyScheduler.inside_begin_frame_deadline_interval_ = true ∧
      finishEvents (ForceImmediateSwapIfPossible (sampleEnv 80000) readyScheduler).log =
        [Effect.SourceDidFinishFrame,
         Effect.ClientDidFinishFrame { source_id := 1, sequence_number := 5, has_damage := true }] ∧
      ∃ pre, (ForceImmediateSwapIfPossible (sampleEnv 80000) readyScheduler).log =
          readyScheduler.log ++ pre ++
            finishReports readyScheduler (AttemptDrawAndSwap (sampleEnv 80000) readyScheduler).2 ∧
        finishEvents pre = [] :=
  ⟨by decide, by decide,
    (interval_completion_reports sampleDeps (sampleEnv 80000) readyScheduler).2.1 (by decide)⟩


/-! ## Theorems: the scenario of one surface and one swap -/

set_option maxRecDepth 8192 in
/-- C13: the scenario with one tracked surface and `max_pending_swaps = 1`, the
scheduler visible with root content, root surface and a client whose draw
succeeds and swaps.  After tick 5 is accepted and the surface has seen it, the
surface is pending; once its damaging acknowledgment of tick 5 is processed no
surface is pending, the desired mode is Immediate and the deadline task is
posted without delay; the deadline calls the client's draw, during which
`DidSwapBuffers` raises `pending_swaps_` to 1 and calls `SetIsGpuBusy(true)`; and
after tick 6 is accepted with `pending_swaps_ = 1` the desired mode is Late.
The last step holds in general: in every state at the swap limit whose output
surface is not lost, a tick that is accepted computes Late. -/
theorem one_surface_one_swap_scenario :
    (∀ (d : Deps) (e : Env) (s : Sys) (args : BeginFrameArgs),
      s.inside_surface_damaged_ = false → s.output_surface_lost_ = false →
      s.pending_swaps_ = s.max_pending_swaps_ →
      (OnBeginFrameDerivedImpl d e s args).1.pending_swaps_ = s.pending_swaps_ ∧
      DesiredBeginFrameDeadlineMode (OnBeginFrameDerivedImpl d e s args).1.toDisplayScheduler =
        BeginFrameDeadlineMode.kLate) ∧
    sampleScheduler.max_pending_swaps_ = 1 ∧
    (run sampleDeps sampleScheduler (oneSurfaceScenario.take 6)).has_pending_surfaces_ = true ∧
    (run sampleDeps sampleScheduler (oneSurfaceScenario.take 7)).has_pending_surfaces_ = false ∧
    DesiredBeginFrameDeadlineMode
        (run sampleDeps sampleScheduler (oneSurfaceScenario.take 7)).toDisplayScheduler =
      BeginFrameDeadlineMode.kImmediate ∧
    newEvents (run sampleDeps sampleScheduler (oneSurfaceScenario.take 6))
        (run sampleDeps sampleScheduler (oneSurfaceScenario.take 7)) =
      [Effect.PostDelayedTask Task.BeginFrameDeadline 0] ∧
    (run sampleDeps sampleScheduler (oneSurfaceScenario.take 7)).pending_swaps_ = 0 ∧
    drawCount (newEvents (run sampleDeps sampleScheduler (oneSurfaceScenario.take 7))
        (run sampleDeps sampleScheduler (oneSurfaceScenario.take 8))) = 1 ∧
    Effect.SetIsGpuBusy true ∈
      newEvents (run sampleDeps sampleScheduler (oneSurfaceScenario.take 7))
        (run sampleDeps sampleScheduler (oneSurfaceScenario.take 8)) ∧
    (run sampleDeps sampleScheduler (oneSurfaceScenario.take 8)).pending_swaps_ = 1 ∧
    (run sampleDeps sampleScheduler (oneSurfaceScenario.take 8)).needs_draw_ = false ∧
    (run sampleDeps sampleScheduler oneSurfaceScenario).pending_swaps_ = 1 ∧
    (run sampleDeps sampleScheduler oneSurfaceScenario).current_begin_frame_args_.sequence_number
      = 6 ∧
    DesiredBeginFrameDeadlineMode
        (run sampleDeps sampleScheduler oneSurfaceScenario).toDisplayScheduler =
      BeginFrameDeadlineMode.kLate := by
  refine ⟨fun d e s args _ hlost hp => ?_, by decide⟩
  have hpend : (OnBeginFrameDerivedImpl d e s args).1.pending_swaps_ = s.pending_swaps_ := by
    rcases OnBeginFrameDerivedImpl_pendingAfter d e s args _ _ rfl rfl with h | ⟨hlt, _⟩
    · exact h
    · omega
  refine ⟨hpend, ?_⟩
  simp [DesiredBeginFrameDeadlineMode, hpend, hlost, hp]

set_option maxRecDepth 8192 in
/-- Witness of C13: the general last step applied in the scenario, to the state
after the draw and to tick 6. -/
theorem one_surface_one_swap_scenario_witness :
    (run sampleDeps sampleScheduler (oneSurfaceScenario.take 8)).pending_swaps_ =
        (run sampleDeps sampleScheduler (oneSurfaceScenario.take 8)).max_pending_swaps_ ∧
      DesiredBeginFrameDeadlineMode
          (OnBeginFrameDerivedImpl sampleDeps (sampleEnv 96000)
            (run sampleDeps sampleScheduler (oneSurfaceScenario.take 8))
            (sampleTick 6)).1.toDisplayScheduler =
        BeginFrameDeadlineMode.kLate :=
  ⟨by decide,
    (one_surface_one_swap_scenario.1 sampleDeps (sampleEnv 96000)
      (run sampleDeps sampleScheduler (oneSurfaceScenario.take 8)) (sampleTick 6)
      (by decide) (by decide) (by decide)).2⟩


/-! ## Theorems: the armed deadline when waiting for all surfaces -/

theorem timerInv_weak (s : Sys) (h : timerInv s) : timerWeak s :=
  fun ht => ⟨(h ht).1, fun hw => ((h ht).2 hw).1⟩

theorem timerInv_of_unarmed (s : Sys) (h : s.begin_frame_deadline_task_ = false) :
    timerInv s := by
  intro ht
  rw [h] at ht
  exact absurd ht (by decide)

theorem timerInv_of_fields (s s' : Sys) (h : timerInv s)
    (h1 : s'.begin_frame_deadline_task_ = s.begin_frame_deadline_task_)
    (h2 : s'.inside_begin_frame_deadline_interval_ = s.inside_begin_frame_deadline_interval_)
    (h3 : s'.wait_for_all_surfaces_before_draw_ = s.wait_for_all_surfaces_before_draw_)
    (h4 : s'.begin_frame_deadline_task_time_ = s.begin_frame_deadline_task_time_)
    (h5 : s'.output_surface_lost_ = s.output_surface_lost_)
    (h6 : s'.has_pending_surfaces_ = s.has_pending_surfaces_) : timerInv s' := by
  unfold timerInv at h ⊢
  rw [h1, h2, h3, h4, h5, h6]
  exact h

theorem timerWeak_of_fields (s s' : Sys) (h : timerWeak s)
    (h1 : s'.begin_frame_deadline_task_ = s.begin_frame_deadline_task_)
    (h2 : s'.inside_begin_frame_deadline_interval_ = s.inside_begin_frame_deadline_interval_)
    (h3 : s'.wait_for_all_surfaces_before_draw_ = s.wait_for_all_surfaces_before_draw_)
    (h4 : s'.begin_frame_deadline_task_time_ = s.begin_frame_deadline_task_time_) :
    timerWeak s' := by
  unfold timerWeak at h ⊢
  rw [h1, h2, h3, h4]
  exact h

/-- When the scheduler waits for all surfaces, a desired deadline time other
than the maximum is that of an Immediate deadline, which is chosen only if the
output surface is lost or no surface is pending. -/
theorem desired_time_when_waiting (d : Deps) (s : DisplayScheduler)
    (hw : s.wait_for_all_surfaces_before_draw_ = true)
    (h : DesiredBeginFrameDeadlineTime d s ≠ d.TimeTicksMax) :
    DesiredBeginFrameDeadlineTime d s = 0 ∧
      (s.output_surface_lost_ = true ∨ s.has_pending_surfaces_ = false) := by
  simp only [DesiredBeginFrameDeadlineTime, AdjustedBeginFrameDeadlineMode,
    DesiredBeginFrameDeadlineMode, hw] at h ⊢
  split_ifs at h ⊢ <;> simp_all

/-- Scheduling the deadline establishes the invariant of the deadline task. -/
theorem ScheduleBeginFrameDeadline_timerInv (d : Deps) (e : Env) (s : Sys)
    (hmax : d.TimeTicksMax ≠ 0) (h : timerWeak s) :
    timerInv (ScheduleBeginFrameDeadline d e s) := by
  simp only [ScheduleBeginFrameDeadline]
  split_ifs with hin hearly hnever
  · intro ht
    simp only [dcheck_toDisplayScheduler] at ht
    have := (h ht).1
    simp [this] at hin
  · simp only [Bool.and_eq_true, beq_iff_eq] at hearly
    intro ht
    have hin' : s.inside_begin_frame_deadline_interval_ = true := by simpa using hin
    refine ⟨hin', fun hw => ?_⟩
    have h0 := (h ht).2 hw
    have hne : DesiredBeginFrameDeadlineTime d s.toDisplayScheduler ≠ d.TimeTicksMax := by
      rw [hearly.2, h0]
      exact fun hc => hmax hc.symm
    exact ⟨h0, (desired_time_when_waiting d s.toDisplayScheduler hw hne).2⟩
  · exact timerInv_of_unarmed _ rfl
  · have hin' : s.inside_begin_frame_deadline_interval_ = true := by simpa using hin
    have hne : DesiredBeginFrameDeadlineTime d s.toDisplayScheduler ≠ d.TimeTicksMax := by
      simpa using hnever
    intro _
    refine ⟨hin', fun hw => ?_⟩
    exact desired_time_when_waiting d s.toDisplayScheduler hw hne

theorem UpdateHasPendingSurfaces_timerWeak (e : Env) (s : Sys) (h : timerWeak s) :
    timerWeak (UpdateHasPendingSurfaces e s).1 :=
  timerWeak_of_fields s _ h (by simp) (by simp) (by simp) (by simp)

/-- If `UpdateHasPendingSurfaces` reports no change, the flag is as before. -/
theorem UpdateHasPendingSurfaces_unchanged (e : Env) (s : Sys)
    (h : (UpdateHasPendingSurfaces e s).2 = false) :
    (UpdateHasPendingSurfaces e s).1.has_pending_surfaces_ = s.has_pending_surfaces_ := by
  simp only [UpdateHasPendingSurfaces] at h ⊢
  split_ifs at h ⊢
  · rfl
  · simpa using h

theorem AttemptDrawAndSwap_timerInv (e : Env) (s : Sys) :
    timerInv (AttemptDrawAndSwap e s).1 :=
  timerInv_of_unarmed _ (by simp)

theorem OnBeginFrameDeadline_timerInv (e : Env) (s : Sys) :
    timerInv (OnBeginFrameDeadline e s) :=
  timerInv_of_unarmed _ (by simp)

theorem ForceImmediateSwapIfPossible_timerInv (e : Env) (s : Sys) :
    timerInv (ForceImmediateSwapIfPossible e s) :=
  timerInv_of_unarmed _ (by simp)

theorem OnBeginFrameDerivedImpl_timerInv (d : Deps) (e : Env) (s : Sys) (args : BeginFrameArgs)
    (hmax : d.TimeTicksMax ≠ 0) (h : timerInv s) :
    timerInv (OnBeginFrameDerivedImpl d e s args).1 := by
  simp only [OnBeginFrameDerivedImpl]
  split_ifs with hisd hin
  · exact timerInv_of_fields s _ h (by simp) (by simp) (by simp) (by simp) (by simp) (by simp)
  · refine ScheduleBeginFrameDeadline_timerInv d e _ hmax
      (UpdateHasPendingSurfaces_timerWeak e _ ?_)
    intro ht
    simp at ht
  · refine ScheduleBeginFrameDeadline_timerInv d e _ hmax
      (UpdateHasPendingSurfaces_timerWeak e _ ?_)
    intro ht
    exact ⟨rfl, fun hw => ((h ht).2 hw).1⟩

theorem StartObservingBeginFrames_timerInv (d : Deps) (e : Env) (s : Sys)
    (hmax : d.TimeTicksMax ≠ 0) (h : timerInv s) :
    timerInv (StartObservingBeginFrames d e s) := by
  simp only [StartObservingBeginFrames]
  split_ifs
  · cases e.missed_on_add with
    | none => exact h
    | some args => exact OnBeginFrameDerivedImpl_timerInv d e (s.emit Effect.AddObserver) args hmax h
  · exact h

theorem MaybeStartObservingBeginFrames_timerInv (d : Deps) (e : Env) (s : Sys)
    (hmax : d.TimeTicksMax ≠ 0) (h : timerInv s) :
    timerInv (MaybeStartObservingBeginFrames d e s) := by
  simp only [MaybeStartObservingBeginFrames]
  split_ifs
  · exact StartObservingBeginFrames_timerInv d e s hmax h
  · exact h

theorem SetVisible_timerInv (d : Deps) (e : Env) (s : Sys) (visible : Bool)
    (hmax : d.TimeTicksMax ≠ 0) (h : timerInv s) :
    timerInv (SetVisible d e s visible) := by
  simp only [SetVisible]
  split_ifs
  · exact h
  · exact h
  · exact ScheduleBeginFrameDeadline_timerInv d e _ hmax
      (timerInv_weak _ (MaybeStartObservingBeginFrames_timerInv d e _ hmax h))

theorem SetRootFrameMissing_timerInv (d : Deps) (e : Env) (s : Sys) (missing : Bool)
    (hmax : d.TimeTicksMax ≠ 0) (h : timerInv s) :
    timerInv (SetRootFrameMissing d e s missing) := by
  simp only [SetRootFrameMissing]
  split_ifs
  · exact h
  · exact ScheduleBeginFrameDeadline_timerInv d e _ hmax
      (timerInv_weak _ (MaybeStartObservingBeginFrames_timerInv d e _ hmax h))

theorem markDisplayDamaged_timerInv (d : Deps) (e : Env) (s : Sys) (surface_id : SurfaceId)
    (hmax : d.TimeTicksMax ≠ 0) (h : timerInv s) :
    timerInv (markDisplayDamaged d e s surface_id) := by
  simp only [markDisplayDamaged]
  split_ifs <;> exact MaybeStartObservingBeginFrames_timerInv d e _ hmax h

theorem updateSurfaceState_timerInv (d : Deps) (s : Sys) (surface_id : SurfaceId)
    (ack : BeginFrameAck) (h : timerInv s) :
    timerInv (updateSurfaceState d s surface_id ack).1 :=
  timerInv_of_fields s _ h (by simp) (by simp) (by simp) (by simp) (by simp) (by simp)

theorem rearmAfterDamage_timerInv (d : Deps) (e : Env) (s : Sys)
    (valid_ack display_damaged : Bool) (hmax : d.TimeTicksMax ≠ 0) (h : timerInv s) :
    timerInv (rearmAfterDamage d e s valid_ack display_damaged) := by
  simp only [rearmAfterDamage]
  split_ifs with h1 h2 h3
  · exact ScheduleBeginFrameDeadline_timerInv d e _ hmax
      (UpdateHasPendingSurfaces_timerWeak e s (timerInv_weak s h))
  · have hu : (UpdateHasPendingSurfaces e s).2 = false := by
      cases hv : (UpdateHasPendingSurfaces e s).2
      · rfl
      · simp [hv] at h2
    exact timerInv_of_fields s _ h (by simp) (by simp) (by simp) (by simp) (by simp)
      (UpdateHasPendingSurfaces_unchanged e s hu)
  · exact ScheduleBeginFrameDeadline_timerInv d e _ hmax (timerInv_weak s h)
  · exact h

theorem ProcessSurfaceDamage_timerInv (d : Deps) (e : Env) (s : Sys) (surface_id : SurfaceId)
    (ack : BeginFrameAck) (display_damaged : Bool) (hmax : d.TimeTicksMax ≠ 0)
    (h : timerInv s) :
    timerInv (ProcessSurfaceDamage d e s surface_id ack display_damaged) := by
  simp only [ProcessSurfaceDamage]
  refine rearmAfterDamage_timerInv d e _ _ _ hmax (updateSurfaceState_timerInv d _ _ _ ?_)
  split_ifs
  · exact markDisplayDamaged_timerInv d e _ surface_id hmax h
  · exact h


theorem DisplayResized_timerInv (d : Deps) (e : Env) (s : Sys)
    (hmax : d.TimeTicksMax ≠ 0) (h : timerInv s) : timerInv (DisplayResized d e s) :=
  ScheduleBeginFrameDeadline_timerInv d e _ hmax
    (timerWeak_of_fields s _ (timerInv_weak s h) rfl rfl rfl rfl)

theorem OutputSurfaceLost_timerInv (d : Deps) (e : Env) (s : Sys)
    (hmax : d.TimeTicksMax ≠ 0) (h : timerInv s) : timerInv (OutputSurfaceLost d e s) :=
  ScheduleBeginFrameDeadline_timerInv d e _ hmax
    (timerWeak_of_fields s _ (timerInv_weak s h) rfl rfl rfl rfl)

theorem DidReceiveSwapBuffersAck_timerInv (d : Deps) (e : Env) (s : Sys)
    (hmax : d.TimeTicksMax ≠ 0) (h : timerInv s) :
    timerInv (DidReceiveSwapBuffersAck d e s) := by
  have h2 : timerInv (({ s with pending_swaps_ := wrapInt (s.pending_swaps_ - 1) } : Sys).emit
      (Effect.SetIsGpuBusy false)) :=
    timerInv_of_fields s _ h rfl rfl rfl rfl rfl rfl
  simp only [DidReceiveSwapBuffersAck]
  refine ScheduleBeginFrameDeadline_timerInv d e _ hmax (timerInv_weak _ ?_)
  cases e.begin_frame_on_not_busy with
  | none => exact h2
  | some args => exact OnBeginFrameDerivedImpl_timerInv d e _ args hmax h2


theorem SetNewRootSurface_timerInv (d : Deps) (e : Env) (s : Sys) (root_surface_id : SurfaceId)
    (hmax : d.TimeTicksMax ≠ 0) (h : timerInv s) :
    timerInv (s.orFault (SetNewRootSurface d e s root_surface_id)) := by
  rcases orFault_SetNewRootSurface d e s root_surface_id with h1 | ⟨fault, h1⟩ <;> rw [h1]
  · refine ProcessSurfaceDamage_timerInv d e _ _ _ _ hmax ?_
    exact timerInv_of_fields s _ h rfl rfl rfl rfl rfl rfl
  · exact timerInv_of_fields s _ h rfl rfl rfl rfl rfl rfl

theorem OnSurfaceMarkedForDestruction_timerInv (d : Deps) (e : Env) (s : Sys)
    (surface_id : SurfaceId) (hmax : d.TimeTicksMax ≠ 0) (h : timerInv s) :
    timerInv (OnSurfaceMarkedForDestruction d e s surface_id) := by
  simp only [OnSurfaceMarkedForDestruction]
  cases findState s.surface_states_ surface_id with
  | none => exact h
  | some st =>
    have h1 : timerInv ({ s with surface_states_ := eraseState s.surface_states_ surface_id } : Sys) :=
      timerInv_of_fields s _ h rfl rfl rfl rfl rfl rfl
    simp only []
    split_ifs with hu
    · exact ScheduleBeginFrameDeadline_timerInv d e _ hmax
        (UpdateHasPendingSurfaces_timerWeak e _ (timerInv_weak _ h1))
    · have hu' : (UpdateHasPendingSurfaces e
          ({ s with surface_states_ := eraseState s.surface_states_ surface_id } : Sys)).2 = false := by
        simpa using hu
      exact timerInv_of_fields _ _ h1 (by simp) (by simp) (by simp) (by simp) (by simp)
        (UpdateHasPendingSurfaces_unchanged e _ hu')

theorem OnSurfaceDamageExpected_timerInv (d : Deps) (e : Env) (s : Sys)
    (surface_id : SurfaceId) (args : BeginFrameArgs) (hmax : d.TimeTicksMax ≠ 0)
    (h : timerInv s) :
    timerInv (OnSurfaceDamageExpected d e s surface_id args) := by
  simp only [OnSurfaceDamageExpected]
  generalize hm : setState (ensureState d s.surface_states_ surface_id) surface_id _ = m
  have h1 : timerInv ({ s with surface_states_ := m } : Sys) :=
    timerInv_of_fields s _ h rfl rfl rfl rfl rfl rfl
  split_ifs with hu
  · exact ScheduleBeginFrameDeadline_timerInv d e _ hmax
      (UpdateHasPendingSurfaces_timerWeak e _ (timerInv_weak _ h1))
  · have hu' : (UpdateHasPendingSurfaces e ({ s with surface_states_ := m } : Sys)).2 = false := by
      simpa using hu
    exact timerInv_of_fields _ _ h1 (by simp) (by simp) (by simp) (by simp) (by simp)
      (UpdateHasPendingSurfaces_unchanged e _ hu')

theorem OnSurfaceDamaged_timerInv (d : Deps) (e : Env) (s : Sys) (surface_id : SurfaceId)
    (ack : BeginFrameAck) (hmax : d.TimeTicksMax ≠ 0) (h : timerInv s) :
    timerInv (OnSurfaceDamaged d e s surface_id ack).1 := by
  simp only [OnSurfaceDamaged]
  refine ProcessSurfaceDamage_timerInv d e _ _ _ _ hmax ?_
  split_ifs
  · exact timerInv_of_fields s _ h rfl rfl rfl rfl rfl rfl
  · exact h

theorem OnSurfaceDestroyed_timerInv (s : Sys) (surface_id : SurfaceId) (h : timerInv s) :
    timerInv (OnSurfaceDestroyed s surface_id) := by
  simp only [OnSurfaceDestroyed]
  split_ifs
  · exact timerInv_of_fields s _ h rfl rfl rfl rfl rfl rfl
  · exact h

theorem DidSwapBuffers_timerInv (s : Sys) (h : timerInv s) : timerInv (DidSwapBuffers s) :=
  timerInv_of_fields s _ h (by simp) (by simp) (by simp) (by simp) (by simp) (by simp)

theorem NotifyFirstSurfaceActivation_timerInv (d : Deps) (e : Env) (s : Sys)
    (hmax : d.TimeTicksMax ≠ 0) (h : timerInv s) :
    timerInv (NotifyFirstSurfaceActivation d e s) := by
  simp only [NotifyFirstSurfaceActivation]
  split_ifs
  · refine ScheduleBeginFrameDeadline_timerInv d e _ hmax
      (timerInv_weak _ (MaybeStartObservingBeginFrames_timerInv d e _ hmax ?_))
    exact timerInv_of_fields s _ h rfl rfl rfl rfl rfl rfl
  · exact timerInv_of_fields s _ h rfl rfl rfl rfl rfl rfl

theorem finishSurfaceActivatedEx_timerInv (d : Deps) (e : Env) (s : Sys)
    (surface_id : SurfaceId) (needs : Bool) (timeout_to_post : Nat)
    (hmax : d.TimeTicksMax ≠ 0) (h : timerInv s) :
    timerInv (finishSurfaceActivatedEx d e s surface_id needs timeout_to_post) := by
  simp only [finishSurfaceActivatedEx]
  split_ifs
  · exact h
  · exact timerInv_of_fields s _ h rfl rfl rfl rfl rfl rfl
  · exact NotifyFirstSurfaceActivation_timerInv d e _ hmax
      (timerInv_of_fields s _ h rfl rfl rfl rfl rfl rfl)
  · exact h

theorem resetAndPaintBlocks_timerInv (d : Deps) (e : Env) (s : Sys) (surface_id : SurfaceId)
    (fcp reset relaunch needs : Bool) (timeout_to_post : Nat)
    (hmax : d.TimeTicksMax ≠ 0) (h : timerInv s) :
    timerInv (resetAndPaintBlocks d e s surface_id fcp reset relaunch needs timeout_to_post) := by
  simp only [resetAndPaintBlocks]
  have h1 : timerInv (if reset = true then
      ({ s with first_surface_activated_ := false } : Sys) else s) := by
    split_ifs
    · exact timerInv_of_fields s _ h rfl rfl rfl rfl rfl rfl
    · exact h
  split_ifs
  all_goals first
    | exact h
    | exact h1
    | exact finishSurfaceActivatedEx_timerInv d e _ _ _ _ hmax h

theorem OnSurfaceActivatedEx_timerInv (d : Deps) (e : Env) (s : Sys) (surface_id : SurfaceId)
    (fcp reset seen : Bool) (hmax : d.TimeTicksMax ≠ 0) (h : timerInv s) :
    timerInv (OnSurfaceActivatedEx d e s surface_id fcp reset seen) := by
  simp only [OnSurfaceActivatedEx]
  split_ifs
  all_goals first
    | exact h
    | exact timerInv_of_fields s _ h rfl rfl rfl rfl rfl rfl
    | exact resetAndPaintBlocks_timerInv d e _ _ _ _ _ _ _ hmax h

/-- Every operation preserves the invariant of the deadline task. -/
theorem step_timerInv (d : Deps) (s : Sys) (op : Op) (e : Env)
    (hmax : d.TimeTicksMax ≠ 0) (h : timerInv s) : timerInv (step d s op e) := by
  cases op <;> simp only [step]
  case SetClient client => exact timerInv_of_fields s _ h rfl rfl rfl rfl rfl rfl
  case SetVisible visible => exact SetVisible_timerInv d e s visible hmax h
  case SetRootFrameMissing missing => exact SetRootFrameMissing_timerInv d e s missing hmax h
  case ForceImmediateSwapIfPossible => exact ForceImmediateSwapIfPossible_timerInv e s
  case DisplayResized => exact DisplayResized_timerInv d e s hmax h
  case SetNewRootSurface id => exact SetNewRootSurface_timerInv d e s id hmax h
  case ProcessSurfaceDamage id ack dd => exact ProcessSurfaceDamage_timerInv d e s id ack dd hmax h
  case OutputSurfaceLost => exact OutputSurfaceLost_timerInv d e s hmax h
  case OnBeginFrameDerivedImpl args => exact OnBeginFrameDerivedImpl_timerInv d e s args hmax h
  case SetNeedsOneBeginFrame => exact StartObservingBeginFrames_timerInv d e s hmax h
  case OnSurfaceMarkedForDestruction id =>
    exact OnSurfaceMarkedForDestruction_timerInv d e s id hmax h
  case OnSurfaceDamaged id ack => exact OnSurfaceDamaged_timerInv d e s id ack hmax h
  case OnSurfaceDestroyed id => exact OnSurfaceDestroyed_timerInv s id h
  case OnSurfaceDamageExpected id args =>
    exact OnSurfaceDamageExpected_timerInv d e s id args hmax h
  case DidSwapBuffers => exact DidSwapBuffers_timerInv s h
  case DidReceiveSwapBuffersAck => exact DidReceiveSwapBuffersAck_timerInv d e s hmax h
  case OnSurfaceActivatedEx id fcp reset seen =>
    exact OnSurfaceActivatedEx_timerInv d e s id fcp reset seen hmax h
  case NotifyFirstSurfaceActivation => exact NotifyFirstSurfaceActivation_timerInv d e s hmax h
  case RenderProcessGone => exact timerInv_of_fields s _ h rfl rfl rfl rfl rfl rfl
  case RunBeginFrameDeadlineTask =>
    split_ifs
    · exact OnBeginFrameDeadline_timerInv e s
    · exact h
  case RunMissedBeginFrameTask =>
    cases s.missed_begin_frame_task_ with
    | none => exact h
    | some args => exact OnBeginFrameDerivedImpl_timerInv d e s args hmax h
  case RunNotifyFirstActivationEventuallyTask =>
    split_ifs
    · exact NotifyFirstSurfaceActivation_timerInv d e s hmax h
    · exact h

@[simp]
theorem step_wait_for_all_surfaces_before_draw_ (d : Deps) (s : Sys) (op : Op) (e : Env) :
    (step d s op e).wait_for_all_surfaces_before_draw_ =
      s.wait_for_all_surfaces_before_draw_ := by
  cases op <;> simp only [step] <;> try simp
  · split_ifs <;> simp
  · cases s.missed_begin_frame_task_ <;> simp
  · split_ifs <;> simp

/-- Along every run the invariant of the deadline task is kept and the policy
flag `wait_for_all_surfaces_before_draw_` stays as it is. -/
theorem run_timerInv (d : Deps) (hmax : d.TimeTicksMax ≠ 0) (ops : List (Op × Env)) :
    ∀ s : Sys, timerInv s →
      timerInv (run d s ops) ∧
        (run d s ops).wait_for_all_surfaces_before_draw_ =
          s.wait_for_all_surfaces_before_draw_ := by
  induction ops with
  | nil => intro s h; exact ⟨h, rfl⟩
  | cons oe rest ih =>
    intro s h
    have := ih _ (step_timerInv d s oe.1 oe.2 hmax h)
    refine ⟨this.1, ?_⟩
    rw [← step_wait_for_all_surfaces_before_draw_ d s oe.1 oe.2]
    exact this.2


/-! ## Theorems: the draws of an interval completion -/

@[simp]
theorem drawSnapshots_append (a b : List Effect) :
    drawSnapshots (a ++ b) = drawSnapshots a ++ drawSnapshots b := by
  simp [drawSnapshots]

theorem mem_drawSnapshots (log : List Effect) (m : DisplayScheduler) :
    m ∈ drawSnapshots log ↔ Effect.ClientDrawAndSwap m ∈ log := by
  induction log with
  | nil => simp [drawSnapshots]
  | cons ev rest ih =>
    have hc : drawSnapshots (ev :: rest) = drawSnapshots [ev] ++ drawSnapshots rest :=
      drawSnapshots_append [ev] rest
    rw [hc, List.mem_append, ih, List.mem_cons]
    cases ev <;> simp [drawSnapshots]

@[simp]
theorem dcheck_drawSnapshots (s : Sys) (cond : Bool) (check : DCheck) :
    drawSnapshots (s.dcheck cond check).log = drawSnapshots s.log := by
  simp only [Sys.dcheck]
  split_ifs <;> simp [Sys.emit, drawSnapshots]

@[simp]
theorem StopObservingBeginFrames_drawSnapshots (s : Sys) :
    drawSnapshots (StopObservingBeginFrames s).log = drawSnapshots s.log := by
  simp only [StopObservingBeginFrames]
  split_ifs <;> simp [Sys.emit, drawSnapshots]

@[simp]
theorem DidSwapBuffers_drawSnapshots (s : Sys) :
    drawSnapshots (DidSwapBuffers s).log = drawSnapshots s.log := by
  simp only [DidSwapBuffers]
  split_ifs <;> simp [Sys.emit, drawSnapshots]

@[simp]
theorem clientSwaps_drawSnapshots (n : Nat) (s : Sys) :
    drawSnapshots (clientSwaps n s).log = drawSnapshots s.log := by
  induction n generalizing s with
  | zero => rfl
  | succ k ih => simp [clientSwaps, ih]

@[simp]
theorem DidFinishFrame_drawSnapshots (s : Sys) (did_draw : Bool) :
    drawSnapshots (DidFinishFrame s did_draw).log = drawSnapshots s.log := by
  simp only [DidFinishFrame]
  split_ifs <;> simp [Sys.emit, drawSnapshots]

@[simp]
theorem emit_drawSnapshots (s : Sys) (ev : Effect) :
    drawSnapshots (s.emit ev).log = drawSnapshots s.log ++ drawSnapshots [ev] := by
  simp [Sys.emit]

/-- The draw that `DrawAndSwap` makes when its two checks hold: one if there is
a client, in the member state of the call. -/
theorem DrawAndSwap_drawSnapshots (e : Env) (s : Sys)
    (hlt : s.pending_swaps_ < s.max_pending_swaps_) (hlost : s.output_surface_lost_ = false) :
    drawSnapshots (DrawAndSwap e s).1.log =
      drawSnapshots s.log ++ if s.client_ = true then [s.toDisplayScheduler] else [] := by
  have h0 : (s.dcheck (decide (s.pending_swaps_ < s.max_pending_swaps_))
      DCheck.pending_swaps_lt_max).dcheck (!s.output_surface_lost_)
      DCheck.output_surface_not_lost = s := by
    simp [Sys.dcheck, hlt, hlost]
  simp only [DrawAndSwap, h0]
  split_ifs <;>
    simp only [clientSwaps_drawSnapshots, emit_drawSnapshots, List.append_nil] <;>
    simp [drawSnapshots]

/-- The draw that `AttemptDrawAndSwap` makes: one, in the state `attemptSnapshot`,
if `ShouldDraw()` holds, a swap is free and there is a client; none otherwise.
Whether a surface is pending plays no part. -/
theorem AttemptDrawAndSwap_drawSnapshots (e : Env) (s : Sys) :
    drawSnapshots (AttemptDrawAndSwap e s).1.log =
      drawSnapshots s.log ++
        if ShouldDraw s.toDisplayScheduler = true ∧ s.pending_swaps_ < s.max_pending_swaps_ ∧
          s.client_ = true then [attemptSnapshot s] else [] := by
  have hs : ShouldDraw { s.toDisplayScheduler with
      inside_begin_frame_deadline_interval_ := false,
      begin_frame_deadline_task_ := false,
      begin_frame_deadline_task_time_ := 0 } = ShouldDraw s.toDisplayScheduler := by
    simp [ShouldDraw]
  simp only [AttemptDrawAndSwap, hs]
  split_ifs with hdraw hlt hall hall hall
  · have hlost : s.output_surface_lost_ = false := by
      cases hl : s.output_surface_lost_
      · rfl
      · simp [ShouldDraw, hl] at hdraw
    refine (DrawAndSwap_drawSnapshots e _ (by exact hlt) (by exact hlost)).trans ?_
    simp [hall.2.2, attemptSnapshot]
  · have hlost : s.output_surface_lost_ = false := by
      cases hl : s.output_surface_lost_
      · rfl
      · simp [ShouldDraw, hl] at hdraw
    have hc : s.client_ = false := by
      cases hcl : s.client_
      · rfl
      · exact absurd ⟨hdraw, hlt, hcl⟩ hall
    refine (DrawAndSwap_drawSnapshots e _ (by exact hlt) (by exact hlost)).trans ?_
    simp [hc]
  · exact absurd hall.2.1 hlt
  · simp
  · exact absurd hall.1 hdraw
  · simp

theorem OnBeginFrameDeadline_drawSnapshots (e : Env) (s : Sys) :
    drawSnapshots (OnBeginFrameDeadline e s).log =
      drawSnapshots s.log ++
        if ShouldDraw s.toDisplayScheduler = true ∧ s.pending_swaps_ < s.max_pending_swaps_ ∧
          s.client_ = true then [attemptSnapshot s] else [] := by
  have hsnap : attemptSnapshot (s.dcheck s.inside_begin_frame_deadline_interval_
      DCheck.inside_deadline_interval) = attemptSnapshot s := by
    simp only [Sys.dcheck]
    split_ifs <;> rfl
  simp only [OnBeginFrameDeadline, DidFinishFrame_drawSnapshots,
    AttemptDrawAndSwap_drawSnapshots, dcheck_drawSnapshots, hsnap, dcheck_toDisplayScheduler]

theorem ForceImmediateSwapIfPossible_drawSnapshots (e : Env) (s : Sys) :
    drawSnapshots (ForceImmediateSwapIfPossible e s).log =
      drawSnapshots s.log ++
        if ShouldDraw s.toDisplayScheduler = true ∧ s.pending_swaps_ < s.max_pending_swaps_ ∧
          s.client_ = true then [attemptSnapshot s] else [] := by
  simp only [ForceImmediateSwapIfPossible]
  split_ifs <;> simp_all [AttemptDrawAndSwap_drawSnapshots]


@[simp]
theorem ScheduleBeginFrameDeadline_drawSnapshots (d : Deps) (e : Env) (s : Sys) :
    drawSnapshots (ScheduleBeginFrameDeadline d e s).log = drawSnapshots s.log := by
  simp only [ScheduleBeginFrameDeadline]
  split_ifs
  · exact dcheck_drawSnapshots s _ _
  · rfl
  · rfl
  · simp only [emit_drawSnapshots]
    simp [drawSnapshots]

/-- The draw of a tick accepted inside an open interval: that of the completion
it forces, made after the missed-frame task has been cancelled. -/
theorem OnBeginFrameDerivedImpl_drawSnapshots (d : Deps) (e : Env) (s : Sys)
    (args : BeginFrameArgs) (hisd : s.inside_surface_damaged_ = false)
    (hin : s.inside_begin_frame_deadline_interval_ = true) :
    drawSnapshots (OnBeginFrameDerivedImpl d e s args).1.log =
      drawSnapshots s.log ++
        if ShouldDraw s.toDisplayScheduler = true ∧ s.pending_swaps_ < s.max_pending_swaps_ ∧
          s.client_ = true then
          [attemptSnapshot { s with missed_begin_frame_task_ := none }]
        else [] := by
  have h : drawSnapshots
      (OnBeginFrameDeadline e ({ s with missed_begin_frame_task_ := none } : Sys)).log =
      drawSnapshots s.log ++
        if ShouldDraw s.toDisplayScheduler = true ∧ s.pending_swaps_ < s.max_pending_swaps_ ∧
          s.client_ = true then
          [attemptSnapshot { s with missed_begin_frame_task_ := none }]
        else [] := by
    have hs : ShouldDraw ({ s with missed_begin_frame_task_ := none } : Sys).toDisplayScheduler =
        ShouldDraw s.toDisplayScheduler := by
      simp [ShouldDraw]
    rw [← hs]
    exact OnBeginFrameDeadline_drawSnapshots e _
  have hst : drawSnapshots (OnBeginFrameDerivedImpl d e s args).1.log =
      drawSnapshots
        (OnBeginFrameDeadline e ({ s with missed_begin_frame_task_ := none } : Sys)).log := by
    simp only [OnBeginFrameDerivedImpl]
    split_ifs with h1
    · rw [hisd] at h1
      exact absurd h1 (by decide)
    · simp only [ScheduleBeginFrameDeadline_drawSnapshots]
      rw [UpdateHasPendingSurfaces_log]
  rw [hst]
  exact h

/-- The draws among the entries that a function has added to the trace. -/
theorem mem_newEvents_draw (s s' : Sys) (added : List Effect) (snaps : List DisplayScheduler)
    (hlog : s'.log = s.log ++ added)
    (h : drawSnapshots s'.log = drawSnapshots s.log ++ snaps) (m : DisplayScheduler)
    (hm : Effect.ClientDrawAndSwap m ∈ newEvents s s') : m ∈ snaps := by
  have hadded : newEvents s s' = added := by simp [newEvents, hlog]
  rw [hadded] at hm
  rw [hlog, drawSnapshots_append] at h
  rw [← List.append_cancel_left h]
  exact (mem_drawSnapshots added m).mpr hm

/-- C16, as stated, fails: in a reachable state of a scheduler that waits for
all surfaces, with a child surface pending for the current tick and no deadline
armed, both `ForceImmediateSwapIfPossible` and the next tick call the client's
draw while `has_pending_surfaces_` is true. -/
theorem forced_completion_draws_while_surface_pending :
    waitingPendingScheduler.wait_for_all_surfaces_before_draw_ = true ∧
      waitingPendingScheduler.has_pending_surfaces_ = true ∧
      waitingPendingScheduler.begin_frame_deadline_task_ = false ∧
      (drawSnapshots (newEvents waitingPendingScheduler
        (step sampleDeps waitingPendingScheduler Op.ForceImmediateSwapIfPossible
          (sampleEnv 82000)))).map (fun m => m.has_pending_surfaces_) = [true] ∧
      (drawSnapshots (newEvents waitingPendingScheduler
        (step sampleDeps waitingPendingScheduler (Op.OnBeginFrameDerivedImpl (sampleTick 6))
          (sampleEnv 96000)))).map (fun m => m.has_pending_surfaces_) = [true] := by
  decide

/-- C16, amended: with `wait_for_all_surfaces_before_draw_` set, in every state
reached from construction by any operations, the armed deadline calls the
client's draw only when no surface is pending for the current tick; the time
of a deadline that never fires is taken to differ from that of an Immediate
one.  A completion forced by `ForceImmediateSwapIfPossible` or by a tick
accepted inside an open interval (which first cancels the missed-frame task)
draws under the condition of `AttemptDrawAndSwap` alone, in a member state that
has `has_pending_surfaces_` as it was. -/
theorem armed_deadline_draws_with_no_surface_pending (d : Deps) (max_pending_swaps : Int)
    (use_viz_fmp_with_timeout : Bool) (viz_fmp_timeout : Nat) (ops : List (Op × Env))
    (e : Env) (hmax : d.TimeTicksMax ≠ 0) :
    (∀ m, Effect.ClientDrawAndSwap m ∈
        newEvents
          (run d (construct d max_pending_swaps use_viz_fmp_with_timeout viz_fmp_timeout true) ops)
          (step d
            (run d (construct d max_pending_swaps use_viz_fmp_with_timeout viz_fmp_timeout true)
              ops)
            Op.RunBeginFrameDeadlineTask e) →
      m.has_pending_surfaces_ = false) ∧
    (∀ s : Sys, drawSnapshots (ForceImmediateSwapIfPossible e s).log =
      drawSnapshots s.log ++
        if ShouldDraw s.toDisplayScheduler = true ∧ s.pending_swaps_ < s.max_pending_swaps_ ∧
          s.client_ = true then [attemptSnapshot s] else []) ∧
    (∀ (s : Sys) (args : BeginFrameArgs), s.inside_surface_damaged_ = false →
      s.inside_begin_frame_deadline_interval_ = true →
      drawSnapshots (OnBeginFrameDerivedImpl d e s args).1.log =
        drawSnapshots s.log ++
          if ShouldDraw s.toDisplayScheduler = true ∧ s.pending_swaps_ < s.max_pending_swaps_ ∧
            s.client_ = true then
            [attemptSnapshot { s with missed_begin_frame_task_ := none }]
          else []) ∧
    (∀ s : Sys, (attemptSnapshot s).has_pending_surfaces_ = s.has_pending_surfaces_ ∧
      (attemptSnapshot { s with missed_begin_frame_task_ := none }).has_pending_surfaces_ =
        s.has_pending_surfaces_) := by
  refine ⟨?_, fun s => ForceImmediateSwapIfPossible_drawSnapshots e s,
    fun s args hisd hin => OnBeginFrameDerivedImpl_drawSnapshots d e s args hisd hin,
    fun s => ⟨rfl, rfl⟩⟩
  obtain ⟨hinv, hwait⟩ := run_timerInv d hmax ops
    (construct d max_pending_swaps use_viz_fmp_with_timeout viz_fmp_timeout true)
    (timerInv_of_unarmed _ rfl)
  generalize run d (construct d max_pending_swaps use_viz_fmp_with_timeout viz_fmp_timeout true)
    ops = s at hinv hwait
  have hw : s.wait_for_all_surfaces_before_draw_ = true := hwait
  intro m hm
  simp only [step] at hm
  split_ifs at hm with htask
  · obtain ⟨pre, hlog, _⟩ := OnBeginFrameDeadline_log e s
    rw [List.append_assoc] at hlog
    have hmem := mem_newEvents_draw s _ _ _ hlog (OnBeginFrameDeadline_drawSnapshots e s) m hm
    split_ifs at hmem with hcond
    · rw [List.mem_singleton] at hmem
      subst hmem
      have hlost : s.output_surface_lost_ = false := by
        cases hl : s.output_surface_lost_
        · rfl
        · have := hcond.1
          simp [ShouldDraw, hl] at this
      rcases ((hinv htask).2 hw).2 with h | h
      · rw [hlost] at h
        exact absurd h (by decide)
      · exact h
    · exact absurd hmem (List.not_mem_nil m)
  · simp [newEvents] at hm

/-- Witness of the amended C16: the sample scheduler that waits for all surfaces
is brought into the interval of tick 5 with a damaged root surface and no
surface pending; the armed deadline draws once, with no surface pending. -/
theorem armed_deadline_draws_with_no_surface_pending_witness :
    sampleDeps.TimeTicksMax ≠ 0 ∧
      drawCount (newEvents (run sampleDeps waitingScheduler waitingReadyOps)
        (step sampleDeps (run sampleDeps waitingScheduler waitingReadyOps)
          Op.RunBeginFrameDeadlineTask (sampleEnv 80000))) = 1 ∧
      ∀ m, Effect.ClientDrawAndSwap m ∈
          newEvents (run sampleDeps waitingScheduler waitingReadyOps)
            (step sampleDeps (run sampleDeps waitingScheduler waitingReadyOps)
              Op.RunBeginFrameDeadlineTask (sampleEnv 80000)) →
        m.has_pending_surfaces_ = false :=
  ⟨by decide, by decide,
    (armed_deadline_draws_with_no_surface_pending sampleDeps 1 false 0 waitingReadyOps
      (sampleEnv 80000) (by decide)).1⟩

/-! ## Theorems: scheduling the deadline -/

/-- The trace of `ScheduleBeginFrameDeadline`. -/
theorem ScheduleBeginFrameDeadline_log (d : Deps) (e : Env) (s : Sys) :
    (ScheduleBeginFrameDeadline d e s).log = s.log ++ scheduleCalls d e s := by
  simp only [ScheduleBeginFrameDeadline, scheduleCalls, Sys.dcheck]
  cases hin : s.inside_begin_frame_deadline_interval_ <;>
    cases ht : s.begin_frame_deadline_task_ <;>
    simp [Sys.emit] <;>
    split_ifs <;> simp_all

/-- Inside an interval `ScheduleBeginFrameDeadline` leaves the desired deadline
time in `begin_frame_deadline_task_time_`. -/
theorem ScheduleBeginFrameDeadline_task_time (d : Deps) (e : Env) (s : Sys)
    (h : s.inside_begin_frame_deadline_interval_ = true) :
    (ScheduleBeginFrameDeadline d e s).begin_frame_deadline_task_time_ =
      DesiredBeginFrameDeadlineTime d s.toDisplayScheduler := by
  simp only [ScheduleBeginFrameDeadline, h]
  cases ht : s.begin_frame_deadline_task_ <;>
    simp [Sys.emit] <;>
    split_ifs <;> simp_all

/-- Inside an interval the deadline task is posted after
`ScheduleBeginFrameDeadline` whenever the desired time is not the maximum. -/
theorem ScheduleBeginFrameDeadline_task (d : Deps) (e : Env) (s : Sys)
    (h : s.inside_begin_frame_deadline_interval_ = true)
    (hd : DesiredBeginFrameDeadlineTime d s.toDisplayScheduler ≠ d.TimeTicksMax) :
    (ScheduleBeginFrameDeadline d e s).begin_frame_deadline_task_ = true := by
  simp only [ScheduleBeginFrameDeadline, h]
  cases ht : s.begin_frame_deadline_task_ <;>
    simp [Sys.emit] <;>
    split_ifs <;> simp_all

/-! ## Theorems: the swap acknowledgment and the flag setters -/

/-- The swap count after `n` calls of `DidReceiveSwapBuffersAck` in a row with
no tick delivered from `SetIsGpuBusy(false)`, as long as it stays an `int`. -/
theorem run_DidReceiveSwapBuffersAck_pending_swaps_ (d : Deps) (e : Env) (n : Nat)
    (hcb : e.begin_frame_on_not_busy = none) :
    ∀ s : Sys, s.pending_swaps_ ≤ INT_MAX → INT_MIN ≤ s.pending_swaps_ - n →
      (run d s (List.replicate n (Op.DidReceiveSwapBuffersAck, e))).pending_swaps_ =
        s.pending_swaps_ - n := by
  induction n with
  | zero => intro s _ _; simp [run]
  | succ k ih =>
    intro s h1 h2
    have hw : wrapInt (s.pending_swaps_ - 1) = s.pending_swaps_ - 1 :=
      wrapInt_of_int _ (by push_cast at h2; omega) (by omega)
    have hp := DidReceiveSwapBuffersAck_pending_swaps_ d e s hcb
    rw [hw] at hp
    simp only [List.replicate_succ, run, step]
    rw [ih (DidReceiveSwapBuffersAck d e s) (by rw [hp]; omega)
      (by rw [hp]; push_cast at h2; omega), hp]
    push_cast
    omega

/-- C21, as stated, fails.  The begin-frame source may deliver a tick from
inside `SetIsGpuBusy(false)`: for the sample scheduler, throttled with one swap
in flight inside the interval of tick 6, the tick 7 delivered there makes the
scheduler draw, the client swaps, and `DidReceiveSwapBuffersAck` returns with
one swap in flight as before and a deadline time that is not the time of the
policy with the decremented count.  And `pending_swaps_` is an `int`: after
2147483648 calls without a swap the count is `INT_MIN`, and one more call leaves
2147483647. -/
theorem swap_ack_count_restored_by_tick :
    throttledReadyScheduler.pending_swaps_ = 1 ∧
    (DidReceiveSwapBuffersAck sampleDeps (callbackEnv 97000 (sampleTick 7))
      throttledReadyScheduler).pending_swaps_ = 1 ∧
    drawCount (DidReceiveSwapBuffersAck sampleDeps (callbackEnv 97000 (sampleTick 7))
      throttledReadyScheduler).log = drawCount throttledReadyScheduler.log + 1 ∧
    (DidReceiveSwapBuffersAck sampleDeps (callbackEnv 97000 (sampleTick 7))
      throttledReadyScheduler).begin_frame_deadline_task_time_ = 128000 ∧
    DesiredBeginFrameDeadlineTime sampleDeps
      { throttledReadyScheduler.toDisplayScheduler with pending_swaps_ := 0 } = 0 ∧
    (run sampleDeps sampleScheduler
      (List.replicate 2147483648 (Op.DidReceiveSwapBuffersAck, sampleEnv 0))).pending_swaps_ =
        -2147483648 ∧
    (DidReceiveSwapBuffersAck sampleDeps (sampleEnv 0) (run sampleDeps sampleScheduler
      (List.replicate 2147483648 (Op.DidReceiveSwapBuffersAck, sampleEnv 0)))).pending_swaps_ =
        2147483647 := by
  have h := run_DidReceiveSwapBuffersAck_pending_swaps_ sampleDeps (sampleEnv 0) 2147483648 rfl
    sampleScheduler (by decide) (by decide)
  have h0 : sampleScheduler.pending_swaps_ = 0 := rfl
  rw [h0] at h
  have hp : (run sampleDeps sampleScheduler
      (List.replicate 2147483648 (Op.DidReceiveSwapBuffersAck, sampleEnv 0))).pending_swaps_ =
        -2147483648 := by
    rw [h]
    norm_num
  refine ⟨by decide, by decide, by decide, by decide, by decide, hp, ?_⟩
  rw [DidReceiveSwapBuffersAck_pending_swaps_ _ _ _ rfl, hp]
  simp only [wrapInt]
  norm_num

/-- C21, amended: `DidReceiveSwapBuffersAck` takes one from `pending_swaps_` (an
`int`: the count less one while the count is above `INT_MIN`); it calls
`SetIsGpuBusy(false)` on the begin-frame source in the state that already has
the decremented count, as its first call; a tick that the begin-frame source
delivers from inside that call is taken by `OnBeginFrameDerivedImpl` in that
state; and it then runs `ScheduleBeginFrameDeadline` in the state so reached.
When no tick is delivered there and the count is an `int` above `INT_MIN`, the
count is one less afterwards, the calls are `SetIsGpuBusy(false)` and those of
the scheduling with the decremented count, and inside an interval the deadline
time left in `begin_frame_deadline_task_time_` is the desired time of the policy
evaluated with the decremented count, the deadline task being posted whenever
that time is not the maximum. -/
theorem swap_ack_decrements_and_rearms (d : Deps) (e : Env) (s : Sys) :
    (∃ s1 : Sys,
      s1.toDisplayScheduler =
        { s.toDisplayScheduler with pending_swaps_ := wrapInt (s.pending_swaps_ - 1) } ∧
      s1.log = s.log ∧ s1.deadline_task_calls = s.deadline_task_calls ∧
      DidReceiveSwapBuffersAck d e s =
        ScheduleBeginFrameDeadline d e
          (match e.begin_frame_on_not_busy with
          | none => s1.emit (Effect.SetIsGpuBusy false)
          | some args =>
            (OnBeginFrameDerivedImpl d e (s1.emit (Effect.SetIsGpuBusy false)) args).1)) ∧
    (INT_MIN < s.pending_swaps_ → s.pending_swaps_ ≤ INT_MAX →
      wrapInt (s.pending_swaps_ - 1) = s.pending_swaps_ - 1) ∧
    (∃ rest, (DidReceiveSwapBuffersAck d e s).log =
      s.log ++ Effect.SetIsGpuBusy false :: rest) ∧
    (e.begin_frame_on_not_busy = none → INT_MIN < s.pending_swaps_ →
      s.pending_swaps_ ≤ INT_MAX →
      (DidReceiveSwapBuffersAck d e s).pending_swaps_ = s.pending_swaps_ - 1 ∧
      (DidReceiveSwapBuffersAck d e s).log =
        s.log ++ Effect.SetIsGpuBusy false ::
          scheduleCalls d e { s with pending_swaps_ := s.pending_swaps_ - 1 } ∧
      (s.inside_begin_frame_deadline_interval_ = true →
        (DidReceiveSwapBuffersAck d e s).begin_frame_deadline_task_time_ =
          DesiredBeginFrameDeadlineTime d
            { s.toDisplayScheduler with pending_swaps_ := s.pending_swaps_ - 1 } ∧
        (DesiredBeginFrameDeadlineTime d
            { s.toDisplayScheduler with pending_swaps_ := s.pending_swaps_ - 1 } ≠
              d.TimeTicksMax →
          (DidReceiveSwapBuffersAck d e s).begin_frame_deadline_task_ = true))) := by
  refine ⟨⟨{ s with pending_swaps_ := wrapInt (s.pending_swaps_ - 1) }, rfl, rfl, rfl, rfl⟩,
    fun h1 h2 => wrapInt_of_int _ (by omega) (by omega), ?_, ?_⟩
  · have h2 : guardedFrom (s.log ++ [Effect.SetIsGpuBusy false])
        (({ s with pending_swaps_ := wrapInt (s.pending_swaps_ - 1) } : Sys).emit
          (Effect.SetIsGpuBusy false)).log := guardedFrom_refl _
    have h3 : guardedFrom (s.log ++ [Effect.SetIsGpuBusy false])
        (DidReceiveSwapBuffersAck d e s).log := by
      simp only [DidReceiveSwapBuffersAck]
      refine ScheduleBeginFrameDeadline_guarded _ d e _ ?_
      cases e.begin_frame_on_not_busy with
      | none => exact h2
      | some args => exact OnBeginFrameDerivedImpl_guarded _ d e _ args h2
    obtain ⟨added, hadd, _⟩ := h3
    exact ⟨added, by rw [hadd]; simp⟩
  · intro hcb h1 h2
    have hw : wrapInt (s.pending_swaps_ - 1) = s.pending_swaps_ - 1 :=
      wrapInt_of_int _ (by omega) (by omega)
    have hst : DidReceiveSwapBuffersAck d e s = ScheduleBeginFrameDeadline d e
        (({ s with pending_swaps_ := s.pending_swaps_ - 1 } : Sys).emit
          (Effect.SetIsGpuBusy false)) := by
      simp only [DidReceiveSwapBuffersAck, hcb, hw]
    rw [hst]
    refine ⟨by simp, ?_, ?_⟩
    · simp only [ScheduleBeginFrameDeadline_log]
      simp [Sys.emit, scheduleCalls]
    · intro hin
      refine ⟨?_, fun hd => ?_⟩
      · exact ScheduleBeginFrameDeadline_task_time d e _ hin
      · exact ScheduleBeginFrameDeadline_task d e _ hin hd

/-- Witness of the amended C21: the sample scheduler is throttled inside the
interval of tick 6 with a Late deadline; the swap acknowledgment, with no tick
delivered from the begin-frame source, frees the swap and leaves the time of an
Immediate deadline, with the deadline task posted. -/
theorem swap_ack_decrements_and_rearms_witness :
    throttledReadyScheduler.inside_begin_frame_deadline_interval_ = true ∧
      throttledReadyScheduler.pending_swaps_ = 1 ∧
      DesiredBeginFrameDeadlineMode throttledReadyScheduler.toDisplayScheduler =
        BeginFrameDeadlineMode.kLate ∧
      (DidReceiveSwapBuffersAck sampleDeps (sampleEnv 97000)
        throttledReadyScheduler).pending_swaps_ = 0 ∧
      (DidReceiveSwapBuffersAck sampleDeps (sampleEnv 97000)
        throttledReadyScheduler).begin_frame_deadline_task_time_ =
          DesiredBeginFrameDeadlineTime sampleDeps
            { throttledReadyScheduler.toDisplayScheduler with
              pending_swaps_ := throttledReadyScheduler.pending_swaps_ - 1 } ∧
      DesiredBeginFrameDeadlineTime sampleDeps
          { throttledReadyScheduler.toDisplayScheduler with
            pending_swaps_ := throttledReadyScheduler.pending_swaps_ - 1 } = 0 :=
  ⟨by decide, by decide, by decide, by decide,
    (((swap_ack_decrements_and_rearms sampleDeps (sampleEnv 97000)
      throttledReadyScheduler).2.2.2 rfl (by decide) (by decide)).2.2 (by decide)).1,
    by decide⟩

/-- C22: `SetVisible` with the value that `visible_` has, and
`SetRootFrameMissing` with the value that `root_frame_missing_` has, return the
state they were given: every member and the trace of calls are as before. -/
theorem unchanged_flag_setters_are_noops (d : Deps) (e : Env) (s : Sys) :
    SetVisible d e s s.visible_ = s ∧
    SetRootFrameMissing d e s s.root_frame_missing_ = s ∧
    (∀ visible, visible = s.visible_ → newEvents s (SetVisible d e s visible) = []) ∧
    (∀ missing, missing = s.root_frame_missing_ →
      newEvents s (SetRootFrameMissing d e s missing) = []) := by
  refine ⟨by simp [SetVisible], by simp [SetRootFrameMissing], ?_, ?_⟩
  · intro visible h
    subst h
    simp [SetVisible, newEvents]
  · intro missing h
    subst h
    simp [SetRootFrameMissing, newEvents]

/-- Witness of C22: the sample scheduler that is ready to draw is visible with
its root frame present; setting both values again makes no call. -/
theorem unchanged_flag_setters_are_noops_witness :
    readyScheduler.visible_ = true ∧ readyScheduler.root_frame_missing_ = false ∧
      newEvents readyScheduler (SetVisible sampleDeps (sampleEnv 81000) readyScheduler true) = [] ∧
      newEvents readyScheduler
        (SetRootFrameMissing sampleDeps (sampleEnv 81000) readyScheduler false) = [] :=
  ⟨by decide, by decide,
    (unchanged_flag_setters_are_noops sampleDeps (sampleEnv 81000) readyScheduler).2.2.1 true
      (by decide),
    (unchanged_flag_setters_are_noops sampleDeps (sampleEnv 81000) readyScheduler).2.2.2 false
      (by decide)⟩

/-! ## Theorems: the deadline time -/

/-- The tick stored by `OnBeginFrameDerivedImpl` outside `ProcessSurfaceDamage`:
the tick received, with the deadline shortened by the estimated draw time. -/
theorem OnBeginFrameDerivedImpl_stored_tick (d : Deps) (e : Env) (s : Sys)
    (args : BeginFrameArgs) (h : s.inside_surface_damaged_ = false) :
    (OnBeginFrameDerivedImpl d e s args).1.current_begin_frame_args_ =
      { args with deadline := args.deadline - d.DefaultEstimatedDisplayDrawTime args.interval } := by
  simp only [OnBeginFrameDerivedImpl]
  split_ifs with h1
  · rw [h] at h1
    exact absurd h1 (by decide)
  all_goals
    rw [ScheduleBeginFrameDeadline_current_begin_frame_args_,
      UpdateHasPendingSurfaces_current_begin_frame_args_]

/-- C29: `DesiredBeginFrameDeadlineTime` maps the adjusted mode Regular to the
deadline of the stored tick, Late to the stored tick's frame time plus its
interval, and None to the maximum time; and the stored deadline is the one
received with the tick, shortened by the estimated draw time, while frame time
and interval are stored as received. -/
theorem deadline_time_mapping (d : Deps) (s : DisplayScheduler) :
    (AdjustedBeginFrameDeadlineMode s = BeginFrameDeadlineMode.kRegular →
      DesiredBeginFrameDeadlineTime d s = s.current_begin_frame_args_.deadline) ∧
    (AdjustedBeginFrameDeadlineMode s = BeginFrameDeadlineMode.kLate →
      DesiredBeginFrameDeadlineTime d s =
        s.current_begin_frame_args_.frame_time + s.current_begin_frame_args_.interval) ∧
    (AdjustedBeginFrameDeadlineMode s = BeginFrameDeadlineMode.kNone →
      DesiredBeginFrameDeadlineTime d s = d.TimeTicksMax) ∧
    (∀ (e : Env) (t : Sys) (args : BeginFrameArgs), t.inside_surface_damaged_ = false →
      (OnBeginFrameDerivedImpl d e t args).1.current_begin_frame_args_.deadline =
        args.deadline - d.DefaultEstimatedDisplayDrawTime args.interval ∧
      (OnBeginFrameDerivedImpl d e t args).1.current_begin_frame_args_.frame_time =
        args.frame_time ∧
      (OnBeginFrameDerivedImpl d e t args).1.current_begin_frame_args_.interval =
        args.interval) := by
  refine ⟨fun h => ?_, fun h => ?_, fun h => ?_, fun e t args ht => ?_⟩
  · simp [DesiredBeginFrameDeadlineTime, h]
  · simp [DesiredBeginFrameDeadlineTime, h]
  · simp [DesiredBeginFrameDeadlineTime, h]
  · rw [OnBeginFrameDerivedImpl_stored_tick d e t args ht]
    exact ⟨rfl, rfl, rfl⟩

/-- Witness of C29: the sample scheduler with a pending surface in the interval
of tick 5 has a Regular deadline; its time is the deadline of tick 5 (96000)
shortened by a third of the interval. -/
theorem deadline_time_mapping_witness :
    AdjustedBeginFrameDeadlineMode pendingScheduler.toDisplayScheduler =
        BeginFrameDeadlineMode.kRegular ∧
      pendingScheduler.current_begin_frame_args_.deadline = 90667 ∧
      DesiredBeginFrameDeadlineTime sampleDeps pendingScheduler.toDisplayScheduler =
        pendingScheduler.current_begin_frame_args_.deadline :=
  ⟨by decide, by decide,
    (deadline_time_mapping sampleDeps pendingScheduler.toDisplayScheduler).1 (by decide)⟩

/-- C30, as stated, fails: the sample scheduler that is ready to draw has an
Immediate deadline at time 80000, and its desired deadline time is 0, the
default-constructed `base::TimeTicks()`, not the current time. -/
theorem immediate_deadline_time_is_not_now :
    AdjustedBeginFrameDeadlineMode readyScheduler.toDisplayScheduler =
        BeginFrameDeadlineMode.kImmediate ∧
      (sampleEnv 80000).now = 80000 ∧
      DesiredBeginFrameDeadlineTime sampleDeps readyScheduler.toDisplayScheduler = 0 ∧
      DesiredBeginFrameDeadlineTime sampleDeps readyScheduler.toDisplayScheduler ≠
        (sampleEnv 80000).now := by
  decide

/-- C30, amended: for an Immediate adjusted mode the desired deadline time is 0,
the default-constructed `base::TimeTicks()`, whatever the current time; inside an
interval, when the deadline task is not already posted for that time,
`ScheduleBeginFrameDeadline` at a current time that is not negative posts the
deadline task with delay 0 (the maximum time is taken to differ from 0); and
every task that `ScheduleBeginFrameDeadline` posts is the deadline task, with the
delay `max(0, desired_deadline - now)`, which is never negative. -/
theorem immediate_deadline_is_null_time (d : Deps) (e : Env) (s : Sys) :
    (AdjustedBeginFrameDeadlineMode s.toDisplayScheduler = BeginFrameDeadlineMode.kImmediate →
      DesiredBeginFrameDeadlineTime d s.toDisplayScheduler = 0) ∧
    (AdjustedBeginFrameDeadlineMode s.toDisplayScheduler = BeginFrameDeadlineMode.kImmediate →
      s.inside_begin_frame_deadline_interval_ = true →
      ¬ (s.begin_frame_deadline_task_ = true ∧ s.begin_frame_deadline_task_time_ = 0) →
      0 ≤ e.now → d.TimeTicksMax ≠ 0 →
      newEvents s (ScheduleBeginFrameDeadline d e s) =
        [Effect.PostDelayedTask Task.BeginFrameDeadline 0]) ∧
    (∀ task delta,
      Effect.PostDelayedTask task delta ∈ newEvents s (ScheduleBeginFrameDeadline d e s) →
      task = Task.BeginFrameDeadline ∧
      delta = max 0 (DesiredBeginFrameDeadlineTime d s.toDisplayScheduler - e.now) ∧
      0 ≤ delta) := by
  have himm : AdjustedBeginFrameDeadlineMode s.toDisplayScheduler =
      BeginFrameDeadlineMode.kImmediate →
      DesiredBeginFrameDeadlineTime d s.toDisplayScheduler = 0 := by
    intro h
    simp [DesiredBeginFrameDeadlineTime, h]
  have hnew : newEvents s (ScheduleBeginFrameDeadline d e s) = scheduleCalls d e s :=
    newEvents_of_append s _ _ (ScheduleBeginFrameDeadline_log d e s)
  refine ⟨himm, ?_, ?_⟩
  · intro h hin harmed hnow hmax
    have h0 := himm h
    have hmax' : ¬ (0 : Int) = d.TimeTicksMax := fun hc => hmax hc.symm
    have harmed' : ¬ (s.begin_frame_deadline_task_ = true ∧
        0 = s.begin_frame_deadline_task_time_) := fun hc => harmed ⟨hc.1, hc.2.symm⟩
    rw [hnew]
    simp only [scheduleCalls, hin, h0, Bool.true_eq_false, if_false, harmed', hmax']
    simp [hnow]
  · intro task delta hmem
    rw [hnew] at hmem
    simp only [scheduleCalls] at hmem
    split_ifs at hmem <;> simp at hmem
    obtain ⟨ht, hdelta⟩ := hmem
    refine ⟨ht, hdelta, ?_⟩
    rw [hdelta]
    exact le_max_left _ _

/-- Witness of the amended C30: for the sample scheduler with a damaged root
surface, taken inside an interval with no deadline task posted, the deadline is
Immediate, and scheduling it at time 80000 posts the deadline task with
delay 0. -/
theorem immediate_deadline_is_null_time_witness :
    AdjustedBeginFrameDeadlineMode
        ({ damagedScheduler with
            inside_begin_frame_deadline_interval_ := true } : Sys).toDisplayScheduler =
        BeginFrameDeadlineMode.kImmediate ∧
      newEvents { damagedScheduler with inside_begin_frame_deadline_interval_ := true }
          (ScheduleBeginFrameDeadline sampleDeps (sampleEnv 80000)
            { damagedScheduler with inside_begin_frame_deadline_interval_ := true }) =
        [Effect.PostDelayedTask Task.BeginFrameDeadline 0] :=
  ⟨by decide,
    (immediate_deadline_is_null_time sampleDeps (sampleEnv 80000)
      { damagedScheduler with inside_begin_frame_deadline_interval_ := true }).2.1
      (by decide) (by decide) (by decide) (by decide) (by decide)⟩

/-! ## Theorems: damage inside `ProcessSurfaceDamage` -/

/-- A BeginFrame that arrives inside `ProcessSurfaceDamage` changes only
`missed_begin_frame_task_` and the trace. -/
theorem OnBeginFrameDerivedImpl_reentrant_state (d : Deps) (e : Env) (s : Sys)
    (args : BeginFrameArgs) (h : s.inside_surface_damaged_ = true) :
    ∃ log, (OnBeginFrameDerivedImpl d e s args).1 =
      { s with missed_begin_frame_task_ := some args, log := log } := by
  unfold OnBeginFrameDerivedImpl
  rw [if_pos h]
  simp only [Sys.dcheck, Sys.emit]
  split_ifs <;> exact ⟨_, rfl⟩

/-- Inside `ProcessSurfaceDamage`, `StartObservingBeginFrames` changes only
`observing_begin_frame_source_`, `missed_begin_frame_task_` and the trace. -/
theorem StartObservingBeginFrames_reentrant_state (d : Deps) (e : Env) (s : Sys)
    (h : s.inside_surface_damaged_ = true) :
    ∃ observing missed log, StartObservingBeginFrames d e s =
      { s with observing_begin_frame_source_ := observing,
               missed_begin_frame_task_ := missed, log := log } := by
  simp only [StartObservingBeginFrames]
  split_ifs
  · cases e.missed_on_add with
    | none => exact ⟨_, _, _, rfl⟩
    | some args =>
      obtain ⟨log, hlog⟩ := OnBeginFrameDerivedImpl_reentrant_state d e
        (s.emit Effect.AddObserver) args h
      simp only [hlog]
      exact ⟨_, _, _, rfl⟩
  · exact ⟨_, _, _, rfl⟩

/-- Inside `ProcessSurfaceDamage`, the block for display damage sets
`needs_draw_`, clears the resize expectation if the surface is the root
surface, and otherwise changes only `observing_begin_frame_source_`,
`missed_begin_frame_task_` and the trace. -/
theorem markDisplayDamaged_reentrant_state (d : Deps) (e : Env) (s : Sys)
    (surface_id : SurfaceId) (h : s.inside_surface_damaged_ = true) :
    ∃ observing missed log, markDisplayDamaged d e s surface_id =
      { s with needs_draw_ := true,
               expecting_root_surface_damage_because_of_resize_ :=
                 if surface_id = s.root_surface_id_ then false
                 else s.expecting_root_surface_damage_because_of_resize_,
               observing_begin_frame_source_ := observing,
               missed_begin_frame_task_ := missed, log := log } := by
  simp only [markDisplayDamaged, MaybeStartObservingBeginFrames]
  split_ifs with hroot hdraw hdraw
  · obtain ⟨o, m, l, hs⟩ := StartObservingBeginFrames_reentrant_state d e
      ({ s with needs_draw_ := true,
                expecting_root_surface_damage_because_of_resize_ := false } : Sys) h
    exact ⟨o, m, l, hs⟩
  · exact ⟨_, _, _, rfl⟩
  · obtain ⟨o, m, l, hs⟩ := StartObservingBeginFrames_reentrant_state d e
      ({ s with needs_draw_ := true } : Sys) h
    exact ⟨o, m, l, hs⟩
  · exact ⟨_, _, _, rfl⟩

/-! ## Theorems: lookups in the surface map -/

theorem findState_eq_none_iff (m : List (SurfaceId × SurfaceBeginFrameState)) (id : SurfaceId) :
    findState m id = none ↔ id ∉ m.map Prod.fst := by
  induction m with
  | nil => simp [findState]
  | cons entry rest ih =>
    by_cases h : entry.1 = id
    · simp [findState, h]
    · have h' : ¬ id = entry.1 := fun hc => h hc.symm
      simp [findState, h, h', ih]

theorem findState_mem (m : List (SurfaceId × SurfaceBeginFrameState)) (id : SurfaceId)
    (st : SurfaceBeginFrameState) (h : findState m id = some st) : (id, st) ∈ m := by
  induction m with
  | nil => simp [findState] at h
  | cons entry rest ih =>
    by_cases h1 : entry.1 = id
    · simp only [findState, h1, if_true, Option.some.injEq] at h
      rw [← h, ← h1]
      exact List.mem_cons_self _ _
    · simp only [findState, h1, if_false] at h
      exact List.mem_cons_of_mem _ (ih h)

theorem findState_append_single (m : List (SurfaceId × SurfaceBeginFrameState))
    (id id' : SurfaceId) (st : SurfaceBeginFrameState) :
    findState (m ++ [(id, st)]) id' =
      match findState m id' with
      | some found => some found
      | none => if id = id' then some st else none := by
  induction m with
  | nil => simp [findState]
  | cons entry rest ih =>
    by_cases h : entry.1 = id'
    · simp [findState, h]
    · simp [findState, h, ih]

/-- After `surface_states_[id]` the surface has an entry: the one it had, or a
default-constructed one. -/
theorem findState_ensureState (d : Deps) (m : List (SurfaceId × SurfaceBeginFrameState))
    (id id' : SurfaceId) :
    findState (ensureState d m id) id' =
      if id' = id then some ((findState m id).getD (SurfaceBeginFrameState.empty d))
      else findState m id' := by
  simp only [ensureState]
  cases hf : findState m id with
  | some st =>
    by_cases h : id' = id
    · subst h
      simp [hf]
    · simp [h]
  | none =>
    simp only [findState_append_single]
    by_cases h : id' = id
    · subst h
      simp [hf]
    · have h' : ¬ id = id' := fun hc => h hc.symm
      cases findState m id' <;> simp [h, h']

theorem findState_eraseState_other (m : List (SurfaceId × SurfaceBeginFrameState))
    (id id' : SurfaceId) (h : id' ≠ id) :
    findState (eraseState m id) id' = findState m id' := by
  induction m with
  | nil => simp [findState, eraseState]
  | cons entry rest ih =>
    have h3 : ¬ id = id' := fun hc => h hc.symm
    by_cases h1 : entry.1 = id
    · simp only [findState, eraseState, h1, h3, if_true, if_false]
    · by_cases h2 : entry.1 = id'
      · have h4 : ¬ id' = id := h
        simp only [findState, eraseState, h2, h4, if_true, if_false]
      · simp only [findState, eraseState, h1, h2, if_false, ih]

@[simp]
theorem setState_keys (m : List (SurfaceId × SurfaceBeginFrameState)) (id : SurfaceId)
    (st : SurfaceBeginFrameState) : (setState m id st).map Prod.fst = m.map Prod.fst := by
  induction m with
  | nil => rfl
  | cons entry rest ih =>
    by_cases h : entry.1 = id
    · simp [setState, h]
    · simp [setState, h, ih]

/-- In a map with one entry for each surface, the entries left by `erase` are
those of the other surfaces. -/
theorem mem_eraseState (m : List (SurfaceId × SurfaceBeginFrameState)) (id : SurfaceId)
    (hk : uniqueKeys m = true) (entry : SurfaceId × SurfaceBeginFrameState) :
    entry ∈ eraseState m id ↔ entry ∈ m ∧ entry.1 ≠ id := by
  simp only [uniqueKeys, decide_eq_true_eq] at hk
  induction m with
  | nil => simp [eraseState]
  | cons head rest ih =>
    rw [List.map_cons, List.nodup_cons] at hk
    by_cases h : head.1 = id
    · simp only [eraseState, h, if_true, List.mem_cons]
      constructor
      · intro hmem
        refine ⟨Or.inr hmem, fun hc => hk.1 ?_⟩
        rw [h, ← hc]
        exact List.mem_map_of_mem Prod.fst hmem
      · rintro ⟨hmem | hmem, hne⟩
        · rw [hmem] at hne
          exact absurd h hne
        · exact hmem
    · simp only [eraseState, h, if_false, List.mem_cons, ih hk.2]
      constructor
      · rintro (hmem | ⟨hmem, hne⟩)
        · rw [hmem]
          exact ⟨Or.inl rfl, h⟩
        · exact ⟨Or.inr hmem, hne⟩
      · rintro ⟨hmem | hmem, hne⟩
        · exact Or.inl hmem
        · exact Or.inr ⟨hmem, hne⟩

theorem eraseState_keys_sublist (m : List (SurfaceId × SurfaceBeginFrameState))
    (id : SurfaceId) : ((eraseState m id).map Prod.fst).Sublist (m.map Prod.fst) := by
  induction m with
  | nil => simp [eraseState]
  | cons entry rest ih =>
    by_cases h : entry.1 = id
    · simp [eraseState, h]
    · simp only [eraseState, h, if_false, List.map_cons]
      exact ih.cons₂ _

theorem uniqueKeys_setState (m : List (SurfaceId × SurfaceBeginFrameState)) (id : SurfaceId)
    (st : SurfaceBeginFrameState) (hk : uniqueKeys m = true) :
    uniqueKeys (setState m id st) = true := by
  simpa [uniqueKeys] using hk

theorem uniqueKeys_eraseState (m : List (SurfaceId × SurfaceBeginFrameState)) (id : SurfaceId)
    (hk : uniqueKeys m = true) : uniqueKeys (eraseState m id) = true := by
  simp only [uniqueKeys, decide_eq_true_eq] at hk ⊢
  exact hk.sublist (eraseState_keys_sublist m id)

theorem uniqueKeys_ensureState (d : Deps) (m : List (SurfaceId × SurfaceBeginFrameState))
    (id : SurfaceId) (hk : uniqueKeys m = true) : uniqueKeys (ensureState d m id) = true := by
  simp only [ensureState]
  cases hf : findState m id with
  | some st => exact hk
  | none =>
    have hnot := (findState_eq_none_iff m id).mp hf
    simp only [uniqueKeys, decide_eq_true_eq] at hk ⊢
    rw [List.map_append, List.nodup_append]
    refine ⟨hk, by simp, ?_⟩
    intro a ha hb
    simp only [List.map_cons, List.map_nil, List.mem_singleton] at hb
    rw [hb] at ha
    exact hnot ha

/-- In a map with one entry for each surface, the surface erased has no entry
left. -/
theorem findState_eraseState_self (m : List (SurfaceId × SurfaceBeginFrameState))
    (id : SurfaceId) (hk : uniqueKeys m = true) : findState (eraseState m id) id = none := by
  rw [findState_eq_none_iff]
  intro hmem
  obtain ⟨entry, hentry, hfst⟩ := List.mem_map.mp hmem
  exact ((mem_eraseState m id hk entry).mp hentry).2 hfst

/-! ## Theorems: recomputing the pending surfaces -/

/-- The flag that `UpdateHasPendingSurfaces` leaves. -/
theorem UpdateHasPendingSurfaces_flag (e : Env) (s : Sys) :
    (UpdateHasPendingSurfaces e s).1.has_pending_surfaces_ =
      if s.inside_begin_frame_deadline_interval_ = true ∧ s.client_ = true then
        scanPendingSurfaces e s.current_begin_frame_args_.source_id
          s.current_begin_frame_args_.sequence_number s.surface_states_
      else s.has_pending_surfaces_ := by
  simp only [UpdateHasPendingSurfaces]
  cases s.inside_begin_frame_deadline_interval_ <;> cases s.client_ <;> simp

/-- The result of `UpdateHasPendingSurfaces`: whether the flag has changed. -/
theorem UpdateHasPendingSurfaces_snd (e : Env) (s : Sys) :
    (UpdateHasPendingSurfaces e s).2 =
      ((UpdateHasPendingSurfaces e s).1.has_pending_surfaces_ != s.has_pending_surfaces_) := by
  simp only [UpdateHasPendingSurfaces]
  cases s.inside_begin_frame_deadline_interval_ <;> cases s.client_ <;> simp

/-- The state that `UpdateHasPendingSurfaces` leaves: only the flag may differ. -/
theorem UpdateHasPendingSurfaces_fst (e : Env) (s : Sys) :
    (UpdateHasPendingSurfaces e s).1 =
      { s with has_pending_surfaces_ := (UpdateHasPendingSurfaces e s).1.has_pending_surfaces_ } := by
  simp only [UpdateHasPendingSurfaces]
  split_ifs <;> rfl

/-- The flag after `UpdateHasPendingSurfaces` is determined by the members that
the function reads. -/
theorem UpdateHasPendingSurfaces_flag_congr (e : Env) (s s' : Sys)
    (h1 : s'.inside_begin_frame_deadline_interval_ = s.inside_begin_frame_deadline_interval_)
    (h2 : s'.client_ = s.client_)
    (h3 : s'.current_begin_frame_args_ = s.current_begin_frame_args_)
    (h4 : s'.surface_states_ = s.surface_states_)
    (h5 : s'.has_pending_surfaces_ = s.has_pending_surfaces_) :
    (UpdateHasPendingSurfaces e s').1.has_pending_surfaces_ =
      (UpdateHasPendingSurfaces e s).1.has_pending_surfaces_ := by
  rw [UpdateHasPendingSurfaces_flag, UpdateHasPendingSurfaces_flag, h1, h2, h3, h4, h5]

/-- Whether `ProcessSurfaceDamage` stores the acknowledgment is determined by
the surface map. -/
theorem updateSurfaceState_snd_congr (d : Deps) (s s' : Sys) (surface_id : SurfaceId)
    (ack : BeginFrameAck) (h : s'.surface_states_ = s.surface_states_) :
    (updateSurfaceState d s' surface_id ack).2 = (updateSurfaceState d s surface_id ack).2 := by
  simp only [updateSurfaceState, h]
  cases findState s.surface_states_ surface_id with
  | none =>
    simp only []
    split_ifs <;> rfl
  | some st =>
    simp only []
    split_ifs <;> rfl

/-- The flag after the last two statements of `ProcessSurfaceDamage`. -/
theorem rearmAfterDamage_flag (d : Deps) (e : Env) (s : Sys) (valid_ack display_damaged : Bool) :
    (rearmAfterDamage d e s valid_ack display_damaged).has_pending_surfaces_ =
      if (display_damaged || valid_ack) = true then
        (UpdateHasPendingSurfaces e s).1.has_pending_surfaces_
      else s.has_pending_surfaces_ := by
  simp only [rearmAfterDamage]
  split_ifs <;> simp_all

/-- Inside `ProcessSurfaceDamage` the block for display damage, if it runs,
leaves the members that the completeness scan reads. -/
theorem damage_block_scan_members (d : Deps) (e : Env) (s : Sys) (surface_id : SurfaceId)
    (display_damaged : Bool) :
    ∃ s1 : Sys,
      (if display_damaged = true then
          markDisplayDamaged d e { s with inside_surface_damaged_ := true } surface_id
        else ({ s with inside_surface_damaged_ := true } : Sys)) = s1 ∧
      s1.inside_begin_frame_deadline_interval_ = s.inside_begin_frame_deadline_interval_ ∧
      s1.client_ = s.client_ ∧
      s1.current_begin_frame_args_ = s.current_begin_frame_args_ ∧
      s1.surface_states_ = s.surface_states_ ∧
      s1.has_pending_surfaces_ = s.has_pending_surfaces_ := by
  cases display_damaged with
  | false => exact ⟨_, rfl, rfl, rfl, rfl, rfl, rfl⟩
  | true =>
    obtain ⟨o, m, l, hm⟩ := markDisplayDamaged_reentrant_state d e
      ({ s with inside_surface_damaged_ := true } : Sys) surface_id rfl
    refine ⟨_, rfl, ?_⟩
    rw [if_pos rfl, hm]
    exact ⟨rfl, rfl, rfl, rfl, rfl⟩

/-- The flag `has_pending_surfaces_` after `ProcessSurfaceDamage`: recomputed by
`UpdateHasPendingSurfaces` over the surface map as the function leaves it, if
the display was damaged or the acknowledgment was stored. -/
theorem ProcessSurfaceDamage_flag (d : Deps) (e : Env) (s : Sys) (surface_id : SurfaceId)
    (ack : BeginFrameAck) (display_damaged : Bool) :
    (ProcessSurfaceDamage d e s surface_id ack display_damaged).has_pending_surfaces_ =
      if (display_damaged || (updateSurfaceState d s surface_id ack).2) = true then
        (UpdateHasPendingSurfaces e
          { s with surface_states_ :=
              (ProcessSurfaceDamage d e s surface_id ack display_damaged).surface_states_ }).1.has_pending_surfaces_
      else s.has_pending_surfaces_ := by
  have hmap : (ProcessSurfaceDamage d e s surface_id ack display_damaged).surface_states_ =
      (updateSurfaceState d s surface_id ack).1.surface_states_ := by
    rw [ProcessSurfaceDamage_surface_states_, updateSurfaceState_surface_states_]
  rw [hmap]
  obtain ⟨s1, hs1, hin, hcl, hcur, hst, hpend⟩ :=
    damage_block_scan_members d e s surface_id display_damaged
  have hmap1 : (updateSurfaceState d s1 surface_id ack).1.surface_states_ =
      (updateSurfaceState d s surface_id ack).1.surface_states_ := by
    rw [updateSurfaceState_surface_states_, updateSurfaceState_surface_states_, hst]
  simp only [ProcessSurfaceDamage, hs1, rearmAfterDamage_flag,
    updateSurfaceState_snd_congr d s s1 surface_id ack hst]
  split_ifs
  · apply UpdateHasPendingSurfaces_flag_congr
    · simp [hin]
    · simp [hcl]
    · simp [hcur]
    · exact hmap1
    · simp [hpend]
  · simp [hpend]

/-! ## Theorems: the root surface, records and acknowledgments -/

/-- After `ProcessSurfaceDamage` with display damage a draw is needed, and the
resize expectation is cleared if the damaged surface is the root surface and
kept otherwise. -/
theorem ProcessSurfaceDamage_damaged_flags (d : Deps) (e : Env) (s : Sys)
    (surface_id : SurfaceId) (ack : BeginFrameAck) :
    (ProcessSurfaceDamage d e s surface_id ack true).needs_draw_ = true ∧
    (ProcessSurfaceDamage d e s surface_id ack true).expecting_root_surface_damage_because_of_resize_ =
      if surface_id = s.root_surface_id_ then false
      else s.expecting_root_surface_damage_because_of_resize_ := by
  obtain ⟨o, m, l, hm⟩ := markDisplayDamaged_reentrant_state d e
    ({ s with inside_surface_damaged_ := true } : Sys) surface_id rfl
  simp only [ProcessSurfaceDamage, if_true, hm, rearmAfterDamage_needs_draw_,
    updateSurfaceState_needs_draw_,
    rearmAfterDamage_expecting_root_surface_damage_because_of_resize_,
    updateSurfaceState_expecting_root_surface_damage_because_of_resize_, and_self]

/-- The acknowledgment that `SetNewRootSurface` makes up is never stored. -/
theorem ProcessSurfaceDamage_surface_states_invalid (d : Deps) (e : Env) (s : Sys)
    (surface_id : SurfaceId) (ack : BeginFrameAck) (display_damaged : Bool)
    (h : ack.sequence_number = d.kInvalidFrameNumber) :
    (ProcessSurfaceDamage d e s surface_id ack display_damaged).surface_states_ =
      s.surface_states_ := by
  rw [ProcessSurfaceDamage_surface_states_]
  cases findState s.surface_states_ surface_id with
  | none => rfl
  | some st => simp [h]

/-- The loop over the pending activations runs to its end exactly when there is
no entry, or a client is set and the test fails for every entry. -/
theorem activatePending_returns (e : Env) (s : Sys) (entries : List (SurfaceId × Nat)) :
    activatePending e s entries = Except.ok s ↔
      (entries = [] ∨ (s.client_ = true ∧ ∀ it ∈ entries,
        (e.RootFrameSinkContainsChild it.2 && s.visible_ &&
          !s.first_surface_activated_) = false)) := by
  induction entries with
  | nil => simp [activatePending]
  | cons it rest ih =>
    simp only [activatePending]
    cases hc : s.client_
    · simp
    · cases hcond : (e.RootFrameSinkContainsChild it.2 && s.visible_ &&
          !s.first_surface_activated_)
      · simp only [Bool.not_true, Bool.false_eq_true, if_false, ih, hc]
        constructor
        · rintro (h | ⟨_, h⟩)
          · subst h
            exact Or.inr ⟨trivial, by simpa using hcond⟩
          · refine Or.inr ⟨trivial, ?_⟩
            intro x hx
            rcases List.mem_cons.1 hx with hx | hx
            · subst hx; exact hcond
            · exact h x hx
        · rintro (h | ⟨_, h⟩)
          · exact absurd h (by simp)
          · exact Or.inr ⟨trivial, fun x hx => h x (List.mem_cons_of_mem _ hx)⟩
      · simp only [Bool.not_true, Bool.false_eq_true, if_false, if_true]
        constructor
        · intro h; exact absurd h (by simp)
        · rintro (h | ⟨_, h⟩)
          · exact absurd h (by simp)
          · have := h it (List.mem_cons_self _ _)
            rw [hcond] at this
            exact absurd this (by decide)

/-- C23: `SetNewRootSurface` first runs the loop over `pending_activations_`,
which dereferences `client_` without a null test and erases from the map it
iterates over.  With a pending activation and no client (a state reached from
construction by `SetClient`, `OnSurfaceActivatedEx` and `SetClient(nullptr)`)
the loop dereferences a null pointer; with a client, visible, and an entry
that the client's root frame sink contains, it erases the entry under the
iteration.  The loop runs to its end exactly when there is no entry, or a
client is set and the test fails for every entry; then it has changed nothing,
and `SetNewRootSurface` stores the surface in `root_surface_id_` and is
`ProcessSurfaceDamage` for that surface with a default-constructed
acknowledgment marked as damaging and with display damage: afterwards
`needs_draw_` is set, the resize expectation is cleared, and the surface map is
as before, the made-up acknowledgment having the invalid sequence number: no
`last_ack` changes. -/
theorem new_root_surface_is_damage_unless_fault (d : Deps) (e : Env) (s : Sys)
    (root_surface_id : SurfaceId) :
    (clientlessPendingScheduler.client_ = false ∧
      clientlessPendingScheduler.pending_activations_ = [(sampleSurface, 1)] ∧
      SetNewRootSurface sampleDeps (sampleEnv 0) clientlessPendingScheduler sampleSurface =
        Except.error Fault.null_client) ∧
    (visiblePendingScheduler.client_ = true ∧
      visiblePendingScheduler.pending_activations_ = [(sampleSurface, 1)] ∧
      SetNewRootSurface sampleDeps (sampleEnv 0) visiblePendingScheduler sampleSurface =
        Except.error Fault.invalidated_iterator) ∧
    ((∃ s1, SetNewRootSurface d e s root_surface_id = Except.ok s1) ↔
      (s.pending_activations_ = [] ∨ (s.client_ = true ∧ ∀ it ∈ s.pending_activations_,
        (e.RootFrameSinkContainsChild it.2 && s.visible_ &&
          !s.first_surface_activated_) = false))) ∧
    (∀ s1, SetNewRootSurface d e s root_surface_id = Except.ok s1 →
      s1 = ProcessSurfaceDamage d e { s with root_surface_id_ := root_surface_id }
        root_surface_id { BeginFrameAck.empty d with has_damage := true } true ∧
      s1.root_surface_id_ = root_surface_id ∧
      ({ BeginFrameAck.empty d with has_damage := true } : BeginFrameAck).sequence_number =
        d.kInvalidFrameNumber ∧
      s1.needs_draw_ = true ∧
      s1.expecting_root_surface_damage_because_of_resize_ = false ∧
      s1.surface_states_ = s.surface_states_ ∧
      (∀ surface_id,
        (findState s1.surface_states_ surface_id).map (fun st => st.last_ack) =
          (findState s.surface_states_ surface_id).map (fun st => st.last_ack))) := by
  refine ⟨⟨rfl, rfl, rfl⟩, ⟨rfl, rfl, rfl⟩, ?_, ?_⟩
  · rw [← activatePending_returns]
    constructor
    · rintro ⟨s1, h⟩
      simp only [SetNewRootSurface] at h
      cases hact : activatePending e s s.pending_activations_ with
      | error fault => rw [hact] at h; exact absurd h (by simp)
      | ok s2 => rw [activatePending_ok e _ s s2 hact]
    · intro h
      simp only [SetNewRootSurface, h]
      exact ⟨_, rfl⟩
  · intro s1 h
    rcases SetNewRootSurface_cases d e s root_surface_id with hok | ⟨fault, hf⟩
    · rw [hok] at h
      have hs1 := (Except.ok.inj h).symm
      have hmap : s1.surface_states_ = s.surface_states_ := by
        rw [hs1, ProcessSurfaceDamage_surface_states_invalid _ _ _ _ _ _ rfl]
      refine ⟨hs1, ?_, rfl, ?_, ?_, hmap, ?_⟩
      · rw [hs1]
        simp
      · rw [hs1]
        exact (ProcessSurfaceDamage_damaged_flags d e _ root_surface_id _).1
      · rw [hs1]
        have h2 := (ProcessSurfaceDamage_damaged_flags d e
          ({ s with root_surface_id_ := root_surface_id } : Sys) root_surface_id
          { BeginFrameAck.empty d with has_damage := true }).2
        simpa using h2
      · intro surface_id
        rw [hmap]
    · rw [hf] at h
      exact absurd h (by simp)

/-- Witness of C23: the sample scheduler with a client, visible and with root
content, expecting damage after a resize, gets its root surface: without
pending activations this is `ProcessSurfaceDamage` on the state that has the
new root surface, and the resize expectation is cleared. -/
theorem new_root_surface_is_damage_unless_fault_witness :
    (DisplayResized sampleDeps (sampleEnv 0)
        visibleScheduler).expecting_root_surface_damage_because_of_resize_ = true ∧
      SetNewRootSurface sampleDeps (sampleEnv 0)
          (DisplayResized sampleDeps (sampleEnv 0) visibleScheduler) sampleSurface =
        Except.ok (ProcessSurfaceDamage sampleDeps (sampleEnv 0)
          { DisplayResized sampleDeps (sampleEnv 0) visibleScheduler with
            root_surface_id_ := sampleSurface }
          sampleSurface { BeginFrameAck.empty sampleDeps with has_damage := true } true) ∧
      (ProcessSurfaceDamage sampleDeps (sampleEnv 0)
          { DisplayResized sampleDeps (sampleEnv 0) visibleScheduler with
            root_surface_id_ := sampleSurface }
          sampleSurface { BeginFrameAck.empty sampleDeps with has_damage := true }
          true).expecting_root_surface_damage_because_of_resize_ = false :=
  ⟨by decide, rfl,
    ((new_root_surface_is_damage_unless_fault sampleDeps (sampleEnv 0)
      (DisplayResized sampleDeps (sampleEnv 0) visibleScheduler) sampleSurface).2.2.2
      _ rfl).2.2.2.2.1⟩

/-- The surface map after `OnSurfaceDamaged`: that after `ProcessSurfaceDamage`. -/
theorem OnSurfaceDamaged_surface_states_ (d : Deps) (e : Env) (s : Sys)
    (surface_id : SurfaceId) (ack : BeginFrameAck) :
    (OnSurfaceDamaged d e s surface_id ack).1.surface_states_ =
      (ProcessSurfaceDamage d e s surface_id ack
        (s.client_ && e.SurfaceDamaged surface_id ack)).surface_states_ := by
  simp only [OnSurfaceDamaged, ProcessSurfaceDamage_surface_states_]
  split_ifs <;> rfl

/-- The surface map after `OnSurfaceDamageExpected`. -/
theorem OnSurfaceDamageExpected_surface_states_ (d : Deps) (e : Env) (s : Sys)
    (surface_id : SurfaceId) (args : BeginFrameArgs) :
    (OnSurfaceDamageExpected d e s surface_id args).surface_states_ =
      setState (ensureState d s.surface_states_ surface_id) surface_id
        { (findState (ensureState d s.surface_states_ surface_id) surface_id).getD
            (SurfaceBeginFrameState.empty d) with last_args := args } := by
  simp only [OnSurfaceDamageExpected]
  split_ifs <;> simp

/-- The record of a surface after `OnSurfaceDamageExpected` for it: the tick, and
the acknowledgment it had or an empty one. -/
theorem OnSurfaceDamageExpected_record (d : Deps) (e : Env) (s : Sys)
    (surface_id : SurfaceId) (args : BeginFrameArgs) :
    findState (OnSurfaceDamageExpected d e s surface_id args).surface_states_ surface_id =
      some { last_args := args,
             last_ack := match findState s.surface_states_ surface_id with
               | some st => st.last_ack
               | none => BeginFrameAck.empty d } := by
  rw [OnSurfaceDamageExpected_surface_states_, findState_setState, findState_ensureState]
  cases findState s.surface_states_ surface_id <;> simp [SurfaceBeginFrameState.empty]

/-- C24, as stated, fails: the sample scheduler has no record for the sample
surface, and neither `ProcessSurfaceDamage` nor `OnSurfaceDamaged` with the valid
acknowledgment of tick 5 creates one. -/
theorem damage_creates_no_record :
    findState visibleScheduler.surface_states_ sampleSurface = none ∧
      (BeginFrameAck.ofArgs (sampleTick 5) true).sequence_number ≠
        sampleDeps.kInvalidFrameNumber ∧
      findState (ProcessSurfaceDamage sampleDeps (sampleEnv 0) visibleScheduler sampleSurface
        (BeginFrameAck.ofArgs (sampleTick 5) true) true).surface_states_ sampleSurface = none ∧
      findState (OnSurfaceDamaged sampleDeps (sampleEnv 0) visibleScheduler sampleSurface
        (BeginFrameAck.ofArgs (sampleTick 5) true)).1.surface_states_ sampleSurface = none := by
  decide

/-- C24, amended: a record is created by the first `OnSurfaceDamageExpected` for
a surface, with the tick and an empty acknowledgment; `ProcessSurfaceDamage` and
`OnSurfaceDamaged` for a surface without a record leave the surface map as it
is, whatever the acknowledgment, so the surface still has no record. -/
theorem record_created_by_damage_expected_only (d : Deps) (e : Env) (s : Sys)
    (surface_id : SurfaceId) (h : findState s.surface_states_ surface_id = none) :
    (∀ ack display_damaged,
      (ProcessSurfaceDamage d e s surface_id ack display_damaged).surface_states_ =
        s.surface_states_ ∧
      findState (ProcessSurfaceDamage d e s surface_id ack display_damaged).surface_states_
        surface_id = none) ∧
    (∀ ack,
      (OnSurfaceDamaged d e s surface_id ack).1.surface_states_ = s.surface_states_ ∧
      findState (OnSurfaceDamaged d e s surface_id ack).1.surface_states_ surface_id = none) ∧
    (∀ args,
      findState (OnSurfaceDamageExpected d e s surface_id args).surface_states_ surface_id =
        some { last_args := args, last_ack := BeginFrameAck.empty d }) := by
  have hpsd : ∀ ack display_damaged,
      (ProcessSurfaceDamage d e s surface_id ack display_damaged).surface_states_ =
        s.surface_states_ := by
    intro ack display_damaged
    rw [ProcessSurfaceDamage_surface_states_, h]
  refine ⟨fun ack dd => ⟨hpsd ack dd, ?_⟩, fun ack => ?_, fun args => ?_⟩
  · rw [hpsd ack dd]
    exact h
  · rw [OnSurfaceDamaged_surface_states_, hpsd]
    exact ⟨rfl, h⟩
  · rw [OnSurfaceDamageExpected_record, h]

/-- Witness of the amended C24: the sample scheduler has no record for the
sample surface; damage leaves none, and the expectation of damage for tick 5
creates one. -/
theorem record_created_by_damage_expected_only_witness :
    findState visibleScheduler.surface_states_ sampleSurface = none ∧
      findState (ProcessSurfaceDamage sampleDeps (sampleEnv 0) visibleScheduler sampleSurface
        (BeginFrameAck.ofArgs (sampleTick 5) true) true).surface_states_ sampleSurface = none ∧
      findState (OnSurfaceDamageExpected sampleDeps (sampleEnv 0) visibleScheduler sampleSurface
        (sampleTick 5)).surface_states_ sampleSurface =
        some { last_args := sampleTick 5, last_ack := BeginFrameAck.empty sampleDeps } :=
  ⟨by decide,
    ((record_created_by_damage_expected_only sampleDeps (sampleEnv 0) visibleScheduler
      sampleSurface (by decide)).1 (BeginFrameAck.ofArgs (sampleTick 5) true) true).2,
    (record_created_by_damage_expected_only sampleDeps (sampleEnv 0) visibleScheduler
      sampleSurface (by decide)).2.2 (sampleTick 5)⟩

/-- An acknowledgment that passes the regression guard is reported as stored. -/
theorem updateSurfaceState_snd_accepted (d : Deps) (s : Sys) (surface_id : SurfaceId)
    (ack : BeginFrameAck) (st : SurfaceBeginFrameState)
    (hf : findState s.surface_states_ surface_id = some st)
    (hv : ack.sequence_number ≠ d.kInvalidFrameNumber)
    (hg : st.last_ack.source_id ≠ ack.source_id ∨
      st.last_ack.sequence_number < ack.sequence_number) :
    (updateSurfaceState d s surface_id ack).2 = true := by
  simp only [updateSurfaceState, hf]
  rcases hg with hg | hg <;> simp [hv, hg]

/-- C28: for a surface with a record and an acknowledgment with a valid sequence
number whose `source_id` differs from that of the stored `last_ack` or whose
`sequence_number` is strictly greater, `ProcessSurfaceDamage` leaves as the
record of the surface its last seen tick with exactly the incoming
acknowledgment, leaves the record of every other surface as it was, and leaves in
`has_pending_surfaces_` the flag that `UpdateHasPendingSurfaces` computes over the
new surface map: inside an interval with a client, the result of the scan. -/
theorem accepted_ack_is_stored (d : Deps) (e : Env) (s : Sys) (surface_id : SurfaceId)
    (ack : BeginFrameAck) (display_damaged : Bool) (st : SurfaceBeginFrameState)
    (hf : findState s.surface_states_ surface_id = some st)
    (hv : ack.sequence_number ≠ d.kInvalidFrameNumber)
    (hg : st.last_ack.source_id ≠ ack.source_id ∨
      st.last_ack.sequence_number < ack.sequence_number) :
    (ProcessSurfaceDamage d e s surface_id ack display_damaged).surface_states_ =
      setState s.surface_states_ surface_id { st with last_ack := ack } ∧
    findState (ProcessSurfaceDamage d e s surface_id ack display_damaged).surface_states_
        surface_id = some { last_args := st.last_args, last_ack := ack } ∧
    (∀ other, other ≠ surface_id →
      findState (ProcessSurfaceDamage d e s surface_id ack display_damaged).surface_states_
        other = findState s.surface_states_ other) ∧
    (ProcessSurfaceDamage d e s surface_id ack display_damaged).has_pending_surfaces_ =
      (UpdateHasPendingSurfaces e
        { s with surface_states_ :=
            setState s.surface_states_ surface_id { st with last_ack := ack } }).1.has_pending_surfaces_ ∧
    (s.inside_begin_frame_deadline_interval_ = true → s.client_ = true →
      (ProcessSurfaceDamage d e s surface_id ack display_damaged).has_pending_surfaces_ =
        scanPendingSurfaces e s.current_begin_frame_args_.source_id
          s.current_begin_frame_args_.sequence_number
          (setState s.surface_states_ surface_id { st with last_ack := ack })) := by
  have hmap : (ProcessSurfaceDamage d e s surface_id ack display_damaged).surface_states_ =
      setState s.surface_states_ surface_id { st with last_ack := ack } := by
    rw [ProcessSurfaceDamage_surface_states_, hf]
    simp only []
    rw [if_pos ⟨hv, hg⟩]
  have hflag : (ProcessSurfaceDamage d e s surface_id ack display_damaged).has_pending_surfaces_ =
      (UpdateHasPendingSurfaces e
        { s with surface_states_ :=
            setState s.surface_states_ surface_id { st with last_ack := ack } }).1.has_pending_surfaces_ := by
    rw [ProcessSurfaceDamage_flag, updateSurfaceState_snd_accepted d s surface_id ack st hf hv hg,
      hmap]
    simp
  refine ⟨hmap, ?_, ?_, hflag, ?_⟩
  · rw [hmap, findState_setState, hf]
    simp
  · intro other hne
    rw [hmap, findState_setState]
    simp [hne]
  · intro hin hcl
    rw [hflag, UpdateHasPendingSurfaces_flag]
    simp [hin, hcl]

/-- Witness of C28: inside the interval of tick 5 the surface of the sample
scheduler has seen the tick and holds an empty acknowledgment; its
acknowledgment of tick 5 is stored and no surface is pending any more. -/
theorem accepted_ack_is_stored_witness :
    findState pendingScheduler.surface_states_ sampleSurface =
        some { last_args := sampleTick 5, last_ack := BeginFrameAck.empty sampleDeps } ∧
      pendingScheduler.has_pending_surfaces_ = true ∧
      findState (ProcessSurfaceDamage sampleDeps (sampleEnv 82000) pendingScheduler sampleSurface
          (BeginFrameAck.ofArgs (sampleTick 5) true) true).surface_states_ sampleSurface =
        some { last_args := sampleTick 5, last_ack := BeginFrameAck.ofArgs (sampleTick 5) true } ∧
      (ProcessSurfaceDamage sampleDeps (sampleEnv 82000) pendingScheduler sampleSurface
        (BeginFrameAck.ofArgs (sampleTick 5) true) true).has_pending_surfaces_ = false :=
  ⟨by decide, by decide,
    (accepted_ack_is_stored sampleDeps (sampleEnv 82000) pendingScheduler sampleSurface
      (BeginFrameAck.ofArgs (sampleTick 5) true) true
      ⟨sampleTick 5, BeginFrameAck.empty sampleDeps⟩ (by decide) (by decide)
      (Or.inl (by decide))).2.1,
    by decide⟩

/-! ## Theorems: expected damage and destroyed surfaces -/

/-- The deadline is scheduled again after `UpdateHasPendingSurfaces` only if the
flag has changed: with the flag as before the state is as before, and otherwise
it is the state with the new flag after `ScheduleBeginFrameDeadline`. -/
theorem rearm_if_changed (d : Deps) (e : Env) (s r : Sys)
    (hr : r = if (UpdateHasPendingSurfaces e s).2 = true then
      ScheduleBeginFrameDeadline d e (UpdateHasPendingSurfaces e s).1
      else (UpdateHasPendingSurfaces e s).1) :
    r.has_pending_surfaces_ = (UpdateHasPendingSurfaces e s).1.has_pending_surfaces_ ∧
    (r.has_pending_surfaces_ = s.has_pending_surfaces_ → r = s) ∧
    (r.has_pending_surfaces_ ≠ s.has_pending_surfaces_ →
      r = ScheduleBeginFrameDeadline d e
        { s with has_pending_surfaces_ := r.has_pending_surfaces_ }) := by
  have hflag : r.has_pending_surfaces_ =
      (UpdateHasPendingSurfaces e s).1.has_pending_surfaces_ := by
    rw [hr]
    split_ifs <;> simp
  have hfst := UpdateHasPendingSurfaces_fst e s
  have hsnd := UpdateHasPendingSurfaces_snd e s
  rw [← hflag] at hfst hsnd
  refine ⟨hflag, fun hsame => ?_, fun hdiff => ?_⟩
  · have hu : (UpdateHasPendingSurfaces e s).2 = false := by
      rw [hsnd, hsame]
      simp
    rw [hr, hu, if_neg (by decide), hfst, hsame]
  · have hu : (UpdateHasPendingSurfaces e s).2 = true := by
      rw [hsnd]
      simpa using hdiff
    rw [hr, hu, if_pos rfl]
    rw [hr, hu, if_pos rfl] at hfst
    simp only [ScheduleBeginFrameDeadline_has_pending_surfaces_] at hfst ⊢
    exact congrArg (ScheduleBeginFrameDeadline d e) hfst

/-- C25: `OnSurfaceDamageExpected` leaves for the surface a record with the tick
as last seen tick and with the acknowledgment that the record had, or an empty
one if there was no record; the records of all other surfaces are as before;
and the deadline is scheduled again only if `has_pending_surfaces_` has changed:
with the flag as before, nothing but the surface map differs and no call is
made, and otherwise the state is that with the new map and flag after
`ScheduleBeginFrameDeadline`. -/
theorem damage_expected_updates_record (d : Deps) (e : Env) (s : Sys)
    (surface_id : SurfaceId) (args : BeginFrameArgs) :
    findState (OnSurfaceDamageExpected d e s surface_id args).surface_states_ surface_id =
      some { last_args := args,
             last_ack := match findState s.surface_states_ surface_id with
               | some st => st.last_ack
               | none => BeginFrameAck.empty d } ∧
    (∀ other, other ≠ surface_id →
      findState (OnSurfaceDamageExpected d e s surface_id args).surface_states_ other =
        findState s.surface_states_ other) ∧
    ((OnSurfaceDamageExpected d e s surface_id args).has_pending_surfaces_ =
        s.has_pending_surfaces_ →
      OnSurfaceDamageExpected d e s surface_id args =
        { s with surface_states_ :=
            (OnSurfaceDamageExpected d e s surface_id args).surface_states_ }) ∧
    ((OnSurfaceDamageExpected d e s surface_id args).has_pending_surfaces_ ≠
        s.has_pending_surfaces_ →
      OnSurfaceDamageExpected d e s surface_id args =
        ScheduleBeginFrameDeadline d e
          { s with
            surface_states_ := (OnSurfaceDamageExpected d e s surface_id args).surface_states_
            has_pending_surfaces_ :=
              (OnSurfaceDamageExpected d e s surface_id args).has_pending_surfaces_ }) := by
  have hr := rearm_if_changed d e
    ({ s with surface_states_ :=
        (OnSurfaceDamageExpected d e s surface_id args).surface_states_ } : Sys)
    (OnSurfaceDamageExpected d e s surface_id args)
    (by rw [OnSurfaceDamageExpected_surface_states_]; rfl)
  refine ⟨OnSurfaceDamageExpected_record d e s surface_id args, fun other hne => ?_,
    hr.2.1, hr.2.2⟩
  rw [OnSurfaceDamageExpected_surface_states_, findState_setState, if_neg hne,
    findState_ensureState, if_neg hne]

/-- Witness of C25: in the interval of tick 5 the sample scheduler learns that
damage of its surface is expected; the record is created with an empty
acknowledgment, the surface is pending, and the deadline is scheduled again. -/
theorem damage_expected_updates_record_witness :
    readyScheduler.has_pending_surfaces_ = false ∧
      (OnSurfaceDamageExpected sampleDeps (sampleEnv 81000) readyScheduler sampleSurface
        (sampleTick 5)).has_pending_surfaces_ = true ∧
      OnSurfaceDamageExpected sampleDeps (sampleEnv 81000) readyScheduler sampleSurface
          (sampleTick 5) =
        ScheduleBeginFrameDeadline sampleDeps (sampleEnv 81000)
          { readyScheduler with
            surface_states_ := (OnSurfaceDamageExpected sampleDeps (sampleEnv 81000)
              readyScheduler sampleSurface (sampleTick 5)).surface_states_
            has_pending_surfaces_ := (OnSurfaceDamageExpected sampleDeps (sampleEnv 81000)
              readyScheduler sampleSurface (sampleTick 5)).has_pending_surfaces_ } :=
  ⟨by decide, by decide,
    (damage_expected_updates_record sampleDeps (sampleEnv 81000) readyScheduler sampleSurface
      (sampleTick 5)).2.2.2 (by decide)⟩

theorem eraseState_absent (m : List (SurfaceId × SurfaceBeginFrameState)) (id : SurfaceId)
    (h : findState m id = none) : eraseState m id = m := by
  induction m with
  | nil => rfl
  | cons entry rest ih =>
    by_cases h1 : entry.1 = id
    · simp [findState, h1] at h
    · simp only [findState, h1, if_false] at h
      simp only [eraseState, h1, if_false, ih h]

/-- The surface map after `OnSurfaceMarkedForDestruction`. -/
theorem OnSurfaceMarkedForDestruction_surface_states_ (d : Deps) (e : Env) (s : Sys)
    (surface_id : SurfaceId) :
    (OnSurfaceMarkedForDestruction d e s surface_id).surface_states_ =
      eraseState s.surface_states_ surface_id := by
  simp only [OnSurfaceMarkedForDestruction]
  cases hf : findState s.surface_states_ surface_id with
  | none => exact (eraseState_absent _ _ hf).symm
  | some st =>
    simp only []
    split_ifs <;> simp

/-- C26: in a surface map with one entry for each surface,
`OnSurfaceMarkedForDestruction` removes the record of the surface and leaves the
record of every other surface; for a surface without a record it returns the
state it was given; afterwards no entry of the map belongs to the surface, so
that the scan finds a pending surface exactly when one of the other surfaces is
pending; and the deadline is scheduled again only if `has_pending_surfaces_` has
changed. -/
theorem destruction_removes_record (d : Deps) (e : Env) (s : Sys) (surface_id : SurfaceId)
    (hk : uniqueKeys s.surface_states_ = true) :
    (findState s.surface_states_ surface_id = none →
      OnSurfaceMarkedForDestruction d e s surface_id = s) ∧
    findState (OnSurfaceMarkedForDestruction d e s surface_id).surface_states_ surface_id =
      none ∧
    (∀ other, other ≠ surface_id →
      findState (OnSurfaceMarkedForDestruction d e s surface_id).surface_states_ other =
        findState s.surface_states_ other) ∧
    (∀ entry, entry ∈ (OnSurfaceMarkedForDestruction d e s surface_id).surface_states_ ↔
      entry ∈ s.surface_states_ ∧ entry.1 ≠ surface_id) ∧
    (∀ (later : Env) (current : BeginFrameArgs),
      scanPendingSurfaces later current.source_id current.sequence_number
          (OnSurfaceMarkedForDestruction d e s surface_id).surface_states_ = true ↔
        ∃ entry ∈ s.surface_states_,
          entry.1 ≠ surface_id ∧ specSurfacePending later current entry = true) ∧
    ((OnSurfaceMarkedForDestruction d e s surface_id).has_pending_surfaces_ =
        s.has_pending_surfaces_ →
      OnSurfaceMarkedForDestruction d e s surface_id =
        { s with surface_states_ := eraseState s.surface_states_ surface_id }) ∧
    ((OnSurfaceMarkedForDestruction d e s surface_id).has_pending_surfaces_ ≠
        s.has_pending_surfaces_ →
      OnSurfaceMarkedForDestruction d e s surface_id =
        ScheduleBeginFrameDeadline d e
          { s with
            surface_states_ := eraseState s.surface_states_ surface_id
            has_pending_surfaces_ :=
              (OnSurfaceMarkedForDestruction d e s surface_id).has_pending_surfaces_ }) := by
  have hmap := OnSurfaceMarkedForDestruction_surface_states_ d e s surface_id
  have hnone : findState s.surface_states_ surface_id = none →
      OnSurfaceMarkedForDestruction d e s surface_id = s := by
    intro h
    simp only [OnSurfaceMarkedForDestruction, h]
  have hr : ((OnSurfaceMarkedForDestruction d e s surface_id).has_pending_surfaces_ =
          s.has_pending_surfaces_ →
        OnSurfaceMarkedForDestruction d e s surface_id =
          { s with surface_states_ := eraseState s.surface_states_ surface_id }) ∧
      ((OnSurfaceMarkedForDestruction d e s surface_id).has_pending_surfaces_ ≠
          s.has_pending_surfaces_ →
        OnSurfaceMarkedForDestruction d e s surface_id =
          ScheduleBeginFrameDeadline d e
            { s with
              surface_states_ := eraseState s.surface_states_ surface_id
              has_pending_surfaces_ :=
                (OnSurfaceMarkedForDestruction d e s surface_id).has_pending_surfaces_ }) := by
    cases hf : findState s.surface_states_ surface_id with
    | none =>
      rw [hnone hf, eraseState_absent _ _ hf]
      exact ⟨fun _ => rfl, fun h => absurd rfl h⟩
    | some st =>
      exact (rearm_if_changed d e
        ({ s with surface_states_ := eraseState s.surface_states_ surface_id } : Sys)
        (OnSurfaceMarkedForDestruction d e s surface_id)
        (by simp only [OnSurfaceMarkedForDestruction, hf])).2
  refine ⟨hnone, ?_, fun other hne => ?_, fun entry => ?_, fun later current => ?_,
    hr.1, hr.2⟩
  · rw [hmap]
    exact findState_eraseState_self _ _ hk
  · rw [hmap]
    exact findState_eraseState_other _ _ _ hne
  · rw [hmap]
    exact mem_eraseState _ _ hk entry
  · rw [hmap, scanPendingSurfaces_eq_any, List.any_eq_true]
    constructor
    · rintro ⟨entry, hmem, hp⟩
      have := (mem_eraseState _ _ hk entry).mp hmem
      exact ⟨entry, this.1, this.2, hp⟩
    · rintro ⟨entry, hmem, hne, hp⟩
      exact ⟨entry, (mem_eraseState _ _ hk entry).mpr ⟨hmem, hne⟩, hp⟩

/-- Witness of C26: the surface of the sample scheduler is pending in the
interval of tick 5; once it is marked for destruction it has no record, no
surface is pending and the deadline is scheduled again. -/
theorem destruction_removes_record_witness :
    uniqueKeys pendingScheduler.surface_states_ = true ∧
      findState pendingScheduler.surface_states_ sampleSurface =
        some { last_args := sampleTick 5, last_ack := BeginFrameAck.empty sampleDeps } ∧
      pendingScheduler.has_pending_surfaces_ = true ∧
      (OnSurfaceMarkedForDestruction sampleDeps (sampleEnv 82000) pendingScheduler
        sampleSurface).has_pending_surfaces_ = false ∧
      findState (OnSurfaceMarkedForDestruction sampleDeps (sampleEnv 82000) pendingScheduler
        sampleSurface).surface_states_ sampleSurface = none :=
  ⟨by decide, by decide, by decide, by decide,
    (destruction_removes_record sampleDeps (sampleEnv 82000) pendingScheduler sampleSurface
      (by decide)).2.1⟩

theorem SetNewRootSurface_surface_states_ (d : Deps) (e : Env) (s : Sys)
    (root_surface_id : SurfaceId) :
    (s.orFault (SetNewRootSurface d e s root_surface_id)).surface_states_ =
      s.surface_states_ := by
  rcases orFault_SetNewRootSurface d e s root_surface_id with h | ⟨fault, h⟩ <;> rw [h]
  · rw [ProcessSurfaceDamage_surface_states_invalid _ _ _ _ _ _ rfl]
  · rfl

theorem ProcessSurfaceDamage_uniqueKeys (d : Deps) (e : Env) (s : Sys) (surface_id : SurfaceId)
    (ack : BeginFrameAck) (display_damaged : Bool) (h : uniqueKeys s.surface_states_ = true) :
    uniqueKeys (ProcessSurfaceDamage d e s surface_id ack display_damaged).surface_states_ =
      true := by
  rw [ProcessSurfaceDamage_surface_states_]
  cases findState s.surface_states_ surface_id with
  | none => exact h
  | some st =>
    simp only []
    split_ifs
    · exact uniqueKeys_setState _ _ _ h
    · exact h

/-- Every operation keeps one entry for each surface in the surface map. -/
theorem step_uniqueKeys (d : Deps) (s : Sys) (op : Op) (e : Env)
    (h : uniqueKeys s.surface_states_ = true) :
    uniqueKeys (step d s op e).surface_states_ = true := by
  cases op <;> simp only [step]
  case SetClient client => exact h
  case SetVisible visible => simpa using h
  case SetRootFrameMissing missing => simpa using h
  case ForceImmediateSwapIfPossible => simpa using h
  case DisplayResized => simpa using h
  case SetNewRootSurface id =>
    rw [SetNewRootSurface_surface_states_]
    exact h
  case ProcessSurfaceDamage id ack dd => exact ProcessSurfaceDamage_uniqueKeys d e s id ack dd h
  case OutputSurfaceLost => simpa using h
  case OnBeginFrameDerivedImpl args => simpa using h
  case SetNeedsOneBeginFrame => simpa using h
  case OnSurfaceMarkedForDestruction id =>
    rw [OnSurfaceMarkedForDestruction_surface_states_]
    exact uniqueKeys_eraseState _ _ h
  case OnSurfaceDamaged id ack =>
    rw [OnSurfaceDamaged_surface_states_]
    exact ProcessSurfaceDamage_uniqueKeys d e s id ack _ h
  case OnSurfaceDestroyed id => simpa using h
  case OnSurfaceDamageExpected id args =>
    rw [OnSurfaceDamageExpected_surface_states_]
    exact uniqueKeys_setState _ _ _ (uniqueKeys_ensureState d _ _ h)
  case DidSwapBuffers => simpa using h
  case DidReceiveSwapBuffersAck => simpa using h
  case OnSurfaceActivatedEx id fcp reset seen => simpa using h
  case NotifyFirstSurfaceActivation => simpa using h
  case RenderProcessGone => exact h
  case RunBeginFrameDeadlineTask =>
    split_ifs
    · simpa using h
    · exact h
  case RunMissedBeginFrameTask =>
    cases s.missed_begin_frame_task_ with
    | none => exact h
    | some args => simpa using h
  case RunNotifyFirstActivationEventuallyTask =>
    split_ifs
    · simpa using h
    · exact h

/-- In every state reached from construction the surface map has one entry for
each surface. -/
theorem run_uniqueKeys (d : Deps) (ops : List (Op × Env)) :
    ∀ s : Sys, uniqueKeys s.surface_states_ = true →
      uniqueKeys (run d s ops).surface_states_ = true := by
  induction ops with
  | nil => intro s h; exact h
  | cons oe rest ih =>
    intro s h
    exact ih _ (step_uniqueKeys d s oe.1 oe.2 h)

/-! ## Theorems: a tick inside `ProcessSurfaceDamage` -/

@[simp]
theorem StopObservingBeginFrames_missed_none (s : Sys) (h : s.missed_begin_frame_task_ = none) :
    (StopObservingBeginFrames s).missed_begin_frame_task_ = none := by
  simp only [StopObservingBeginFrames]
  split_ifs
  · rfl
  · exact h

theorem DidSwapBuffers_missed (s : Sys) :
    (DidSwapBuffers s).missed_begin_frame_task_ = s.missed_begin_frame_task_ := by
  simp only [DidSwapBuffers]
  split_ifs <;> rfl

theorem clientSwaps_missed (n : Nat) (s : Sys) :
    (clientSwaps n s).missed_begin_frame_task_ = s.missed_begin_frame_task_ := by
  induction n generalizing s with
  | zero => rfl
  | succ k ih => simp [clientSwaps, ih, DidSwapBuffers_missed]

theorem DrawAndSwap_missed (e : Env) (s : Sys) :
    (DrawAndSwap e s).1.missed_begin_frame_task_ = s.missed_begin_frame_task_ := by
  simp only [DrawAndSwap]
  split_ifs <;> simp [clientSwaps_missed, Sys.emit, Sys.dcheck] <;> split_ifs <;> rfl

theorem AttemptDrawAndSwap_missed_none (e : Env) (s : Sys)
    (h : s.missed_begin_frame_task_ = none) :
    (AttemptDrawAndSwap e s).1.missed_begin_frame_task_ = none := by
  simp only [AttemptDrawAndSwap]
  split_ifs
  · rw [DrawAndSwap_missed]
    exact h
  · exact h
  · exact StopObservingBeginFrames_missed_none _ h

theorem DidFinishFrame_missed (s : Sys) (did_draw : Bool) :
    (DidFinishFrame s did_draw).missed_begin_frame_task_ = s.missed_begin_frame_task_ := by
  simp only [DidFinishFrame]
  split_ifs <;> rfl

theorem OnBeginFrameDeadline_missed_none (e : Env) (s : Sys)
    (h : s.missed_begin_frame_task_ = none) :
    (OnBeginFrameDeadline e s).missed_begin_frame_task_ = none := by
  simp only [OnBeginFrameDeadline]
  rw [DidFinishFrame_missed]
  apply AttemptDrawAndSwap_missed_none
  simp only [Sys.dcheck]
  split_ifs <;> exact h

theorem UpdateHasPendingSurfaces_missed (e : Env) (s : Sys) :
    (UpdateHasPendingSurfaces e s).1.missed_begin_frame_task_ = s.missed_begin_frame_task_ := by
  simp only [UpdateHasPendingSurfaces]
  split_ifs <;> rfl

theorem ScheduleBeginFrameDeadline_missed (d : Deps) (e : Env) (s : Sys) :
    (ScheduleBeginFrameDeadline d e s).missed_begin_frame_task_ = s.missed_begin_frame_task_ := by
  simp only [ScheduleBeginFrameDeadline, Sys.dcheck]
  split_ifs <;> rfl

/-- A tick that is processed outside `ProcessSurfaceDamage` leaves no missed
BeginFrame posted. -/
theorem OnBeginFrameDerivedImpl_cancels_missed (d : Deps) (e : Env) (s : Sys)
    (args : BeginFrameArgs) (h : s.inside_surface_damaged_ = false) :
    (OnBeginFrameDerivedImpl d e s args).1.missed_begin_frame_task_ = none := by
  simp only [OnBeginFrameDerivedImpl]
  split_ifs with h1
  · rw [h] at h1
    exact absurd h1 (by decide)
  · rw [ScheduleBeginFrameDeadline_missed, UpdateHasPendingSurfaces_missed]
    exact OnBeginFrameDeadline_missed_none e _ rfl
  · rw [ScheduleBeginFrameDeadline_missed, UpdateHasPendingSurfaces_missed]

/-- The trace of a tick that arrives inside `ProcessSurfaceDamage`: failed
`DCHECK`s, if any, and then the posted task. -/
theorem OnBeginFrameDerivedImpl_reentrant_log (d : Deps) (e : Env) (s : Sys)
    (args : BeginFrameArgs) (h : s.inside_surface_damaged_ = true) :
    ∃ checks, (OnBeginFrameDerivedImpl d e s args).1.log =
        s.log ++ checks ++ [Effect.PostTask (Task.MissedBeginFrame args)] ∧
      ∀ ev ∈ checks, ∃ check, ev = Effect.DCheckFailed check := by
  unfold OnBeginFrameDerivedImpl
  rw [if_pos h]
  simp only [Sys.dcheck, Sys.emit]
  split_ifs
  all_goals first
    | (refine ⟨[], ?_, ?_⟩ <;> simp <;> done)
    | (refine ⟨[Effect.DCheckFailed DCheck.missed_task_cancelled], ?_, ?_⟩ <;> simp <;> done)
    | (refine ⟨[Effect.DCheckFailed DCheck.args_type_missed], ?_, ?_⟩ <;> simp <;> done)
    | (refine ⟨[Effect.DCheckFailed DCheck.args_type_missed,
        Effect.DCheckFailed DCheck.missed_task_cancelled], ?_, ?_⟩ <;> simp)

/-- C27: a tick that arrives while `inside_surface_damaged_` is set is not
processed: `OnBeginFrameDerivedImpl` returns true, of the members only
`missed_begin_frame_task_` changes (the current tick, the interval,
`has_pending_surfaces_` and the deadline task are as before), the tick is stored
there in place of whatever was stored, the client's draw is not called, and the
last call made is the posting of the task, which, when run, delivers the stored
tick.  The member holds one tick at most.  A tick that is processed, outside
`ProcessSurfaceDamage`, also returns true and leaves no tick stored, so that the
posted task does nothing when it is run. -/
theorem reentrant_tick_is_deferred (d : Deps) (e : Env) (s : Sys) (args : BeginFrameArgs) :
    (s.inside_surface_damaged_ = true →
      (OnBeginFrameDerivedImpl d e s args).2 = true ∧
      (OnBeginFrameDerivedImpl d e s args).1.toDisplayScheduler =
        { s.toDisplayScheduler with missed_begin_frame_task_ := some args } ∧
      drawCount (OnBeginFrameDerivedImpl d e s args).1.log = drawCount s.log ∧
      (∃ checks, (OnBeginFrameDerivedImpl d e s args).1.log =
          s.log ++ checks ++ [Effect.PostTask (Task.MissedBeginFrame args)] ∧
        ∀ ev ∈ checks, ∃ check, ev = Effect.DCheckFailed check) ∧
      (∀ later : Env,
        step d (OnBeginFrameDerivedImpl d e s args).1 Op.RunMissedBeginFrameTask later =
          (OnBeginFrameDerivedImpl d later (OnBeginFrameDerivedImpl d e s args).1 args).1)) ∧
    (s.inside_surface_damaged_ = false →
      (OnBeginFrameDerivedImpl d e s args).2 = true ∧
      (OnBeginFrameDerivedImpl d e s args).1.missed_begin_frame_task_ = none ∧
      (∀ later : Env,
        step d (OnBeginFrameDerivedImpl d e s args).1 Op.RunMissedBeginFrameTask later =
          (OnBeginFrameDerivedImpl d e s args).1)) := by
  constructor
  · intro h
    have hstate := OnBeginFrameDerivedImpl_reentrant d e s args h
    have hmissed : (OnBeginFrameDerivedImpl d e s args).1.missed_begin_frame_task_ = some args :=
      congrArg DisplayScheduler.missed_begin_frame_task_ hstate
    obtain ⟨checks, hlog, hchecks⟩ := OnBeginFrameDerivedImpl_reentrant_log d e s args h
    refine ⟨?_, hstate, ?_, ⟨checks, hlog, hchecks⟩, fun later => ?_⟩
    · unfold OnBeginFrameDerivedImpl
      rw [if_pos h]
    · rw [hlog]
      simp only [drawCount_append]
      have hnone : drawCount checks = 0 := by
        clear hlog
        induction checks with
        | nil => rfl
        | cons ev rest ih =>
          obtain ⟨check, hev⟩ := hchecks ev (List.mem_cons_self _ _)
          have hrest := ih (fun x hx => hchecks x (List.mem_cons_of_mem _ hx))
          have hcons : drawCount (ev :: rest) = drawCount [ev] + drawCount rest :=
            drawCount_append [ev] rest
          rw [hcons, hrest, hev]
          rfl
      rw [hnone]
      rfl
    · simp only [step, hmissed]
  · intro h
    have hnone := OnBeginFrameDerivedImpl_cancels_missed d e s args h
    refine ⟨?_, hnone, fun later => ?_⟩
    · unfold OnBeginFrameDerivedImpl
      rw [if_neg (by rw [h]; decide)]
    · simp only [step, hnone]

/-- Witness of C27: during `ProcessSurfaceDamage` of the sample scheduler in the
interval of tick 5, the missed tick 6 is stored and posted, and the interval of
tick 5 stays open. -/
theorem reentrant_tick_is_deferred_witness :
    ({ readyScheduler with inside_surface_damaged_ := true } : Sys).inside_surface_damaged_ =
        true ∧
      (OnBeginFrameDerivedImpl sampleDeps (sampleEnv 90000)
        { readyScheduler with inside_surface_damaged_ := true }
        { sampleTick 6 with type := BeginFrameArgsType.MISSED }).1.current_begin_frame_args_.sequence_number = 5 ∧
      (OnBeginFrameDerivedImpl sampleDeps (sampleEnv 90000)
        { readyScheduler with inside_surface_damaged_ := true }
        { sampleTick 6 with type := BeginFrameArgsType.MISSED }).1.toDisplayScheduler =
        { ({ readyScheduler with inside_surface_damaged_ := true } : Sys).toDisplayScheduler with
          missed_begin_frame_task_ := some { sampleTick 6 with type := BeginFrameArgsType.MISSED } } :=
  ⟨rfl, by decide,
    ((reentrant_tick_is_deferred sampleDeps (sampleEnv 90000)
      { readyScheduler with inside_surface_damaged_ := true }
      { sampleTick 6 with type := BeginFrameArgsType.MISSED }).1 rfl).2.1⟩

/-! ## Theorems: member functions as sequences of core steps -/

theorem steps_refl (d : Deps) (e : Env) (s : Sys) : Steps d e s s :=
  Relation.ReflTransGen.refl

theorem steps_trans (d : Deps) (e : Env) (s s' s'' : Sys) (h1 : Steps d e s s')
    (h2 : Steps d e s' s'') : Steps d e s s'' :=
  Relation.ReflTransGen.trans h1 h2

theorem steps_quiet (d : Deps) (e : Env) (s s' : Sys) (h : quietStep s s') : Steps d e s s' :=
  Relation.ReflTransGen.single (CoreStep.quiet s s' h)

theorem steps_attempt (d : Deps) (e : Env) (s : Sys) :
    Steps d e s (AttemptDrawAndSwap e s).1 :=
  Relation.ReflTransGen.single (CoreStep.attempt s)

theorem steps_schedule (d : Deps) (e : Env) (s : Sys) :
    Steps d e s (ScheduleBeginFrameDeadline d e s) :=
  Relation.ReflTransGen.single (CoreStep.schedule s)

/-- A property that every core step preserves is preserved by every sequence of
core steps. -/
theorem steps_preserve (d : Deps) (e : Env) (P : Sys → Prop)
    (hP : ∀ s s', CoreStep d e s s' → P s → P s') (s s' : Sys) (h : Steps d e s s')
    (hs : P s) : P s' := by
  induction h with
  | refl => exact hs
  | tail _ hstep ih => exact hP _ _ hstep ih

theorem quietStep_refl (s : Sys) : quietStep s s :=
  ⟨rfl, rfl, rfl, rfl, rfl, rfl, id, id, [], by simp, by simp⟩

theorem quietStep_trans (s s' s'' : Sys) (h1 : quietStep s s') (h2 : quietStep s' s'') :
    quietStep s s'' := by
  obtain ⟨a1, a2, a3, a4, a5, a0, a6, a7, added1, hl1, hp1⟩ := h1
  obtain ⟨b1, b2, b3, b4, b5, b0, b6, b7, added2, hl2, hp2⟩ := h2
  refine ⟨b1.trans a1, b2.trans a2, b3.trans a3, b4.trans a4, b5.trans a5, b0.trans a0,
    fun h => b6 (a6 h), fun h => b7 (a7 h), added1 ++ added2, ?_, ?_⟩
  · rw [hl2, hl1, List.append_assoc]
  · intro ev hev
    rcases List.mem_append.mp hev with h | h
    · exact hp1 ev h
    · exact hp2 ev h

/-- A step that changes none of the watched members and adds nothing to the
trace is quiet. -/
theorem quietStep_same (s s' : Sys)
    (h0 : s'.deadline_task_calls = s.deadline_task_calls)
    (h1 : s'.inside_begin_frame_deadline_interval_ = s.inside_begin_frame_deadline_interval_)
    (h2 : s'.begin_frame_deadline_task_ = s.begin_frame_deadline_task_)
    (h3 : s'.begin_frame_deadline_task_time_ = s.begin_frame_deadline_task_time_)
    (h4 : s'.pending_swaps_ = s.pending_swaps_)
    (h5 : s'.max_pending_swaps_ = s.max_pending_swaps_)
    (h6 : s'.needs_draw_ = s.needs_draw_)
    (h7 : s'.output_surface_lost_ = s.output_surface_lost_)
    (hlog : s'.log = s.log) : quietStep s s' :=
  ⟨h1, h2, h3, h4, h5, h0, fun h => h6.trans h, fun h => h7.trans h, [], by simp [hlog],
    by simp⟩

theorem quietStep_emit (s : Sys) (ev : Effect) (h : ev.isPlain = true) :
    quietStep s (s.emit ev) :=
  ⟨rfl, rfl, rfl, rfl, rfl, rfl, id, id, [ev], rfl, by simpa using h⟩

theorem quietStep_dcheck (s : Sys) (cond : Bool) (check : DCheck)
    (h : (Effect.DCheckFailed check).isPlain = true) : quietStep s (s.dcheck cond check) := by
  simp only [Sys.dcheck]
  split_ifs
  · exact quietStep_refl s
  · exact quietStep_emit s _ h

theorem DidFinishFrame_quiet (s : Sys) (did_draw : Bool) :
    quietStep s (DidFinishFrame s did_draw) := by
  simp only [DidFinishFrame]
  split_ifs
  · exact quietStep_trans _ _ _ (quietStep_emit s _ (by rfl)) (quietStep_emit _ _ (by rfl))
  · exact quietStep_emit s _ (by rfl)

@[simp]
theorem UpdateHasPendingSurfaces_deadline_task_calls (e : Env) (s : Sys) :
    ((UpdateHasPendingSurfaces e s).1).deadline_task_calls = s.deadline_task_calls := by
  simp only [UpdateHasPendingSurfaces]
  split_ifs <;> simp [*]

@[simp]
theorem updateSurfaceState_deadline_task_calls
    (d : Deps) (s : Sys) (surface_id : SurfaceId) (ack : BeginFrameAck) :
    ((updateSurfaceState d s surface_id ack).1).deadline_task_calls = s.deadline_task_calls := by
  simp only [updateSurfaceState]
  cases findState s.surface_states_ surface_id <;> simp only [] <;> split_ifs <;> simp

theorem UpdateHasPendingSurfaces_quiet (e : Env) (s : Sys) :
    quietStep s (UpdateHasPendingSurfaces e s).1 :=
  quietStep_same s _ (by simp) (by simp) (by simp) (by simp) (by simp) (by simp) (by simp)
    (by simp) (by simp)

theorem updateSurfaceState_quiet (d : Deps) (s : Sys) (surface_id : SurfaceId)
    (ack : BeginFrameAck) : quietStep s (updateSurfaceState d s surface_id ack).1 :=
  quietStep_same s _ (by simp) (by simp) (by simp) (by simp) (by simp) (by simp) (by simp)
    (by simp) (by simp)


/-- `OnBeginFrameDeadline`, entered inside an interval, is `AttemptDrawAndSwap`
followed by the reports. -/
theorem OnBeginFrameDeadline_steps (d : Deps) (e : Env) (s : Sys)
    (h : s.inside_begin_frame_deadline_interval_ = true) :
    Steps d e s (OnBeginFrameDeadline e s) := by
  have hs : s.dcheck s.inside_begin_frame_deadline_interval_ DCheck.inside_deadline_interval =
      s := by
    simp [Sys.dcheck, h]
  simp only [OnBeginFrameDeadline, hs]
  exact steps_trans d e _ _ _ (steps_attempt d e s) (steps_quiet d e _ _ (DidFinishFrame_quiet _ _))

/-- `OnBeginFrameDeadline`, run as the posted deadline task. -/
theorem OnBeginFrameDeadline_steps_armed (d : Deps) (e : Env) (s : Sys)
    (h : s.begin_frame_deadline_task_ = true) :
    Steps d e s (OnBeginFrameDeadline e s) := by
  simp only [OnBeginFrameDeadline]
  exact steps_trans d e _ _ _
    (Relation.ReflTransGen.single (CoreStep.armed_check s h))
    (steps_trans d e _ _ _ (steps_attempt d e _) (steps_quiet d e _ _ (DidFinishFrame_quiet _ _)))

theorem ForceImmediateSwapIfPossible_steps (d : Deps) (e : Env) (s : Sys) :
    Steps d e s (ForceImmediateSwapIfPossible e s) := by
  simp only [ForceImmediateSwapIfPossible]
  split_ifs
  · exact steps_trans d e _ _ _ (steps_attempt d e s)
      (steps_quiet d e _ _ (DidFinishFrame_quiet _ _))
  · exact steps_attempt d e s

theorem OnBeginFrameDerivedImpl_steps (d : Deps) (e : Env) (s : Sys) (args : BeginFrameArgs) :
    Steps d e s (OnBeginFrameDerivedImpl d e s args).1 := by
  have h1 : Steps d e s ({ s with missed_begin_frame_task_ := none } : Sys) :=
    steps_quiet d e _ _ (quietStep_same _ _ rfl rfl rfl rfl rfl rfl rfl rfl rfl)
  simp only [OnBeginFrameDerivedImpl]
  split_ifs with hisd hin
  · refine steps_quiet d e _ _ ?_
    exact quietStep_trans _ _ _ (quietStep_dcheck s _ DCheck.args_type_missed rfl)
      (quietStep_trans _ _ _ (quietStep_dcheck _ _ DCheck.missed_task_cancelled rfl)
        (quietStep_trans _ _ _
          (by exact quietStep_same _ _ rfl rfl rfl rfl rfl rfl rfl rfl rfl)
          (quietStep_emit _ _ (by rfl))))
  · exact steps_trans d e _ _ _ h1
      (steps_trans d e _ _ _ (OnBeginFrameDeadline_steps d e _ hin)
        (steps_trans d e _ _ _
          (Relation.ReflTransGen.single (CoreStep.open_interval
            (OnBeginFrameDeadline e ({ s with missed_begin_frame_task_ := none } : Sys)) _))
          (steps_trans d e _ _ _ (steps_quiet d e _ _ (UpdateHasPendingSurfaces_quiet e _))
            (steps_schedule d e _))))
  · exact steps_trans d e _ _ _ h1
      (steps_trans d e _ _ _
        (Relation.ReflTransGen.single (CoreStep.open_interval
          ({ s with missed_begin_frame_task_ := none } : Sys) _))
        (steps_trans d e _ _ _ (steps_quiet d e _ _ (UpdateHasPendingSurfaces_quiet e _))
          (steps_schedule d e _)))

theorem StartObservingBeginFrames_steps (d : Deps) (e : Env) (s : Sys) :
    Steps d e s (StartObservingBeginFrames d e s) := by
  simp only [StartObservingBeginFrames]
  split_ifs
  · refine steps_trans d e _ _ _
      (steps_quiet d e s _ (quietStep_emit s Effect.AddObserver (by rfl))) ?_
    cases e.missed_on_add with
    | none =>
      exact steps_quiet d e _ _ (by exact quietStep_same _ _ rfl rfl rfl rfl rfl rfl rfl rfl rfl)
    | some args =>
      exact steps_trans d e _ _ _ (OnBeginFrameDerivedImpl_steps d e _ args)
        (steps_quiet d e _ _ (by exact quietStep_same _ _ rfl rfl rfl rfl rfl rfl rfl rfl rfl))
  · exact steps_refl d e s

theorem MaybeStartObservingBeginFrames_steps (d : Deps) (e : Env) (s : Sys) :
    Steps d e s (MaybeStartObservingBeginFrames d e s) := by
  simp only [MaybeStartObservingBeginFrames]
  split_ifs
  · exact StartObservingBeginFrames_steps d e s
  · exact steps_refl d e s

/-- A quiet update of the state followed by `MaybeStartObservingBeginFrames` and
`ScheduleBeginFrameDeadline`. -/
theorem observe_and_schedule_steps (d : Deps) (e : Env) (s s1 : Sys) (h : quietStep s s1) :
    Steps d e s (ScheduleBeginFrameDeadline d e (MaybeStartObservingBeginFrames d e s1)) :=
  steps_trans d e _ _ _ (steps_quiet d e s s1 h)
    (steps_trans d e _ _ _ (MaybeStartObservingBeginFrames_steps d e s1) (steps_schedule d e _))

theorem SetVisible_steps (d : Deps) (e : Env) (s : Sys) (visible : Bool) :
    Steps d e s (SetVisible d e s visible) := by
  simp only [SetVisible]
  split_ifs
  · exact steps_refl d e s
  · exact steps_quiet d e _ _ (quietStep_trans _ _ _
      (by exact quietStep_same s _ rfl rfl rfl rfl rfl rfl rfl rfl rfl)
      (quietStep_emit _ _ (by rfl)))
  · exact observe_and_schedule_steps d e s _
      (by exact quietStep_same _ _ rfl rfl rfl rfl rfl rfl rfl rfl rfl)

theorem SetRootFrameMissing_steps (d : Deps) (e : Env) (s : Sys) (missing : Bool) :
    Steps d e s (SetRootFrameMissing d e s missing) := by
  simp only [SetRootFrameMissing]
  split_ifs
  · exact steps_refl d e s
  · exact observe_and_schedule_steps d e s _
      (by exact quietStep_same _ _ rfl rfl rfl rfl rfl rfl rfl rfl rfl)

theorem DisplayResized_steps (d : Deps) (e : Env) (s : Sys) :
    Steps d e s (DisplayResized d e s) := by
  simp only [DisplayResized]
  refine steps_trans d e _ _ _ (steps_quiet d e s _ ?_) (steps_schedule d e _)
  exact ⟨rfl, rfl, rfl, rfl, rfl, rfl, fun _ => rfl, id, [], by simp, by simp⟩

theorem OutputSurfaceLost_steps (d : Deps) (e : Env) (s : Sys) :
    Steps d e s (OutputSurfaceLost d e s) := by
  simp only [OutputSurfaceLost]
  refine steps_trans d e _ _ _ (steps_quiet d e s _ ?_) (steps_schedule d e _)
  exact ⟨rfl, rfl, rfl, rfl, rfl, rfl, id, fun _ => rfl, [], by simp, by simp⟩

theorem markDisplayDamaged_steps (d : Deps) (e : Env) (s : Sys) (surface_id : SurfaceId) :
    Steps d e s (markDisplayDamaged d e s surface_id) := by
  simp only [markDisplayDamaged]
  split_ifs
  · refine steps_trans d e _ _ _ (steps_quiet d e s _ ?_)
      (MaybeStartObservingBeginFrames_steps d e _)
    exact ⟨rfl, rfl, rfl, rfl, rfl, rfl, fun _ => rfl, id, [], by simp, by simp⟩
  · refine steps_trans d e _ _ _ (steps_quiet d e s _ ?_)
      (MaybeStartObservingBeginFrames_steps d e _)
    exact ⟨rfl, rfl, rfl, rfl, rfl, rfl, fun _ => rfl, id, [], by simp, by simp⟩

theorem rearmAfterDamage_steps (d : Deps) (e : Env) (s : Sys)
    (valid_ack display_damaged : Bool) :
    Steps d e s (rearmAfterDamage d e s valid_ack display_damaged) := by
  simp only [rearmAfterDamage]
  split_ifs
  · exact steps_trans d e _ _ _ (steps_quiet d e _ _ (UpdateHasPendingSurfaces_quiet e s))
      (steps_schedule d e _)
  · exact steps_quiet d e _ _ (UpdateHasPendingSurfaces_quiet e s)
  · exact steps_schedule d e s
  · exact steps_refl d e s

theorem ProcessSurfaceDamage_steps (d : Deps) (e : Env) (s : Sys) (surface_id : SurfaceId)
    (ack : BeginFrameAck) (display_damaged : Bool) :
    Steps d e s (ProcessSurfaceDamage d e s surface_id ack display_damaged) := by
  simp only [ProcessSurfaceDamage]
  have h0 : Steps d e s ({ s with inside_surface_damaged_ := true } : Sys) :=
    steps_quiet d e _ _ (by exact quietStep_same _ _ rfl rfl rfl rfl rfl rfl rfl rfl rfl)
  have h1 : Steps d e s (if display_damaged = true then
      markDisplayDamaged d e { s with inside_surface_damaged_ := true } surface_id
      else ({ s with inside_surface_damaged_ := true } : Sys)) := by
    split_ifs
    · exact steps_trans d e _ _ _ h0 (markDisplayDamaged_steps d e _ surface_id)
    · exact h0
  exact steps_trans d e _ _ _ h1
    (steps_trans d e _ _ _
      (steps_quiet d e _ _ (updateSurfaceState_quiet d _ surface_id ack))
      (steps_trans d e _ _ _ (rearmAfterDamage_steps d e _ _ _)
        (steps_quiet d e _ _ (by exact quietStep_same _ _ rfl rfl rfl rfl rfl rfl rfl rfl rfl))))

theorem SetNewRootSurface_steps (d : Deps) (e : Env) (s : Sys) (root_surface_id : SurfaceId) :
    Steps d e s (s.orFault (SetNewRootSurface d e s root_surface_id)) := by
  rcases orFault_SetNewRootSurface d e s root_surface_id with h | ⟨fault, h⟩ <;> rw [h]
  · exact steps_trans d e _ _ _
      (steps_quiet d e _ _ (by exact quietStep_same _ _ rfl rfl rfl rfl rfl rfl rfl rfl rfl))
      (ProcessSurfaceDamage_steps d e _ _ _ _)
  · exact steps_quiet d e _ _ (quietStep_emit s _ (by rfl))

/-- `DidReceiveSwapBuffersAck`, once it has taken one from the swap count and
called `SetIsGpuBusy(false)`, is a sequence of core steps: the tick delivered
from inside that call, if any, and `ScheduleBeginFrameDeadline`. -/
theorem DidReceiveSwapBuffersAck_steps (d : Deps) (e : Env) (s : Sys) :
    Steps d e
      (({ s with pending_swaps_ := wrapInt (s.pending_swaps_ - 1) } : Sys).emit
        (Effect.SetIsGpuBusy false))
      (DidReceiveSwapBuffersAck d e s) := by
  simp only [DidReceiveSwapBuffersAck]
  cases e.begin_frame_on_not_busy with
  | none => exact steps_schedule d e _
  | some args =>
    exact steps_trans d e _ _ _ (OnBeginFrameDerivedImpl_steps d e _ args)
      (steps_schedule d e _)

/-- A quiet update of the state followed by `UpdateHasPendingSurfaces` and, if
the flag has changed, `ScheduleBeginFrameDeadline`. -/
theorem update_and_rearm_steps (d : Deps) (e : Env) (s s1 : Sys) (h : quietStep s s1) :
    Steps d e s (if (UpdateHasPendingSurfaces e s1).2 = true then
      ScheduleBeginFrameDeadline d e (UpdateHasPendingSurfaces e s1).1
      else (UpdateHasPendingSurfaces e s1).1) := by
  refine steps_trans d e _ _ _ (steps_quiet d e s s1 h) ?_
  refine steps_trans d e _ _ _ (steps_quiet d e _ _ (UpdateHasPendingSurfaces_quiet e s1)) ?_
  split_ifs
  · exact steps_schedule d e _
  · exact steps_refl d e _

theorem OnSurfaceMarkedForDestruction_steps (d : Deps) (e : Env) (s : Sys)
    (surface_id : SurfaceId) :
    Steps d e s (OnSurfaceMarkedForDestruction d e s surface_id) := by
  simp only [OnSurfaceMarkedForDestruction]
  cases findState s.surface_states_ surface_id with
  | none => exact steps_refl d e s
  | some st =>
    exact update_and_rearm_steps d e s _
      (by exact quietStep_same _ _ rfl rfl rfl rfl rfl rfl rfl rfl rfl)

theorem OnSurfaceDamageExpected_steps (d : Deps) (e : Env) (s : Sys) (surface_id : SurfaceId)
    (args : BeginFrameArgs) : Steps d e s (OnSurfaceDamageExpected d e s surface_id args) := by
  simp only [OnSurfaceDamageExpected]
  exact update_and_rearm_steps d e s _
    (by exact quietStep_same _ _ rfl rfl rfl rfl rfl rfl rfl rfl rfl)

theorem OnSurfaceDamaged_steps (d : Deps) (e : Env) (s : Sys) (surface_id : SurfaceId)
    (ack : BeginFrameAck) : Steps d e s (OnSurfaceDamaged d e s surface_id ack).1 := by
  simp only [OnSurfaceDamaged]
  split_ifs
  · exact steps_trans d e _ _ _ (steps_quiet d e s _ (quietStep_emit s _ (by rfl)))
      (ProcessSurfaceDamage_steps d e _ _ _ _)
  · exact ProcessSurfaceDamage_steps d e _ _ _ _

theorem OnSurfaceDestroyed_steps (d : Deps) (e : Env) (s : Sys) (surface_id : SurfaceId) :
    Steps d e s (OnSurfaceDestroyed s surface_id) := by
  simp only [OnSurfaceDestroyed]
  split_ifs
  · exact steps_quiet d e s _ (quietStep_emit s _ (by rfl))
  · exact steps_refl d e s

theorem NotifyFirstSurfaceActivation_steps (d : Deps) (e : Env) (s : Sys) :
    Steps d e s (NotifyFirstSurfaceActivation d e s) := by
  simp only [NotifyFirstSurfaceActivation]
  split_ifs
  · exact observe_and_schedule_steps d e s _
      (by exact quietStep_same _ _ rfl rfl rfl rfl rfl rfl rfl rfl rfl)
  · exact steps_quiet d e _ _ (by exact quietStep_same _ _ rfl rfl rfl rfl rfl rfl rfl rfl rfl)

theorem finishSurfaceActivatedEx_steps (d : Deps) (e : Env) (s : Sys) (surface_id : SurfaceId)
    (needs : Bool) (timeout_to_post : Nat) :
    Steps d e s (finishSurfaceActivatedEx d e s surface_id needs timeout_to_post) := by
  simp only [finishSurfaceActivatedEx]
  split_ifs
  · exact steps_refl d e s
  · exact steps_quiet d e _ _ (quietStep_trans _ _ _
      (by exact quietStep_same s _ rfl rfl rfl rfl rfl rfl rfl rfl rfl)
      (quietStep_emit _ _ (by rfl)))
  · exact steps_trans d e _ _ _ (steps_quiet d e s
      ({ s with pending_first_surface_activation_ := true } : Sys)
      (by exact quietStep_same _ _ rfl rfl rfl rfl rfl rfl rfl rfl rfl))
      (NotifyFirstSurfaceActivation_steps d e _)
  · exact steps_refl d e s

/-- A quiet update of the state followed by the last block of
`OnSurfaceActivatedEx`. -/
theorem quiet_and_finish_steps (d : Deps) (e : Env) (s s1 : Sys) (h : quietStep s s1)
    (surface_id : SurfaceId) (needs : Bool) (timeout_to_post : Nat) :
    Steps d e s (finishSurfaceActivatedEx d e s1 surface_id needs timeout_to_post) :=
  steps_trans d e _ _ _ (steps_quiet d e s s1 h) (finishSurfaceActivatedEx_steps d e s1 _ _ _)

theorem resetAndPaintBlocks_steps (d : Deps) (e : Env) (s : Sys) (surface_id : SurfaceId)
    (fcp reset relaunch needs : Bool) (timeout_to_post : Nat) :
    Steps d e s
      (resetAndPaintBlocks d e s surface_id fcp reset relaunch needs timeout_to_post) := by
  simp only [resetAndPaintBlocks]
  split_ifs
  all_goals first
    | exact steps_refl d e s
    | exact steps_quiet d e _ _ (by exact quietStep_same _ _ rfl rfl rfl rfl rfl rfl rfl rfl rfl)
    | exact quiet_and_finish_steps d e s _
        (by exact quietStep_same _ _ rfl rfl rfl rfl rfl rfl rfl rfl rfl) _ _ _

/-- A quiet update of the state followed by the blocks of `OnSurfaceActivatedEx`. -/
theorem quiet_and_blocks_steps (d : Deps) (e : Env) (s s1 : Sys) (h : quietStep s s1)
    (surface_id : SurfaceId) (fcp reset relaunch needs : Bool) (timeout_to_post : Nat) :
    Steps d e s
      (resetAndPaintBlocks d e s1 surface_id fcp reset relaunch needs timeout_to_post) :=
  steps_trans d e _ _ _ (steps_quiet d e s s1 h)
    (resetAndPaintBlocks_steps d e s1 _ _ _ _ _ _)

theorem OnSurfaceActivatedEx_steps (d : Deps) (e : Env) (s : Sys) (surface_id : SurfaceId)
    (fcp reset seen : Bool) :
    Steps d e s (OnSurfaceActivatedEx d e s surface_id fcp reset seen) := by
  simp only [OnSurfaceActivatedEx]
  split_ifs
  all_goals first
    | exact steps_refl d e s
    | exact steps_quiet d e _ _ (by exact quietStep_same _ _ rfl rfl rfl rfl rfl rfl rfl rfl rfl)
    | exact resetAndPaintBlocks_steps d e s _ _ _ _ _ _
    | exact quiet_and_blocks_steps d e s _
        (by exact quietStep_same _ _ rfl rfl rfl rfl rfl rfl rfl rfl rfl) _ _ _ _ _ _

/-- Every operation other than `DidSwapBuffers` and `DidReceiveSwapBuffersAck` is
a sequence of core steps. -/
theorem step_steps (d : Deps) (s : Sys) (op : Op) (e : Env)
    (h1 : op ≠ Op.DidSwapBuffers) (h2 : op ≠ Op.DidReceiveSwapBuffersAck) :
    Steps d e s (step d s op e) := by
  cases op <;> simp only [step]
  case SetClient client =>
    exact steps_quiet d e _ _ (by exact quietStep_same _ _ rfl rfl rfl rfl rfl rfl rfl rfl rfl)
  case SetVisible visible => exact SetVisible_steps d e s visible
  case SetRootFrameMissing missing => exact SetRootFrameMissing_steps d e s missing
  case ForceImmediateSwapIfPossible => exact ForceImmediateSwapIfPossible_steps d e s
  case DisplayResized => exact DisplayResized_steps d e s
  case SetNewRootSurface id => exact SetNewRootSurface_steps d e s id
  case ProcessSurfaceDamage id ack dd => exact ProcessSurfaceDamage_steps d e s id ack dd
  case OutputSurfaceLost => exact OutputSurfaceLost_steps d e s
  case OnBeginFrameDerivedImpl args => exact OnBeginFrameDerivedImpl_steps d e s args
  case SetNeedsOneBeginFrame => exact StartObservingBeginFrames_steps d e s
  case OnSurfaceMarkedForDestruction id => exact OnSurfaceMarkedForDestruction_steps d e s id
  case OnSurfaceDamaged id ack => exact OnSurfaceDamaged_steps d e s id ack
  case OnSurfaceDestroyed id => exact OnSurfaceDestroyed_steps d e s id
  case OnSurfaceDamageExpected id args => exact OnSurfaceDamageExpected_steps d e s id args
  case DidSwapBuffers => exact absurd rfl h1
  case DidReceiveSwapBuffersAck => exact absurd rfl h2
  case OnSurfaceActivatedEx id fcp reset seen =>
    exact OnSurfaceActivatedEx_steps d e s id fcp reset seen
  case NotifyFirstSurfaceActivation => exact NotifyFirstSurfaceActivation_steps d e s
  case RenderProcessGone =>
    exact steps_quiet d e _ _ (by exact quietStep_same _ _ rfl rfl rfl rfl rfl rfl rfl rfl rfl)
  case RunBeginFrameDeadlineTask =>
    split_ifs with h
    · exact OnBeginFrameDeadline_steps_armed d e s h
    · exact steps_refl d e s
  case RunMissedBeginFrameTask =>
    cases s.missed_begin_frame_task_ with
    | none => exact steps_refl d e s
    | some args => exact OnBeginFrameDerivedImpl_steps d e s args
  case RunNotifyFirstActivationEventuallyTask =>
    split_ifs
    · exact NotifyFirstSurfaceActivation_steps d e s
    · exact steps_refl d e s

/-! ## Theorems: the deadline task is posted only inside an interval -/

@[simp]
theorem timerChecksOk_append (log added : List Effect) :
    timerChecksOk (log ++ added) = (timerChecksOk log && timerChecksOk added) := by
  simp [timerChecksOk]

theorem timerChecksOk_plain (added : List Effect) (h : ∀ ev ∈ added, ev.isPlain = true) :
    timerChecksOk added = true := by
  simp only [timerChecksOk, List.all_eq_true]
  intro ev hev
  have hp := h ev hev
  cases ev with
  | DCheckFailed check => cases check <;> simp_all [Effect.isPlain]
  | _ => simp

theorem timerChecksOk_single (ev : Effect)
    (h1 : ev ≠ Effect.DCheckFailed DCheck.deadline_task_cancelled)
    (h2 : ev ≠ Effect.DCheckFailed DCheck.inside_deadline_interval) :
    timerChecksOk [ev] = true := by
  simp [timerChecksOk, h1, h2]

@[simp]
theorem emit_timerChecksOk (s : Sys) (ev : Effect) :
    timerChecksOk (s.emit ev).log = (timerChecksOk s.log && timerChecksOk [ev]) := by
  simp [Sys.emit]

@[simp]
theorem StopObservingBeginFrames_timerChecksOk (s : Sys) :
    timerChecksOk (StopObservingBeginFrames s).log = timerChecksOk s.log := by
  simp only [StopObservingBeginFrames]
  split_ifs
  · simp [Sys.emit, timerChecksOk]
  · rfl

@[simp]
theorem DidSwapBuffers_timerChecksOk (s : Sys) :
    timerChecksOk (DidSwapBuffers s).log = timerChecksOk s.log := by
  simp only [DidSwapBuffers]
  split_ifs
  · simp [Sys.emit, timerChecksOk]
  · rfl

@[simp]
theorem clientSwaps_timerChecksOk (n : Nat) (s : Sys) :
    timerChecksOk (clientSwaps n s).log = timerChecksOk s.log := by
  induction n generalizing s with
  | zero => rfl
  | succ k ih => simp [clientSwaps, ih]

theorem DrawAndSwap_timerChecksOk (e : Env) (s : Sys) :
    timerChecksOk (DrawAndSwap e s).1.log = timerChecksOk s.log := by
  have h0 : timerChecksOk ((s.dcheck (decide (s.pending_swaps_ < s.max_pending_swaps_))
      DCheck.pending_swaps_lt_max).dcheck (!s.output_surface_lost_)
      DCheck.output_surface_not_lost).log = timerChecksOk s.log := by
    simp only [Sys.dcheck]
    split_ifs <;> simp [Sys.emit, timerChecksOk]
  simp only [DrawAndSwap]
  split_ifs
  · simp only [clientSwaps_timerChecksOk, emit_timerChecksOk, h0]
    simp [timerChecksOk]
  · have : timerChecksOk
        (({ clientSwaps e.swaps_in_draw
          (((s.dcheck (decide (s.pending_swaps_ < s.max_pending_swaps_))
            DCheck.pending_swaps_lt_max).dcheck (!s.output_surface_lost_)
            DCheck.output_surface_not_lost).emit
            (Effect.ClientDrawAndSwap
              ((s.dcheck (decide (s.pending_swaps_ < s.max_pending_swaps_))
                DCheck.pending_swaps_lt_max).dcheck (!s.output_surface_lost_)
                DCheck.output_surface_not_lost).toDisplayScheduler)) with
          needs_draw_ := false } : Sys).log) = timerChecksOk s.log := by
      show timerChecksOk (clientSwaps e.swaps_in_draw _).log = _
      simp only [clientSwaps_timerChecksOk, emit_timerChecksOk, h0]
      simp [timerChecksOk]
    exact this
  · exact h0

theorem AttemptDrawAndSwap_timerChecksOk (e : Env) (s : Sys) :
    timerChecksOk (AttemptDrawAndSwap e s).1.log = timerChecksOk s.log := by
  simp only [AttemptDrawAndSwap]
  split_ifs
  · exact DrawAndSwap_timerChecksOk e _
  · rfl
  · exact StopObservingBeginFrames_timerChecksOk _

theorem armedOk_quiet (d : Deps) (s s' : Sys) (h : quietStep s s') (hs : armedOk d s) :
    armedOk d s' := by
  obtain ⟨h1, h2, h3, _, _, _, _, _, added, hlog, hplain⟩ := h
  refine ⟨?_, ?_⟩
  · rw [h1, h2, h3]
    exact hs.1
  · rw [hlog, timerChecksOk_append, hs.2, timerChecksOk_plain added hplain]
    rfl

theorem armedOk_attempt (d : Deps) (e : Env) (s : Sys) (hs : armedOk d s) :
    armedOk d (AttemptDrawAndSwap e s).1 := by
  refine ⟨fun h => ?_, ?_⟩
  · simp at h
  · rw [AttemptDrawAndSwap_timerChecksOk]
    exact hs.2

theorem armedOk_schedule (d : Deps) (e : Env) (s : Sys) (hs : armedOk d s) :
    armedOk d (ScheduleBeginFrameDeadline d e s) := by
  refine ⟨?_, ?_⟩
  · simp only [ScheduleBeginFrameDeadline]
    split_ifs with hin hearly hnever
    · intro ht
      simp only [dcheck_toDisplayScheduler] at ht ⊢
      exact hs.1 ht
    · exact hs.1
    · intro ht
      exact absurd ht (by simp)
    · intro _
      refine ⟨by simpa using hin, ?_⟩
      simpa using hnever
  · rw [ScheduleBeginFrameDeadline_log, timerChecksOk_append, hs.2]
    simp only [scheduleCalls, Bool.true_and]
    split_ifs with hin ht
    · have := (hs.1 ht).1
      rw [hin] at this
      exact absurd this (by decide)
    all_goals simp [timerChecksOk]

theorem armedOk_core (d : Deps) (e : Env) (s s' : Sys) (h : CoreStep d e s s')
    (hs : armedOk d s) : armedOk d s' := by
  cases h with
  | quiet _ hq => exact armedOk_quiet d s s' hq hs
  | attempt => exact armedOk_attempt d e s hs
  | schedule => exact armedOk_schedule d e s hs
  | open_interval args =>
    exact ⟨fun ht => ⟨rfl, (hs.1 ht).2⟩, hs.2⟩
  | armed_check ht =>
    have hin := (hs.1 ht).1
    have : s.dcheck s.inside_begin_frame_deadline_interval_ DCheck.inside_deadline_interval =
        s := by
      simp [Sys.dcheck, hin]
    rw [this]
    exact hs

/-- Every operation keeps the deadline task in order. -/
theorem step_armedOk (d : Deps) (s : Sys) (op : Op) (e : Env) (hs : armedOk d s) :
    armedOk d (step d s op e) := by
  by_cases h1 : op = Op.DidSwapBuffers
  · subst h1
    refine ⟨?_, ?_⟩
    · simp only [step]
      rw [DidSwapBuffers_begin_frame_deadline_task_,
        DidSwapBuffers_inside_begin_frame_deadline_interval_,
        DidSwapBuffers_begin_frame_deadline_task_time_]
      exact hs.1
    · simp only [step, DidSwapBuffers_timerChecksOk]
      exact hs.2
  · by_cases h2 : op = Op.DidReceiveSwapBuffersAck
    · subst h2
      simp only [step]
      refine steps_preserve d e (armedOk d) (armedOk_core d e) _ _
        (DidReceiveSwapBuffersAck_steps d e s) ⟨hs.1, ?_⟩
      rw [emit_timerChecksOk, hs.2]
      rfl
    · exact steps_preserve d e (armedOk d) (armedOk_core d e) _ _ (step_steps d s op e h1 h2) hs

/-- In every state reached from a state with the deadline task in order, it is
in order. -/
theorem run_armedOk (d : Deps) (ops : List (Op × Env)) :
    ∀ s : Sys, armedOk d s → armedOk d (run d s ops) := by
  induction ops with
  | nil => intro s h; exact h
  | cons oe rest ih =>
    intro s h
    exact ih _ (step_armedOk d s oe.1 oe.2 h)

theorem construct_armedOk (d : Deps) (max_pending_swaps : Int) (use_viz_fmp_with_timeout : Bool)
    (viz_fmp_timeout : Nat) (wait_for_all_surfaces_before_draw : Bool) :
    armedOk d (construct d max_pending_swaps use_viz_fmp_with_timeout viz_fmp_timeout
      wait_for_all_surfaces_before_draw) :=
  ⟨fun h => absurd h (by simp [construct]), rfl⟩

theorem timerChecksOk_not_mem (log : List Effect) (h : timerChecksOk log = true) :
    Effect.DCheckFailed DCheck.deadline_task_cancelled ∉ log ∧
      Effect.DCheckFailed DCheck.inside_deadline_interval ∉ log := by
  simp only [timerChecksOk, List.all_eq_true, Bool.and_eq_true, bne_iff_ne, ne_eq] at h
  exact ⟨fun hm => (h _ hm).1 rfl, fun hm => (h _ hm).2 rfl⟩

/-- C35: in every state reached from construction by any operations, if the
deadline task is posted then a deadline interval is open; and the trace holds no
failure of the `DCHECK` of `ScheduleBeginFrameDeadline`, that outside an interval
the deadline task is cancelled, nor of the `DCHECK` of `OnBeginFrameDeadline`,
that the interval is open. -/
theorem armed_only_inside_interval (d : Deps) (max_pending_swaps : Int)
    (use_viz_fmp_with_timeout : Bool) (viz_fmp_timeout : Nat)
    (wait_for_all_surfaces_before_draw : Bool) (ops : List (Op × Env)) :
    ((run d (construct d max_pending_swaps use_viz_fmp_with_timeout viz_fmp_timeout
        wait_for_all_surfaces_before_draw) ops).begin_frame_deadline_task_ = true →
      (run d (construct d max_pending_swaps use_viz_fmp_with_timeout viz_fmp_timeout
        wait_for_all_surfaces_before_draw) ops).inside_begin_frame_deadline_interval_ = true) ∧
    Effect.DCheckFailed DCheck.deadline_task_cancelled ∉
      (run d (construct d max_pending_swaps use_viz_fmp_with_timeout viz_fmp_timeout
        wait_for_all_surfaces_before_draw) ops).log ∧
    Effect.DCheckFailed DCheck.inside_deadline_interval ∉
      (run d (construct d max_pending_swaps use_viz_fmp_with_timeout viz_fmp_timeout
        wait_for_all_surfaces_before_draw) ops).log := by
  have h := run_armedOk d ops _ (construct_armedOk d max_pending_swaps use_viz_fmp_with_timeout
    viz_fmp_timeout wait_for_all_surfaces_before_draw)
  exact ⟨fun ht => (h.1 ht).1, timerChecksOk_not_mem _ h.2⟩

/-- Witness of C35: the sample scheduler that is ready to draw in the interval
of tick 5 has its deadline task posted, and the interval is open. -/
theorem armed_only_inside_interval_witness :
    (run sampleDeps (construct sampleDeps 1 false 0 false)
        (drawAndAckOps.take 5)).begin_frame_deadline_task_ = true ∧
      (run sampleDeps (construct sampleDeps 1 false 0 false)
        (drawAndAckOps.take 5)).inside_begin_frame_deadline_interval_ = true :=
  ⟨by decide,
    (armed_only_inside_interval sampleDeps 1 false 0 false (drawAndAckOps.take 5)).1 (by decide)⟩

/-! ## Theorems: scheduling the deadline again -/

/-- The desired deadline time reads no member that `ScheduleBeginFrameDeadline`
writes. -/
theorem ScheduleBeginFrameDeadline_desired_time (d : Deps) (e : Env) (s : Sys) :
    DesiredBeginFrameDeadlineTime d (ScheduleBeginFrameDeadline d e s).toDisplayScheduler =
      DesiredBeginFrameDeadlineTime d s.toDisplayScheduler := by
  simp only [DesiredBeginFrameDeadlineTime, AdjustedBeginFrameDeadlineMode,
    ScheduleBeginFrameDeadline_desired_mode,
    ScheduleBeginFrameDeadline_wait_for_all_surfaces_before_draw_,
    ScheduleBeginFrameDeadline_current_begin_frame_args_]

/-- Outside an interval `ScheduleBeginFrameDeadline` changes no member. -/
theorem ScheduleBeginFrameDeadline_outside (d : Deps) (e : Env) (s : Sys)
    (h : s.inside_begin_frame_deadline_interval_ = false) :
    (ScheduleBeginFrameDeadline d e s).toDisplayScheduler = s.toDisplayScheduler := by
  simp only [ScheduleBeginFrameDeadline, h]
  simp

/-- With the deadline task posted for the desired time, inside an interval
`ScheduleBeginFrameDeadline` returns the state it was given. -/
theorem ScheduleBeginFrameDeadline_early (d : Deps) (e : Env) (s : Sys)
    (hin : s.inside_begin_frame_deadline_interval_ = true)
    (ht : s.begin_frame_deadline_task_ = true)
    (hd : DesiredBeginFrameDeadlineTime d s.toDisplayScheduler =
      s.begin_frame_deadline_task_time_) :
    ScheduleBeginFrameDeadline d e s = s := by
  unfold ScheduleBeginFrameDeadline
  rw [if_neg (by simp [hin]), if_pos (by simp [ht, hd])]

/-- Whether the deadline task is posted after `ScheduleBeginFrameDeadline` inside
an interval: if the desired time is not the maximum, or if the task was posted
for the desired time already. -/
theorem ScheduleBeginFrameDeadline_task_eq (d : Deps) (e : Env) (s : Sys)
    (hin : s.inside_begin_frame_deadline_interval_ = true) :
    (ScheduleBeginFrameDeadline d e s).begin_frame_deadline_task_ =
      (decide (DesiredBeginFrameDeadlineTime d s.toDisplayScheduler ≠ d.TimeTicksMax) ||
        (s.begin_frame_deadline_task_ &&
          decide (DesiredBeginFrameDeadlineTime d s.toDisplayScheduler =
            s.begin_frame_deadline_task_time_))) := by
  simp only [ScheduleBeginFrameDeadline, hin]
  cases ht : s.begin_frame_deadline_task_ <;>
    simp [Sys.emit] <;>
    split_ifs <;> simp_all

/-- C31: with the deadline task posted for the desired deadline time,
`ScheduleBeginFrameDeadline` changes no member and posts nothing (inside an
interval it returns the state it was given); hence a second call right after a
first leaves the deadline task posted or not, and its time, as the first call
left them, and posts nothing. -/
theorem reschedule_same_time_is_noop (d : Deps) (e later : Env) (s : Sys) :
    (s.begin_frame_deadline_task_ = true →
      DesiredBeginFrameDeadlineTime d s.toDisplayScheduler = s.begin_frame_deadline_task_time_ →
      (ScheduleBeginFrameDeadline d e s).toDisplayScheduler = s.toDisplayScheduler ∧
      (∀ task delta,
        Effect.PostDelayedTask task delta ∉ newEvents s (ScheduleBeginFrameDeadline d e s)) ∧
      (s.inside_begin_frame_deadline_interval_ = true → ScheduleBeginFrameDeadline d e s = s)) ∧
    (ScheduleBeginFrameDeadline d later
        (ScheduleBeginFrameDeadline d e s)).begin_frame_deadline_task_ =
      (ScheduleBeginFrameDeadline d e s).begin_frame_deadline_task_ ∧
    (ScheduleBeginFrameDeadline d later
        (ScheduleBeginFrameDeadline d e s)).begin_frame_deadline_task_time_ =
      (ScheduleBeginFrameDeadline d e s).begin_frame_deadline_task_time_ ∧
    (∀ task delta,
      Effect.PostDelayedTask task delta ∉
        newEvents (ScheduleBeginFrameDeadline d e s)
          (ScheduleBeginFrameDeadline d later (ScheduleBeginFrameDeadline d e s))) := by
  have hnew : ∀ (env : Env) (t : Sys),
      newEvents t (ScheduleBeginFrameDeadline d env t) = scheduleCalls d env t := fun env t =>
    newEvents_of_append t _ _ (ScheduleBeginFrameDeadline_log d env t)
  refine ⟨fun ht hd => ?_, ?_, ?_, ?_⟩
  · cases hin : s.inside_begin_frame_deadline_interval_ with
    | false =>
      refine ⟨ScheduleBeginFrameDeadline_outside d e s hin, fun task delta => ?_,
        fun h => absurd h (by simp)⟩
      rw [hnew]
      simp [scheduleCalls, hin, ht]
    | true =>
      have hs := ScheduleBeginFrameDeadline_early d e s hin ht hd
      refine ⟨by rw [hs], fun task delta => ?_, fun _ => hs⟩
      rw [hs]
      simp [newEvents]
  · cases hin : s.inside_begin_frame_deadline_interval_ with
    | false =>
      have h1 := ScheduleBeginFrameDeadline_outside d e s hin
      have hin1 : (ScheduleBeginFrameDeadline d e s).inside_begin_frame_deadline_interval_ =
          false := by
        simp [hin]
      exact congrArg DisplayScheduler.begin_frame_deadline_task_
        (ScheduleBeginFrameDeadline_outside d later _ hin1)
    | true =>
      have hin1 : (ScheduleBeginFrameDeadline d e s).inside_begin_frame_deadline_interval_ =
          true := by
        simp [hin]
      rw [ScheduleBeginFrameDeadline_task_eq d later _ hin1,
        ScheduleBeginFrameDeadline_desired_time,
        ScheduleBeginFrameDeadline_task_time d e s hin,
        ScheduleBeginFrameDeadline_task_eq d e s hin]
      simp
  · cases hin : s.inside_begin_frame_deadline_interval_ with
    | false =>
      have hin1 : (ScheduleBeginFrameDeadline d e s).inside_begin_frame_deadline_interval_ =
          false := by
        simp [hin]
      exact congrArg DisplayScheduler.begin_frame_deadline_task_time_
        (ScheduleBeginFrameDeadline_outside d later _ hin1)
    | true =>
      have hin1 : (ScheduleBeginFrameDeadline d e s).inside_begin_frame_deadline_interval_ =
          true := by
        simp [hin]
      rw [ScheduleBeginFrameDeadline_task_time d later _ hin1,
        ScheduleBeginFrameDeadline_desired_time,
        ScheduleBeginFrameDeadline_task_time d e s hin]
  · intro task delta
    rw [hnew]
    cases hin : s.inside_begin_frame_deadline_interval_ with
    | false =>
      simp only [scheduleCalls, ScheduleBeginFrameDeadline_inside_begin_frame_deadline_interval_,
        hin, if_true]
      split_ifs <;> simp
    | true =>
      have htime := ScheduleBeginFrameDeadline_task_time d e s hin
      have htask := ScheduleBeginFrameDeadline_task_eq d e s hin
      simp only [scheduleCalls, ScheduleBeginFrameDeadline_inside_begin_frame_deadline_interval_,
        hin, ScheduleBeginFrameDeadline_desired_time, htime, htask]
      split_ifs <;> simp_all

/-- Witness of C31: the sample scheduler that is ready to draw has its deadline
task posted for the desired time, inside the interval of tick 5; scheduling
again returns the same state. -/
theorem reschedule_same_time_is_noop_witness :
    readyScheduler.begin_frame_deadline_task_ = true ∧
      readyScheduler.inside_begin_frame_deadline_interval_ = true ∧
      ScheduleBeginFrameDeadline sampleDeps (sampleEnv 81000) readyScheduler = readyScheduler :=
  ⟨by decide, by decide,
    ((reschedule_same_time_is_noop sampleDeps (sampleEnv 81000) (sampleEnv 82000)
      readyScheduler).1 (by decide) (by decide)).2.2 (by decide)⟩

/-- C32: inside an interval, with the adjusted mode None,
`ScheduleBeginFrameDeadline` leaves no deadline task posted and posts none,
whatever task was posted before for a time other than the maximum; in every
state reached from construction a posted deadline task is for a time other than
the maximum, so that there `ScheduleBeginFrameDeadline` leaves no deadline task
posted and posts none whenever the interval is open and the adjusted mode is
None. -/
theorem never_deadline_cancels_timer (d : Deps) (e : Env) :
    (∀ s : Sys,
      (s.begin_frame_deadline_task_ = true → s.begin_frame_deadline_task_time_ ≠ d.TimeTicksMax) →
      s.inside_begin_frame_deadline_interval_ = true →
      AdjustedBeginFrameDeadlineMode s.toDisplayScheduler = BeginFrameDeadlineMode.kNone →
      (ScheduleBeginFrameDeadline d e s).begin_frame_deadline_task_ = false ∧
      (ScheduleBeginFrameDeadline d e s).begin_frame_deadline_task_time_ = d.TimeTicksMax ∧
      ∀ task delta,
        Effect.PostDelayedTask task delta ∉ newEvents s (ScheduleBeginFrameDeadline d e s)) ∧
    (∀ (max_pending_swaps : Int) (use_viz_fmp_with_timeout : Bool) (viz_fmp_timeout : Nat)
      (wait_for_all_surfaces_before_draw : Bool) (ops : List (Op × Env)),
      (run d (construct d max_pending_swaps use_viz_fmp_with_timeout viz_fmp_timeout
        wait_for_all_surfaces_before_draw) ops).inside_begin_frame_deadline_interval_ = true →
      AdjustedBeginFrameDeadlineMode
        (run d (construct d max_pending_swaps use_viz_fmp_with_timeout viz_fmp_timeout
          wait_for_all_surfaces_before_draw) ops).toDisplayScheduler =
        BeginFrameDeadlineMode.kNone →
      (ScheduleBeginFrameDeadline d e
        (run d (construct d max_pending_swaps use_viz_fmp_with_timeout viz_fmp_timeout
          wait_for_all_surfaces_before_draw) ops)).begin_frame_deadline_task_ = false ∧
      ∀ task delta,
        Effect.PostDelayedTask task delta ∉
          newEvents
            (run d (construct d max_pending_swaps use_viz_fmp_with_timeout viz_fmp_timeout
              wait_for_all_surfaces_before_draw) ops)
            (ScheduleBeginFrameDeadline d e
              (run d (construct d max_pending_swaps use_viz_fmp_with_timeout viz_fmp_timeout
                wait_for_all_surfaces_before_draw) ops))) := by
  have key : ∀ s : Sys,
      (s.begin_frame_deadline_task_ = true →
        s.begin_frame_deadline_task_time_ ≠ d.TimeTicksMax) →
      s.inside_begin_frame_deadline_interval_ = true →
      AdjustedBeginFrameDeadlineMode s.toDisplayScheduler = BeginFrameDeadlineMode.kNone →
      (ScheduleBeginFrameDeadline d e s).begin_frame_deadline_task_ = false ∧
      (ScheduleBeginFrameDeadline d e s).begin_frame_deadline_task_time_ = d.TimeTicksMax ∧
      ∀ task delta,
        Effect.PostDelayedTask task delta ∉ newEvents s (ScheduleBeginFrameDeadline d e s) := by
    intro s hfinite hin hnone
    have hd : DesiredBeginFrameDeadlineTime d s.toDisplayScheduler = d.TimeTicksMax := by
      simp [DesiredBeginFrameDeadlineTime, hnone]
    have hnot : ¬ (s.begin_frame_deadline_task_ = true ∧
        d.TimeTicksMax = s.begin_frame_deadline_task_time_) :=
      fun hc => hfinite hc.1 hc.2.symm
    refine ⟨?_, ?_, fun task delta => ?_⟩
    · rw [ScheduleBeginFrameDeadline_task_eq d e s hin, hd]
      simp
      intro ht hc
      exact hnot ⟨ht, hc⟩
    · rw [ScheduleBeginFrameDeadline_task_time d e s hin, hd]
    · rw [newEvents_of_append s _ _ (ScheduleBeginFrameDeadline_log d e s)]
      simp only [scheduleCalls, hin, hd]
      split_ifs <;> simp
  refine ⟨key, ?_⟩
  intro max_pending_swaps use_viz_fmp_with_timeout viz_fmp_timeout
    wait_for_all_surfaces_before_draw ops hin hnone
  have hk := key _ (fun ht => ((run_armedOk d ops _ (construct_armedOk d max_pending_swaps
    use_viz_fmp_with_timeout viz_fmp_timeout wait_for_all_surfaces_before_draw)).1 ht).2)
    hin hnone
  exact ⟨hk.1, hk.2.2⟩

/-- Witness of C32: the sample scheduler that waits for all surfaces has its
deadline task posted for an Immediate deadline in the interval of tick 5; with a
surface pending the adjusted mode is None and scheduling cancels the task. -/
theorem never_deadline_cancels_timer_witness :
    waitingArmedScheduler.begin_frame_deadline_task_ = true ∧
      AdjustedBeginFrameDeadlineMode waitingArmedScheduler.toDisplayScheduler =
        BeginFrameDeadlineMode.kNone ∧
      (ScheduleBeginFrameDeadline sampleDeps (sampleEnv 81000)
        waitingArmedScheduler).begin_frame_deadline_task_ = false :=
  ⟨by decide, by decide,
    ((never_deadline_cancels_timer sampleDeps (sampleEnv 81000)).1 waitingArmedScheduler
      (by decide) (by decide) (by decide)).1⟩

/-! ## Theorems: one deadline task at a time -/

@[simp]
theorem deadlinePosts_append (log added : List Effect) :
    deadlinePosts (log ++ added) = deadlinePosts log ++ deadlinePosts added := by
  simp [deadlinePosts]

theorem isDeadlinePost_of_isPlain (ev : Effect) (h : ev.isPlain = true) :
    ev.isDeadlinePost = false := by
  cases ev with
  | PostDelayedTask task delta => cases task <;> simp_all [Effect.isPlain, Effect.isDeadlinePost]
  | _ => rfl

theorem deadlinePosts_plain (added : List Effect) (h : ∀ ev ∈ added, ev.isPlain = true) :
    deadlinePosts added = [] := by
  simp only [deadlinePosts, List.filter_eq_nil_iff]
  intro ev hev
  simp [isDeadlinePost_of_isPlain ev (h ev hev)]

@[simp]
theorem emit_deadlinePosts (s : Sys) (ev : Effect) :
    deadlinePosts (s.emit ev).log = deadlinePosts s.log ++ deadlinePosts [ev] := by
  simp [Sys.emit]

@[simp]
theorem dcheck_deadlinePosts (s : Sys) (cond : Bool) (check : DCheck) :
    deadlinePosts (s.dcheck cond check).log = deadlinePosts s.log := by
  simp only [Sys.dcheck]
  split_ifs <;> simp [Sys.emit, deadlinePosts, Effect.isDeadlinePost]

@[simp]
theorem StopObservingBeginFrames_deadlinePosts (s : Sys) :
    deadlinePosts (StopObservingBeginFrames s).log = deadlinePosts s.log := by
  simp only [StopObservingBeginFrames]
  split_ifs <;> simp [Sys.emit, deadlinePosts, Effect.isDeadlinePost]

@[simp]
theorem DidSwapBuffers_deadlinePosts (s : Sys) :
    deadlinePosts (DidSwapBuffers s).log = deadlinePosts s.log := by
  simp only [DidSwapBuffers]
  split_ifs <;> simp [Sys.emit, deadlinePosts, Effect.isDeadlinePost]

@[simp]
theorem clientSwaps_deadlinePosts (n : Nat) (s : Sys) :
    deadlinePosts (clientSwaps n s).log = deadlinePosts s.log := by
  induction n generalizing s with
  | zero => rfl
  | succ k ih => simp [clientSwaps, ih]

theorem DrawAndSwap_deadlinePosts (e : Env) (s : Sys) :
    deadlinePosts (DrawAndSwap e s).1.log = deadlinePosts s.log := by
  simp only [DrawAndSwap]
  split_ifs
  · simp only [clientSwaps_deadlinePosts, emit_deadlinePosts, dcheck_deadlinePosts]
    simp [deadlinePosts, Effect.isDeadlinePost]
  · show deadlinePosts (clientSwaps e.swaps_in_draw _).log = _
    simp only [clientSwaps_deadlinePosts, emit_deadlinePosts, dcheck_deadlinePosts]
    simp [deadlinePosts, Effect.isDeadlinePost]
  · simp

theorem AttemptDrawAndSwap_deadlinePosts (e : Env) (s : Sys) :
    deadlinePosts (AttemptDrawAndSwap e s).1.log = deadlinePosts s.log := by
  simp only [AttemptDrawAndSwap]
  split_ifs
  · exact DrawAndSwap_deadlinePosts e _
  · rfl
  · exact StopObservingBeginFrames_deadlinePosts _

@[simp]
theorem StopObservingBeginFrames_deadline_task_calls (s : Sys) :
    (StopObservingBeginFrames s).deadline_task_calls = s.deadline_task_calls := by
  simp only [StopObservingBeginFrames]
  split_ifs <;> simp [*]

@[simp]
theorem DidSwapBuffers_deadline_task_calls (s : Sys) :
    (DidSwapBuffers s).deadline_task_calls = s.deadline_task_calls := by
  simp only [DidSwapBuffers]
  split_ifs <;> simp [*]

@[simp]
theorem clientSwaps_deadline_task_calls (n : Nat) (s : Sys) :
    (clientSwaps n s).deadline_task_calls = s.deadline_task_calls := by
  induction n generalizing s with
  | zero => rfl
  | succ k ih => simp [clientSwaps, ih]

@[simp]
theorem DrawAndSwap_deadline_task_calls (e : Env) (s : Sys) :
    ((DrawAndSwap e s).1).deadline_task_calls = s.deadline_task_calls := by
  simp only [DrawAndSwap]
  split_ifs <;> simp [*]

/-- `AttemptDrawAndSwap` makes one call on the closure of the deadline task:
`Cancel`. -/
theorem AttemptDrawAndSwap_deadline_task_calls (e : Env) (s : Sys) :
    (AttemptDrawAndSwap e s).1.deadline_task_calls =
      s.deadline_task_calls ++ [ClosureOp.Cancel] := by
  simp only [AttemptDrawAndSwap]
  split_ifs <;> simp

/-- The calls that `ScheduleBeginFrameDeadline` makes on the closure of the
deadline task, with the closure and the postings it leaves: none, or `Cancel`
leaving the closure cancelled, or `Cancel`, `Reset` and one posting of the
current callback. -/
theorem ScheduleBeginFrameDeadline_deadline_task_calls (d : Deps) (e : Env) (s : Sys) :
    ((ScheduleBeginFrameDeadline d e s).deadline_task_calls = s.deadline_task_calls ∧
      (ScheduleBeginFrameDeadline d e s).begin_frame_deadline_task_ =
        s.begin_frame_deadline_task_ ∧
      deadlinePosts (ScheduleBeginFrameDeadline d e s).log = deadlinePosts s.log) ∨
    ((ScheduleBeginFrameDeadline d e s).deadline_task_calls =
        s.deadline_task_calls ++ [ClosureOp.Cancel] ∧
      (ScheduleBeginFrameDeadline d e s).begin_frame_deadline_task_ = false ∧
      deadlinePosts (ScheduleBeginFrameDeadline d e s).log = deadlinePosts s.log) ∨
    ((ScheduleBeginFrameDeadline d e s).deadline_task_calls =
        s.deadline_task_calls ++ [ClosureOp.Cancel, ClosureOp.Reset, ClosureOp.Post] ∧
      (ScheduleBeginFrameDeadline d e s).begin_frame_deadline_task_ = true ∧
      ∃ delta, (ScheduleBeginFrameDeadline d e s).log =
        s.log ++ [Effect.PostDelayedTask Task.BeginFrameDeadline delta]) := by
  simp only [ScheduleBeginFrameDeadline]
  split_ifs
  · exact Or.inl ⟨by simp, by simp, by simp⟩
  · exact Or.inl ⟨rfl, rfl, rfl⟩
  · exact Or.inr (Or.inl ⟨rfl, rfl, rfl⟩)
  · exact Or.inr (Or.inr ⟨by simp [Sys.emit], rfl, _, rfl⟩)

theorem liveTasks_append (calls added : List ClosureOp) :
    liveTasks (calls ++ added) = added.foldl liveAfter (liveTasks calls) := by
  simp [liveTasks, List.foldl_append]

/-- In a record made of `Cancel` and of `Cancel`, `Reset`, post, at most one
posted task is live after every call. -/
theorem TimerRecord_take (calls : List ClosureOp) (h : TimerRecord calls) :
    ∀ k, liveTasks (calls.take k) ≤ 1 := by
  induction h with
  | nil => intro k; simp [liveTasks]
  | cancel calls _ ih =>
    intro k
    rw [List.take_append_eq_append_take, liveTasks_append]
    match k - calls.length with
    | 0 => simpa using ih k
    | j + 1 => simp [liveAfter]
  | post calls _ ih =>
    intro k
    rw [List.take_append_eq_append_take, liveTasks_append]
    match k - calls.length with
    | 0 => simpa using ih k
    | 1 => simp [liveAfter]
    | 2 => simp [liveAfter]
    | j + 3 => simp [liveAfter]

/-- In a record made of `Cancel` and of `Cancel`, `Reset`, post, no posted task
is live when a task is posted. -/
theorem TimerRecord_post (calls : List ClosureOp) (h : TimerRecord calls) :
    ∀ k, calls[k]? = some ClosureOp.Post → liveTasks (calls.take k) = 0 := by
  induction h with
  | nil => intro k hk; simp at hk
  | cancel calls _ ih =>
    intro k hk
    rw [List.take_append_eq_append_take, liveTasks_append]
    by_cases hlt : k < calls.length
    · rw [List.getElem?_append_left hlt] at hk
      rw [Nat.sub_eq_zero_of_le (Nat.le_of_lt hlt)]
      simpa using ih k hk
    · rw [List.getElem?_append_right (by omega)] at hk
      match hj : k - calls.length with
      | 0 => rw [hj] at hk; simp at hk
      | j + 1 => rw [hj] at hk; simp at hk
  | post calls _ ih =>
    intro k hk
    rw [List.take_append_eq_append_take, liveTasks_append]
    by_cases hlt : k < calls.length
    · rw [List.getElem?_append_left hlt] at hk
      rw [Nat.sub_eq_zero_of_le (Nat.le_of_lt hlt)]
      simpa using ih k hk
    · rw [List.getElem?_append_right (by omega)] at hk
      match hj : k - calls.length with
      | 0 => rw [hj] at hk; simp at hk
      | 1 => rw [hj] at hk; simp at hk
      | 2 => simp [liveAfter]
      | j + 3 => rw [hj] at hk; simp at hk

theorem timerRecordOk_of_same (s s' : Sys) (h : timerRecordOk s)
    (h1 : s'.deadline_task_calls = s.deadline_task_calls)
    (h2 : s'.begin_frame_deadline_task_ = s.begin_frame_deadline_task_)
    (h3 : deadlinePosts s'.log = deadlinePosts s.log) : timerRecordOk s' := by
  unfold timerRecordOk armedTasks at h ⊢
  rw [h1, h2, h3]
  exact h

theorem timerRecordOk_cancel (s s' : Sys) (h : timerRecordOk s)
    (h1 : s'.deadline_task_calls = s.deadline_task_calls ++ [ClosureOp.Cancel])
    (h2 : s'.begin_frame_deadline_task_ = false)
    (h3 : deadlinePosts s'.log = deadlinePosts s.log) : timerRecordOk s' := by
  unfold timerRecordOk armedTasks at h ⊢
  rw [h1, h2, h3]
  refine ⟨TimerRecord.cancel _ h.1, ?_, ?_⟩
  · simp [liveTasks_append, liveAfter]
  · rw [h.2.2]
    simp

theorem timerRecordOk_post (s s' : Sys) (delta : Int) (h : timerRecordOk s)
    (h1 : s'.deadline_task_calls =
      s.deadline_task_calls ++ [ClosureOp.Cancel, ClosureOp.Reset, ClosureOp.Post])
    (h2 : s'.begin_frame_deadline_task_ = true)
    (h3 : s'.log = s.log ++ [Effect.PostDelayedTask Task.BeginFrameDeadline delta]) :
    timerRecordOk s' := by
  unfold timerRecordOk armedTasks at h ⊢
  rw [h1, h2, h3]
  refine ⟨TimerRecord.post _ h.1, ?_, ?_⟩
  · simp [liveTasks_append, liveAfter]
  · rw [deadlinePosts_append, List.length_append, h.2.2]
    simp [deadlinePosts, Effect.isDeadlinePost, List.count_append]

theorem timerRecordOk_core (d : Deps) (e : Env) (s s' : Sys) (h : CoreStep d e s s')
    (hs : timerRecordOk s) : timerRecordOk s' := by
  cases h with
  | quiet _ hq =>
    obtain ⟨_, h2, _, _, _, h0, _, _, added, hlog, hplain⟩ := hq
    refine timerRecordOk_of_same s s' hs h0 h2 ?_
    rw [hlog, deadlinePosts_append, deadlinePosts_plain added hplain, List.append_nil]
  | attempt =>
    exact timerRecordOk_cancel s _ hs (AttemptDrawAndSwap_deadline_task_calls e s)
      (AttemptDrawAndSwap_deadline_task e s) (AttemptDrawAndSwap_deadlinePosts e s)
  | schedule =>
    rcases ScheduleBeginFrameDeadline_deadline_task_calls d e s with
      ⟨h1, h2, h3⟩ | ⟨h1, h2, h3⟩ | ⟨h1, h2, delta, h3⟩
    · exact timerRecordOk_of_same s _ hs h1 h2 h3
    · exact timerRecordOk_cancel s _ hs h1 h2 h3
    · exact timerRecordOk_post s _ delta hs h1 h2 h3
  | open_interval args => exact timerRecordOk_of_same s _ hs rfl rfl rfl
  | armed_check ht => exact timerRecordOk_of_same s _ hs (by simp) (by simp) (by simp)

/-- Every operation keeps the record of the calls on the deadline closure in
order. -/
theorem step_timerRecordOk (d : Deps) (s : Sys) (op : Op) (e : Env) (hs : timerRecordOk s) :
    timerRecordOk (step d s op e) := by
  by_cases h1 : op = Op.DidSwapBuffers
  · subst h1
    exact timerRecordOk_of_same s _ hs (by simp [step]) (by simp [step]) (by simp [step])
  · by_cases h2 : op = Op.DidReceiveSwapBuffersAck
    · subst h2
      simp only [step]
      refine steps_preserve d e timerRecordOk (timerRecordOk_core d e) _ _
        (DidReceiveSwapBuffersAck_steps d e s) (timerRecordOk_of_same s _ hs rfl rfl ?_)
      simp [deadlinePosts, Effect.isDeadlinePost]
    · exact steps_preserve d e timerRecordOk (timerRecordOk_core d e) _ _
        (step_steps d s op e h1 h2) hs

theorem run_timerRecordOk (d : Deps) (ops : List (Op × Env)) :
    ∀ s : Sys, timerRecordOk s → timerRecordOk (run d s ops) := by
  induction ops with
  | nil => intro s h; exact h
  | cons oe rest ih =>
    intro s h
    exact ih _ (step_timerRecordOk d s oe.1 oe.2 h)

/-- C33: at most one posted deadline task is neither cancelled nor fired.  In the
state reached from construction by any sequence of operations, the record of
the calls that the member functions have made on the closure of the deadline
task is made of `Cancel` and of `Cancel`, `Reset`, post: every posting follows
a `Cancel` at once.  After every call of the record at most one posted task is
live, and none is live when a task is posted.  At the end the live tasks are
those that the closure stands for, one if it holds a callback and none if it is
cancelled, and the postings of the deadline task in the trace are the posts of
the record.  The destructor only cancels.  `AttemptDrawAndSwap`, which completes
every interval, adds one `Cancel`, and `ScheduleBeginFrameDeadline` adds nothing,
or `Cancel`, or `Cancel`, `Reset` and one post. -/
theorem one_deadline_task_live (d : Deps) (max_pending_swaps : Int)
    (use_viz_fmp_with_timeout : Bool) (viz_fmp_timeout : Nat)
    (wait_for_all_surfaces_before_draw : Bool) (ops : List (Op × Env)) (e : Env) :
    TimerRecord (run d (construct d max_pending_swaps use_viz_fmp_with_timeout
      viz_fmp_timeout wait_for_all_surfaces_before_draw) ops).deadline_task_calls ∧
    (∀ k, liveTasks ((run d (construct d max_pending_swaps use_viz_fmp_with_timeout
      viz_fmp_timeout wait_for_all_surfaces_before_draw) ops).deadline_task_calls.take k) ≤ 1) ∧
    (∀ k, (run d (construct d max_pending_swaps use_viz_fmp_with_timeout
        viz_fmp_timeout wait_for_all_surfaces_before_draw) ops).deadline_task_calls[k]? =
          some ClosureOp.Post →
      liveTasks ((run d (construct d max_pending_swaps use_viz_fmp_with_timeout
        viz_fmp_timeout wait_for_all_surfaces_before_draw) ops).deadline_task_calls.take k) =
          0) ∧
    liveTasks (run d (construct d max_pending_swaps use_viz_fmp_with_timeout
      viz_fmp_timeout wait_for_all_surfaces_before_draw) ops).deadline_task_calls =
      armedTasks (run d (construct d max_pending_swaps use_viz_fmp_with_timeout
        viz_fmp_timeout wait_for_all_surfaces_before_draw) ops) ∧
    (deadlinePosts (run d (construct d max_pending_swaps use_viz_fmp_with_timeout
      viz_fmp_timeout wait_for_all_surfaces_before_draw) ops).log).length =
      (run d (construct d max_pending_swaps use_viz_fmp_with_timeout
        viz_fmp_timeout wait_for_all_surfaces_before_draw) ops).deadline_task_calls.count
          ClosureOp.Post ∧
    liveTasks (destruct (run d (construct d max_pending_swaps use_viz_fmp_with_timeout
      viz_fmp_timeout wait_for_all_surfaces_before_draw) ops)).deadline_task_calls = 0 ∧
    (AttemptDrawAndSwap e (run d (construct d max_pending_swaps use_viz_fmp_with_timeout
      viz_fmp_timeout wait_for_all_surfaces_before_draw) ops)).1.deadline_task_calls =
      (run d (construct d max_pending_swaps use_viz_fmp_with_timeout
        viz_fmp_timeout wait_for_all_surfaces_before_draw) ops).deadline_task_calls ++
          [ClosureOp.Cancel] ∧
    (∃ added, (ScheduleBeginFrameDeadline d e (run d (construct d max_pending_swaps
        use_viz_fmp_with_timeout viz_fmp_timeout
        wait_for_all_surfaces_before_draw) ops)).deadline_task_calls =
      (run d (construct d max_pending_swaps use_viz_fmp_with_timeout
        viz_fmp_timeout wait_for_all_surfaces_before_draw) ops).deadline_task_calls ++ added ∧
      (added = [] ∨ added = [ClosureOp.Cancel] ∨
        added = [ClosureOp.Cancel, ClosureOp.Reset, ClosureOp.Post])) := by
  have h : timerRecordOk (run d (construct d max_pending_swaps use_viz_fmp_with_timeout
      viz_fmp_timeout wait_for_all_surfaces_before_draw) ops) :=
    run_timerRecordOk d ops _ ⟨TimerRecord.nil, rfl, rfl⟩
  refine ⟨h.1, TimerRecord_take _ h.1, TimerRecord_post _ h.1, h.2.1, h.2.2, ?_,
    AttemptDrawAndSwap_deadline_task_calls e _, ?_⟩
  · simp [destruct, liveTasks_append, liveAfter]
  · rcases ScheduleBeginFrameDeadline_deadline_task_calls d e
      (run d (construct d max_pending_swaps use_viz_fmp_with_timeout
        viz_fmp_timeout wait_for_all_surfaces_before_draw) ops) with
      ⟨h1, _⟩ | ⟨h1, _⟩ | ⟨h1, _⟩
    · exact ⟨[], by simp [h1], Or.inl rfl⟩
    · exact ⟨_, h1, Or.inr (Or.inl rfl)⟩
    · exact ⟨_, h1, Or.inr (Or.inr rfl)⟩

/-- Witness of C33: the sample scheduler is made ready to draw inside the
interval of tick 5, which posts the deadline task, and the display is then
resized, which posts it again for a later time: each posting follows a `Cancel`
and a `Reset`, two tasks have been posted and one is live. -/
theorem one_deadline_task_live_witness :
    (run sampleDeps (construct sampleDeps 1 false 0 false)
      (drawAndAckOps.take 5 ++ [(Op.DisplayResized, sampleEnv 81000)])).deadline_task_calls =
      [ClosureOp.Cancel, ClosureOp.Reset, ClosureOp.Post,
        ClosureOp.Cancel, ClosureOp.Reset, ClosureOp.Post] ∧
    (deadlinePosts (run sampleDeps (construct sampleDeps 1 false 0 false)
      (drawAndAckOps.take 5 ++ [(Op.DisplayResized, sampleEnv 81000)])).log).length = 2 ∧
    armedTasks (run sampleDeps (construct sampleDeps 1 false 0 false)
      (drawAndAckOps.take 5 ++ [(Op.DisplayResized, sampleEnv 81000)])) = 1 ∧
    liveTasks (run sampleDeps (construct sampleDeps 1 false 0 false)
      (drawAndAckOps.take 5 ++
        [(Op.DisplayResized, sampleEnv 81000)])).deadline_task_calls =
      armedTasks (run sampleDeps (construct sampleDeps 1 false 0 false)
        (drawAndAckOps.take 5 ++ [(Op.DisplayResized, sampleEnv 81000)])) :=
  ⟨by decide, by decide, by decide,
    (one_deadline_task_live sampleDeps 1 false 0 false
      (drawAndAckOps.take 5 ++ [(Op.DisplayResized, sampleEnv 81000)])
      (sampleEnv 81000)).2.2.2.1⟩

/-! ## Theorems: the swap count when the client swaps during a draw -/

theorem drawSwapCallAllowed_swapCallAllowed (s : Sys) (op : Op)
    (h : drawSwapCallAllowed s op = true) : swapCallAllowed s op = true := by
  cases op <;> simp_all [drawSwapCallAllowed, swapCallAllowed]

theorem obeysDrawSwapProtocol_obeysSwapProtocol (d : Deps) (ops : List (Op × Env)) :
    ∀ s : Sys, obeysDrawSwapProtocol d s ops = true → obeysSwapProtocol d s ops = true := by
  induction ops with
  | nil => intro s _; rfl
  | cons oe rest ih =>
    intro s h
    simp only [obeysDrawSwapProtocol, Bool.and_eq_true, decide_eq_true_eq] at h
    simp only [obeysSwapProtocol, Bool.and_eq_true, decide_eq_true_eq]
    exact ⟨⟨drawSwapCallAllowed_swapCallAllowed s oe.1 h.1.1, h.1.2⟩, ih _ h.2⟩

theorem obeysDrawSwapProtocol_take (d : Deps) (ops : List (Op × Env)) :
    ∀ (s : Sys) (n : Nat), obeysDrawSwapProtocol d s ops = true →
      obeysDrawSwapProtocol d s (ops.take n) = true := by
  induction ops with
  | nil => intro s n _; simp [obeysDrawSwapProtocol]
  | cons oe rest ih =>
    intro s n h
    cases n with
    | zero => simp [obeysDrawSwapProtocol]
    | succ k =>
      simp only [obeysDrawSwapProtocol, Bool.and_eq_true, decide_eq_true_eq] at h
      simp only [List.take_succ_cons, obeysDrawSwapProtocol, Bool.and_eq_true,
        decide_eq_true_eq]
      exact ⟨h.1, ih _ k h.2⟩

/-- C36: from construction with `max_pending_swaps ≥ 1` (the argument is an
`int`, so it is at most `INT_MAX`), if `DidSwapBuffers` is called only by the
client during a `client_->DrawAndSwap()`, at most once each time, and
`DidReceiveSwapBuffersAck` only while `pending_swaps_ > 0`, then
`0 ≤ pending_swaps_ ≤ max_pending_swaps_` holds after every operation of the
sequence. -/
theorem swap_budget_when_client_swaps_in_draw (d : Deps) (max_pending_swaps : Int)
    (use_viz_fmp_with_timeout : Bool) (viz_fmp_timeout : Nat)
    (wait_for_all_surfaces_before_draw : Bool) (ops : List (Op × Env))
    (hmax : 1 ≤ max_pending_swaps) (hint : max_pending_swaps ≤ INT_MAX)
    (hops : obeysDrawSwapProtocol d (construct d max_pending_swaps use_viz_fmp_with_timeout
      viz_fmp_timeout wait_for_all_surfaces_before_draw) ops = true) (n : Nat) :
    swapBudgetHolds (run d (construct d max_pending_swaps use_viz_fmp_with_timeout
      viz_fmp_timeout wait_for_all_surfaces_before_draw) (ops.take n)) := by
  apply run_swapBudgetHolds d (ops.take n) _ _ _
    (obeysDrawSwapProtocol_obeysSwapProtocol d _ _ (obeysDrawSwapProtocol_take d ops _ n hops))
  · simpa only [construct] using hint
  · simp only [swapBudgetHolds, construct]
    omega

/-- Witness of C36: the sample scheduler draws on the deadline of tick 5, the
client swaps once during the draw, and the swap is acknowledged; after the draw
one swap is pending, which is the limit. -/
theorem swap_budget_when_client_swaps_in_draw_witness :
    obeysDrawSwapProtocol sampleDeps (construct sampleDeps 1 false 0 false) drawAndAckOps = true ∧
      (run sampleDeps (construct sampleDeps 1 false 0 false) (drawAndAckOps.take 6)).pending_swaps_
        = 1 ∧
      swapBudgetHolds
        (run sampleDeps (construct sampleDeps 1 false 0 false) (drawAndAckOps.take 6)) :=
  ⟨by decide, by decide,
    swap_budget_when_client_swaps_in_draw sampleDeps 1 false 0 false drawAndAckOps (by decide)
      (by decide) (by decide) 6⟩

/-! ## Theorems: back-pressure follows the swap limit -/

@[simp]
theorem busySignals_append (log added : List Effect) :
    busySignals (log ++ added) = busySignals log ++ busySignals added := by
  simp [busySignals]

theorem busySignals_plain (added : List Effect) (h : ∀ ev ∈ added, ev.isPlain = true) :
    busySignals added = [] := by
  simp only [busySignals, List.filterMap_eq_nil_iff]
  intro ev hev
  have hp := h ev hev
  cases ev <;> simp_all [Effect.isPlain]

theorem lastBusy_append_nil (log added : List Effect) (h : busySignals added = []) :
    lastBusy (log ++ added) = lastBusy log := by
  simp [lastBusy, h]

theorem lastBusy_append_single (log : List Effect) (busy : Bool) :
    lastBusy (log ++ [Effect.SetIsGpuBusy busy]) = busy := by
  simp [lastBusy, busySignals]

theorem busyInv_of_fields (s s' : Sys) (h : busyInv s)
    (hp : s'.pending_swaps_ = s.pending_swaps_)
    (hm : s'.max_pending_swaps_ = s.max_pending_swaps_)
    (hl : busySignals s'.log = busySignals s.log) : busyInv s' := by
  unfold busyInv swapBudgetHolds lastBusy at h ⊢
  rw [hp, hm, hl]
  exact h

@[simp]
theorem dcheck_busySignals (s : Sys) (cond : Bool) (check : DCheck) :
    busySignals (s.dcheck cond check).log = busySignals s.log := by
  simp only [Sys.dcheck]
  split_ifs <;> simp [Sys.emit, busySignals]

@[simp]
theorem StopObservingBeginFrames_busySignals (s : Sys) :
    busySignals (StopObservingBeginFrames s).log = busySignals s.log := by
  simp only [StopObservingBeginFrames]
  split_ifs <;> simp [Sys.emit, busySignals]

theorem ScheduleBeginFrameDeadline_busySignals (d : Deps) (e : Env) (s : Sys) :
    busySignals (ScheduleBeginFrameDeadline d e s).log = busySignals s.log := by
  rw [ScheduleBeginFrameDeadline_log, busySignals_append]
  simp only [scheduleCalls]
  split_ifs <;> simp [busySignals]

/-- A call of `DidSwapBuffers` below the swap limit keeps the back-pressure in
step with the swap count. -/
theorem DidSwapBuffers_busyInv (s : Sys) (hint : s.max_pending_swaps_ ≤ INT_MAX)
    (h : busyInv s) (hlt : s.pending_swaps_ < s.max_pending_swaps_) :
    busyInv (DidSwapBuffers s) := by
  unfold busyInv swapBudgetHolds at h ⊢
  obtain ⟨⟨h0, _⟩, hb⟩ := h
  have hw : wrapInt (s.pending_swaps_ + 1) = s.pending_swaps_ + 1 :=
    wrapInt_of_int _ (by unfold INT_MIN; omega) (by omega)
  have hlog : (DidSwapBuffers s).log =
      if s.pending_swaps_ + 1 = s.max_pending_swaps_ then s.log ++ [Effect.SetIsGpuBusy true]
      else s.log := by
    simp only [DidSwapBuffers, hw]
    split_ifs <;> simp [Sys.emit]
  rw [DidSwapBuffers_pending_swaps_, hw, DidSwapBuffers_max_pending_swaps_, hlog]
  refine ⟨⟨by omega, by omega⟩, ?_⟩
  split_ifs with heq
  · simp [lastBusy_append_single, heq]
  · constructor
    · intro hl
      have := hb.mp hl
      omega
    · intro hc
      exact absurd hc heq

theorem clientSwaps_busyInv (n : Nat) (s : Sys) (hint : s.max_pending_swaps_ ≤ INT_MAX)
    (h : busyInv s) (hn : n ≤ 1)
    (hlt : s.pending_swaps_ < s.max_pending_swaps_) : busyInv (clientSwaps n s) := by
  match n, hn with
  | 0, _ => exact h
  | 1, _ => exact DidSwapBuffers_busyInv s hint h hlt

theorem DrawAndSwap_busyInv (e : Env) (s : Sys) (hint : s.max_pending_swaps_ ≤ INT_MAX)
    (h : busyInv s) (hn : e.swaps_in_draw ≤ 1)
    (hlt : s.pending_swaps_ < s.max_pending_swaps_) : busyInv (DrawAndSwap e s).1 := by
  have h0 : busyInv (((s.dcheck (decide (s.pending_swaps_ < s.max_pending_swaps_))
      DCheck.pending_swaps_lt_max).dcheck (!s.output_surface_lost_)
      DCheck.output_surface_not_lost).emit
      (Effect.ClientDrawAndSwap
        ((s.dcheck (decide (s.pending_swaps_ < s.max_pending_swaps_))
          DCheck.pending_swaps_lt_max).dcheck (!s.output_surface_lost_)
          DCheck.output_surface_not_lost).toDisplayScheduler)) :=
    busyInv_of_fields s _ h (by simp [Sys.emit]) (by simp [Sys.emit])
      (by simp [Sys.emit, busySignals_append]; simp [busySignals])
  have h1 := clientSwaps_busyInv e.swaps_in_draw _ (by simpa [Sys.emit] using hint) h0 hn
    (by simpa [Sys.emit] using hlt)
  simp only [DrawAndSwap]
  split_ifs
  · exact h1
  · exact busyInv_of_fields _ _ h1 rfl rfl rfl
  · exact busyInv_of_fields s _ h (by simp) (by simp) (by simp)

theorem AttemptDrawAndSwap_busyInv (e : Env) (s : Sys) (hint : s.max_pending_swaps_ ≤ INT_MAX)
    (h : busyInv s) (hn : e.swaps_in_draw ≤ 1) : busyInv (AttemptDrawAndSwap e s).1 := by
  simp only [AttemptDrawAndSwap]
  split_ifs with _ hlt
  · exact DrawAndSwap_busyInv e _ hint (busyInv_of_fields s _ h rfl rfl rfl) hn hlt
  · exact busyInv_of_fields s _ h rfl rfl rfl
  · exact busyInv_of_fields s _ h (by simp) (by simp) (by simp)

theorem busyInv_core (d : Deps) (e : Env) (hn : e.swaps_in_draw ≤ 1) (s s' : Sys)
    (h : CoreStep d e s s') (hs : s.max_pending_swaps_ ≤ INT_MAX ∧ busyInv s) :
    s'.max_pending_swaps_ ≤ INT_MAX ∧ busyInv s' := by
  obtain ⟨hint, hs⟩ := hs
  cases h with
  | quiet _ hq =>
    obtain ⟨_, _, _, hp, hm, _, _, _, added, hlog, hplain⟩ := hq
    refine ⟨by rw [hm]; exact hint, busyInv_of_fields s s' hs hp hm ?_⟩
    rw [hlog, busySignals_append, busySignals_plain added hplain, List.append_nil]
  | attempt => exact ⟨by simpa using hint, AttemptDrawAndSwap_busyInv e s hint hs hn⟩
  | schedule =>
    exact ⟨by simpa using hint, busyInv_of_fields s _ hs (by simp) (by simp)
      (ScheduleBeginFrameDeadline_busySignals d e s)⟩
  | open_interval args => exact ⟨hint, busyInv_of_fields s _ hs rfl rfl rfl⟩
  | armed_check ht =>
    exact ⟨by simpa using hint, busyInv_of_fields s _ hs (by simp) (by simp) (by simp)⟩

/-- A call of `DidReceiveSwapBuffersAck` with a swap in flight keeps the
back-pressure in step with the swap count, also when the begin-frame source
delivers a tick from inside `SetIsGpuBusy(false)`. -/
theorem DidReceiveSwapBuffersAck_busyInv (d : Deps) (e : Env) (s : Sys)
    (hint : s.max_pending_swaps_ ≤ INT_MAX) (h : busyInv s)
    (hpos : 0 < s.pending_swaps_) (hn : e.swaps_in_draw ≤ 1) :
    busyInv (DidReceiveSwapBuffersAck d e s) := by
  have hw : wrapInt (s.pending_swaps_ - 1) = s.pending_swaps_ - 1 := by
    have hle := h.1.2
    exact wrapInt_of_int _ (by unfold INT_MIN; omega) (by omega)
  have h2 : busyInv (({ s with pending_swaps_ := wrapInt (s.pending_swaps_ - 1) } : Sys).emit
      (Effect.SetIsGpuBusy false)) := by
    unfold busyInv swapBudgetHolds at h ⊢
    obtain ⟨⟨_, hle⟩, _⟩ := h
    have hlog : (({ s with pending_swaps_ := wrapInt (s.pending_swaps_ - 1) } : Sys).emit
        (Effect.SetIsGpuBusy false)).log = s.log ++ [Effect.SetIsGpuBusy false] := rfl
    have hp : (({ s with pending_swaps_ := wrapInt (s.pending_swaps_ - 1) } : Sys).emit
        (Effect.SetIsGpuBusy false)).pending_swaps_ = wrapInt (s.pending_swaps_ - 1) := rfl
    have hm : (({ s with pending_swaps_ := wrapInt (s.pending_swaps_ - 1) } : Sys).emit
        (Effect.SetIsGpuBusy false)).max_pending_swaps_ = s.max_pending_swaps_ := rfl
    rw [hlog, hp, hm, lastBusy_append_single, hw]
    refine ⟨⟨by omega, by omega⟩, ?_⟩
    constructor
    · intro hc
      exact absurd hc (by decide)
    · intro hc
      omega
  exact (steps_preserve d e (fun s => s.max_pending_swaps_ ≤ INT_MAX ∧ busyInv s)
    (busyInv_core d e hn) _ _ (DidReceiveSwapBuffersAck_steps d e s) ⟨hint, h2⟩).2

theorem step_busyInv (d : Deps) (s : Sys) (op : Op) (e : Env)
    (hint : s.max_pending_swaps_ ≤ INT_MAX) (h : busyInv s)
    (hop : swapCallAllowed s op = true) (hn : e.swaps_in_draw ≤ 1) :
    busyInv (step d s op e) := by
  by_cases h1 : op = Op.DidSwapBuffers
  · subst h1
    simp only [swapCallAllowed, decide_eq_true_eq] at hop
    exact DidSwapBuffers_busyInv s hint h hop
  · by_cases h2 : op = Op.DidReceiveSwapBuffersAck
    · subst h2
      simp only [swapCallAllowed, decide_eq_true_eq] at hop
      exact DidReceiveSwapBuffersAck_busyInv d e s hint h hop hn
    · exact (steps_preserve d e (fun s => s.max_pending_swaps_ ≤ INT_MAX ∧ busyInv s)
        (busyInv_core d e hn) s _ (step_steps d s op e h1 h2) ⟨hint, h⟩).2

theorem run_busyInv (d : Deps) (ops : List (Op × Env)) :
    ∀ s : Sys, s.max_pending_swaps_ ≤ INT_MAX → busyInv s →
      obeysSwapProtocol d s ops = true → busyInv (run d s ops) := by
  induction ops with
  | nil => intro s _ h _; exact h
  | cons oe rest ih =>
    intro s hint h hops
    simp only [obeysSwapProtocol, Bool.and_eq_true, decide_eq_true_eq] at hops
    exact ih _ (by rw [step_max_pending_swaps_]; exact hint)
      (step_busyInv d s oe.1 oe.2 hint h hops.1.1 hops.1.2) hops.2

/-- C37: from construction with `max_pending_swaps ≥ 1` (no back-pressure
signalled yet; the argument is an `int`, so it is at most `INT_MAX`), after any
sequence of operations in which `DidSwapBuffers` is
called only while `pending_swaps_ < max_pending_swaps_` (by the client during a
draw at most once) and `DidReceiveSwapBuffersAck` only while
`pending_swaps_ > 0`, the value last passed to `SetIsGpuBusy` is `true` if and
only if `pending_swaps_ = max_pending_swaps_`. -/
theorem backpressure_tracks_swap_limit (d : Deps) (max_pending_swaps : Int)
    (use_viz_fmp_with_timeout : Bool) (viz_fmp_timeout : Nat)
    (wait_for_all_surfaces_before_draw : Bool) (ops : List (Op × Env))
    (hmax : 1 ≤ max_pending_swaps) (hint : max_pending_swaps ≤ INT_MAX)
    (hops : obeysSwapProtocol d (construct d max_pending_swaps use_viz_fmp_with_timeout
      viz_fmp_timeout wait_for_all_surfaces_before_draw) ops = true) :
    (lastBusy (run d (construct d max_pending_swaps use_viz_fmp_with_timeout
      viz_fmp_timeout wait_for_all_surfaces_before_draw) ops).log = true ↔
    (run d (construct d max_pending_swaps use_viz_fmp_with_timeout
      viz_fmp_timeout wait_for_all_surfaces_before_draw) ops).pending_swaps_ =
    (run d (construct d max_pending_swaps use_viz_fmp_with_timeout
      viz_fmp_timeout wait_for_all_surfaces_before_draw) ops).max_pending_swaps_) := by
  refine (run_busyInv d ops _ (by simpa only [construct] using hint) ?_ hops).2
  simp only [busyInv, swapBudgetHolds, construct, lastBusy, busySignals]
  refine ⟨⟨by omega, by omega⟩, ?_⟩
  constructor
  · intro hc
    simp at hc
  · intro hc
    omega

/-- Witness of C37: after the draw on the deadline of tick 5, during which the
client swaps once, the sample scheduler has one swap pending, the limit, and
back-pressure was last asserted; after the acknowledgment it was last
cleared. -/
theorem backpressure_tracks_swap_limit_witness :
    obeysSwapProtocol sampleDeps (construct sampleDeps 1 false 0 false)
        (drawAndAckOps.take 6) = true ∧
      lastBusy (run sampleDeps (construct sampleDeps 1 false 0 false)
        (drawAndAckOps.take 6)).log = true ∧
      lastBusy (run sampleDeps (construct sampleDeps 1 false 0 false) drawAndAckOps).log = false ∧
      (lastBusy (run sampleDeps (construct sampleDeps 1 false 0 false)
          (drawAndAckOps.take 6)).log = true ↔
        (run sampleDeps (construct sampleDeps 1 false 0 false)
          (drawAndAckOps.take 6)).pending_swaps_ =
        (run sampleDeps (construct sampleDeps 1 false 0 false)
          (drawAndAckOps.take 6)).max_pending_swaps_) :=
  ⟨by decide, by decide, by decide,
    backpressure_tracks_swap_limit sampleDeps 1 false 0 false (drawAndAckOps.take 6) (by decide)
      (by decide) (by decide)⟩

/-! ## Theorems: damage stays until a draw succeeds -/

theorem isDraw_of_isPlain (ev : Effect) (h : ev.isPlain = true) : ev.isDraw = false := by
  cases ev <;> simp_all [Effect.isPlain, Effect.isDraw]

theorem drawCount_plain (added : List Effect) (h : ∀ ev ∈ added, ev.isPlain = true) :
    drawCount added = 0 := by
  simp only [drawCount, List.countP_eq_zero]
  intro ev hev
  simp [isDraw_of_isPlain ev (h ev hev)]

theorem quietStep_drawCount (s s' : Sys) (h : quietStep s s') :
    drawCount s'.log = drawCount s.log := by
  obtain ⟨_, _, _, _, _, _, _, _, added, hlog, hplain⟩ := h
  rw [hlog, drawCount_append, drawCount_plain added hplain, Nat.add_zero]

theorem DidSwapBuffers_needs_draw (s : Sys) :
    (DidSwapBuffers s).needs_draw_ = s.needs_draw_ := by
  simp only [DidSwapBuffers]
  split_ifs <;> simp [Sys.emit]

theorem clientSwaps_needs_draw (n : Nat) (s : Sys) :
    (clientSwaps n s).needs_draw_ = s.needs_draw_ := by
  induction n generalizing s with
  | zero => rfl
  | succ k ih => simp [clientSwaps, ih, DidSwapBuffers_needs_draw]

theorem dcheck_needs_draw (s : Sys) (cond : Bool) (check : DCheck) :
    (s.dcheck cond check).needs_draw_ = s.needs_draw_ := by
  simp only [Sys.dcheck]
  split_ifs <;> simp [Sys.emit]

/-- After `DrawAndSwap` with `needs_draw_` set, `needs_draw_` is still set, unless
there is a client and its `DrawAndSwap()` returned true. -/
theorem DrawAndSwap_keeps_damage (e : Env) (s : Sys) (h : s.needs_draw_ = true) :
    (DrawAndSwap e s).1.needs_draw_ = true ∨ (e.DrawAndSwap = true ∧ s.client_ = true) := by
  simp only [DrawAndSwap]
  split_ifs with hc hr
  · left
    rw [clientSwaps_needs_draw]
    simpa [Sys.emit, dcheck_needs_draw] using h
  · right
    exact ⟨by simpa using hr, by simpa using hc⟩
  · left
    simpa [dcheck_needs_draw] using h

/-- After `AttemptDrawAndSwap` with `needs_draw_` set, `needs_draw_` is still set,
unless `client_->DrawAndSwap()` was called and returned true. -/
theorem AttemptDrawAndSwap_keeps_damage (e : Env) (s : Sys) (h : s.needs_draw_ = true) :
    (AttemptDrawAndSwap e s).1.needs_draw_ = true ∨
      (e.DrawAndSwap = true ∧
        drawCount (AttemptDrawAndSwap e s).1.log = drawCount s.log + 1) := by
  have hc := AttemptDrawAndSwap_drawCount e s
  have hcases : (AttemptDrawAndSwap e s).1.needs_draw_ = true ∨
      (e.DrawAndSwap = true ∧ ShouldDraw s.toDisplayScheduler = true ∧
        s.pending_swaps_ < s.max_pending_swaps_ ∧ s.client_ = true) := by
    simp only [AttemptDrawAndSwap]
    split_ifs with hsd hlt
    · have hd := DrawAndSwap_keeps_damage e
        ({ s with inside_begin_frame_deadline_interval_ := false,
                  begin_frame_deadline_task_ := false,
                  begin_frame_deadline_task_time_ := 0,
                  deadline_task_calls := s.deadline_task_calls ++ [ClosureOp.Cancel] } : Sys) h
      rcases hd with hk | ⟨ha, hcl⟩
      · exact Or.inl hk
      · exact Or.inr ⟨ha, by simpa [ShouldDraw] using hsd, hlt, hcl⟩
    · exact Or.inl h
    · left
      simpa using h
  rcases hcases with hk | ⟨ha, hdraw⟩
  · exact Or.inl hk
  · rw [if_pos hdraw] at hc
    exact Or.inr ⟨ha, hc⟩

theorem AttemptDrawAndSwap_drawCount_le (e : Env) (s : Sys) :
    drawCount s.log ≤ drawCount (AttemptDrawAndSwap e s).1.log := by
  rw [AttemptDrawAndSwap_drawCount]
  exact Nat.le_add_right _ _

theorem damageKept_core (d : Deps) (e : Env) (base : Nat) (s s' : Sys)
    (h : CoreStep d e s s') (hs : damageKept e.DrawAndSwap base s) :
    damageKept e.DrawAndSwap base s' := by
  obtain ⟨hle, hor⟩ := hs
  cases h with
  | quiet _ hq =>
    have hc := quietStep_drawCount s s' hq
    obtain ⟨_, _, _, _, _, _, hn, _, _⟩ := hq
    refine ⟨by omega, ?_⟩
    rcases hor with hd | ⟨ha, hlt⟩
    · exact Or.inl (hn hd)
    · exact Or.inr ⟨ha, by omega⟩
  | attempt =>
    have hmono := AttemptDrawAndSwap_drawCount_le e s
    refine ⟨by omega, ?_⟩
    rcases hor with hd | ⟨ha, hlt⟩
    · rcases AttemptDrawAndSwap_keeps_damage e s hd with hk | ⟨ha, hc⟩
      · exact Or.inl hk
      · exact Or.inr ⟨ha, by omega⟩
    · exact Or.inr ⟨ha, by omega⟩
  | schedule =>
    rw [damageKept, ScheduleBeginFrameDeadline_drawCount, ScheduleBeginFrameDeadline_needs_draw_]
    exact ⟨hle, hor⟩
  | open_interval args => exact ⟨hle, hor⟩
  | armed_check ht =>
    rw [damageKept, dcheck_drawCount]
    exact ⟨hle, by simpa using hor⟩

/-- The calls of `client_->DrawAndSwap()` in the trace once
`DidReceiveSwapBuffersAck` has called `SetIsGpuBusy(false)`. -/
theorem DidReceiveSwapBuffersAck_emit_drawCount (s : Sys) :
    drawCount (({ s with pending_swaps_ := wrapInt (s.pending_swaps_ - 1) } : Sys).emit
      (Effect.SetIsGpuBusy false)).log = drawCount s.log := by
  simp [Sys.emit, drawCount_append, drawCount, Effect.isDraw]

theorem step_damageKept (d : Deps) (s : Sys) (op : Op) (e : Env) (base : Nat)
    (h : damageKept e.DrawAndSwap base s) : damageKept e.DrawAndSwap base (step d s op e) := by
  by_cases h1 : op = Op.DidSwapBuffers
  · subst h1
    simp only [step, damageKept, DidSwapBuffers_drawCount, DidSwapBuffers_needs_draw]
    exact h
  · by_cases h2 : op = Op.DidReceiveSwapBuffersAck
    · subst h2
      simp only [step]
      refine steps_preserve d e (damageKept e.DrawAndSwap base) (damageKept_core d e base) _ _
        (DidReceiveSwapBuffersAck_steps d e s) ?_
      rw [damageKept, DidReceiveSwapBuffersAck_emit_drawCount]
      exact h
    · exact steps_preserve d e (damageKept e.DrawAndSwap base) (damageKept_core d e base) s _
        (step_steps d s op e h1 h2) h

theorem drawCount_le_core (d : Deps) (e : Env) (base : Nat) (t t' : Sys)
    (hc : CoreStep d e t t') (ht : base ≤ drawCount t.log) : base ≤ drawCount t'.log := by
  cases hc with
  | quiet _ hq =>
    have := quietStep_drawCount t t' hq
    omega
  | attempt =>
    have := AttemptDrawAndSwap_drawCount_le e t
    omega
  | schedule =>
    rw [ScheduleBeginFrameDeadline_drawCount]
    exact ht
  | open_interval args => exact ht
  | armed_check h =>
    rw [dcheck_drawCount]
    exact ht

theorem step_drawCount_le (d : Deps) (s : Sys) (op : Op) (e : Env) :
    drawCount s.log ≤ drawCount (step d s op e).log := by
  by_cases h1 : op = Op.DidSwapBuffers
  · subst h1
    simp [step, DidSwapBuffers_drawCount]
  · by_cases h2 : op = Op.DidReceiveSwapBuffersAck
    · subst h2
      simp only [step]
      refine steps_preserve d e (fun t => drawCount s.log ≤ drawCount t.log)
        (drawCount_le_core d e _) _ _ (DidReceiveSwapBuffersAck_steps d e s)
        (Nat.le_of_eq (DidReceiveSwapBuffersAck_emit_drawCount s).symm)
    · exact steps_preserve d e (fun t => drawCount s.log ≤ drawCount t.log)
        (drawCount_le_core d e _) s _ (step_steps d s op e h1 h2) (Nat.le_refl _)

theorem run_drawCount_le (d : Deps) (ops : List (Op × Env)) :
    ∀ s : Sys, drawCount s.log ≤ drawCount (run d s ops).log := by
  induction ops with
  | nil => intro s; exact Nat.le_refl _
  | cons oe rest ih =>
    intro s
    exact Nat.le_trans (step_drawCount_le d s oe.1 oe.2) (ih _)

/-- One operation keeps `needs_draw_` set unless during it `client_->DrawAndSwap()`
is called and returns true. -/
theorem step_keeps_damage (d : Deps) (s : Sys) (op : Op) (e : Env)
    (h : s.needs_draw_ = true) :
    (step d s op e).needs_draw_ = true ∨
      (e.DrawAndSwap = true ∧ drawCount s.log < drawCount (step d s op e).log) :=
  (step_damageKept d s op e (drawCount s.log) ⟨Nat.le_refl _, Or.inl h⟩).2

theorem run_keeps_damage_of_failure (d : Deps) (ops : List (Op × Env)) :
    ∀ s : Sys, s.needs_draw_ = true → (∀ oe ∈ ops, oe.2.DrawAndSwap = false) →
      (run d s ops).needs_draw_ = true := by
  induction ops with
  | nil => intro s h _; exact h
  | cons oe rest ih =>
    intro s h hall
    refine ih _ ?_ (fun x hx => hall x (List.mem_cons_of_mem _ hx))
    rcases step_keeps_damage d s oe.1 oe.2 h with hk | ⟨ha, _⟩
    · exact hk
    · rw [hall oe (List.mem_cons_self _ _)] at ha
      exact absurd ha (by decide)

theorem run_keeps_damage_of_no_draw (d : Deps) (ops : List (Op × Env)) :
    ∀ s : Sys, s.needs_draw_ = true → drawCount (run d s ops).log = drawCount s.log →
      (run d s ops).needs_draw_ = true := by
  induction ops with
  | nil => intro s h _; exact h
  | cons oe rest ih =>
    intro s h hcount
    have h1 := step_drawCount_le d s oe.1 oe.2
    have h2 := run_drawCount_le d rest (step d s oe.1 oe.2)
    have hrun : run d s (oe :: rest) = run d (step d s oe.1 oe.2) rest := rfl
    rw [hrun] at hcount ⊢
    refine ih _ ?_ (by omega)
    rcases step_keeps_damage d s oe.1 oe.2 h with hk | ⟨_, hlt⟩
    · exact hk
    · omega

/-- C38: damage is never lost.  With `needs_draw_` set, after any one operation
`needs_draw_` is still set unless during the operation `client_->DrawAndSwap()`
was called and returned true; so it stays set over every sequence of
operations in which the client's draw never returns true, and over every
sequence that adds no call of `client_->DrawAndSwap()` to the trace. -/
theorem damage_is_never_lost (d : Deps) (s : Sys) (h : s.needs_draw_ = true) :
    (∀ (op : Op) (e : Env),
      (step d s op e).needs_draw_ = true ∨
        (e.DrawAndSwap = true ∧ drawCount s.log < drawCount (step d s op e).log)) ∧
    (∀ ops : List (Op × Env), (∀ oe ∈ ops, oe.2.DrawAndSwap = false) →
      (run d s ops).needs_draw_ = true) ∧
    (∀ ops : List (Op × Env), drawCount (run d s ops).log = drawCount s.log →
      (run d s ops).needs_draw_ = true) :=
  ⟨fun op e => step_keeps_damage d s op e h,
    fun ops hall => run_keeps_damage_of_failure d ops s h hall,
    fun ops hcount => run_keeps_damage_of_no_draw d ops s h hcount⟩

/-- Witness of C38: the sample scheduler that is ready to draw has damage; when
the client's draw fails on the deadline and the display is then hidden, the
damage is still there. -/
theorem damage_is_never_lost_witness :
    readyScheduler.needs_draw_ = true ∧
      (run sampleDeps readyScheduler
        [(Op.RunBeginFrameDeadlineTask, { sampleEnv 81000 with DrawAndSwap := false }),
         (Op.SetVisible false, { sampleEnv 82000 with DrawAndSwap := false })]).needs_draw_ =
        true :=
  ⟨by decide,
    (damage_is_never_lost sampleDeps readyScheduler (by decide)).2.1
      [(Op.RunBeginFrameDeadlineTask, { sampleEnv 81000 with DrawAndSwap := false }),
       (Op.SetVisible false, { sampleEnv 82000 with DrawAndSwap := false })]
      (by decide)⟩

/-! ## Theorems: a lost output surface stays lost -/

/-- With the output surface lost `AttemptDrawAndSwap` does not call the
client. -/
theorem AttemptDrawAndSwap_lost_drawCount (e : Env) (s : Sys)
    (h : s.output_surface_lost_ = true) :
    drawCount (AttemptDrawAndSwap e s).1.log = drawCount s.log := by
  rw [AttemptDrawAndSwap_drawCount, if_neg, Nat.add_zero]
  intro hc
  have := hc.1
  simp [ShouldDraw, h] at this

theorem lostKept_core (d : Deps) (e : Env) (base : Nat) (s s' : Sys)
    (h : CoreStep d e s s') (hs : lostKept base s) : lostKept base s' := by
  obtain ⟨hl, hc⟩ := hs
  cases h with
  | quiet _ hq =>
    have hq2 := quietStep_drawCount s s' hq
    obtain ⟨_, _, _, _, _, _, _, hlost, _⟩ := hq
    exact ⟨hlost hl, by omega⟩
  | attempt =>
    exact ⟨by simpa using hl, by rw [AttemptDrawAndSwap_lost_drawCount e s hl]; exact hc⟩
  | schedule =>
    exact ⟨by simpa using hl, by rw [ScheduleBeginFrameDeadline_drawCount]; exact hc⟩
  | open_interval args => exact ⟨hl, hc⟩
  | armed_check ht => exact ⟨by simpa using hl, by rw [dcheck_drawCount]; exact hc⟩

theorem step_lostKept (d : Deps) (s : Sys) (op : Op) (e : Env) (base : Nat)
    (h : lostKept base s) : lostKept base (step d s op e) := by
  by_cases h1 : op = Op.DidSwapBuffers
  · subst h1
    exact ⟨by simpa [step] using h.1, by simpa [step, DidSwapBuffers_drawCount] using h.2⟩
  · by_cases h2 : op = Op.DidReceiveSwapBuffersAck
    · subst h2
      simp only [step]
      refine steps_preserve d e (lostKept base) (lostKept_core d e base) _ _
        (DidReceiveSwapBuffersAck_steps d e s) ⟨h.1, ?_⟩
      rw [DidReceiveSwapBuffersAck_emit_drawCount]
      exact h.2
    · exact steps_preserve d e (lostKept base) (lostKept_core d e base) s _
        (step_steps d s op e h1 h2) h

theorem run_lostKept (d : Deps) (ops : List (Op × Env)) (base : Nat) :
    ∀ s : Sys, lostKept base s → lostKept base (run d s ops) := by
  induction ops with
  | nil => intro s h; exact h
  | cons oe rest ih =>
    intro s h
    exact ih _ (step_lostKept d s oe.1 oe.2 base h)

/-- C39: output surface loss is permanent.  After `OutputSurfaceLost`, in any
state and with any answers of the collaborators, `output_surface_lost_` is
true after every later sequence of operations, `ShouldDraw()` is false there,
and neither `OutputSurfaceLost` nor any later operation calls
`client_->DrawAndSwap()`. -/
theorem output_surface_loss_is_permanent (d : Deps) (s : Sys) (e : Env)
    (ops : List (Op × Env)) :
    (run d (step d s Op.OutputSurfaceLost e) ops).output_surface_lost_ = true ∧
    ShouldDraw (run d (step d s Op.OutputSurfaceLost e) ops).toDisplayScheduler = false ∧
    drawCount (run d (step d s Op.OutputSurfaceLost e) ops).log = drawCount s.log := by
  have h0 : lostKept (drawCount s.log) (step d s Op.OutputSurfaceLost e) := by
    refine ⟨?_, ?_⟩
    · simp [step, OutputSurfaceLost]
    · simp [step, OutputSurfaceLost, ScheduleBeginFrameDeadline_drawCount]
  have h := run_lostKept d ops (drawCount s.log) _ h0
  refine ⟨h.1, ?_, h.2⟩
  simp [ShouldDraw, h.1]

/-- Witness of C39: the sample scheduler that is ready to draw loses its output
surface; when the deadline task then runs, the client's draw is not called. -/
theorem output_surface_loss_is_permanent_witness :
    (run sampleDeps (step sampleDeps readyScheduler Op.OutputSurfaceLost (sampleEnv 81000))
        [(Op.RunBeginFrameDeadlineTask, sampleEnv 82000)]).output_surface_lost_ = true ∧
      ShouldDraw
        (run sampleDeps (step sampleDeps readyScheduler Op.OutputSurfaceLost (sampleEnv 81000))
          [(Op.RunBeginFrameDeadlineTask, sampleEnv 82000)]).toDisplayScheduler = false ∧
      drawCount
        (run sampleDeps (step sampleDeps readyScheduler Op.OutputSurfaceLost (sampleEnv 81000))
          [(Op.RunBeginFrameDeadlineTask, sampleEnv 82000)]).log = drawCount readyScheduler.log :=
  output_surface_loss_is_permanent sampleDeps readyScheduler (sampleEnv 81000)
    [(Op.RunBeginFrameDeadlineTask, sampleEnv 82000)]

/-! ## Theorems: a missed BeginFrame is posted only while observing -/

theorem missedOk_of_fields (s s' : Sys) (h : missedOk s)
    (hm : s'.missed_begin_frame_task_ = s.missed_begin_frame_task_)
    (ho : s'.observing_begin_frame_source_ = s.observing_begin_frame_source_) :
    missedOk s' := by
  unfold missedOk at h ⊢
  rw [hm, ho]
  exact h

theorem StopObservingBeginFrames_missedOk (s : Sys) (h : missedOk s) :
    missedOk (StopObservingBeginFrames s) := by
  simp only [StopObservingBeginFrames]
  split_ifs
  · exact Or.inl rfl
  · exact h

theorem AttemptDrawAndSwap_missedOk (e : Env) (s : Sys) (h : missedOk s) :
    missedOk (AttemptDrawAndSwap e s).1 := by
  simp only [AttemptDrawAndSwap]
  split_ifs
  · exact missedOk_of_fields s _ h (by rw [DrawAndSwap_missed]) (by simp)
  · exact missedOk_of_fields s _ h rfl rfl
  · exact StopObservingBeginFrames_missedOk _ (missedOk_of_fields s _ h rfl rfl)

theorem DidFinishFrame_missedOk (s : Sys) (did_draw : Bool) (h : missedOk s) :
    missedOk (DidFinishFrame s did_draw) :=
  missedOk_of_fields s _ h (DidFinishFrame_missed s did_draw) (by simp)

theorem dcheck_missedOk (s : Sys) (cond : Bool) (check : DCheck) (h : missedOk s) :
    missedOk (s.dcheck cond check) := by
  simp only [Sys.dcheck]
  split_ifs
  · exact h
  · exact missedOk_of_fields s _ h rfl rfl

theorem OnBeginFrameDeadline_missedOk (e : Env) (s : Sys) (h : missedOk s) :
    missedOk (OnBeginFrameDeadline e s) := by
  simp only [OnBeginFrameDeadline]
  exact DidFinishFrame_missedOk _ _ (AttemptDrawAndSwap_missedOk e _ (dcheck_missedOk s _ _ h))

theorem ForceImmediateSwapIfPossible_missedOk (e : Env) (s : Sys) (h : missedOk s) :
    missedOk (ForceImmediateSwapIfPossible e s) := by
  simp only [ForceImmediateSwapIfPossible]
  split_ifs
  · exact DidFinishFrame_missedOk _ _ (AttemptDrawAndSwap_missedOk e s h)
  · exact AttemptDrawAndSwap_missedOk e s h

theorem ScheduleBeginFrameDeadline_missedOk (d : Deps) (e : Env) (s : Sys) (h : missedOk s) :
    missedOk (ScheduleBeginFrameDeadline d e s) :=
  missedOk_of_fields s _ h (ScheduleBeginFrameDeadline_missed d e s) (by simp)

theorem UpdateHasPendingSurfaces_missedOk (e : Env) (s : Sys) (h : missedOk s) :
    missedOk (UpdateHasPendingSurfaces e s).1 :=
  missedOk_of_fields s _ h (UpdateHasPendingSurfaces_missed e s) (by simp)

theorem StartObservingBeginFrames_missedOk (d : Deps) (e : Env) (s : Sys) :
    missedOk (StartObservingBeginFrames d e s) :=
  Or.inr (StartObservingBeginFrames_observing d e s)

theorem MaybeStartObservingBeginFrames_missedOk (d : Deps) (e : Env) (s : Sys)
    (h : missedOk s) : missedOk (MaybeStartObservingBeginFrames d e s) := by
  simp only [MaybeStartObservingBeginFrames]
  split_ifs
  · exact StartObservingBeginFrames_missedOk d e s
  · exact h

theorem observe_and_schedule_missedOk (d : Deps) (e : Env) (s : Sys) (h : missedOk s) :
    missedOk (ScheduleBeginFrameDeadline d e (MaybeStartObservingBeginFrames d e s)) :=
  ScheduleBeginFrameDeadline_missedOk d e _ (MaybeStartObservingBeginFrames_missedOk d e s h)

theorem SetVisible_missedOk (d : Deps) (e : Env) (s : Sys) (visible : Bool) (h : missedOk s) :
    missedOk (SetVisible d e s visible) := by
  simp only [SetVisible]
  split_ifs
  · exact h
  · exact missedOk_of_fields s _ h rfl rfl
  · exact observe_and_schedule_missedOk d e _ (missedOk_of_fields s _ h rfl rfl)

theorem SetRootFrameMissing_missedOk (d : Deps) (e : Env) (s : Sys) (missing : Bool)
    (h : missedOk s) : missedOk (SetRootFrameMissing d e s missing) := by
  simp only [SetRootFrameMissing]
  split_ifs
  · exact h
  · exact observe_and_schedule_missedOk d e _ (missedOk_of_fields s _ h rfl rfl)

theorem DisplayResized_missedOk (d : Deps) (e : Env) (s : Sys) (h : missedOk s) :
    missedOk (DisplayResized d e s) :=
  ScheduleBeginFrameDeadline_missedOk d e _ (missedOk_of_fields s _ h rfl rfl)

theorem OutputSurfaceLost_missedOk (d : Deps) (e : Env) (s : Sys) (h : missedOk s) :
    missedOk (OutputSurfaceLost d e s) :=
  ScheduleBeginFrameDeadline_missedOk d e _ (missedOk_of_fields s _ h rfl rfl)

theorem markDisplayDamaged_missedOk (d : Deps) (e : Env) (s : Sys) (surface_id : SurfaceId)
    (h : missedOk s) : missedOk (markDisplayDamaged d e s surface_id) := by
  simp only [markDisplayDamaged]
  split_ifs <;>
    exact MaybeStartObservingBeginFrames_missedOk d e _ (missedOk_of_fields s _ h rfl rfl)

theorem updateSurfaceState_missedOk (d : Deps) (s : Sys) (surface_id : SurfaceId)
    (ack : BeginFrameAck) (h : missedOk s) :
    missedOk (updateSurfaceState d s surface_id ack).1 := by
  simp only [updateSurfaceState]
  cases findState s.surface_states_ surface_id with
  | none => split_ifs <;> exact h
  | some st =>
    simp only []
    split_ifs
    · exact missedOk_of_fields s _ h rfl rfl
    · exact h
    · exact h

theorem rearmAfterDamage_missedOk (d : Deps) (e : Env) (s : Sys)
    (valid_ack display_damaged : Bool) (h : missedOk s) :
    missedOk (rearmAfterDamage d e s valid_ack display_damaged) := by
  simp only [rearmAfterDamage]
  split_ifs
  · exact ScheduleBeginFrameDeadline_missedOk d e _ (UpdateHasPendingSurfaces_missedOk e s h)
  · exact UpdateHasPendingSurfaces_missedOk e s h
  · exact ScheduleBeginFrameDeadline_missedOk d e s h
  · exact h

theorem ProcessSurfaceDamage_missedOk (d : Deps) (e : Env) (s : Sys) (surface_id : SurfaceId)
    (ack : BeginFrameAck) (display_damaged : Bool) (h : missedOk s) :
    missedOk (ProcessSurfaceDamage d e s surface_id ack display_damaged) := by
  simp only [ProcessSurfaceDamage]
  have h0 : missedOk ({ s with inside_surface_damaged_ := true } : Sys) :=
    missedOk_of_fields s _ h rfl rfl
  have h1 : missedOk (if display_damaged = true then
      markDisplayDamaged d e { s with inside_surface_damaged_ := true } surface_id
      else ({ s with inside_surface_damaged_ := true } : Sys)) := by
    split_ifs
    · exact markDisplayDamaged_missedOk d e _ surface_id h0
    · exact h0
  exact missedOk_of_fields _ _
    (rearmAfterDamage_missedOk d e _ _ _ (updateSurfaceState_missedOk d _ surface_id ack h1))
    rfl rfl


theorem SetNewRootSurface_missedOk (d : Deps) (e : Env) (s : Sys) (root_surface_id : SurfaceId)
    (h : missedOk s) : missedOk (s.orFault (SetNewRootSurface d e s root_surface_id)) := by
  rcases orFault_SetNewRootSurface d e s root_surface_id with h1 | ⟨fault, h1⟩ <;> rw [h1]
  · exact ProcessSurfaceDamage_missedOk d e _ _ _ _ (missedOk_of_fields s _ h rfl rfl)
  · exact missedOk_of_fields s _ h rfl rfl

theorem update_and_rearm_missedOk (d : Deps) (e : Env) (s : Sys) (h : missedOk s) :
    missedOk (if (UpdateHasPendingSurfaces e s).2 = true then
      ScheduleBeginFrameDeadline d e (UpdateHasPendingSurfaces e s).1
      else (UpdateHasPendingSurfaces e s).1) := by
  split_ifs
  · exact ScheduleBeginFrameDeadline_missedOk d e _ (UpdateHasPendingSurfaces_missedOk e s h)
  · exact UpdateHasPendingSurfaces_missedOk e s h

theorem OnSurfaceMarkedForDestruction_missedOk (d : Deps) (e : Env) (s : Sys)
    (surface_id : SurfaceId) (h : missedOk s) :
    missedOk (OnSurfaceMarkedForDestruction d e s surface_id) := by
  simp only [OnSurfaceMarkedForDestruction]
  cases findState s.surface_states_ surface_id with
  | none => exact h
  | some st => exact update_and_rearm_missedOk d e _ (missedOk_of_fields s _ h rfl rfl)

theorem OnSurfaceDamageExpected_missedOk (d : Deps) (e : Env) (s : Sys) (surface_id : SurfaceId)
    (args : BeginFrameArgs) (h : missedOk s) :
    missedOk (OnSurfaceDamageExpected d e s surface_id args) := by
  simp only [OnSurfaceDamageExpected]
  exact update_and_rearm_missedOk d e _ (missedOk_of_fields s _ h rfl rfl)

theorem OnSurfaceDamaged_missedOk (d : Deps) (e : Env) (s : Sys) (surface_id : SurfaceId)
    (ack : BeginFrameAck) (h : missedOk s) :
    missedOk (OnSurfaceDamaged d e s surface_id ack).1 := by
  simp only [OnSurfaceDamaged]
  split_ifs
  · exact ProcessSurfaceDamage_missedOk d e _ _ _ _ (missedOk_of_fields s _ h rfl rfl)
  · exact ProcessSurfaceDamage_missedOk d e _ _ _ _ h

theorem NotifyFirstSurfaceActivation_missedOk (d : Deps) (e : Env) (s : Sys) (h : missedOk s) :
    missedOk (NotifyFirstSurfaceActivation d e s) := by
  simp only [NotifyFirstSurfaceActivation]
  split_ifs
  · exact observe_and_schedule_missedOk d e _ (missedOk_of_fields s _ h rfl rfl)
  · exact missedOk_of_fields s _ h rfl rfl

theorem finishSurfaceActivatedEx_missedOk (d : Deps) (e : Env) (s : Sys) (surface_id : SurfaceId)
    (needs : Bool) (timeout_to_post : Nat) (h : missedOk s) :
    missedOk (finishSurfaceActivatedEx d e s surface_id needs timeout_to_post) := by
  simp only [finishSurfaceActivatedEx]
  split_ifs
  · exact h
  · exact missedOk_of_fields s _ h rfl rfl
  · exact NotifyFirstSurfaceActivation_missedOk d e _ (missedOk_of_fields s _ h rfl rfl)
  · exact h

theorem resetAndPaintBlocks_missedOk (d : Deps) (e : Env) (s : Sys) (surface_id : SurfaceId)
    (fcp reset relaunch needs : Bool) (timeout_to_post : Nat) (h : missedOk s) :
    missedOk (resetAndPaintBlocks d e s surface_id fcp reset relaunch needs timeout_to_post) := by
  simp only [resetAndPaintBlocks]
  split_ifs
  all_goals first
    | exact h
    | exact missedOk_of_fields s _ h rfl rfl
    | exact finishSurfaceActivatedEx_missedOk d e _ _ _ _ h

theorem OnSurfaceActivatedEx_missedOk (d : Deps) (e : Env) (s : Sys) (surface_id : SurfaceId)
    (fcp reset seen : Bool) (h : missedOk s) :
    missedOk (OnSurfaceActivatedEx d e s surface_id fcp reset seen) := by
  simp only [OnSurfaceActivatedEx]
  split_ifs
  all_goals first
    | exact h
    | exact missedOk_of_fields s _ h rfl rfl
    | exact resetAndPaintBlocks_missedOk d e _ _ _ _ _ _ _ h

/-- One operation from a state outside `ProcessSurfaceDamage` leaves a missed
BeginFrame posted only while the scheduler observes the begin-frame source. -/
theorem step_missedOk (d : Deps) (s : Sys) (op : Op) (e : Env)
    (hisd : s.inside_surface_damaged_ = false) (h : missedOk s) :
    missedOk (step d s op e) := by
  cases op with
  | SetClient client => exact missedOk_of_fields s _ h rfl rfl
  | SetVisible visible => exact SetVisible_missedOk d e s visible h
  | SetRootFrameMissing missing => exact SetRootFrameMissing_missedOk d e s missing h
  | ForceImmediateSwapIfPossible => exact ForceImmediateSwapIfPossible_missedOk e s h
  | DisplayResized => exact DisplayResized_missedOk d e s h
  | SetNewRootSurface id => exact SetNewRootSurface_missedOk d e s id h
  | ProcessSurfaceDamage id ack display_damaged =>
    exact ProcessSurfaceDamage_missedOk d e s id ack display_damaged h
  | OutputSurfaceLost => exact OutputSurfaceLost_missedOk d e s h
  | OnBeginFrameDerivedImpl args =>
    exact Or.inl (OnBeginFrameDerivedImpl_cancels_missed d e s args hisd)
  | SetNeedsOneBeginFrame => exact StartObservingBeginFrames_missedOk d e s
  | OnSurfaceMarkedForDestruction id => exact OnSurfaceMarkedForDestruction_missedOk d e s id h
  | OnSurfaceDamaged id ack => exact OnSurfaceDamaged_missedOk d e s id ack h
  | OnSurfaceDestroyed id =>
    simp only [step, OnSurfaceDestroyed]
    split_ifs
    · exact missedOk_of_fields s _ h rfl rfl
    · exact h
  | OnSurfaceDamageExpected id args => exact OnSurfaceDamageExpected_missedOk d e s id args h
  | DidSwapBuffers =>
    exact missedOk_of_fields s _ h (DidSwapBuffers_missed s) (by simp [step])
  | DidReceiveSwapBuffersAck =>
    simp only [step, DidReceiveSwapBuffersAck]
    refine ScheduleBeginFrameDeadline_missedOk d e _ ?_
    cases e.begin_frame_on_not_busy with
    | none => exact missedOk_of_fields s _ h rfl rfl
    | some args => exact Or.inl (OnBeginFrameDerivedImpl_cancels_missed d e _ args hisd)
  | OnSurfaceActivatedEx id fcp reset seen =>
    exact OnSurfaceActivatedEx_missedOk d e s id fcp reset seen h
  | NotifyFirstSurfaceActivation => exact NotifyFirstSurfaceActivation_missedOk d e s h
  | RenderProcessGone => exact missedOk_of_fields s _ h rfl rfl
  | RunBeginFrameDeadlineTask =>
    simp only [step]
    split_ifs
    · exact OnBeginFrameDeadline_missedOk e s h
    · exact h
  | RunMissedBeginFrameTask =>
    simp only [step]
    cases hm : s.missed_begin_frame_task_ with
    | none => exact h
    | some args => exact Or.inl (OnBeginFrameDerivedImpl_cancels_missed d e s args hisd)
  | RunNotifyFirstActivationEventuallyTask =>
    simp only [step]
    split_ifs
    · exact NotifyFirstSurfaceActivation_missedOk d e s h
    · exact h

theorem step_inside_surface_damaged (d : Deps) (s : Sys) (op : Op) (e : Env) :
    (step d s op e).inside_surface_damaged_ = s.inside_surface_damaged_ := by
  cases op <;> simp only [step] <;> first
    | simp
    | (split_ifs <;> simp)
    | (cases s.missed_begin_frame_task_ <;> simp)

theorem run_missedOk (d : Deps) (ops : List (Op × Env)) :
    ∀ s : Sys, s.inside_surface_damaged_ = false → missedOk s →
      (run d s ops).inside_surface_damaged_ = false ∧ missedOk (run d s ops) := by
  induction ops with
  | nil => intro s hisd h; exact ⟨hisd, h⟩
  | cons oe rest ih =>
    intro s hisd h
    exact ih _ (by rw [step_inside_surface_damaged]; exact hisd)
      (step_missedOk d s oe.1 oe.2 hisd h)

/-! ## Theorems: what `AttemptDrawAndSwap` does when it does not draw -/

theorem ShouldDraw_attemptSnapshot (s : Sys) :
    ShouldDraw { s.toDisplayScheduler with
      inside_begin_frame_deadline_interval_ := false,
      begin_frame_deadline_task_ := false,
      begin_frame_deadline_task_time_ := 0 } = ShouldDraw s.toDisplayScheduler := by
  simp [ShouldDraw]

/-- The state that `AttemptDrawAndSwap` leaves when `ShouldDraw()` is false. -/
theorem AttemptDrawAndSwap_idle_state (e : Env) (s : Sys)
    (h : ShouldDraw s.toDisplayScheduler = false) :
    AttemptDrawAndSwap e s =
      (StopObservingBeginFrames
        { s with inside_begin_frame_deadline_interval_ := false,
                 begin_frame_deadline_task_ := false,
                 begin_frame_deadline_task_time_ := 0,
                 deadline_task_calls := s.deadline_task_calls ++ [ClosureOp.Cancel],
                 expecting_root_surface_damage_because_of_resize_ := false },
        false) := by
  have hs := ShouldDraw_attemptSnapshot s
  simp only [AttemptDrawAndSwap]
  rw [if_neg]
  rw [hs, h]
  decide

/-- The state that `AttemptDrawAndSwap` leaves when `ShouldDraw()` is true and the
swap limit is reached. -/
theorem AttemptDrawAndSwap_throttled_state (e : Env) (s : Sys)
    (h : ShouldDraw s.toDisplayScheduler = true)
    (hfull : s.max_pending_swaps_ ≤ s.pending_swaps_) :
    AttemptDrawAndSwap e s =
      ({ s with inside_begin_frame_deadline_interval_ := false,
                begin_frame_deadline_task_ := false,
                begin_frame_deadline_task_time_ := 0,
                deadline_task_calls := s.deadline_task_calls ++ [ClosureOp.Cancel] },
        false) := by
  have hs := ShouldDraw_attemptSnapshot s
  simp only [AttemptDrawAndSwap]
  rw [if_pos (by rw [hs]; exact h), if_neg (by simpa using hfull)]

/-- C34: what `AttemptDrawAndSwap` does when it does not draw.  With `ShouldDraw()`
false it clears `expecting_root_surface_damage_because_of_resize_`, leaves the
scheduler not observing the begin-frame source (with `RemoveObserver` called and
the missed BeginFrame task cancelled if it was observing, and with nothing but
these members, the interval and the deadline task changed), returns false and
does not call the client's draw; in every state reached from construction a
missed BeginFrame task is posted only while observing, so that none is left.
With `ShouldDraw()` true and `pending_swaps_ ≥ max_pending_swaps_` it returns
false without a call to the client and changes only the interval and the
deadline task (with the `Cancel` recorded among the calls on its closure), so
that `expecting_root_surface_damage_because_of_resize_`,
`needs_draw_` and `observing_begin_frame_source_` are as before.  When
`client_->DrawAndSwap()` is called and returns false, `AttemptDrawAndSwap`
returns false and `needs_draw_` stays true. -/
theorem attempt_without_draw (e : Env) (s : Sys) :
    (ShouldDraw s.toDisplayScheduler = false →
      (AttemptDrawAndSwap e s).1.expecting_root_surface_damage_because_of_resize_ = false ∧
      (AttemptDrawAndSwap e s).1.observing_begin_frame_source_ = false ∧
      (AttemptDrawAndSwap e s).2 = false ∧
      drawCount (AttemptDrawAndSwap e s).1.log = drawCount s.log ∧
      (AttemptDrawAndSwap e s).1.needs_draw_ = s.needs_draw_ ∧
      (s.observing_begin_frame_source_ = true →
        newEvents s (AttemptDrawAndSwap e s).1 = [Effect.RemoveObserver] ∧
        (AttemptDrawAndSwap e s).1.missed_begin_frame_task_ = none) ∧
      (s.observing_begin_frame_source_ = false →
        newEvents s (AttemptDrawAndSwap e s).1 = [] ∧
        (AttemptDrawAndSwap e s).1.missed_begin_frame_task_ = s.missed_begin_frame_task_) ∧
      (missedOk s → (AttemptDrawAndSwap e s).1.missed_begin_frame_task_ = none)) ∧
    (∀ (d : Deps) (max_pending_swaps : Int) (use_viz_fmp_with_timeout : Bool)
      (viz_fmp_timeout : Nat) (wait_for_all_surfaces_before_draw : Bool)
      (ops : List (Op × Env)),
      missedOk (run d (construct d max_pending_swaps use_viz_fmp_with_timeout viz_fmp_timeout
        wait_for_all_surfaces_before_draw) ops)) ∧
    (ShouldDraw s.toDisplayScheduler = true → s.max_pending_swaps_ ≤ s.pending_swaps_ →
      AttemptDrawAndSwap e s =
        ({ s with inside_begin_frame_deadline_interval_ := false,
                  begin_frame_deadline_task_ := false,
                  begin_frame_deadline_task_time_ := 0,
                  deadline_task_calls := s.deadline_task_calls ++ [ClosureOp.Cancel] },
          false) ∧
      (AttemptDrawAndSwap e s).2 = false ∧
      newEvents s (AttemptDrawAndSwap e s).1 = [] ∧
      (AttemptDrawAndSwap e s).1.expecting_root_surface_damage_because_of_resize_ =
        s.expecting_root_surface_damage_because_of_resize_ ∧
      (AttemptDrawAndSwap e s).1.needs_draw_ = s.needs_draw_ ∧
      (AttemptDrawAndSwap e s).1.observing_begin_frame_source_ =
        s.observing_begin_frame_source_) ∧
    (ShouldDraw s.toDisplayScheduler = true → s.pending_swaps_ < s.max_pending_swaps_ →
      s.client_ = true → e.DrawAndSwap = false →
      drawCount (AttemptDrawAndSwap e s).1.log = drawCount s.log + 1 ∧
      (AttemptDrawAndSwap e s).2 = false ∧
      (AttemptDrawAndSwap e s).1.needs_draw_ = true) := by
  refine ⟨fun h => ?_, ?_, fun h hfull => ?_, fun h hlt hc hr => ?_⟩
  · have hst := AttemptDrawAndSwap_idle_state e s h
    have hcount : drawCount (AttemptDrawAndSwap e s).1.log = drawCount s.log := by
      rw [AttemptDrawAndSwap_drawCount, if_neg, Nat.add_zero]
      intro hc
      rw [h] at hc
      exact absurd hc.1 (by decide)
    rw [hst]
    refine ⟨?_, ?_, rfl, ?_, ?_, fun ho => ?_, fun ho => ?_, fun hk => ?_⟩
    · simp
    · simp only [StopObservingBeginFrames]
      split_ifs with ho
      · rfl
      · simpa using ho
    · rw [hst] at hcount
      exact hcount
    · simp
    · simp only [StopObservingBeginFrames]
      rw [if_pos (by exact ho)]
      exact ⟨by simp [newEvents, Sys.emit], rfl⟩
    · simp only [StopObservingBeginFrames]
      rw [if_neg (by simp only [ho]; decide)]
      exact ⟨by simp [newEvents], rfl⟩
    · simp only [StopObservingBeginFrames]
      split_ifs with ho
      · rfl
      · rcases hk with hm | hobs
        · exact hm
        · exact absurd hobs ho
  · intro d max_pending_swaps use_viz_fmp_with_timeout viz_fmp_timeout
      wait_for_all_surfaces_before_draw ops
    exact (run_missedOk d ops _ rfl (Or.inl rfl)).2
  · have hst := AttemptDrawAndSwap_throttled_state e s h hfull
    refine ⟨hst, ?_⟩
    rw [hst]
    exact ⟨rfl, by simp [newEvents], rfl, rfl, rfl⟩
  · have hcount := AttemptDrawAndSwap_drawCount e s
    rw [if_pos ⟨h, hlt, hc⟩] at hcount
    have hneeds : s.needs_draw_ = true := by
      cases hn : s.needs_draw_ with
      | true => rfl
      | false => simp [ShouldDraw, hn] at h
    refine ⟨hcount, ?_, ?_⟩
    · rw [AttemptDrawAndSwap_snd]
      simp [hr]
    · rcases AttemptDrawAndSwap_keeps_damage e s hneeds with hk | ⟨ha, _⟩
      · exact hk
      · rw [hr] at ha
        exact absurd ha (by decide)

/-- Witness of C34: the sample scheduler, observing the begin-frame source at a
client's request inside the interval of tick 5, has nothing to draw;
`AttemptDrawAndSwap` returns false and leaves it not observing. -/
theorem attempt_without_draw_witness :
    ShouldDraw (run sampleDeps sampleScheduler (idleTicksOps.take 3)).toDisplayScheduler = false ∧
      (run sampleDeps sampleScheduler (idleTicksOps.take 3)).observing_begin_frame_source_ = true ∧
      (AttemptDrawAndSwap (sampleEnv 96000)
        (run sampleDeps sampleScheduler (idleTicksOps.take 3))).2 = false ∧
      (AttemptDrawAndSwap (sampleEnv 96000)
        (run sampleDeps sampleScheduler
          (idleTicksOps.take 3))).1.observing_begin_frame_source_ = false :=
  ⟨by decide, by decide,
    ((attempt_without_draw (sampleEnv 96000)
      (run sampleDeps sampleScheduler (idleTicksOps.take 3))).1 (by decide)).2.2.1,
    ((attempt_without_draw (sampleEnv 96000)
      (run sampleDeps sampleScheduler (idleTicksOps.take 3))).1 (by decide)).2.1⟩

/-! ## Theorems: an interval open while the scheduler is not observing -/

theorem AttemptDrawAndSwap_idle_observing (e : Env) (s : Sys)
    (h : ShouldDraw s.toDisplayScheduler = false) :
    (AttemptDrawAndSwap e s).1.observing_begin_frame_source_ = false := by
  rw [AttemptDrawAndSwap_idle_state e s h]
  simp only [StopObservingBeginFrames]
  split_ifs with ho
  · rfl
  · simpa using ho

theorem OnBeginFrameDeadline_idle_observing (e : Env) (s : Sys)
    (h : ShouldDraw s.toDisplayScheduler = false) :
    (OnBeginFrameDeadline e s).observing_begin_frame_source_ = false := by
  simp only [OnBeginFrameDeadline, DidFinishFrame_observing_begin_frame_source_]
  apply AttemptDrawAndSwap_idle_observing
  simpa using h

/-- A tick accepted inside an interval in which there is nothing to draw leaves
the scheduler not observing the begin-frame source. -/
theorem OnBeginFrameDerivedImpl_idle_observing (d : Deps) (e : Env) (s : Sys)
    (args : BeginFrameArgs) (hin : s.inside_begin_frame_deadline_interval_ = true)
    (hisd : s.inside_surface_damaged_ = false)
    (h : ShouldDraw s.toDisplayScheduler = false) :
    (OnBeginFrameDerivedImpl d e s args).1.observing_begin_frame_source_ = false := by
  have h1 : (OnBeginFrameDeadline e
      ({ s with missed_begin_frame_task_ := none } : Sys)).observing_begin_frame_source_ =
      false :=
    OnBeginFrameDeadline_idle_observing e _ (by simpa [ShouldDraw] using h)
  have hst : (OnBeginFrameDerivedImpl d e s args).1.observing_begin_frame_source_ =
      (OnBeginFrameDeadline e
        ({ s with missed_begin_frame_task_ := none } : Sys)).observing_begin_frame_source_ := by
    simp only [OnBeginFrameDerivedImpl]
    split_ifs with hc1
    · rw [hisd] at hc1
      exact absurd hc1 (by decide)
    · rw [ScheduleBeginFrameDeadline_observing_begin_frame_source_,
        UpdateHasPendingSurfaces_observing_begin_frame_source_]
  rw [hst]
  exact h1

/-- C40: an interval can be open while the scheduler does not observe the
begin-frame source.  A tick accepted while an interval is open and `ShouldDraw()`
is false completes that interval, which stops the observing, and opens its own
interval; and such a state is reached from construction by operations in which
every tick is delivered while the scheduler observes: with a client that has
asked for one BeginFrame and nothing to draw, tick 5 opens an interval and
tick 6 arrives in it, after which the interval of tick 6 is open, its deadline
task is posted and the scheduler is not observing. -/
theorem interval_open_while_not_observing :
    (∀ (d : Deps) (e : Env) (s : Sys) (args : BeginFrameArgs),
      s.inside_begin_frame_deadline_interval_ = true → s.inside_surface_damaged_ = false →
      ShouldDraw s.toDisplayScheduler = false →
      (OnBeginFrameDerivedImpl d e s args).1.inside_begin_frame_deadline_interval_ = true ∧
      (OnBeginFrameDerivedImpl d e s args).1.observing_begin_frame_source_ = false ∧
      intervalsEnded (OnBeginFrameDerivedImpl d e s args).1.log = intervalsEnded s.log + 1) ∧
    (ticksWhileObserving sampleDeps (construct sampleDeps 1 false 0 false) idleTicksOps = true ∧
      ShouldDraw (run sampleDeps (construct sampleDeps 1 false 0 false)
        (idleTicksOps.take 3)).toDisplayScheduler = false ∧
      (run sampleDeps (construct sampleDeps 1 false 0 false)
        (idleTicksOps.take 3)).inside_begin_frame_deadline_interval_ = true ∧
      (run sampleDeps (construct sampleDeps 1 false 0 false)
        idleTicksOps).inside_begin_frame_deadline_interval_ = true ∧
      (run sampleDeps (construct sampleDeps 1 false 0 false)
        idleTicksOps).observing_begin_frame_source_ = false ∧
      (run sampleDeps (construct sampleDeps 1 false 0 false)
        idleTicksOps).begin_frame_deadline_task_ = true ∧
      (run sampleDeps (construct sampleDeps 1 false 0 false)
        idleTicksOps).current_begin_frame_args_.sequence_number = 6) := by
  refine ⟨fun d e s args hin hisd h => ⟨OnBeginFrameDerivedImpl_inside d e s args hisd,
    OnBeginFrameDerivedImpl_idle_observing d e s args hin hisd h, ?_⟩, by decide⟩
  have hf := OnBeginFrameDerivedImpl_finishEvents d e s args hisd
  simp only [intervalsEnded, hf, hin]
  cases s.client_ <;> simp

/-- Witness of C40: tick 6 arrives while the sample scheduler, with nothing to
draw, is inside the interval of tick 5. -/
theorem interval_open_while_not_observing_witness :
    (run sampleDeps sampleScheduler
        (idleTicksOps.take 3)).inside_begin_frame_deadline_interval_ = true ∧
      (OnBeginFrameDerivedImpl sampleDeps (sampleEnv 96000)
        (run sampleDeps sampleScheduler (idleTicksOps.take 3))
        (sampleTick 6)).1.inside_begin_frame_deadline_interval_ = true ∧
      (OnBeginFrameDerivedImpl sampleDeps (sampleEnv 96000)
        (run sampleDeps sampleScheduler (idleTicksOps.take 3))
        (sampleTick 6)).1.observing_begin_frame_source_ = false :=
  ⟨by decide,
    (interval_open_while_not_observing.1 sampleDeps (sampleEnv 96000)
      (run sampleDeps sampleScheduler (idleTicksOps.take 3)) (sampleTick 6)
      (by decide) (by decide) (by decide)).1,
    (interval_open_while_not_observing.1 sampleDeps (sampleEnv 96000)
      (run sampleDeps sampleScheduler (idleTicksOps.take 3)) (sampleTick 6)
      (by decide) (by decide) (by decide)).2.1⟩

end viz
